import Mathlib

/-!
StagefrightRecorder: parameter store, generic key/value setter, capability negotiation
and the life cycle of a recording (start, pause, stop, reset)

A shallow embedding of `media/libmediaplayerservice/StagefrightRecorder.cpp`.

* The embedding follows the plain build of the file: the blocks guarded by
  `QCOM_HARDWARE`, `OMAP_ENHANCEMENT` and `TARGET_OMAP3` are not compiled in.
* The C++ object is the record `StagefrightRecorder`; a member function
  `status_t f(args)` becomes `f : StagefrightRecorder → args → status_t × StagefrightRecorder`
  (returned status, object after the call).
* `int32_t` / `int64_t` / `int` values are mathematical integers (`Int`).  The
  typed setters only compare and store their argument, so no wrap-around can
  occur in them; the two multiplications by `1000LL` in `setParameter` are
  wrapped to 64 bits explicitly (`wrap64`).
* A C string (`const char *`, `String8`) is the list of its characters before
  the terminating NUL.
* Enumerators that come from headers outside the analysed sources
  (`system/audio.h`, `media/mediarecorder.h`) are taken as a parameter, the
  table `MediaEnums`.  Log statements (`LOGV`, `LOGW`, `LOGE`) have no effect on
  the object and are dropped.
* Collaborator objects (capture sources, codecs, writers) are records of what the
  recorder constructed them with and configured on them.  What a collaborator
  answers (`initCheck()`, `OMXCodec::Create`, `start()`, ...) is not decided by the
  recorder: `start`, `pause`, `stop`, `reset` and `setOutputFile` take the record
  `Collaborators` of those answers as a parameter.  A failed `CHECK` aborts the process; functions that can reach one
  return `Option`, with `none` for the abort.  The field `calls` of the object is
  a ghost field: the trace of the calls made so far on the world outside the object.
* The capability tables behind `mEncoderProfiles` (`MediaProfiles::getInstance()`,
  a process-wide singleton declared in `media/MediaProfiles.h`) are not part of the
  analysed sources either; the functions that consult them take the record
  `MediaProfiles` of its query functions as a parameter.
-/

/-- Status codes of `utils/Errors.h` that the recorder returns. -/
inductive status_t where
  | OK
  | BAD_VALUE
  | UNKNOWN_ERROR
  | NO_INIT
  | INVALID_OPERATION
  | ERROR_UNSUPPORTED
  | NEG_EPERM
  | NEG_EBADF
  deriving DecidableEq, Repr, Inhabited

/-- Enumerators used by the recorder whose numeric values are declared in headers
that are not part of the analysed sources.  Every function that mentions one of
them takes the table as a parameter. -/
structure MediaEnums where
  AUDIO_SOURCE_DEFAULT : Int
  AUDIO_SOURCE_MIC : Int
  AUDIO_SOURCE_CNT : Int
  VIDEO_SOURCE_DEFAULT : Int
  VIDEO_SOURCE_CAMERA : Int
  VIDEO_SOURCE_GRALLOC_BUFFER : Int
  VIDEO_SOURCE_LIST_END : Int
  OUTPUT_FORMAT_DEFAULT : Int
  OUTPUT_FORMAT_THREE_GPP : Int
  OUTPUT_FORMAT_MPEG_4 : Int
  OUTPUT_FORMAT_AMR_NB : Int
  OUTPUT_FORMAT_AMR_WB : Int
  OUTPUT_FORMAT_AAC_ADIF : Int
  OUTPUT_FORMAT_AAC_ADTS : Int
  OUTPUT_FORMAT_RTP_AVP : Int
  OUTPUT_FORMAT_MPEG2TS : Int
  OUTPUT_FORMAT_LIST_END : Int
  AUDIO_ENCODER_DEFAULT : Int
  AUDIO_ENCODER_AMR_NB : Int
  AUDIO_ENCODER_AMR_WB : Int
  AUDIO_ENCODER_AAC : Int
  AUDIO_ENCODER_LIST_END : Int
  VIDEO_ENCODER_DEFAULT : Int
  VIDEO_ENCODER_H263 : Int
  VIDEO_ENCODER_H264 : Int
  VIDEO_ENCODER_MPEG_4_SP : Int
  VIDEO_ENCODER_LIST_END : Int
  CAMCORDER_QUALITY_LOW : Int
  OMX_VIDEO_AVCProfileBaseline : Int
  deriving DecidableEq

/-- A sample enumerator table, with the values these enumerators have in the
platform headers.  It is used only to evaluate definitions on concrete inputs. -/
def platformEnums : MediaEnums where
  AUDIO_SOURCE_DEFAULT := 0
  AUDIO_SOURCE_MIC := 1
  AUDIO_SOURCE_CNT := 8
  VIDEO_SOURCE_DEFAULT := 0
  VIDEO_SOURCE_CAMERA := 1
  VIDEO_SOURCE_GRALLOC_BUFFER := 2
  VIDEO_SOURCE_LIST_END := 3
  OUTPUT_FORMAT_DEFAULT := 0
  OUTPUT_FORMAT_THREE_GPP := 1
  OUTPUT_FORMAT_MPEG_4 := 2
  OUTPUT_FORMAT_AMR_NB := 3
  OUTPUT_FORMAT_AMR_WB := 4
  OUTPUT_FORMAT_AAC_ADIF := 5
  OUTPUT_FORMAT_AAC_ADTS := 6
  OUTPUT_FORMAT_RTP_AVP := 7
  OUTPUT_FORMAT_MPEG2TS := 8
  OUTPUT_FORMAT_LIST_END := 9
  AUDIO_ENCODER_DEFAULT := 0
  AUDIO_ENCODER_AMR_NB := 1
  AUDIO_ENCODER_AMR_WB := 2
  AUDIO_ENCODER_AAC := 3
  AUDIO_ENCODER_LIST_END := 6
  VIDEO_ENCODER_DEFAULT := 0
  VIDEO_ENCODER_H263 := 1
  VIDEO_ENCODER_H264 := 2
  VIDEO_ENCODER_MPEG_4_SP := 3
  VIDEO_ENCODER_LIST_END := 4
  CAMCORDER_QUALITY_LOW := 0
  OMX_VIDEO_AVCProfileBaseline := 1

/-- Identity of a collaborator object that the recorder only stores and passes on
(camera, recording proxy, preview surface, listener). -/
abbrev Handle := Nat

/-- The writers the recorder constructs. -/
inductive WriterKind where
  | AACWriter
  | AMRWriter
  | ARTPWriter
  | MPEG2TSWriter
  | MPEG4Writer
  deriving DecidableEq, Repr

/-- The MIME identifiers `MEDIA_MIMETYPE_*` the recorder hands to the codec service. -/
inductive Mime where
  | AUDIO_AMR_NB
  | AUDIO_AMR_WB
  | AUDIO_AAC
  | VIDEO_H263
  | VIDEO_MPEG4
  | VIDEO_AVC
  deriving DecidableEq, Repr

/-- A `MetaData` record restricted to the keys the recorder sets; `none` is a key
that was not set. -/
structure MetaData where
  kKeyMIMEType : Option Mime := none
  kKeyMaxInputSize : Option Int := none
  kKeyChannelCount : Option Int := none
  kKeySampleRate : Option Int := none
  kKeyBitRate : Option Int := none
  kKeyTimeScale : Option Int := none
  kKeyFrameRate : Option Int := none
  kKeyWidth : Option Int := none
  kKeyHeight : Option Int := none
  kKeyIFramesInterval : Option Int := none
  kKeyStride : Option Int := none
  kKeySliceHeight : Option Int := none
  kKeyColorFormat : Option Int := none
  kKeyVideoProfile : Option Int := none
  kKeyVideoLevel : Option Int := none
  kKeyTime : Option Int := none
  kKeyFileType : Option Int := none
  kKey64BitFileOffset : Option Int := none
  kKeyTrackTimeStatus : Option Int := none
  kKeyRotation : Option Int := none
  deriving DecidableEq

/-- The capture sources the recorder constructs, with their constructor arguments. -/
inductive CaptureSource where
  | AudioSource (inputSource sampleRate channels : Int)
  | CameraSource (camera proxy : Option Handle) (cameraId width height frameRate : Int)
      (surface : Option Handle) (storeMetaDataInVideoBuffers : Bool)
  | CameraSourceTimeLapse (camera proxy : Option Handle)
      (cameraId width height frameRate : Int) (surface : Option Handle)
      (timeBetweenTimeLapseFrameCaptureUs : Int)
  | SurfaceMediaSource (width height : Int)
  deriving DecidableEq

/-- An encoder obtained from `OMXCodec::Create(..., meta, true, source, NULL, flags)`:
the configuration record, the three flags the recorder may set, and the wrapped
capture source. -/
structure OMXCodec where
  «meta» : MetaData
  kHardwareCodecsOnly : Bool
  kStoreMetaDataInVideoBuffers : Bool
  kOnlySubmitOneInputBufferAtOneTime : Bool
  source : CaptureSource
  deriving DecidableEq

/-- A writer as the recorder leaves it: how it was constructed, the sources added (in
the order of the `addSource` calls; `none` is a NULL source), what was configured on
it, and whether `start` was called on it (with which file metadata). -/
structure MediaWriter where
  kind : WriterKind
  fd : Int
  sources : List (Option OMXCodec) := []
  interleaveDurationUs : Option Int := none
  geoData : Option (Int × Int) := none
  maxFileDurationUs : Option Int := none
  maxFileSizeBytes : Option Int := none
  startTimeOffsetMs : Option Int := none
  listener : Option Handle := none
  started : Bool := false
  startMeta : Option MetaData := none
  deriving DecidableEq

/-- A call on the world outside the object, as recorded in the ghost trace. -/
inductive Call where
  | addBatteryData (kBatteryDataCodecStarted kBatteryDataTrackAudio
      kBatteryDataTrackVideo : Bool)
  | close (fd : Int)
  | newCaptureSource (source : CaptureSource)
  | sourceStop (source : CaptureSource)
  | omxCodecCreate («meta» : MetaData)
  | newWriter (kind : WriterKind) (fd : Int)
  | writerStart (kind : WriterKind)
  | writerPause (kind : WriterKind)
  | writerStop (kind : WriterKind)
  | startQuickReadReturns
  deriving DecidableEq

/-- The data members of `StagefrightRecorder`: the recording parameters (everything
the setters write and the defaults block of `reset()` assigns), the output
descriptor, the started flag and the references to collaborators; `calls` is the
ghost trace of the calls made on the world outside the object.  No typed setter
reads or writes a collaborator reference or the trace. -/
structure StagefrightRecorder where
  mAudioSource : Int
  mVideoSource : Int
  mOutputFormat : Int
  mAudioEncoder : Int
  mVideoEncoder : Int
  mVideoWidth : Int
  mVideoHeight : Int
  mFrameRate : Int
  mVideoBitRate : Int
  mSampleRate : Int
  mAudioChannels : Int
  mAudioBitRate : Int
  mInterleaveDurationUs : Int
  mIFramesIntervalSec : Int
  mUse64BitFileOffset : Bool
  mMovieTimeScale : Int
  mAudioTimeScale : Int
  mVideoTimeScale : Int
  mCameraId : Int
  mStartTimeOffsetMs : Int
  mVideoEncoderProfile : Int
  mVideoEncoderLevel : Int
  mMaxFileDurationUs : Int
  mMaxFileSizeBytes : Int
  mTrackEveryTimeDurationUs : Int
  mCaptureTimeLapse : Bool
  mTimeBetweenTimeLapseFrameCaptureUs : Int
  mIsMetaDataStoredInVideoBuffers : Bool
  mRotationDegrees : Int
  mLatitudex10000 : Int
  mLongitudex10000 : Int
  mOutputFd : Int
  mStarted : Bool
  mWriter : Option MediaWriter
  mCamera : Option Handle
  mCameraProxy : Option Handle
  mPreviewSurface : Option Handle
  mListener : Option Handle
  mAudioSourceNode : Option CaptureSource
  mCameraSourceTimeLapse : Option CaptureSource
  mSurfaceMediaSource : Option CaptureSource
  calls : List Call
  deriving DecidableEq

namespace StagefrightRecorder

open status_t

/-- The object right after construction: the constructor sets `mWriter(NULL)`,
`mOutputFd(-1)`, `mStarted(false)`, `mSurfaceMediaSource(NULL)`, the two source kinds
to "none", leaves the other references NULL, and calls `reset()`, whose `stop()`
finds nothing to release and whose defaults block assigns the values below (lines
78-96 and 2050-2098).  Nothing has been called on the outside world. -/
def constructed (E : MediaEnums) : StagefrightRecorder where
  mAudioSource := E.AUDIO_SOURCE_CNT
  mVideoSource := E.VIDEO_SOURCE_LIST_END
  mOutputFormat := E.OUTPUT_FORMAT_THREE_GPP
  mAudioEncoder := E.AUDIO_ENCODER_AMR_NB
  mVideoEncoder := E.VIDEO_ENCODER_H263
  mVideoWidth := 176
  mVideoHeight := 144
  mFrameRate := -1
  mVideoBitRate := 192000
  mSampleRate := 8000
  mAudioChannels := 1
  mAudioBitRate := 12200
  mInterleaveDurationUs := 0
  mIFramesIntervalSec := 1
  mUse64BitFileOffset := false
  mMovieTimeScale := -1
  mAudioTimeScale := -1
  mVideoTimeScale := -1
  mCameraId := 0
  mStartTimeOffsetMs := -1
  mVideoEncoderProfile := -1
  mVideoEncoderLevel := -1
  mMaxFileDurationUs := 0
  mMaxFileSizeBytes := 0
  mTrackEveryTimeDurationUs := 0
  mCaptureTimeLapse := false
  mTimeBetweenTimeLapseFrameCaptureUs := -1
  mIsMetaDataStoredInVideoBuffers := false
  mRotationDegrees := 0
  mLatitudex10000 := -3600000
  mLongitudex10000 := -3600000
  mOutputFd := -1
  mStarted := false
  mWriter := none
  mCamera := none
  mCameraProxy := none
  mPreviewSurface := none
  mListener := none
  mAudioSourceNode := none
  mCameraSourceTimeLapse := none
  mSurfaceMediaSource := none
  calls := []

/-! ## Typed setters (lines 116-252) -/

/-- `setAudioSource` (lines 116-137). -/
def setAudioSource (E : MediaEnums) (r : StagefrightRecorder) (as : Int) :
    status_t × StagefrightRecorder :=
  if as < E.AUDIO_SOURCE_DEFAULT ∨ as ≥ E.AUDIO_SOURCE_CNT then (BAD_VALUE, r)
  else if as = E.AUDIO_SOURCE_DEFAULT then (OK, { r with mAudioSource := E.AUDIO_SOURCE_MIC })
  else (OK, { r with mAudioSource := as })

/-- `setVideoSource` (lines 139-154). -/
def setVideoSource (E : MediaEnums) (r : StagefrightRecorder) (vs : Int) :
    status_t × StagefrightRecorder :=
  if vs < E.VIDEO_SOURCE_DEFAULT ∨ vs ≥ E.VIDEO_SOURCE_LIST_END then (BAD_VALUE, r)
  else if vs = E.VIDEO_SOURCE_DEFAULT then (OK, { r with mVideoSource := E.VIDEO_SOURCE_CAMERA })
  else (OK, { r with mVideoSource := vs })

/-- `setOutputFormat` (lines 156-171). -/
def setOutputFormat (E : MediaEnums) (r : StagefrightRecorder) (of : Int) :
    status_t × StagefrightRecorder :=
  if of < E.OUTPUT_FORMAT_DEFAULT ∨ of ≥ E.OUTPUT_FORMAT_LIST_END then (BAD_VALUE, r)
  else if of = E.OUTPUT_FORMAT_DEFAULT then
    (OK, { r with mOutputFormat := E.OUTPUT_FORMAT_THREE_GPP })
  else (OK, { r with mOutputFormat := of })

/-- `setAudioEncoder` (lines 173-207). -/
def setAudioEncoder (E : MediaEnums) (r : StagefrightRecorder) (ae : Int) :
    status_t × StagefrightRecorder :=
  if ae < E.AUDIO_ENCODER_DEFAULT ∨ ae ≥ E.AUDIO_ENCODER_LIST_END then (BAD_VALUE, r)
  else if ae = E.AUDIO_ENCODER_DEFAULT then
    (OK, { r with mAudioEncoder := E.AUDIO_ENCODER_AMR_NB })
  else (OK, { r with mAudioEncoder := ae })

/-- `setVideoEncoder` (lines 209-224). -/
def setVideoEncoder (E : MediaEnums) (r : StagefrightRecorder) (ve : Int) :
    status_t × StagefrightRecorder :=
  if ve < E.VIDEO_ENCODER_DEFAULT ∨ ve ≥ E.VIDEO_ENCODER_LIST_END then (BAD_VALUE, r)
  else if ve = E.VIDEO_ENCODER_DEFAULT then
    (OK, { r with mVideoEncoder := E.VIDEO_ENCODER_H263 })
  else (OK, { r with mVideoEncoder := ve })

/-- `setVideoSize` (lines 226-238). -/
def setVideoSize (r : StagefrightRecorder) (width height : Int) :
    status_t × StagefrightRecorder :=
  if width ≤ 0 ∨ height ≤ 0 then (BAD_VALUE, r)
  else (OK, { r with mVideoWidth := width, mVideoHeight := height })

/-- `setVideoFrameRate` (lines 240-252). -/
def setVideoFrameRate (r : StagefrightRecorder) (frames_per_second : Int) :
    status_t × StagefrightRecorder :=
  if (frames_per_second ≤ 0 ∧ frames_per_second ≠ -1) ∨ frames_per_second > 120 then
    (BAD_VALUE, r)
  else (OK, { r with mFrameRate := frames_per_second })

/-! ## The `setParam*` setters (lines 360-619) -/

/-- `setParamAudioSamplingRate` (lines 360-370). -/
def setParamAudioSamplingRate (r : StagefrightRecorder) (sampleRate : Int) :
    status_t × StagefrightRecorder :=
  if sampleRate ≤ 0 then (BAD_VALUE, r)
  else (OK, { r with mSampleRate := sampleRate })

/-- `setParamAudioNumberOfChannels` (lines 372-382). -/
def setParamAudioNumberOfChannels (r : StagefrightRecorder) (channels : Int) :
    status_t × StagefrightRecorder :=
  if channels ≤ 0 ∨ channels ≥ 3 then (BAD_VALUE, r)
  else (OK, { r with mAudioChannels := channels })

/-- `setParamAudioEncodingBitRate` (lines 384-397). -/
def setParamAudioEncodingBitRate (r : StagefrightRecorder) (bitRate : Int) :
    status_t × StagefrightRecorder :=
  if bitRate ≤ 0 then (BAD_VALUE, r)
  else (OK, { r with mAudioBitRate := bitRate })

/-- `setParamVideoEncodingBitRate` (lines 399-412). -/
def setParamVideoEncodingBitRate (r : StagefrightRecorder) (bitRate : Int) :
    status_t × StagefrightRecorder :=
  if bitRate ≤ 0 then (BAD_VALUE, r)
  else (OK, { r with mVideoBitRate := bitRate })

/-- `setParamVideoRotation` (lines 414-423).  The C `%` operator truncates
towards zero, which is `Int.tmod`. -/
def setParamVideoRotation (r : StagefrightRecorder) (degrees : Int) :
    status_t × StagefrightRecorder :=
  if degrees < 0 ∨ Int.tmod degrees 90 ≠ 0 then (BAD_VALUE, r)
  else (OK, { r with mRotationDegrees := Int.tmod degrees 360 })

/-- `setParamMaxFileDurationUs` (lines 425-442).  The local `timeUs` is
overwritten with 0 on the first branch; the `<= 15 s` test only logs. -/
def setParamMaxFileDurationUs (r : StagefrightRecorder) (timeUs : Int) :
    status_t × StagefrightRecorder :=
  if timeUs ≤ 0 then (OK, { r with mMaxFileDurationUs := 0 })
  else if timeUs ≤ 100000 then (BAD_VALUE, r)
  else (OK, { r with mMaxFileDurationUs := timeUs })

/-- `setParamMaxFileSizeBytes` (lines 444-463).  The local `bytes` is
overwritten with 0 on the first branch; the `<= 100 kB` test only logs. -/
def setParamMaxFileSizeBytes (r : StagefrightRecorder) (bytes : Int) :
    status_t × StagefrightRecorder :=
  if bytes ≤ 0 then (OK, { r with mMaxFileSizeBytes := 0 })
  else if bytes ≤ 1024 then (BAD_VALUE, r)
  else (OK, { r with mMaxFileSizeBytes := bytes })

/-- `setParamInterleaveDuration` (lines 465-482). -/
def setParamInterleaveDuration (r : StagefrightRecorder) (durationUs : Int) :
    status_t × StagefrightRecorder :=
  if durationUs ≤ 500000 then (BAD_VALUE, r)
  else if durationUs ≥ 10000000 then (BAD_VALUE, r)
  else (OK, { r with mInterleaveDurationUs := durationUs })

/-- `setParamVideoIFramesInterval` (lines 487-491). -/
def setParamVideoIFramesInterval (r : StagefrightRecorder) (seconds : Int) :
    status_t × StagefrightRecorder :=
  (OK, { r with mIFramesIntervalSec := seconds })

/-- `setParam64BitFileOffset` (lines 493-498). -/
def setParam64BitFileOffset (r : StagefrightRecorder) (use64Bit : Bool) :
    status_t × StagefrightRecorder :=
  (OK, { r with mUse64BitFileOffset := use64Bit })

/-- `setParamVideoCameraId` (lines 500-507). -/
def setParamVideoCameraId (r : StagefrightRecorder) (cameraId : Int) :
    status_t × StagefrightRecorder :=
  if cameraId < 0 then (BAD_VALUE, r)
  else (OK, { r with mCameraId := cameraId })

/-- `setParamTrackTimeStatus` (lines 509-517). -/
def setParamTrackTimeStatus (r : StagefrightRecorder) (timeDurationUs : Int) :
    status_t × StagefrightRecorder :=
  if timeDurationUs < 20000 then (BAD_VALUE, r)
  else (OK, { r with mTrackEveryTimeDurationUs := timeDurationUs })

/-- `setParamVideoEncoderProfile` (lines 519-526). -/
def setParamVideoEncoderProfile (r : StagefrightRecorder) (profile : Int) :
    status_t × StagefrightRecorder :=
  (OK, { r with mVideoEncoderProfile := profile })

/-- `setParamVideoEncoderLevel` (lines 528-535). -/
def setParamVideoEncoderLevel (r : StagefrightRecorder) (level : Int) :
    status_t × StagefrightRecorder :=
  (OK, { r with mVideoEncoderLevel := level })

/-- `setParamMovieTimeScale` (lines 537-548). -/
def setParamMovieTimeScale (r : StagefrightRecorder) (timeScale : Int) :
    status_t × StagefrightRecorder :=
  if timeScale < 600 ∨ timeScale > 96000 then (BAD_VALUE, r)
  else (OK, { r with mMovieTimeScale := timeScale })

/-- `setParamVideoTimeScale` (lines 550-561). -/
def setParamVideoTimeScale (r : StagefrightRecorder) (timeScale : Int) :
    status_t × StagefrightRecorder :=
  if timeScale < 600 ∨ timeScale > 60000 then (BAD_VALUE, r)
  else (OK, { r with mVideoTimeScale := timeScale })

/-- `setParamAudioTimeScale` (lines 563-573). -/
def setParamAudioTimeScale (r : StagefrightRecorder) (timeScale : Int) :
    status_t × StagefrightRecorder :=
  if timeScale < 600 ∨ timeScale > 96000 then (BAD_VALUE, r)
  else (OK, { r with mAudioTimeScale := timeScale })

/-- `setParamTimeLapseEnable` (lines 575-586). -/
def setParamTimeLapseEnable (r : StagefrightRecorder) (timeLapseEnable : Int) :
    status_t × StagefrightRecorder :=
  if timeLapseEnable = 0 then (OK, { r with mCaptureTimeLapse := false })
  else if timeLapseEnable = 1 then (OK, { r with mCaptureTimeLapse := true })
  else (BAD_VALUE, r)

/-- `setParamTimeBetweenTimeLapseFrameCapture` (lines 588-599).  The source
compares against the `double` constant `86400*1E6`; that constant is the integer
86400000000, and converting an `int64_t` to `double` is monotone and exact below
2^53, so the comparison agrees with the integer comparison used here. -/
def setParamTimeBetweenTimeLapseFrameCapture (r : StagefrightRecorder) (timeUs : Int) :
    status_t × StagefrightRecorder :=
  if timeUs ≤ 0 ∨ timeUs > 86400000000 then (BAD_VALUE, r)
  else (OK, { r with mTimeBetweenTimeLapseFrameCaptureUs := timeUs })

/-- `setParamGeoDataLongitude` (lines 601-609). -/
def setParamGeoDataLongitude (r : StagefrightRecorder) (longitudex10000 : Int) :
    status_t × StagefrightRecorder :=
  if longitudex10000 > 1800000 ∨ longitudex10000 < -1800000 then (BAD_VALUE, r)
  else (OK, { r with mLongitudex10000 := longitudex10000 })

/-- `setParamGeoDataLatitude` (lines 611-619). -/
def setParamGeoDataLatitude (r : StagefrightRecorder) (latitudex10000 : Int) :
    status_t × StagefrightRecorder :=
  if latitudex10000 > 900000 ∨ latitudex10000 < -900000 then (BAD_VALUE, r)
  else (OK, { r with mLatitudex10000 := latitudex10000 })

end StagefrightRecorder

/-- One call of a typed setter together with its argument values: the seven
`set*` setters of lines 116-252 and the twenty-one `setParam*` setters of lines
360-619. -/
inductive SetterCall where
  | setAudioSource (as : Int)
  | setVideoSource (vs : Int)
  | setOutputFormat (of : Int)
  | setAudioEncoder (ae : Int)
  | setVideoEncoder (ve : Int)
  | setVideoSize (width height : Int)
  | setVideoFrameRate (frames_per_second : Int)
  | setParamAudioSamplingRate (sampleRate : Int)
  | setParamAudioNumberOfChannels (channels : Int)
  | setParamAudioEncodingBitRate (bitRate : Int)
  | setParamVideoEncodingBitRate (bitRate : Int)
  | setParamVideoRotation (degrees : Int)
  | setParamMaxFileDurationUs (timeUs : Int)
  | setParamMaxFileSizeBytes (bytes : Int)
  | setParamInterleaveDuration (durationUs : Int)
  | setParamVideoIFramesInterval (seconds : Int)
  | setParam64BitFileOffset (use64Bit : Bool)
  | setParamVideoCameraId (cameraId : Int)
  | setParamTrackTimeStatus (timeDurationUs : Int)
  | setParamVideoEncoderProfile (profile : Int)
  | setParamVideoEncoderLevel (level : Int)
  | setParamMovieTimeScale (timeScale : Int)
  | setParamVideoTimeScale (timeScale : Int)
  | setParamAudioTimeScale (timeScale : Int)
  | setParamTimeLapseEnable (timeLapseEnable : Int)
  | setParamTimeBetweenTimeLapseFrameCapture (timeUs : Int)
  | setParamGeoDataLongitude (longitudex10000 : Int)
  | setParamGeoDataLatitude (latitudex10000 : Int)
  deriving DecidableEq

/-- Performs the call on the object: dispatches to the embedded member function. -/
def SetterCall.run (E : MediaEnums) (r : StagefrightRecorder) :
    SetterCall → status_t × StagefrightRecorder
  | .setAudioSource as => r.setAudioSource E as
  | .setVideoSource vs => r.setVideoSource E vs
  | .setOutputFormat of => r.setOutputFormat E of
  | .setAudioEncoder ae => r.setAudioEncoder E ae
  | .setVideoEncoder ve => r.setVideoEncoder E ve
  | .setVideoSize w h => r.setVideoSize w h
  | .setVideoFrameRate f => r.setVideoFrameRate f
  | .setParamAudioSamplingRate v => r.setParamAudioSamplingRate v
  | .setParamAudioNumberOfChannels v => r.setParamAudioNumberOfChannels v
  | .setParamAudioEncodingBitRate v => r.setParamAudioEncodingBitRate v
  | .setParamVideoEncodingBitRate v => r.setParamVideoEncodingBitRate v
  | .setParamVideoRotation v => r.setParamVideoRotation v
  | .setParamMaxFileDurationUs v => r.setParamMaxFileDurationUs v
  | .setParamMaxFileSizeBytes v => r.setParamMaxFileSizeBytes v
  | .setParamInterleaveDuration v => r.setParamInterleaveDuration v
  | .setParamVideoIFramesInterval v => r.setParamVideoIFramesInterval v
  | .setParam64BitFileOffset b => r.setParam64BitFileOffset b
  | .setParamVideoCameraId v => r.setParamVideoCameraId v
  | .setParamTrackTimeStatus v => r.setParamTrackTimeStatus v
  | .setParamVideoEncoderProfile v => r.setParamVideoEncoderProfile v
  | .setParamVideoEncoderLevel v => r.setParamVideoEncoderLevel v
  | .setParamMovieTimeScale v => r.setParamMovieTimeScale v
  | .setParamVideoTimeScale v => r.setParamVideoTimeScale v
  | .setParamAudioTimeScale v => r.setParamAudioTimeScale v
  | .setParamTimeLapseEnable v => r.setParamTimeLapseEnable v
  | .setParamTimeBetweenTimeLapseFrameCapture v => r.setParamTimeBetweenTimeLapseFrameCapture v
  | .setParamGeoDataLongitude v => r.setParamGeoDataLongitude v
  | .setParamGeoDataLatitude v => r.setParamGeoDataLatitude v

/-! ## C library functions used by the parser -/

/-- The C library `isspace` in the "C" locale: space, `\t`, `\n`, `\v`, `\f`, `\r`. -/
def isspace (c : Char) : Bool :=
  c.toNat = 32 || (9 ≤ c.toNat && c.toNat ≤ 13)

/-- The C library `isdigit`: the characters `0` .. `9`. -/
def isdigit (c : Char) : Bool :=
  48 ≤ c.toNat && c.toNat ≤ 57

/-- The C library `strchr(s, c)` for `c` other than NUL: the offset of the first
occurrence of `c` in `s`, or `none` for a NULL result. -/
def strchr : List Char → Char → Option Nat
  | [], _ => none
  | x :: xs, c => if x = c then some 0 else (strchr xs c).map (· + 1)

/-- The value of `LLONG_MAX`, 2^63 - 1. -/
def LLONG_MAX : Int := 9223372036854775807

/-- The value of `LLONG_MIN`, -2^63. -/
def LLONG_MIN : Int := -9223372036854775808

/-- Two's-complement reduction of an integer to the `int64_t` range. -/
def wrap64 (x : Int) : Int :=
  (x + 9223372036854775808) % 18446744073709551616 - 9223372036854775808

/-- The value denoted by a sequence of decimal digits, most significant first. -/
def digitsValue (ds : List Char) : Nat :=
  ds.foldl (fun acc c => 10 * acc + (c.toNat - 48)) 0

/-- What a call `strtoll(s, &end, 10)` leaves behind: the returned value, the
offset of `end` from `s`, and whether `errno` was set to `ERANGE`. -/
structure StrtollResult where
  val : Int
  endOff : Nat
  erange : Bool
  deriving DecidableEq

/-- The C library `strtoll(s, &end, 10)` (ISO C 7.20.1.4): skips leading white
space, reads an optional sign and the longest run of decimal digits.  Without a
digit no conversion is performed and `end == s`.  A value outside the `long long`
range is clamped and `errno` is set to `ERANGE`. -/
def strtoll (s : List Char) : StrtollResult :=
  let ws := (s.takeWhile isspace).length
  let s1 := s.drop ws
  let neg : Bool := s1.head? = some '-'
  let sign : Nat := if s1.head? = some '-' ∨ s1.head? = some '+' then 1 else 0
  let digits := (s1.drop sign).takeWhile isdigit
  if digits.length = 0 then { val := 0, endOff := 0, erange := false }
  else
    let n : Int := digitsValue digits
    let v : Int := if neg then -n else n
    let endOff := ws + sign + digits.length
    if v > LLONG_MAX then { val := LLONG_MAX, endOff := endOff, erange := true }
    else if v < LLONG_MIN then { val := LLONG_MIN, endOff := endOff, erange := true }
    else { val := v, endOff := endOff, erange := false }

/-! ## String helpers of the recorder (lines 305-358) -/

/-- `safe_strtoi64` (lines 307-328).  `some v` stands for "returns true with
`*val == v`", `none` for "returns false" (the callers do not read `*val` then). -/
def safe_strtoi64 (s : List Char) : Option Int :=
  let res := strtoll s
  if res.endOff = 0 ∨ res.erange then none
  else if (s.drop res.endOff).dropWhile isspace = [] then some res.val
  else none

/-- `safe_strtoi32` (lines 331-340): accepts the values in `[0, 0x007FFFFFFF]`. -/
def safe_strtoi32 (s : List Char) : Option Int :=
  match safe_strtoi64 s with
  | some temp => if temp ≥ 0 ∧ temp ≤ 0x007FFFFFFF then some temp else none
  | none => none

/-- First loop of `TrimString` (lines 347-350): advances `leading_space` while it is
below `num_bytes` and `data[leading_space]` is white space. -/
def TrimString.leadingLoop (data : List Char) : Nat → Nat → Nat
  | 0, leading_space => leading_space
  | fuel + 1, leading_space =>
    if leading_space < data.length ∧ isspace (data.getD leading_space (Char.ofNat 0)) then
      TrimString.leadingLoop data fuel (leading_space + 1)
    else leading_space

/-- Second loop of `TrimString` (lines 352-355): decrements `i` while it is above
`leading_space` and `data[i - 1]` is white space. -/
def TrimString.trailingLoop (data : List Char) (leading_space : Nat) : Nat → Nat
  | 0 => 0
  | i + 1 =>
    if i + 1 > leading_space ∧ isspace (data.getD i (Char.ofNat 0)) then
      TrimString.trailingLoop data leading_space i
    else i + 1

/-- `TrimString` (lines 342-358): the new contents of `*s`.  The first loop
advances at most `num_bytes` times, which is the bound it is given.  An index equal
to `num_bytes` would read the terminating NUL, which is not white space. -/
def TrimString (s : List Char) : List Char :=
  let num_bytes := s.length
  let leading_space := TrimString.leadingLoop s num_bytes 0
  let i := TrimString.trailingLoop s leading_space num_bytes
  (s.drop leading_space).take (i - leading_space)

namespace StagefrightRecorder

open status_t

/-! ## The generic key/value setter (lines 647-811) -/

/-- `setParameter` (lines 647-776).  A key that matches but whose value does not
parse falls through to the final `return BAD_VALUE`, as does an unknown key. -/
def setParameter (r : StagefrightRecorder) (key value : List Char) :
    status_t × StagefrightRecorder :=
  if key = "max-duration".toList then
    match safe_strtoi64 value with
    | some max_duration_ms => r.setParamMaxFileDurationUs (wrap64 (1000 * max_duration_ms))
    | none => (BAD_VALUE, r)
  else if key = "max-filesize".toList then
    match safe_strtoi64 value with
    | some max_filesize_bytes => r.setParamMaxFileSizeBytes max_filesize_bytes
    | none => (BAD_VALUE, r)
  else if key = "interleave-duration-us".toList then
    match safe_strtoi32 value with
    | some durationUs => r.setParamInterleaveDuration durationUs
    | none => (BAD_VALUE, r)
  else if key = "param-movie-time-scale".toList then
    match safe_strtoi32 value with
    | some timeScale => r.setParamMovieTimeScale timeScale
    | none => (BAD_VALUE, r)
  else if key = "param-use-64bit-offset".toList then
    match safe_strtoi32 value with
    | some use64BitOffset => r.setParam64BitFileOffset (use64BitOffset != 0)
    | none => (BAD_VALUE, r)
  else if key = "param-geotag-longitude".toList then
    match safe_strtoi64 value with
    | some longitudex10000 => r.setParamGeoDataLongitude longitudex10000
    | none => (BAD_VALUE, r)
  else if key = "param-geotag-latitude".toList then
    match safe_strtoi64 value with
    | some latitudex10000 => r.setParamGeoDataLatitude latitudex10000
    | none => (BAD_VALUE, r)
  else if key = "param-track-time-status".toList then
    match safe_strtoi64 value with
    | some timeDurationUs => r.setParamTrackTimeStatus timeDurationUs
    | none => (BAD_VALUE, r)
  else if key = "audio-param-sampling-rate".toList then
    match safe_strtoi32 value with
    | some sampling_rate => r.setParamAudioSamplingRate sampling_rate
    | none => (BAD_VALUE, r)
  else if key = "audio-param-number-of-channels".toList then
    match safe_strtoi32 value with
    | some number_of_channels => r.setParamAudioNumberOfChannels number_of_channels
    | none => (BAD_VALUE, r)
  else if key = "audio-param-encoding-bitrate".toList then
    match safe_strtoi32 value with
    | some audio_bitrate => r.setParamAudioEncodingBitRate audio_bitrate
    | none => (BAD_VALUE, r)
  else if key = "audio-param-time-scale".toList then
    match safe_strtoi32 value with
    | some timeScale => r.setParamAudioTimeScale timeScale
    | none => (BAD_VALUE, r)
  else if key = "video-param-encoding-bitrate".toList then
    match safe_strtoi32 value with
    | some video_bitrate => r.setParamVideoEncodingBitRate video_bitrate
    | none => (BAD_VALUE, r)
  else if key = "video-param-rotation-angle-degrees".toList then
    match safe_strtoi32 value with
    | some degrees => r.setParamVideoRotation degrees
    | none => (BAD_VALUE, r)
  else if key = "video-param-i-frames-interval".toList then
    match safe_strtoi32 value with
    | some seconds => r.setParamVideoIFramesInterval seconds
    | none => (BAD_VALUE, r)
  else if key = "video-param-encoder-profile".toList then
    match safe_strtoi32 value with
    | some profile => r.setParamVideoEncoderProfile profile
    | none => (BAD_VALUE, r)
  else if key = "video-param-encoder-level".toList then
    match safe_strtoi32 value with
    | some level => r.setParamVideoEncoderLevel level
    | none => (BAD_VALUE, r)
  else if key = "video-param-camera-id".toList then
    match safe_strtoi32 value with
    | some cameraId => r.setParamVideoCameraId cameraId
    | none => (BAD_VALUE, r)
  else if key = "video-param-time-scale".toList then
    match safe_strtoi32 value with
    | some timeScale => r.setParamVideoTimeScale timeScale
    | none => (BAD_VALUE, r)
  else if key = "time-lapse-enable".toList then
    match safe_strtoi32 value with
    | some timeLapseEnable => r.setParamTimeLapseEnable timeLapseEnable
    | none => (BAD_VALUE, r)
  else if key = "time-between-time-lapse-frame-capture".toList then
    match safe_strtoi64 value with
    | some timeBetweenTimeLapseFrameCaptureMs =>
      r.setParamTimeBetweenTimeLapseFrameCapture
        (wrap64 (1000 * timeBetweenTimeLapseFrameCaptureMs))
    | none => (BAD_VALUE, r)
  else (BAD_VALUE, r)

/-- One pass through the body of the `for (;;)` loop of `setParameters` (lines
783-808) with the loop variable at `key_start`.  `Sum.inl` is a `return` (status,
object), `Sum.inr` the fall-through to the next iteration (object, new `key_start`).
`equal_pos` and `semicolon_pos` are offsets from `key_start` and `value_start`. -/
def setParametersBody (r : StagefrightRecorder) (key_start : List Char) :
    (status_t × StagefrightRecorder) ⊕ (StagefrightRecorder × List Char) :=
  match strchr key_start '=' with
  | none => Sum.inl (BAD_VALUE, r)
  | some equal_pos =>
    let key := TrimString (key_start.take equal_pos)
    if key.length = 0 then Sum.inl (BAD_VALUE, r)
    else
      let value_start := key_start.drop (equal_pos + 1)
      match strchr value_start ';' with
      | none =>
        let res := setParameter r key value_start
        if res.1 ≠ OK then Sum.inl (BAD_VALUE, res.2) else Sum.inl (OK, res.2)
      | some semicolon_pos =>
        let res := setParameter r key (value_start.take semicolon_pos)
        if res.1 ≠ OK then Sum.inl (BAD_VALUE, res.2)
        else Sum.inr (res.2, value_start.drop (semicolon_pos + 1))

/-- The `for (;;)` loop of `setParameters` (lines 782-810), started at `key_start`.
Every iteration that continues moves `key_start` past the `=` and the `;` it found,
so the body runs at most `strlen(key_start) + 1` times; the first argument bounds
the number of iterations, and the branch for 0 is not reached when the bound
exceeds the length of `key_start` (`setParametersLoop_fuel`). -/
def setParametersLoop : Nat → StagefrightRecorder → List Char → status_t × StagefrightRecorder
  | 0, r, _ => (UNKNOWN_ERROR, r)
  | fuel + 1, r, key_start =>
    match setParametersBody r key_start with
    | Sum.inl res => res
    | Sum.inr (r', key_start') => setParametersLoop fuel r' key_start'

/-- `setParameters` (lines 778-811). -/
def setParameters (r : StagefrightRecorder) (params : List Char) :
    status_t × StagefrightRecorder :=
  setParametersLoop (params.length + 1) r params

end StagefrightRecorder

/-! ## Capability negotiation (lines 1231-1492) -/

/-- The query functions of `MediaProfiles` that the recorder calls on
`mEncoderProfiles`.  The tables behind them are declared outside the analysed
sources, so they are a parameter of every function that consults them. -/
structure MediaProfiles where
  getVideoEncoderParamByName : String → Int → Int
  getAudioEncoderParamByName : String → Int → Int
  getCamcorderProfileParamByName : String → Int → Int → Int
  getStartTimeOffsetMs : Int → Int

namespace StagefrightRecorder

open status_t

/-- `clipVideoFrameRate` (lines 1231-1246). -/
def clipVideoFrameRate (P : MediaProfiles) (r : StagefrightRecorder) : StagefrightRecorder :=
  let minFrameRate := P.getVideoEncoderParamByName "enc.vid.fps.min" r.mVideoEncoder
  let maxFrameRate := P.getVideoEncoderParamByName "enc.vid.fps.max" r.mVideoEncoder
  if r.mFrameRate < minFrameRate ∧ r.mFrameRate ≠ -1 then { r with mFrameRate := minFrameRate }
  else if r.mFrameRate > maxFrameRate then { r with mFrameRate := maxFrameRate }
  else r

/-- `clipVideoBitRate` (lines 1289-1314). -/
def clipVideoBitRate (P : MediaProfiles) (r : StagefrightRecorder) : StagefrightRecorder :=
  let minBitRate := P.getVideoEncoderParamByName "enc.vid.bps.min" r.mVideoEncoder
  let maxBitRate := P.getVideoEncoderParamByName "enc.vid.bps.max" r.mVideoEncoder
  if r.mVideoBitRate < minBitRate then { r with mVideoBitRate := minBitRate }
  else if r.mVideoBitRate > maxBitRate then { r with mVideoBitRate := maxBitRate }
  else r

/-- `clipVideoFrameWidth` (lines 1316-1331). -/
def clipVideoFrameWidth (P : MediaProfiles) (r : StagefrightRecorder) : StagefrightRecorder :=
  let minFrameWidth := P.getVideoEncoderParamByName "enc.vid.width.min" r.mVideoEncoder
  let maxFrameWidth := P.getVideoEncoderParamByName "enc.vid.width.max" r.mVideoEncoder
  if r.mVideoWidth < minFrameWidth then { r with mVideoWidth := minFrameWidth }
  else if r.mVideoWidth > maxFrameWidth then { r with mVideoWidth := maxFrameWidth }
  else r

/-- `clipVideoFrameHeight` (lines 1477-1492). -/
def clipVideoFrameHeight (P : MediaProfiles) (r : StagefrightRecorder) : StagefrightRecorder :=
  let minFrameHeight := P.getVideoEncoderParamByName "enc.vid.height.min" r.mVideoEncoder
  let maxFrameHeight := P.getVideoEncoderParamByName "enc.vid.height.max" r.mVideoEncoder
  if r.mVideoHeight < minFrameHeight then { r with mVideoHeight := minFrameHeight }
  else if r.mVideoHeight > maxFrameHeight then { r with mVideoHeight := maxFrameHeight }
  else r

/-- `setDefaultProfileIfNecessary` (lines 1346-1402).  The getter returns an `int`,
so the product of the duration with `1000000LL` is an exact 64-bit product. -/
def setDefaultProfileIfNecessary (E : MediaEnums) (P : MediaProfiles)
    (r : StagefrightRecorder) : StagefrightRecorder :=
  let quality := E.CAMCORDER_QUALITY_LOW
  let durationUs := P.getCamcorderProfileParamByName "duration" r.mCameraId quality * 1000000
  let fileFormat := P.getCamcorderProfileParamByName "file.format" r.mCameraId quality
  let videoCodec := P.getCamcorderProfileParamByName "vid.codec" r.mCameraId quality
  let videoBitRate := P.getCamcorderProfileParamByName "vid.bps" r.mCameraId quality
  let videoFrameRate := P.getCamcorderProfileParamByName "vid.fps" r.mCameraId quality
  let videoFrameWidth := P.getCamcorderProfileParamByName "vid.width" r.mCameraId quality
  let videoFrameHeight := P.getCamcorderProfileParamByName "vid.height" r.mCameraId quality
  let audioCodec := P.getCamcorderProfileParamByName "aud.codec" r.mCameraId quality
  let audioBitRate := P.getCamcorderProfileParamByName "aud.bps" r.mCameraId quality
  let audioSampleRate := P.getCamcorderProfileParamByName "aud.hz" r.mCameraId quality
  let audioChannels := P.getCamcorderProfileParamByName "aud.ch" r.mCameraId quality
  if durationUs = r.mMaxFileDurationUs ∧
      fileFormat = r.mOutputFormat ∧
      videoCodec = r.mVideoEncoder ∧
      videoBitRate = r.mVideoBitRate ∧
      videoFrameRate = r.mFrameRate ∧
      videoFrameWidth = r.mVideoWidth ∧
      videoFrameHeight = r.mVideoHeight ∧
      audioCodec = r.mAudioEncoder ∧
      audioBitRate = r.mAudioBitRate ∧
      audioSampleRate = r.mSampleRate ∧
      audioChannels = r.mAudioChannels then
    if videoCodec = E.VIDEO_ENCODER_H264 then
      (r.setParamVideoEncoderProfile E.OMX_VIDEO_AVCProfileBaseline).2
    else r
  else r

/-- `checkVideoEncoderCapabilities` (lines 1333-1344). -/
def checkVideoEncoderCapabilities (E : MediaEnums) (P : MediaProfiles)
    (r : StagefrightRecorder) : status_t × StagefrightRecorder :=
  if !r.mCaptureTimeLapse then
    (OK, setDefaultProfileIfNecessary E P
      (clipVideoFrameHeight P (clipVideoFrameWidth P (clipVideoFrameRate P
        (clipVideoBitRate P r)))))
  else (OK, r)

/-- `clipAudioBitRate` (lines 1411-1431): two independent `if` statements. -/
def clipAudioBitRate (P : MediaProfiles) (r : StagefrightRecorder) : StagefrightRecorder :=
  let minAudioBitRate := P.getAudioEncoderParamByName "enc.aud.bps.min" r.mAudioEncoder
  let r1 := if r.mAudioBitRate < minAudioBitRate then { r with mAudioBitRate := minAudioBitRate }
    else r
  let maxAudioBitRate := P.getAudioEncoderParamByName "enc.aud.bps.max" r1.mAudioEncoder
  if r1.mAudioBitRate > maxAudioBitRate then { r1 with mAudioBitRate := maxAudioBitRate }
  else r1

/-- `clipAudioSampleRate` (lines 1433-1453): two independent `if` statements. -/
def clipAudioSampleRate (P : MediaProfiles) (r : StagefrightRecorder) : StagefrightRecorder :=
  let minSampleRate := P.getAudioEncoderParamByName "enc.aud.hz.min" r.mAudioEncoder
  let r1 := if r.mSampleRate < minSampleRate then { r with mSampleRate := minSampleRate }
    else r
  let maxSampleRate := P.getAudioEncoderParamByName "enc.aud.hz.max" r1.mAudioEncoder
  if r1.mSampleRate > maxSampleRate then { r1 with mSampleRate := maxSampleRate }
  else r1

/-- `clipNumberOfAudioChannels` (lines 1455-1475): two independent `if` statements. -/
def clipNumberOfAudioChannels (P : MediaProfiles) (r : StagefrightRecorder) :
    StagefrightRecorder :=
  let minChannels := P.getAudioEncoderParamByName "enc.aud.ch.min" r.mAudioEncoder
  let r1 := if r.mAudioChannels < minChannels then { r with mAudioChannels := minChannels }
    else r
  let maxChannels := P.getAudioEncoderParamByName "enc.aud.ch.max" r1.mAudioEncoder
  if r1.mAudioChannels > maxChannels then { r1 with mAudioChannels := maxChannels }
  else r1

/-- `checkAudioEncoderCapabilities` (lines 1404-1409). -/
def checkAudioEncoderCapabilities (P : MediaProfiles) (r : StagefrightRecorder) :
    status_t × StagefrightRecorder :=
  (OK, clipNumberOfAudioChannels P (clipAudioSampleRate P (clipAudioBitRate P r)))

end StagefrightRecorder

/-! ## Starting a recording (lines 68-76, 823-1161, 1495-1976) -/

/-- What the world outside the object answers during one call of a member function:
each field is the result of the call named in its comment.  `none` for a `findInt32`
result means the key was not found. -/
structure Collaborators where
  /-- `getService("media.player")` yields a service. -/
  playerServiceFound : Bool
  /-- `audioSource->initCheck()`. -/
  audioSourceInitCheck : status_t
  /-- `audioSource->getFormat()->findInt32(kKeyMaxInputSize, ..)`. -/
  audioSourceMaxInputSize : Option Int
  /-- `client.connect()` in `createAudioSource`. -/
  audioClientConnect : status_t
  /-- `OMXCodec::Create` in `createAudioSource` returns an encoder. -/
  audioEncoderCreated : Bool
  /-- `CameraSource::CreateFromCamera` or `CameraSourceTimeLapse::CreateFromCamera`
  returns a source. -/
  cameraSourceCreated : Bool
  /-- `(*cameraSource)->initCheck()`. -/
  cameraSourceInitCheck : status_t
  /-- `new SurfaceMediaSource(..)` is not NULL. -/
  surfaceMediaSourceCreated : Bool
  /-- `mSurfaceMediaSource->setFrameRate(mFrameRate)`. -/
  surfaceSetFrameRate : status_t
  /-- `getFormat()->findInt32(kKeyFrameRate, ..)` on the video source. -/
  sourceFrameRate : Option Int
  /-- `isMetaDataStoredInVideoBuffers()` on the video source. -/
  sourceIsMetaDataStoredInVideoBuffers : Bool
  /-- `meta->findInt32(kKeyWidth, ..)` on the format of the video source. -/
  sourceWidth : Option Int
  /-- `meta->findInt32(kKeyHeight, ..)`. -/
  sourceHeight : Option Int
  /-- `meta->findInt32(kKeyStride, ..)`. -/
  sourceStride : Option Int
  /-- `meta->findInt32(kKeySliceHeight, ..)`. -/
  sourceSliceHeight : Option Int
  /-- `meta->findInt32(kKeyColorFormat, ..)`. -/
  sourceColorFormat : Option Int
  /-- `client.connect()` in `setupVideoEncoder`. -/
  videoClientConnect : status_t
  /-- `OMXCodec::Create` in `setupVideoEncoder` returns an encoder. -/
  videoEncoderCreated : Bool
  /-- `systemTime()`, in nanoseconds. -/
  systemTime : Int
  /-- `mWriter->start(..)`. -/
  writerStart : status_t
  /-- `mWriter->stop()`. -/
  writerStop : status_t
  /-- `dup(fd)`: the new descriptor, or `none` when it fails and returns -1. -/
  dup : Option Nat
  deriving DecidableEq

/-- Wrap to a signed 32-bit value. -/
def wrap32 (x : Int) : Int :=
  (x + 2147483648) % 4294967296 - 2147483648

namespace MediaWriter

/-- A freshly constructed writer of the given kind on the descriptor `fd`. -/
def create (kind : WriterKind) (fd : Int) : MediaWriter where
  kind := kind
  fd := fd

/-- `writer->addSource(source)`. -/
def addSource (w : MediaWriter) (source : Option OMXCodec) : MediaWriter :=
  { w with sources := w.sources ++ [source] }

/-- `setInterleaveDuration(durationUs)` of `MPEG4Writer`. -/
def setInterleaveDuration (w : MediaWriter) (durationUs : Int) : MediaWriter :=
  { w with interleaveDurationUs := some durationUs }

/-- `setGeoData(latitudex10000, longitudex10000)` of `MPEG4Writer`. -/
def setGeoData (w : MediaWriter) (latitudex10000 longitudex10000 : Int) : MediaWriter :=
  { w with geoData := some (latitudex10000, longitudex10000) }

/-- `setStartTimeOffsetMs(ms)` of `MPEG4Writer`. -/
def setStartTimeOffsetMs (w : MediaWriter) (ms : Int) : MediaWriter :=
  { w with startTimeOffsetMs := some ms }

/-- `writer->setMaxFileDuration(durationUs)`. -/
def setMaxFileDuration (w : MediaWriter) (durationUs : Int) : MediaWriter :=
  { w with maxFileDurationUs := some durationUs }

/-- `writer->setMaxFileSize(bytes)`. -/
def setMaxFileSize (w : MediaWriter) (bytes : Int) : MediaWriter :=
  { w with maxFileSizeBytes := some bytes }

/-- `writer->setListener(listener)`. -/
def setListener (w : MediaWriter) (listener : Option Handle) : MediaWriter :=
  { w with listener := listener }

/-- `writer->start(params)`, as far as the writer record goes: it notes that start was
called and with which file metadata (`none` for the default NULL argument). -/
def start (w : MediaWriter) (params : Option MetaData) : MediaWriter :=
  { w with started := true, startMeta := params }

end MediaWriter

namespace StagefrightRecorder

/-- Append one call to the ghost trace. -/
def call (r : StagefrightRecorder) (c : Call) : StagefrightRecorder :=
  { r with calls := r.calls ++ [c] }

/-- File-static `addBatteryData` (lines 68-76); the three flags are the bits of
`params`.  `none` is the failed `CHECK(service.get() != NULL)`. -/
def addBatteryData (c : Collaborators) (r : StagefrightRecorder)
    (kBatteryDataCodecStarted kBatteryDataTrackAudio kBatteryDataTrackVideo : Bool) :
    Option StagefrightRecorder :=
  if c.playerServiceFound then
    some (r.call (Call.addBatteryData kBatteryDataCodecStarted kBatteryDataTrackAudio
      kBatteryDataTrackVideo))
  else none

/-- `createAudioSource` (lines 894-973).  The inner `Option` is the returned
`sp<MediaSource>` (`none` for NULL); the outer `none` is a failed `CHECK`. -/
def createAudioSource (E : MediaEnums) (c : Collaborators) (r : StagefrightRecorder) :
    Option (Option OMXCodec × StagefrightRecorder) :=
  let audioSource := CaptureSource.AudioSource r.mAudioSource r.mSampleRate r.mAudioChannels
  let r1 := r.call (Call.newCaptureSource audioSource)
  if c.audioSourceInitCheck ≠ status_t.OK then some (none, r1)
  else
    let mime : Option Mime :=
      if r.mAudioEncoder = E.AUDIO_ENCODER_AMR_NB ∨ r.mAudioEncoder = E.AUDIO_ENCODER_DEFAULT then
        some Mime.AUDIO_AMR_NB
      else if r.mAudioEncoder = E.AUDIO_ENCODER_AMR_WB then some Mime.AUDIO_AMR_WB
      else if r.mAudioEncoder = E.AUDIO_ENCODER_AAC then some Mime.AUDIO_AAC
      else none
    match mime with
    | none => some (none, r1)
    | some mime =>
      match c.audioSourceMaxInputSize with
      | none => none
      | some maxInputSize =>
        let encMeta : MetaData :=
          { kKeyMIMEType := some mime
            kKeyMaxInputSize := some maxInputSize
            kKeyChannelCount := some r.mAudioChannels
            kKeySampleRate := some r.mSampleRate
            kKeyBitRate := some r.mAudioBitRate
            kKeyTimeScale := if r.mAudioTimeScale > 0 then some r.mAudioTimeScale else none }
        if c.audioClientConnect ≠ status_t.OK then none
        else
          let audioEncoder : Option OMXCodec :=
            if c.audioEncoderCreated then
              some { «meta» := encMeta, kHardwareCodecsOnly := false,
                     kStoreMetaDataInVideoBuffers := false,
                     kOnlySubmitOneInputBufferAtOneTime := false, source := audioSource }
            else none
          some (audioEncoder,
            { r1.call (Call.omxCodecCreate encMeta) with mAudioSourceNode := some audioSource })

/-- `startRawAudioRecording` (lines 1041-1070).  The result of `mWriter->start()` is
not looked at. -/
def startRawAudioRecording (E : MediaEnums) (P : MediaProfiles) (c : Collaborators)
    (r : StagefrightRecorder) : Option (status_t × StagefrightRecorder) :=
  if r.mAudioSource ≥ E.AUDIO_SOURCE_CNT then some (status_t.BAD_VALUE, r)
  else
    let (status, r1) := checkAudioEncoderCapabilities P r
    if status ≠ status_t.OK then some (status, r1)
    else
      match createAudioSource E c r1 with
      | none => none
      | some (none, r2) => some (status_t.UNKNOWN_ERROR, r2)
      | some (some audioEncoder, r2) =>
        match r2.mWriter with
        | none => none
        | some w =>
          let w1 := w.addSource (some audioEncoder)
          let w2 := if r2.mMaxFileDurationUs ≠ 0 then w1.setMaxFileDuration r2.mMaxFileDurationUs
                    else w1
          let w3 := if r2.mMaxFileSizeBytes ≠ 0 then w2.setMaxFileSize r2.mMaxFileSizeBytes
                    else w2
          let w4 := (w3.setListener r2.mListener).start none
          some (status_t.OK, { r2.call (Call.writerStart w.kind) with mWriter := some w4 })

/-- `startAACRecording` (lines 975-991); `none` is one of the three failed `CHECK`s. -/
def startAACRecording (E : MediaEnums) (P : MediaProfiles) (c : Collaborators)
    (r : StagefrightRecorder) : Option (status_t × StagefrightRecorder) :=
  if r.mOutputFormat ≠ E.OUTPUT_FORMAT_AAC_ADTS then none
  else if r.mAudioEncoder ≠ E.AUDIO_ENCODER_AAC then none
  else if r.mAudioSource = E.AUDIO_SOURCE_CNT then none
  else
    let r1 := { r.call (Call.newWriter WriterKind.AACWriter r.mOutputFd) with
                mWriter := some (MediaWriter.create WriterKind.AACWriter r.mOutputFd) }
    match startRawAudioRecording E P c r1 with
    | none => none
    | some (status, r2) =>
      if status ≠ status_t.OK then some (status, { r2 with mWriter := none })
      else some (status, r2)

/-- `startAMRRecording` (lines 993-1039). -/
def startAMRRecording (E : MediaEnums) (P : MediaProfiles) (c : Collaborators)
    (r : StagefrightRecorder) : Option (status_t × StagefrightRecorder) :=
  if ¬ (r.mOutputFormat = E.OUTPUT_FORMAT_AMR_NB ∨ r.mOutputFormat = E.OUTPUT_FORMAT_AMR_WB) then
    none
  else if r.mOutputFormat = E.OUTPUT_FORMAT_AMR_NB ∧
      (r.mAudioEncoder ≠ E.AUDIO_ENCODER_DEFAULT ∧ r.mAudioEncoder ≠ E.AUDIO_ENCODER_AMR_NB) then
    some (status_t.BAD_VALUE, r)
  else if r.mOutputFormat ≠ E.OUTPUT_FORMAT_AMR_NB ∧
      r.mAudioEncoder ≠ E.AUDIO_ENCODER_AMR_WB then
    some (status_t.BAD_VALUE, r)
  else
    let r1 := { r.call (Call.newWriter WriterKind.AMRWriter r.mOutputFd) with
                mWriter := some (MediaWriter.create WriterKind.AMRWriter r.mOutputFd) }
    match startRawAudioRecording E P c r1 with
    | none => none
    | some (status, r2) =>
      if status ≠ status_t.OK then some (status, { r2 with mWriter := none })
      else some (status, r2)

/-- Lines 1531-1541 of `setupSurfaceMediaSource` and 1595-1604 of `setupCameraSource`:
a frame rate that was not set is taken from the format of the video source; then
`CHECK(mFrameRate != -1)`.  `none` is a failed `CHECK`. -/
def useSourceFrameRate (c : Collaborators) (r : StagefrightRecorder) :
    Option StagefrightRecorder :=
  let step : Option StagefrightRecorder :=
    if r.mFrameRate = -1 then
      match c.sourceFrameRate with
      | none => none
      | some frameRate => some { r with mFrameRate := frameRate }
    else some r
  match step with
  | none => none
  | some r1 => if r1.mFrameRate = -1 then none else some r1

/-- `setupSurfaceMediaSource` (lines 1524-1546); `none` is a failed `CHECK`.  `err`
stays `OK` when the frame rate is taken from the source and is the result of
`setFrameRate` otherwise. -/
def setupSurfaceMediaSource (c : Collaborators) (r : StagefrightRecorder) :
    Option (status_t × StagefrightRecorder) :=
  if ¬ c.surfaceMediaSourceCreated then
    some (status_t.NO_INIT, { r with mSurfaceMediaSource := none })
  else
    let source := CaptureSource.SurfaceMediaSource r.mVideoWidth r.mVideoHeight
    let r1 := { r.call (Call.newCaptureSource source) with mSurfaceMediaSource := some source }
    let err := if r1.mFrameRate = -1 then status_t.OK else c.surfaceSetFrameRate
    match useSourceFrameRate c r1 with
    | none => none
    | some r2 =>
      some (err, { r2 with
        mIsMetaDataStoredInVideoBuffers := c.sourceIsMetaDataStoredInVideoBuffers })

/-- Lines 1554-1582 of `setupCameraSource`: the source is created from the camera
(and kept in `mCameraSourceTimeLapse` when capturing time lapse), then the two camera
references are released.  The first component is `*cameraSource`. -/
def setupCameraSource.create (c : Collaborators) (r : StagefrightRecorder) :
    Option CaptureSource × StagefrightRecorder :=
  if r.mCaptureTimeLapse then
    let source := CaptureSource.CameraSourceTimeLapse r.mCamera r.mCameraProxy r.mCameraId
      r.mVideoWidth r.mVideoHeight r.mFrameRate r.mPreviewSurface
      r.mTimeBetweenTimeLapseFrameCaptureUs
    if c.cameraSourceCreated then
      (some source, { r.call (Call.newCaptureSource source) with
        mCameraSourceTimeLapse := some source, mCamera := none, mCameraProxy := none })
    else (none, { r with mCameraSourceTimeLapse := none, mCamera := none, mCameraProxy := none })
  else
    let source := CaptureSource.CameraSource r.mCamera r.mCameraProxy r.mCameraId
      r.mVideoWidth r.mVideoHeight r.mFrameRate r.mPreviewSurface true
    if c.cameraSourceCreated then
      (some source, { r.call (Call.newCaptureSource source) with
        mCamera := none, mCameraProxy := none })
    else (none, { r with mCamera := none, mCameraProxy := none })

/-- `setupCameraSource` (lines 1548-1610).  The middle component is `*cameraSource`
on return; `none` for the whole result is a failed `CHECK`. -/
def setupCameraSource (E : MediaEnums) (P : MediaProfiles) (c : Collaborators)
    (r : StagefrightRecorder) : Option (status_t × Option CaptureSource × StagefrightRecorder) :=
  let (err, r1) := checkVideoEncoderCapabilities E P r
  if err ≠ status_t.OK then some (err, none, r1)
  else
    match setupCameraSource.create c r1 with
    | (none, r2) => some (status_t.UNKNOWN_ERROR, none, r2)
    | (some cameraSource, r2) =>
      if c.cameraSourceInitCheck ≠ status_t.OK then some (status_t.NO_INIT, none, r2)
      else
        match useSourceFrameRate c r2 with
        | none => none
        | some r3 =>
          some (status_t.OK, some cameraSource, { r3 with
            mIsMetaDataStoredInVideoBuffers := c.sourceIsMetaDataStoredInVideoBuffers })

/-- `setupMediaSource` (lines 1495-1518).  The middle component is `*mediaSource` on
return, which the callers pass in as NULL. -/
def setupMediaSource (E : MediaEnums) (P : MediaProfiles) (c : Collaborators)
    (r : StagefrightRecorder) : Option (status_t × Option CaptureSource × StagefrightRecorder) :=
  if r.mVideoSource = E.VIDEO_SOURCE_DEFAULT ∨ r.mVideoSource = E.VIDEO_SOURCE_CAMERA then
    match setupCameraSource E P c r with
    | none => none
    | some (err, cameraSource, r1) =>
      if err ≠ status_t.OK then some (err, none, r1)
      else some (status_t.OK, cameraSource, r1)
  else if r.mVideoSource = E.VIDEO_SOURCE_GRALLOC_BUFFER then
    match setupSurfaceMediaSource c r with
    | none => none
    | some (err, r1) =>
      if err ≠ status_t.OK then some (err, none, r1)
      else some (status_t.OK, r1.mSurfaceMediaSource, r1)
  else some (status_t.INVALID_OPERATION, none, r)

/-- `setupVideoEncoder` (lines 1612-1812).  The middle component is `*source` on
return.  `none` for the whole result is a failed `CHECK`, or the dereference of a NULL
`cameraSource`. -/
def setupVideoEncoder (E : MediaEnums) (c : Collaborators) (r : StagefrightRecorder)
    (cameraSource : Option CaptureSource) (videoBitRate : Int) :
    Option (status_t × Option OMXCodec × StagefrightRecorder) :=
  let mime : Option Mime :=
    if r.mVideoEncoder = E.VIDEO_ENCODER_H263 then some Mime.VIDEO_H263
    else if r.mVideoEncoder = E.VIDEO_ENCODER_MPEG_4_SP then some Mime.VIDEO_MPEG4
    else if r.mVideoEncoder = E.VIDEO_ENCODER_H264 then some Mime.VIDEO_AVC
    else none
  match mime, cameraSource, c.sourceWidth, c.sourceHeight, c.sourceStride,
      c.sourceSliceHeight, c.sourceColorFormat with
  | some mime, some cameraSource, some width, some height, some stride, some sliceHeight,
      some colorFormat =>
    let enc_meta : MetaData :=
      { kKeyBitRate := some videoBitRate
        kKeyFrameRate := some r.mFrameRate
        kKeyMIMEType := some mime
        kKeyWidth := some width
        kKeyHeight := some height
        kKeyIFramesInterval := some r.mIFramesIntervalSec
        kKeyStride := some stride
        kKeySliceHeight := some sliceHeight
        kKeyColorFormat := some colorFormat
        kKeyTimeScale := if r.mVideoTimeScale > 0 then some r.mVideoTimeScale else none
        kKeyVideoProfile :=
          if r.mVideoEncoderProfile ≠ -1 then some r.mVideoEncoderProfile else none
        kKeyVideoLevel :=
          if r.mVideoEncoderLevel ≠ -1 then some r.mVideoEncoderLevel else none }
    if c.videoClientConnect ≠ status_t.OK then none
    else
      let r1 := r.call (Call.omxCodecCreate enc_meta)
      if ¬ c.videoEncoderCreated then
        some (status_t.UNKNOWN_ERROR, none, r1.call (Call.sourceStop cameraSource))
      else
        some (status_t.OK,
          some { «meta» := enc_meta
                 kHardwareCodecsOnly := r.mIsMetaDataStoredInVideoBuffers
                 kStoreMetaDataInVideoBuffers := r.mIsMetaDataStoredInVideoBuffers
                 kOnlySubmitOneInputBufferAtOneTime := r.mCaptureTimeLapse
                 source := cameraSource },
          r1)
  | _, _, _, _, _, _, _ => none

/-- Lines 1105-1109 of `startRTPRecording`: the writer is made on `mOutputFd`, given
the one source and the listener, and started. -/
def startRTPRecording.writer (c : Collaborators) (r : StagefrightRecorder)
    (source : Option OMXCodec) : status_t × StagefrightRecorder :=
  let w := MediaWriter.create WriterKind.ARTPWriter r.mOutputFd
  let w1 := ((w.addSource source).setListener r.mListener).start none
  (c.writerStart,
    { (r.call (Call.newWriter WriterKind.ARTPWriter r.mOutputFd)).call
        (Call.writerStart WriterKind.ARTPWriter) with mWriter := some w1 })

/-- `startRTPRecording` (lines 1072-1110). -/
def startRTPRecording (E : MediaEnums) (P : MediaProfiles) (c : Collaborators)
    (r : StagefrightRecorder) : Option (status_t × StagefrightRecorder) :=
  if r.mOutputFormat ≠ E.OUTPUT_FORMAT_RTP_AVP then none
  else if (r.mAudioSource ≠ E.AUDIO_SOURCE_CNT ∧ r.mVideoSource ≠ E.VIDEO_SOURCE_LIST_END) ∨
      (r.mAudioSource = E.AUDIO_SOURCE_CNT ∧ r.mVideoSource = E.VIDEO_SOURCE_LIST_END) then
    some (status_t.BAD_VALUE, r)
  else if r.mOutputFd < 0 then some (status_t.BAD_VALUE, r)
  else if r.mAudioSource ≠ E.AUDIO_SOURCE_CNT then
    match createAudioSource E c r with
    | none => none
    | some (source, r1) => some (startRTPRecording.writer c r1 source)
  else
    match setupMediaSource E P c r with
    | none => none
    | some (err, mediaSource, r1) =>
      if err ≠ status_t.OK then some (err, r1)
      else
        match setupVideoEncoder E c r1 mediaSource r1.mVideoBitRate with
        | none => none
        | some (err, source, r2) =>
          if err ≠ status_t.OK then some (err, r2)
          else some (startRTPRecording.writer c r2 source)

/-- `setupAudioEncoder` (lines 1814-1850); the writer is the one passed by reference. -/
def setupAudioEncoder (E : MediaEnums) (P : MediaProfiles) (c : Collaborators)
    (r : StagefrightRecorder) (writer : MediaWriter) :
    Option (status_t × MediaWriter × StagefrightRecorder) :=
  let (status, r1) := checkAudioEncoderCapabilities P r
  if status ≠ status_t.OK then some (status, writer, r1)
  else if ¬ (r1.mAudioEncoder = E.AUDIO_ENCODER_AMR_NB ∨
      r1.mAudioEncoder = E.AUDIO_ENCODER_AMR_WB ∨ r1.mAudioEncoder = E.AUDIO_ENCODER_AAC) then
    some (status_t.UNKNOWN_ERROR, writer, r1)
  else
    match createAudioSource E c r1 with
    | none => none
    | some (none, r2) => some (status_t.UNKNOWN_ERROR, writer, r2)
    | some (some audioEncoder, r2) => some (status_t.OK, writer.addSource (some audioEncoder), r2)

/-- Lines 1117-1127 of `startMPEG2TSRecording`: the audio track of the transport
stream. -/
def startMPEG2TSRecording.audio (E : MediaEnums) (P : MediaProfiles) (c : Collaborators)
    (r : StagefrightRecorder) (writer : MediaWriter) :
    Option (status_t × MediaWriter × StagefrightRecorder) :=
  if r.mAudioSource ≠ E.AUDIO_SOURCE_CNT then
    if r.mAudioEncoder ≠ E.AUDIO_ENCODER_AAC then some (status_t.ERROR_UNSUPPORTED, writer, r)
    else setupAudioEncoder E P c r writer
  else some (status_t.OK, writer, r)

/-- Lines 1129-1148 of `startMPEG2TSRecording`: the video track of the transport
stream. -/
def startMPEG2TSRecording.video (E : MediaEnums) (P : MediaProfiles) (c : Collaborators)
    (r : StagefrightRecorder) (writer : MediaWriter) :
    Option (status_t × MediaWriter × StagefrightRecorder) :=
  if r.mVideoSource < E.VIDEO_SOURCE_LIST_END then
    if r.mVideoEncoder ≠ E.VIDEO_ENCODER_H264 then some (status_t.ERROR_UNSUPPORTED, writer, r)
    else
      match setupMediaSource E P c r with
      | none => none
      | some (err, mediaSource, r1) =>
        if err ≠ status_t.OK then some (err, writer, r1)
        else
          match setupVideoEncoder E c r1 mediaSource r1.mVideoBitRate with
          | none => none
          | some (err, encoder, r2) =>
            if err ≠ status_t.OK then some (err, writer, r2)
            else some (status_t.OK, writer.addSource encoder, r2)
  else some (status_t.OK, writer, r)

/-- `startMPEG2TSRecording` (lines 1112-1161).  The local `writer` becomes `mWriter`
only at the end. -/
def startMPEG2TSRecording (E : MediaEnums) (P : MediaProfiles) (c : Collaborators)
    (r : StagefrightRecorder) : Option (status_t × StagefrightRecorder) :=
  if r.mOutputFormat ≠ E.OUTPUT_FORMAT_MPEG2TS then none
  else
    match startMPEG2TSRecording.audio E P c
        (r.call (Call.newWriter WriterKind.MPEG2TSWriter r.mOutputFd))
        (MediaWriter.create WriterKind.MPEG2TSWriter r.mOutputFd) with
    | none => none
    | some (err, writer1, r1) =>
      if err ≠ status_t.OK then some (err, r1)
      else
        match startMPEG2TSRecording.video E P c r1 writer1 with
        | none => none
        | some (err, writer2, r2) =>
          if err ≠ status_t.OK then some (err, r2)
          else
            let writer3 := if r2.mMaxFileDurationUs ≠ 0 then
                writer2.setMaxFileDuration r2.mMaxFileDurationUs else writer2
            let writer4 := if r2.mMaxFileSizeBytes ≠ 0 then
                writer3.setMaxFileSize r2.mMaxFileSizeBytes else writer3
            some (c.writerStart,
              { r2.call (Call.writerStart WriterKind.MPEG2TSWriter) with
                mWriter := some (writer4.start none) })

/-- Lines 1863-1882 of `setupMPEG4Recording`: the video track.  The third component
is `*totalBitRate` after this part. -/
def setupMPEG4Recording.video (E : MediaEnums) (P : MediaProfiles) (c : Collaborators)
    (r : StagefrightRecorder) (writer : MediaWriter) (videoBitRate : Int) :
    Option (status_t × MediaWriter × Int × StagefrightRecorder) :=
  if r.mVideoSource < E.VIDEO_SOURCE_LIST_END then
    match setupMediaSource E P c r with
    | none => none
    | some (err, mediaSource, r1) =>
      if err ≠ status_t.OK then some (err, writer, 0, r1)
      else
        match setupVideoEncoder E c r1 mediaSource videoBitRate with
        | none => none
        | some (err, encoder, r2) =>
          if err ≠ status_t.OK then some (err, writer, 0, r2)
          else some (status_t.OK, writer.addSource encoder, wrap32 (0 + videoBitRate), r2)
  else some (status_t.OK, writer, 0, r)

/-- Lines 1887-1891 of `setupMPEG4Recording`: the audio track, added after the video
track. -/
def setupMPEG4Recording.audio (E : MediaEnums) (P : MediaProfiles) (c : Collaborators)
    (r : StagefrightRecorder) (writer : MediaWriter) (totalBitRate : Int) :
    Option (status_t × MediaWriter × Int × StagefrightRecorder) :=
  if ¬ r.mCaptureTimeLapse ∧ r.mAudioSource ≠ E.AUDIO_SOURCE_CNT then
    match setupAudioEncoder E P c r writer with
    | none => none
    | some (err, writer1, r1) =>
      if err ≠ status_t.OK then some (err, writer1, totalBitRate, r1)
      else some (status_t.OK, writer1, wrap32 (totalBitRate + r1.mAudioBitRate), r1)
  else some (status_t.OK, writer, totalBitRate, r)

/-- `setupMPEG4Recording` (lines 1852-1917), called with `&mWriter` for `mediaWriter`:
the member is cleared first and receives the local `writer` only at the end.  The
middle component is `*totalBitRate` on return. -/
def setupMPEG4Recording (E : MediaEnums) (P : MediaProfiles) (c : Collaborators)
    (r : StagefrightRecorder) (outputFd _videoWidth _videoHeight videoBitRate : Int) :
    Option (status_t × Int × StagefrightRecorder) :=
  let r0 := { r with mWriter := none }.call (Call.newWriter WriterKind.MPEG4Writer outputFd)
  match setupMPEG4Recording.video E P c r0 (MediaWriter.create WriterKind.MPEG4Writer outputFd)
      videoBitRate with
  | none => none
  | some (err, writer1, totalBitRate1, r1) =>
    if err ≠ status_t.OK then some (err, totalBitRate1, r1)
    else
      match setupMPEG4Recording.audio E P c r1 writer1 totalBitRate1 with
      | none => none
      | some (err, writer2, totalBitRate2, r2) =>
        if err ≠ status_t.OK then some (err, totalBitRate2, r2)
        else
          let writer3 := if r2.mInterleaveDurationUs > 0 then
              writer2.setInterleaveDuration r2.mInterleaveDurationUs else writer2
          let writer4 := if r2.mLongitudex10000 > -3600000 ∧ r2.mLatitudex10000 > -3600000 then
              writer3.setGeoData r2.mLatitudex10000 r2.mLongitudex10000 else writer3
          let writer5 := if r2.mMaxFileDurationUs ≠ 0 then
              writer4.setMaxFileDuration r2.mMaxFileDurationUs else writer4
          let writer6 := if r2.mMaxFileSizeBytes ≠ 0 then
              writer5.setMaxFileSize r2.mMaxFileSizeBytes else writer5
          let r3 : StagefrightRecorder := { r2 with mStartTimeOffsetMs := P.getStartTimeOffsetMs r2.mCameraId }
          let writer7 := if r3.mStartTimeOffsetMs > 0 then
              writer6.setStartTimeOffsetMs r3.mStartTimeOffsetMs else writer6
          some (status_t.OK, totalBitRate2,
            { r3 with mWriter := some (writer7.setListener r3.mListener) })

/-- `setupMPEG4MetaData` (lines 1919-1934), on a fresh `MetaData`. -/
def setupMPEG4MetaData (r : StagefrightRecorder) (startTimeUs totalBitRate : Int) : MetaData :=
  { kKeyTime := some startTimeUs
    kKeyFileType := some r.mOutputFormat
    kKeyBitRate := some totalBitRate
    kKey64BitFileOffset := some (if r.mUse64BitFileOffset then 1 else 0)
    kKeyTimeScale := if r.mMovieTimeScale > 0 then some r.mMovieTimeScale else none
    kKeyTrackTimeStatus :=
      if r.mTrackEveryTimeDurationUs > 0 then some r.mTrackEveryTimeDurationUs else none
    kKeyRotation := if r.mRotationDegrees ≠ 0 then some r.mRotationDegrees else none }

/-- `startMPEG4Recording` (lines 1957-1976).  The arguments of `setupMPEG4Recording`
are read before the call. -/
def startMPEG4Recording (E : MediaEnums) (P : MediaProfiles) (c : Collaborators)
    (r : StagefrightRecorder) : Option (status_t × StagefrightRecorder) :=
  match setupMPEG4Recording E P c r r.mOutputFd r.mVideoWidth r.mVideoHeight r.mVideoBitRate with
  | none => none
  | some (err, totalBitRate, r1) =>
    if err ≠ status_t.OK then some (err, r1)
    else
      match r1.mWriter with
      | none => none
      | some writer =>
        let startTimeUs := Int.tdiv c.systemTime 1000
        let «meta» := setupMPEG4MetaData r1 startTimeUs totalBitRate
        some (c.writerStart,
          { r1.call (Call.writerStart writer.kind) with
            mWriter := some (writer.start (some «meta»)) })

/-- The `switch (mOutputFormat)` of `start()` (lines 833-875), as a chain of tests in
the order of the case labels. -/
def start.dispatch (E : MediaEnums) (P : MediaProfiles) (c : Collaborators)
    (r : StagefrightRecorder) : Option (status_t × StagefrightRecorder) :=
  if r.mOutputFormat = E.OUTPUT_FORMAT_DEFAULT ∨ r.mOutputFormat = E.OUTPUT_FORMAT_THREE_GPP ∨
      r.mOutputFormat = E.OUTPUT_FORMAT_MPEG_4 then
    startMPEG4Recording E P c r
  else if r.mOutputFormat = E.OUTPUT_FORMAT_AMR_NB ∨ r.mOutputFormat = E.OUTPUT_FORMAT_AMR_WB then
    startAMRRecording E P c r
  else if r.mOutputFormat = E.OUTPUT_FORMAT_AAC_ADIF ∨
      r.mOutputFormat = E.OUTPUT_FORMAT_AAC_ADTS then
    startAACRecording E P c r
  else if r.mOutputFormat = E.OUTPUT_FORMAT_RTP_AVP then startRTPRecording E P c r
  else if r.mOutputFormat = E.OUTPUT_FORMAT_MPEG2TS then startMPEG2TSRecording E P c r
  else some (status_t.UNKNOWN_ERROR, r)

/-- `start` (lines 823-892).  `none` is a failed `CHECK` on the way (the first one
being `CHECK(mOutputFd >= 0)`); otherwise the returned status and the object after
the call. -/
def start (E : MediaEnums) (P : MediaProfiles) (c : Collaborators)
    (r : StagefrightRecorder) : Option (status_t × StagefrightRecorder) :=
  if ¬ (r.mOutputFd ≥ 0) then none
  else if r.mWriter ≠ none then some (status_t.UNKNOWN_ERROR, r)
  else
    match start.dispatch E P c r with
    | none => none
    | some (status, r1) =>
      if status = status_t.OK ∧ ¬ r1.mStarted then
        match addBatteryData c { r1 with mStarted := true } true
            (r1.mAudioSource ≠ E.AUDIO_SOURCE_CNT) (r1.mVideoSource ≠ E.VIDEO_SOURCE_LIST_END) with
        | none => none
        | some r2 => some (status, r2)
      else some (status, r1)

end StagefrightRecorder

/-! ## The remaining public operations (lines 103-106, 254-303, 813-821, 1978-2116) -/

namespace StagefrightRecorder

/-- `init` (lines 103-106). -/
def init (r : StagefrightRecorder) : status_t × StagefrightRecorder :=
  (status_t.OK, r)

/-- `setCamera` (lines 254-269); `none` is a NULL reference. -/
def setCamera (r : StagefrightRecorder) (camera proxy : Option Handle) :
    status_t × StagefrightRecorder :=
  if camera = none then (status_t.BAD_VALUE, r)
  else if proxy = none then (status_t.BAD_VALUE, r)
  else (status_t.OK, { r with mCamera := camera, mCameraProxy := proxy })

/-- `setPreviewSurface` (lines 271-276). -/
def setPreviewSurface (r : StagefrightRecorder) (surface : Option Handle) :
    status_t × StagefrightRecorder :=
  (status_t.OK, { r with mPreviewSurface := surface })

/-- `setOutputFile(const char *path)` (lines 278-284). -/
def setOutputFilePath (r : StagefrightRecorder) (_path : List Char) :
    status_t × StagefrightRecorder :=
  (status_t.NEG_EPERM, r)

/-- `setOutputFile(int fd, int64_t offset, int64_t length)` (lines 286-303); `none` is
one of the two failed `CHECK_EQ`s.  The result of `dup` is stored unchecked. -/
def setOutputFile (c : Collaborators) (r : StagefrightRecorder) (fd offset length : Int) :
    Option (status_t × StagefrightRecorder) :=
  if offset ≠ 0 then none
  else if length ≠ 0 then none
  else if fd < 0 then some (status_t.NEG_EBADF, r)
  else if r.mOutputFd ≥ 0 then
    some (status_t.OK, { r.call (Call.close r.mOutputFd) with
      mOutputFd := match c.dup with
        | some newFd => (newFd : Int)
        | none => -1 })
  else
    some (status_t.OK, { r with
      mOutputFd := match c.dup with
        | some newFd => (newFd : Int)
        | none => -1 })

/-- `setListener` (lines 813-817). -/
def setListener (r : StagefrightRecorder) (listener : Option Handle) :
    status_t × StagefrightRecorder :=
  (status_t.OK, { r with mListener := listener })

/-- `prepare` (lines 819-821). -/
def prepare (r : StagefrightRecorder) : status_t × StagefrightRecorder :=
  (status_t.OK, r)

/-- Lines 1985-1997 of `pause` and 2025-2037 of `stop`, which are the same block: a
session marked started is marked not started and the battery service is told which
tracks were running.  `none` is the failed `CHECK` in `addBatteryData`. -/
def notifyNotStarted (E : MediaEnums) (c : Collaborators) (r : StagefrightRecorder) :
    Option StagefrightRecorder :=
  if r.mStarted then
    addBatteryData c { r with mStarted := false } false
      (r.mAudioSource ≠ E.AUDIO_SOURCE_CNT) (r.mVideoSource ≠ E.VIDEO_SOURCE_LIST_END)
  else some r

/-- `pause` (lines 1978-2001). -/
def pause (E : MediaEnums) (c : Collaborators) (r : StagefrightRecorder) :
    Option (status_t × StagefrightRecorder) :=
  match r.mWriter with
  | none => some (status_t.UNKNOWN_ERROR, r)
  | some writer =>
    match notifyNotStarted E c (r.call (Call.writerPause writer.kind)) with
    | none => none
    | some r1 => some (status_t.OK, r1)

/-- Lines 2010-2013 of `stop`: a time-lapse camera source is told to return its reads
quickly and is let go. -/
def stop.timeLapse (r : StagefrightRecorder) : StagefrightRecorder :=
  if r.mCaptureTimeLapse ∧ r.mCameraSourceTimeLapse ≠ none then
    { r.call Call.startQuickReadReturns with mCameraSourceTimeLapse := none }
  else r

/-- Lines 2015-2018 of `stop`: the writer, if there is one, is stopped and let go.
The first component is `err`, which starts as `OK`. -/
def stop.writer (c : Collaborators) (r : StagefrightRecorder) :
    status_t × StagefrightRecorder :=
  match r.mWriter with
  | some writer => (c.writerStop, { r.call (Call.writerStop writer.kind) with mWriter := none })
  | none => (status_t.OK, r)

/-- Lines 2020-2023 of `stop`: an open output descriptor is closed and forgotten. -/
def stop.descriptor (r : StagefrightRecorder) : StagefrightRecorder :=
  if r.mOutputFd ≥ 0 then { r.call (Call.close r.mOutputFd) with mOutputFd := -1 }
  else r

/-- `stop` (lines 2003-2041); `none` is the failed `CHECK` in `addBatteryData`. -/
def stop (E : MediaEnums) (c : Collaborators) (r : StagefrightRecorder) :
    Option (status_t × StagefrightRecorder) :=
  let stopped := stop.writer c (stop.timeLapse r)
  match notifyNotStarted E c (stop.descriptor stopped.2) with
  | none => none
  | some r1 => some (stopped.1, r1)

/-- `close` (lines 2043-2048). -/
def close (E : MediaEnums) (c : Collaborators) (r : StagefrightRecorder) :
    Option (status_t × StagefrightRecorder) :=
  match stop E c r with
  | none => none
  | some (_, r1) => some (status_t.OK, r1)

/-- Lines 2054-2098 of `reset`: the assignments of the defaults. -/
def reset.defaults (E : MediaEnums) (r : StagefrightRecorder) : StagefrightRecorder :=
  { r with
    mAudioSource := E.AUDIO_SOURCE_CNT
    mVideoSource := E.VIDEO_SOURCE_LIST_END
    mOutputFormat := E.OUTPUT_FORMAT_THREE_GPP
    mAudioEncoder := E.AUDIO_ENCODER_AMR_NB
    mVideoEncoder := E.VIDEO_ENCODER_H263
    mVideoWidth := 176
    mVideoHeight := 144
    mFrameRate := -1
    mVideoBitRate := 192000
    mSampleRate := 8000
    mAudioChannels := 1
    mAudioBitRate := 12200
    mInterleaveDurationUs := 0
    mIFramesIntervalSec := 1
    mAudioSourceNode := none
    mUse64BitFileOffset := false
    mMovieTimeScale := -1
    mAudioTimeScale := -1
    mVideoTimeScale := -1
    mCameraId := 0
    mStartTimeOffsetMs := -1
    mVideoEncoderProfile := -1
    mVideoEncoderLevel := -1
    mMaxFileDurationUs := 0
    mMaxFileSizeBytes := 0
    mTrackEveryTimeDurationUs := 0
    mCaptureTimeLapse := false
    mTimeBetweenTimeLapseFrameCaptureUs := -1
    mCameraSourceTimeLapse := none
    mIsMetaDataStoredInVideoBuffers := false
    mRotationDegrees := 0
    mLatitudex10000 := -3600000
    mLongitudex10000 := -3600000
    mOutputFd := -1 }

/-- `reset` (lines 2050-2116): `stop()`, whose status is dropped, then the defaults. -/
def reset (E : MediaEnums) (c : Collaborators) (r : StagefrightRecorder) :
    Option (status_t × StagefrightRecorder) :=
  match stop E c r with
  | none => none
  | some (_, r1) => some (status_t.OK, reset.defaults E r1)

end StagefrightRecorder

/-- One call of a public member function that can change the object, with its
arguments and with what the outside world answers during the call.  `setter` stands
for the seven typed setters; the `setParam*` setters, which the source reaches only
through `setParameters`, are admitted as direct calls as well. -/
inductive Op where
  | init
  | setter (call : SetterCall)
  | setCamera (camera proxy : Option Handle)
  | setPreviewSurface (surface : Option Handle)
  | setOutputFilePath (path : List Char)
  | setOutputFile (c : Collaborators) (fd offset length : Int)
  | setParameters (params : List Char)
  | setListener (listener : Option Handle)
  | prepare
  | start (c : Collaborators)
  | pause (c : Collaborators)
  | stop (c : Collaborators)
  | close (c : Collaborators)
  | reset (c : Collaborators)

/-- Performs the call on the object; `none` is a failed `CHECK`, which ends the
process. -/
def Op.run (E : MediaEnums) (P : MediaProfiles) (r : StagefrightRecorder) :
    Op → Option (status_t × StagefrightRecorder)
  | .init => some r.init
  | .setter call => some (call.run E r)
  | .setCamera camera proxy => some (r.setCamera camera proxy)
  | .setPreviewSurface surface => some (r.setPreviewSurface surface)
  | .setOutputFilePath path => some (r.setOutputFilePath path)
  | .setOutputFile c fd offset length => r.setOutputFile c fd offset length
  | .setParameters params => some (r.setParameters params)
  | .setListener listener => some (r.setListener listener)
  | .prepare => some r.prepare
  | .start c => r.start E P c
  | .pause c => r.pause E c
  | .stop c => r.stop E c
  | .close c => r.close E c
  | .reset c => r.reset E c

/-- Performs the calls one after the other, whatever status each returns; `none` when
one of them ends the process. -/
def runOps (E : MediaEnums) (P : MediaProfiles) :
    StagefrightRecorder → List Op → Option StagefrightRecorder
  | r, [] => some r
  | r, op :: ops =>
    match op.run E P r with
    | none => none
    | some (_, r1) => runOps E P r1 ops

/-- The object can be in state `r` after construction and some sequence of public
calls. -/
def Reachable (E : MediaEnums) (P : MediaProfiles) (r : StagefrightRecorder) : Prop :=
  ∃ ops : List Op, runOps E P (StagefrightRecorder.constructed E) ops = some r

/-! ## Vocabulary for the statements about parameter strings -/

/-- The parameter string `k1=v1;k2=v2;...;kn=vn` written out from its entries. -/
def paramString : List (List Char × List Char) → List Char
  | [] => []
  | [e] => e.1 ++ '=' :: e.2
  | e :: e2 :: es => e.1 ++ '=' :: (e.2 ++ ';' :: paramString (e2 :: es))

/-- The object obtained by applying `setParameter(k, v)` to every entry `(k, v)` of
the list in order. -/
def applyEntries (r : StagefrightRecorder) :
    List (List Char × List Char) → StagefrightRecorder
  | [] => r
  | e :: es => applyEntries (r.setParameter e.1 e.2).2 es

/-- The status `setParameter(k_i, v_i)` returns for entry number `i` (counted from 0)
when the entries before it have been applied in order. -/
def entryStatus (r : StagefrightRecorder) (es : List (List Char × List Char)) (i : Nat) :
    status_t :=
  ((applyEntries r (es.take i)).setParameter (es.getD i ([], [])).1 (es.getD i ([], [])).2).1

/-- The leading entries of a list up to (not including) the first one on which
`setParameter` does not return OK, each applied to the object the previous one
left. -/
def okEntries (r : StagefrightRecorder) :
    List (List Char × List Char) → List (List Char × List Char)
  | [] => []
  | e :: es =>
    if (r.setParameter e.1 e.2).1 = status_t.OK then
      e :: okEntries (r.setParameter e.1 e.2).2 es
    else []

/-- The entries with every key replaced by what `TrimString` makes of it. -/
def trimKeys (es : List (List Char × List Char)) : List (List Char × List Char) :=
  es.map (fun e => (TrimString e.1, e.2))

/-- A key that neither starts nor ends with a white-space character. -/
def plainKey (k : List Char) : Bool :=
  !(k.head?.any isspace) && !(k.getLast?.any isspace)

/-- The property "a call that does not return OK hands back the object `r` it was
given", of the pair (status, object after the call). -/
def FailKeeps (r : StagefrightRecorder) (x : status_t × StagefrightRecorder) : Prop :=
  x.1 ≠ status_t.OK → x.2 = r

/-- The entries of the parameter string ` max-duration =5000;max-filesize=500`, the
first key written with surrounding blanks. -/
def sampleEntries : List (List Char × List Char) :=
  [(" max-duration ".toList, "5000".toList), ("max-filesize".toList, "500".toList)]

/-! ## Vocabulary for the statements about capability negotiation -/

/-- The clamp as the video `clip*` functions write it: `if (v < lo) lo; else if (v > hi) hi`. -/
def clampLoHi (lo hi v : Int) : Int :=
  if v < lo then lo else if v > hi then hi else v

/-- The clamp of `clipVideoFrameRate`, which leaves the sentinel -1 alone on the low side. -/
def clampFrameRate (lo hi v : Int) : Int :=
  if v < lo ∧ v ≠ -1 then lo else if v > hi then hi else v

/-- The clamp as the audio `clip*` functions write it, two `if` statements in a row:
`if (v < lo) v = lo; if (v > hi) v = hi`. -/
def clampTwoSteps (lo hi v : Int) : Int :=
  if (if v < lo then lo else v) > hi then hi else (if v < lo then lo else v)

/-- The configuration with the four video parameters clamped the way the video
`clip*` functions clamp them, everything else as in `r`. -/
def videoClamped (P : MediaProfiles) (r : StagefrightRecorder) : StagefrightRecorder :=
  { r with
    mVideoBitRate := (clampLoHi
      (P.getVideoEncoderParamByName "enc.vid.bps.min" r.mVideoEncoder)
      (P.getVideoEncoderParamByName "enc.vid.bps.max" r.mVideoEncoder) r.mVideoBitRate),
    mFrameRate := (clampFrameRate
      (P.getVideoEncoderParamByName "enc.vid.fps.min" r.mVideoEncoder)
      (P.getVideoEncoderParamByName "enc.vid.fps.max" r.mVideoEncoder) r.mFrameRate),
    mVideoWidth := (clampLoHi
      (P.getVideoEncoderParamByName "enc.vid.width.min" r.mVideoEncoder)
      (P.getVideoEncoderParamByName "enc.vid.width.max" r.mVideoEncoder) r.mVideoWidth),
    mVideoHeight := (clampLoHi
      (P.getVideoEncoderParamByName "enc.vid.height.min" r.mVideoEncoder)
      (P.getVideoEncoderParamByName "enc.vid.height.max" r.mVideoEncoder) r.mVideoHeight) }

/-- The configuration with the three audio parameters clamped the way the audio
`clip*` functions clamp them, everything else as in `r`. -/
def audioClamped (P : MediaProfiles) (r : StagefrightRecorder) : StagefrightRecorder :=
  { r with
    mAudioBitRate := (clampTwoSteps
      (P.getAudioEncoderParamByName "enc.aud.bps.min" r.mAudioEncoder)
      (P.getAudioEncoderParamByName "enc.aud.bps.max" r.mAudioEncoder) r.mAudioBitRate),
    mSampleRate := (clampTwoSteps
      (P.getAudioEncoderParamByName "enc.aud.hz.min" r.mAudioEncoder)
      (P.getAudioEncoderParamByName "enc.aud.hz.max" r.mAudioEncoder) r.mSampleRate),
    mAudioChannels := (clampTwoSteps
      (P.getAudioEncoderParamByName "enc.aud.ch.min" r.mAudioEncoder)
      (P.getAudioEncoderParamByName "enc.aud.ch.max" r.mAudioEncoder) r.mAudioChannels) }

/-- The configuration `r` equals the low-quality camcorder profile of its camera id in
all eleven components: maximum duration, file format, video codec, video bit rate,
frame rate, frame width, frame height, audio codec, audio bit rate, sample rate and
channel count. -/
def matchesLowQualityProfile (E : MediaEnums) (P : MediaProfiles) (r : StagefrightRecorder) :
    Prop :=
  P.getCamcorderProfileParamByName "duration" r.mCameraId E.CAMCORDER_QUALITY_LOW * 1000000
      = r.mMaxFileDurationUs ∧
  P.getCamcorderProfileParamByName "file.format" r.mCameraId E.CAMCORDER_QUALITY_LOW
      = r.mOutputFormat ∧
  P.getCamcorderProfileParamByName "vid.codec" r.mCameraId E.CAMCORDER_QUALITY_LOW
      = r.mVideoEncoder ∧
  P.getCamcorderProfileParamByName "vid.bps" r.mCameraId E.CAMCORDER_QUALITY_LOW
      = r.mVideoBitRate ∧
  P.getCamcorderProfileParamByName "vid.fps" r.mCameraId E.CAMCORDER_QUALITY_LOW
      = r.mFrameRate ∧
  P.getCamcorderProfileParamByName "vid.width" r.mCameraId E.CAMCORDER_QUALITY_LOW
      = r.mVideoWidth ∧
  P.getCamcorderProfileParamByName "vid.height" r.mCameraId E.CAMCORDER_QUALITY_LOW
      = r.mVideoHeight ∧
  P.getCamcorderProfileParamByName "aud.codec" r.mCameraId E.CAMCORDER_QUALITY_LOW
      = r.mAudioEncoder ∧
  P.getCamcorderProfileParamByName "aud.bps" r.mCameraId E.CAMCORDER_QUALITY_LOW
      = r.mAudioBitRate ∧
  P.getCamcorderProfileParamByName "aud.hz" r.mCameraId E.CAMCORDER_QUALITY_LOW
      = r.mSampleRate ∧
  P.getCamcorderProfileParamByName "aud.ch" r.mCameraId E.CAMCORDER_QUALITY_LOW
      = r.mAudioChannels

/-- Equality of integers is decidable, so the eleven-fold comparison is. -/
instance matchesLowQualityProfile.decidable (E : MediaEnums) (P : MediaProfiles)
    (r : StagefrightRecorder) : Decidable (matchesLowQualityProfile E P r) := by
  unfold matchesLowQualityProfile
  infer_instance

/-- A sample capability table: video 64000..8000000 bps, 1..30 fps, 176..1280 by
144..720; audio 8000..96000 bps, 8000..48000 Hz, 1..2 channels; the low-quality
camcorder profile is 30 s of 3GPP with H.264 video (192000 bps, 20 fps, 176x144) and
AMR-NB audio (12200 bps, 8000 Hz, mono). -/
def sampleProfiles : MediaProfiles where
  getVideoEncoderParamByName := fun name _ =>
    if name = "enc.vid.bps.min" then 64000
    else if name = "enc.vid.bps.max" then 8000000
    else if name = "enc.vid.fps.min" then 1
    else if name = "enc.vid.fps.max" then 30
    else if name = "enc.vid.width.min" then 176
    else if name = "enc.vid.width.max" then 1280
    else if name = "enc.vid.height.min" then 144
    else if name = "enc.vid.height.max" then 720
    else -1
  getAudioEncoderParamByName := fun name _ =>
    if name = "enc.aud.bps.min" then 8000
    else if name = "enc.aud.bps.max" then 96000
    else if name = "enc.aud.hz.min" then 8000
    else if name = "enc.aud.hz.max" then 48000
    else if name = "enc.aud.ch.min" then 1
    else if name = "enc.aud.ch.max" then 2
    else -1
  getCamcorderProfileParamByName := fun name _ _ =>
    if name = "duration" then 30
    else if name = "file.format" then 1
    else if name = "vid.codec" then 2
    else if name = "vid.bps" then 192000
    else if name = "vid.fps" then 20
    else if name = "vid.width" then 176
    else if name = "vid.height" then 144
    else if name = "aud.codec" then 1
    else if name = "aud.bps" then 12200
    else if name = "aud.hz" then 8000
    else if name = "aud.ch" then 1
    else -1
  getStartTimeOffsetMs := fun _ => 0

/-- The sample table with the low-quality camcorder profile using H.263 video. -/
def sampleProfilesH263 : MediaProfiles :=
  { sampleProfiles with
    getCamcorderProfileParamByName := fun name cameraId quality =>
      if name = "vid.codec" then 1
      else sampleProfiles.getCamcorderProfileParamByName name cameraId quality }

/-- The sample table with the video bit-rate bounds the wrong way round:
minimum 200000, maximum 100000. -/
def sampleProfilesInverted : MediaProfiles :=
  { sampleProfiles with
    getVideoEncoderParamByName := fun name encoder =>
      if name = "enc.vid.bps.min" then 200000
      else if name = "enc.vid.bps.max" then 100000
      else sampleProfiles.getVideoEncoderParamByName name encoder }

/-- A configuration equal to the low-quality camcorder profile of `sampleProfiles`:
the defaults with a 30 s duration limit, H.264 video and 20 fps. -/
def lowQualityConfig : StagefrightRecorder :=
  { StagefrightRecorder.constructed platformEnums with
    mMaxFileDurationUs := 30000000, mVideoEncoder := 2, mFrameRate := 20 }

/-- A configuration equal to the low-quality camcorder profile of
`sampleProfilesH263`: the defaults (H.263 video) with a 30 s duration limit and
20 fps. -/
def lowQualityConfigH263 : StagefrightRecorder :=
  { StagefrightRecorder.constructed platformEnums with
    mMaxFileDurationUs := 30000000, mFrameRate := 20 }

/-- A configuration with every clamped parameter out of range for `sampleProfiles`. -/
def outOfRangeConfig : StagefrightRecorder :=
  { StagefrightRecorder.constructed platformEnums with
    mVideoBitRate := 10, mVideoWidth := 4000, mVideoHeight := 2, mFrameRate := 500,
    mAudioBitRate := 500, mSampleRate := 96000, mAudioChannels := 6 }

/-- The out-of-range configuration with time-lapse capture enabled. -/
def outOfRangeTimeLapseConfig : StagefrightRecorder :=
  { outOfRangeConfig with mCaptureTimeLapse := true }

/-! ## Vocabulary for the statements about white space and malformed strings -/

/-- The string with exactly its leading and its trailing white space removed, written
with list functions: drop the leading white space, then drop the trailing white
space. -/
def trimSpec (s : List Char) : List Char :=
  ((s.dropWhile isspace).reverse.dropWhile isspace).reverse

/-- The semicolon-separated entries of a parameter string (the empty string has one
empty entry, a trailing semicolon is followed by an empty entry). -/
def splitEntries : List Char → List (List Char)
  | [] => [[]]
  | c :: cs =>
    if c = ';' then [] :: splitEntries cs
    else
      match splitEntries cs with
      | [] => [[c]]
      | e :: es => (c :: e) :: es

/-- The key of an entry: the part before its first `=` (the whole entry when it has
none). -/
def entryKey (e : List Char) : List Char :=
  e.takeWhile (fun c => c != '=')

/-- An entry that contains no `=`, or whose key is empty after white-space trimming. -/
def badEntry (e : List Char) : Prop :=
  '=' ∉ e ∨ TrimString (entryKey e) = []

/-- Membership and equality of character lists are decidable, so `badEntry` is. -/
instance badEntry.decidable (e : List Char) : Decidable (badEntry e) := by
  unfold badEntry
  infer_instance

/-! ## Vocabulary for the statements about starting a recording -/

/-- The case labels of the `switch` in `start()` are pairwise distinct, as the
language requires of the labels of one `switch`. -/
def MediaEnums.outputFormatLabelsDistinct (E : MediaEnums) : Prop :=
  [E.OUTPUT_FORMAT_DEFAULT, E.OUTPUT_FORMAT_THREE_GPP, E.OUTPUT_FORMAT_MPEG_4,
   E.OUTPUT_FORMAT_AMR_NB, E.OUTPUT_FORMAT_AMR_WB, E.OUTPUT_FORMAT_AAC_ADIF,
   E.OUTPUT_FORMAT_AAC_ADTS, E.OUTPUT_FORMAT_RTP_AVP, E.OUTPUT_FORMAT_MPEG2TS].Nodup

instance MediaEnums.outputFormatLabelsDistinct.decidable (E : MediaEnums) :
    Decidable E.outputFormatLabelsDistinct := by
  unfold MediaEnums.outputFormatLabelsDistinct
  exact inferInstance

/-- Collaborators that all answer with success, for a 176x144 camera source. -/
def sampleCollaborators : Collaborators where
  playerServiceFound := true
  audioSourceInitCheck := status_t.OK
  audioSourceMaxInputSize := some 2048
  audioClientConnect := status_t.OK
  audioEncoderCreated := true
  cameraSourceCreated := true
  cameraSourceInitCheck := status_t.OK
  surfaceMediaSourceCreated := true
  surfaceSetFrameRate := status_t.OK
  sourceFrameRate := some 20
  sourceIsMetaDataStoredInVideoBuffers := true
  sourceWidth := some 176
  sourceHeight := some 144
  sourceStride := some 176
  sourceSliceHeight := some 144
  sourceColorFormat := some 21
  videoClientConnect := status_t.OK
  videoEncoderCreated := true
  systemTime := 1000000000
  writerStart := status_t.OK
  writerStop := status_t.OK
  dup := some 5

/-- Collaborators that fail wherever the recorder tolerates a failure. -/
def failingCollaborators : Collaborators :=
  { sampleCollaborators with
    playerServiceFound := false
    audioSourceInitCheck := status_t.NO_INIT
    audioEncoderCreated := false
    cameraSourceCreated := false
    writerStart := status_t.UNKNOWN_ERROR
    writerStop := status_t.UNKNOWN_ERROR
    dup := none }

/-- The members that identify the session are the same in both objects: output
descriptor, started flag, writer reference and listener. -/
def sameSession (r r1 : StagefrightRecorder) : Prop :=
  r1.mOutputFd = r.mOutputFd ∧ r1.mStarted = r.mStarted ∧ r1.mWriter = r.mWriter ∧
    r1.mListener = r.mListener

/-- What every start path keeps and establishes: the output descriptor is the same,
and a returned `OK` comes with a writer reference. -/
def startKeeps (r : StagefrightRecorder) (x : status_t × StagefrightRecorder) : Prop :=
  x.2.mOutputFd = r.mOutputFd ∧ (x.1 = status_t.OK → x.2.mWriter ≠ none)

/-- RTP output on descriptor 5 with both the microphone and the camera selected. -/
def rtpBothSourcesConfig : StagefrightRecorder :=
  { StagefrightRecorder.constructed platformEnums with
    mOutputFd := 5, mOutputFormat := 7, mAudioSource := 1, mVideoSource := 1 }

/-- RTP output on descriptor 5 with no source selected. -/
def rtpNoSourceConfig : StagefrightRecorder :=
  { StagefrightRecorder.constructed platformEnums with mOutputFd := 5, mOutputFormat := 7 }

/-- A camcorder configuration: 3GPP output on descriptor 5, camera and microphone,
H.263 video and AMR-NB audio. -/
def camcorderConfig : StagefrightRecorder :=
  { StagefrightRecorder.constructed platformEnums with
    mOutputFd := 5, mAudioSource := 1, mVideoSource := 1 }

/-- The object after the camcorder configuration was started with collaborators that
all succeed. -/
def startedCamcorder : StagefrightRecorder :=
  ((StagefrightRecorder.start platformEnums sampleProfiles sampleCollaborators
    camcorderConfig).getD (status_t.UNKNOWN_ERROR, camcorderConfig)).2

/-! ## Vocabulary for the statements about the life cycle -/

/-- The battery notification a call is, as the triple of its bits (codec started,
tracks audio, tracks video); `none` for any other call. -/
def Call.notification : Call → Option (Bool × Bool × Bool)
  | .addBatteryData started audio video => some (started, audio, video)
  | _ => none

/-- The descriptor a call closes; `none` for any other call. -/
def Call.closed : Call → Option Int
  | .close fd => some fd
  | _ => none

/-- The battery notifications in a trace, oldest first. -/
def notifications (calls : List Call) : List (Bool × Bool × Bool) :=
  calls.filterMap Call.notification

/-- The descriptors closed in a trace, oldest first. -/
def closes (calls : List Call) : List Int :=
  calls.filterMap Call.closed

/-- The stored video encoder is one of the three the `switch` of `setupVideoEncoder`
knows. -/
def validVideoEncoder (E : MediaEnums) (r : StagefrightRecorder) : Prop :=
  r.mVideoEncoder = E.VIDEO_ENCODER_H263 ∨ r.mVideoEncoder = E.VIDEO_ENCODER_MPEG_4_SP ∨
    r.mVideoEncoder = E.VIDEO_ENCODER_H264

/-- The enumerators of `video_encoder` strictly between `VIDEO_ENCODER_DEFAULT` and
`VIDEO_ENCODER_LIST_END` are H.263, MPEG-4 SP and H.264, as in
`media/mediarecorder.h`. -/
def MediaEnums.videoEncodersListed (E : MediaEnums) : Prop :=
  ∀ ve : Int, E.VIDEO_ENCODER_DEFAULT < ve → ve < E.VIDEO_ENCODER_LIST_END →
    ve = E.VIDEO_ENCODER_H263 ∨ ve = E.VIDEO_ENCODER_MPEG_4_SP ∨ ve = E.VIDEO_ENCODER_H264

/-- The members that select what is recorded are the same in both objects, the
started flag too, and no battery notification lies between them. -/
def sameSelection (r r1 : StagefrightRecorder) : Prop :=
  r1.mAudioSource = r.mAudioSource ∧ r1.mVideoSource = r.mVideoSource ∧
    r1.mOutputFormat = r.mOutputFormat ∧ r1.mAudioEncoder = r.mAudioEncoder ∧
    r1.mVideoEncoder = r.mVideoEncoder ∧ r1.mStarted = r.mStarted ∧
    notifications r1.calls = notifications r.calls

/-- Collaborators that all succeed except that the writer's `stop` reports a failure. -/
def failingStop : Collaborators :=
  { sampleCollaborators with writerStop := status_t.UNKNOWN_ERROR }
/-- The object after the started camcorder session was paused. -/
def pausedCamcorder : StagefrightRecorder :=
  ((StagefrightRecorder.pause platformEnums sampleCollaborators startedCamcorder).getD
    (status_t.UNKNOWN_ERROR, startedCamcorder)).2

/-- Collaborators that all succeed except that the writer's `start` reports a failure. -/
def failingWriterStart : Collaborators :=
  { sampleCollaborators with writerStart := status_t.UNKNOWN_ERROR }

/-- Raw AMR-NB output on descriptor 5 from the microphone, AMR-NB encoder. -/
def amrConfig : StagefrightRecorder :=
  { StagefrightRecorder.constructed platformEnums with
    mOutputFd := 5, mOutputFormat := 3, mAudioSource := 1 }

/-- Raw AAC output with ADTS framing on descriptor 5 from the microphone, AAC encoder. -/
def aacConfig : StagefrightRecorder :=
  { StagefrightRecorder.constructed platformEnums with
    mOutputFd := 5, mOutputFormat := 6, mAudioSource := 1, mAudioEncoder := 3 }

/-- RTP output on descriptor 5 from the camera, H.263 encoder. -/
def rtpCameraConfig : StagefrightRecorder :=
  { StagefrightRecorder.constructed platformEnums with
    mOutputFd := 5, mOutputFormat := 7, mVideoSource := 1 }

/-- Transport-stream output on descriptor 5 from the camera, H.264 encoder. -/
def transportStreamConfig : StagefrightRecorder :=
  { StagefrightRecorder.constructed platformEnums with
    mOutputFd := 5, mOutputFormat := 8, mVideoSource := 1, mVideoEncoder := 2 }

/-- The calls that select raw AAC output with ADIF framing through the setters:
output format ADIF, microphone, AAC encoder, output descriptor. -/
def adifCalls : List Op :=
  [Op.setter (SetterCall.setOutputFormat 5), Op.setter (SetterCall.setAudioSource 1),
   Op.setter (SetterCall.setAudioEncoder 3), Op.setOutputFile sampleCollaborators 7 0 0]

/-- The calls that select raw AAC output with ADTS framing and the AMR-NB encoder. -/
def adtsAmrCalls : List Op :=
  [Op.setter (SetterCall.setOutputFormat 6), Op.setter (SetterCall.setAudioSource 1),
   Op.setter (SetterCall.setAudioEncoder 1), Op.setOutputFile sampleCollaborators 7 0 0]

/-- What the first three steps of `stop` keep: the selection of sources and the
started flag. -/
def stopKeeps (r r1 : StagefrightRecorder) : Prop :=
  r1.mAudioSource = r.mAudioSource ∧ r1.mVideoSource = r.mVideoSource ∧
    r1.mVideoEncoder = r.mVideoEncoder ∧ r1.mStarted = r.mStarted ∧
    notifications r1.calls = notifications r.calls

/-- The audio source initialises, reports its maximum input size, the codec service
connects and the audio encoder is created. -/
def Collaborators.audioCreated (c : Collaborators) : Prop :=
  c.audioSourceInitCheck = status_t.OK ∧ c.audioSourceMaxInputSize ≠ none ∧
    c.audioClientConnect = status_t.OK ∧ c.audioEncoderCreated = true

instance Collaborators.audioCreated.decidable (c : Collaborators) :
    Decidable c.audioCreated := by
  unfold Collaborators.audioCreated
  exact inferInstance

/-- Transport-stream output on descriptor 5 from the camera and the microphone, with
the AAC audio encoder and the H.263 video encoder. -/
def transportStreamH263Config : StagefrightRecorder :=
  { StagefrightRecorder.constructed platformEnums with
    mOutputFd := 5, mOutputFormat := 8, mAudioSource := 1, mAudioEncoder := 3,
    mVideoSource := 1 }

/-- The calls that lead to the started camcorder session: microphone, camera, output
descriptor, `start`. -/
def camcorderCalls : List Op :=
  [Op.setter (SetterCall.setAudioSource 1), Op.setter (SetterCall.setVideoSource 1),
   Op.setOutputFile sampleCollaborators 7 0 0, Op.start sampleCollaborators]

/-- What holds of the session members in every reachable state: the descriptor is -1
or a descriptor, and a session marked started has a writer. -/
def sessionInvariant (r : StagefrightRecorder) : Prop :=
  -1 ≤ r.mOutputFd ∧ (r.mStarted = true → r.mWriter ≠ none)

/-- The result of `setParameter` is a plain `BAD_VALUE` or the result of one setter
call. -/
def IsSetterRun (E : MediaEnums) (r : StagefrightRecorder)
    (x : status_t × StagefrightRecorder) : Prop :=
  x = (status_t.BAD_VALUE, r) ∨ ∃ call : SetterCall, x = call.run E r

/-! ## Vocabulary for the statements about frames, literals, tracks and scenarios -/

/-- The object `r` with the member or members that the setter of the call writes
taken from `r1`, every other member as in `r`. -/
def SetterCall.withOwnFields (r r1 : StagefrightRecorder) : SetterCall → StagefrightRecorder
  | .setAudioSource _ => { r with mAudioSource := r1.mAudioSource }
  | .setVideoSource _ => { r with mVideoSource := r1.mVideoSource }
  | .setOutputFormat _ => { r with mOutputFormat := r1.mOutputFormat }
  | .setAudioEncoder _ => { r with mAudioEncoder := r1.mAudioEncoder }
  | .setVideoEncoder _ => { r with mVideoEncoder := r1.mVideoEncoder }
  | .setVideoSize _ _ => { r with mVideoWidth := r1.mVideoWidth, mVideoHeight := r1.mVideoHeight }
  | .setVideoFrameRate _ => { r with mFrameRate := r1.mFrameRate }
  | .setParamAudioSamplingRate _ => { r with mSampleRate := r1.mSampleRate }
  | .setParamAudioNumberOfChannels _ => { r with mAudioChannels := r1.mAudioChannels }
  | .setParamAudioEncodingBitRate _ => { r with mAudioBitRate := r1.mAudioBitRate }
  | .setParamVideoEncodingBitRate _ => { r with mVideoBitRate := r1.mVideoBitRate }
  | .setParamVideoRotation _ => { r with mRotationDegrees := r1.mRotationDegrees }
  | .setParamMaxFileDurationUs _ => { r with mMaxFileDurationUs := r1.mMaxFileDurationUs }
  | .setParamMaxFileSizeBytes _ => { r with mMaxFileSizeBytes := r1.mMaxFileSizeBytes }
  | .setParamInterleaveDuration _ => { r with mInterleaveDurationUs := r1.mInterleaveDurationUs }
  | .setParamVideoIFramesInterval _ => { r with mIFramesIntervalSec := r1.mIFramesIntervalSec }
  | .setParam64BitFileOffset _ => { r with mUse64BitFileOffset := r1.mUse64BitFileOffset }
  | .setParamVideoCameraId _ => { r with mCameraId := r1.mCameraId }
  | .setParamTrackTimeStatus _ =>
    { r with mTrackEveryTimeDurationUs := r1.mTrackEveryTimeDurationUs }
  | .setParamVideoEncoderProfile _ => { r with mVideoEncoderProfile := r1.mVideoEncoderProfile }
  | .setParamVideoEncoderLevel _ => { r with mVideoEncoderLevel := r1.mVideoEncoderLevel }
  | .setParamMovieTimeScale _ => { r with mMovieTimeScale := r1.mMovieTimeScale }
  | .setParamVideoTimeScale _ => { r with mVideoTimeScale := r1.mVideoTimeScale }
  | .setParamAudioTimeScale _ => { r with mAudioTimeScale := r1.mAudioTimeScale }
  | .setParamTimeLapseEnable _ => { r with mCaptureTimeLapse := r1.mCaptureTimeLapse }
  | .setParamTimeBetweenTimeLapseFrameCapture _ =>
    { r with mTimeBetweenTimeLapseFrameCaptureUs := r1.mTimeBetweenTimeLapseFrameCaptureUs }
  | .setParamGeoDataLongitude _ => { r with mLongitudex10000 := r1.mLongitudex10000 }
  | .setParamGeoDataLatitude _ => { r with mLatitudex10000 := r1.mLatitudex10000 }

/-- Following the words of the specification: `s` consists of optional leading white
space, an optional `+` or `-` sign, one or more decimal digits and optional trailing
white space, and the signed digits denote the integer `n`. -/
def IsIntegerLiteral (s : List Char) (n : Int) : Prop :=
  ∃ lead sign digits trail : List Char,
    s = lead ++ sign ++ digits ++ trail ∧
    (∀ c ∈ lead, isspace c = true) ∧
    (sign = [] ∨ sign = ['+'] ∨ sign = ['-']) ∧
    digits ≠ [] ∧ (∀ c ∈ digits, isdigit c = true) ∧
    (∀ c ∈ trail, isspace c = true) ∧
    n = if sign = ['-'] then -(digitsValue digits : Int) else (digitsValue digits : Int)

/-- The keys of `setParameter` whose value is read with `safe_strtoi32` (lines 662-770). -/
def int32Keys : List (List Char) :=
  ["interleave-duration-us".toList, "param-movie-time-scale".toList,
   "param-use-64bit-offset".toList, "audio-param-sampling-rate".toList,
   "audio-param-number-of-channels".toList, "audio-param-encoding-bitrate".toList,
   "audio-param-time-scale".toList, "video-param-encoding-bitrate".toList,
   "video-param-rotation-angle-degrees".toList, "video-param-i-frames-interval".toList,
   "video-param-encoder-profile".toList, "video-param-encoder-level".toList,
   "video-param-camera-id".toList, "video-param-time-scale".toList,
   "time-lapse-enable".toList]

/-- The kind of track a source of the writer becomes. -/
inductive Track where
  | video
  | audio
  deriving DecidableEq, Repr

/-- The kind of track of a MIME type. -/
def Mime.track : Mime → Track
  | .AUDIO_AMR_NB => .audio
  | .AUDIO_AMR_WB => .audio
  | .AUDIO_AAC => .audio
  | .VIDEO_H263 => .video
  | .VIDEO_MPEG4 => .video
  | .VIDEO_AVC => .video

/-- The kind of track an encoder feeds, read off the MIME type of its configuration
record; `none` when the record has no MIME type. -/
def OMXCodec.track (encoder : OMXCodec) : Option Track :=
  encoder.meta.kKeyMIMEType.map Mime.track

/-- The kinds of the sources added to the writer, in the order of the `addSource`
calls; `none` for a NULL source or one without MIME type. -/
def MediaWriter.tracks (w : MediaWriter) : List (Option Track) :=
  w.sources.map (fun source => source.bind OMXCodec.track)

/-- What `setupMPEG4Recording` returns for the camcorder configuration with the sample
collaborators. -/
def camcorderSetup : status_t × Int × StagefrightRecorder :=
  (StagefrightRecorder.setupMPEG4Recording platformEnums sampleProfiles sampleCollaborators
    camcorderConfig 5 176 144 192000).getD (status_t.UNKNOWN_ERROR, 0, camcorderConfig)

/-- The time-lapse flag is the same in both objects. -/
def sameTimeLapse (r r1 : StagefrightRecorder) : Prop :=
  r1.mCaptureTimeLapse = r.mCaptureTimeLapse

/-- A camera recording to a 3GPP file on descriptor 5 with a requested video bit rate of
50000000, above the 8000000 that the sample profile allows. -/
def highBitRateConfig : StagefrightRecorder :=
  { StagefrightRecorder.constructed platformEnums with
    mOutputFd := 5, mVideoSource := 1, mVideoBitRate := 50000000 }

/-- The bit rate in the configuration record of the first source of the writer that
`start` leaves, and the stored video bit rate, when `start` returns `OK`. -/
def startedBitRates (r : StagefrightRecorder) : Option (Option Int × Int) :=
  match r.start platformEnums sampleProfiles sampleCollaborators with
  | some (status_t.OK, r1) =>
    match r1.mWriter with
    | some w =>
      match w.sources with
      | some encoder :: _ => some (encoder.meta.kKeyBitRate, r1.mVideoBitRate)
      | _ => none
    | none => none
  | _ => none

/-- The collaborators of a camera recording all succeed: the battery service is found,
the camera source is created, initialises and reports a frame rate other than -1 and
the five format keys, the codec service connects, the video encoder is created, and the
writer starts and stops with `OK`. -/
def Collaborators.cameraRecordingSucceeds (c : Collaborators) : Prop :=
  c.playerServiceFound = true ∧ c.cameraSourceCreated = true ∧
    c.cameraSourceInitCheck = status_t.OK ∧
    c.sourceFrameRate ≠ none ∧ c.sourceFrameRate ≠ some (-1) ∧
    c.sourceWidth ≠ none ∧ c.sourceHeight ≠ none ∧ c.sourceStride ≠ none ∧
    c.sourceSliceHeight ≠ none ∧ c.sourceColorFormat ≠ none ∧
    c.videoClientConnect = status_t.OK ∧ c.videoEncoderCreated = true ∧
    c.writerStart = status_t.OK ∧ c.writerStop = status_t.OK

instance Collaborators.cameraRecordingSucceeds.decidable (c : Collaborators) :
    Decidable c.cameraRecordingSucceeds := by
  unfold Collaborators.cameraRecordingSucceeds
  exact inferInstance

/-- The calls that configure a video-only camera recording on a reset recorder: output
descriptor, 3GPP container, camera, H.263, 176x144; no frame rate and no audio source. -/
def videoOnlyCalls : List Op :=
  [Op.reset sampleCollaborators, Op.setOutputFile sampleCollaborators 7 0 0,
   Op.setter (SetterCall.setOutputFormat 1), Op.setter (SetterCall.setVideoSource 1),
   Op.setter (SetterCall.setVideoEncoder 1), Op.setter (SetterCall.setVideoSize 176 144)]

/-- The object after `videoOnlyCalls`. -/
def videoOnlyConfig : StagefrightRecorder :=
  (runOps platformEnums sampleProfiles (StagefrightRecorder.constructed platformEnums)
    videoOnlyCalls).getD (StagefrightRecorder.constructed platformEnums)


/-- The call neither releases the writer nor can leave the recorder without a valid
output descriptor: it is not `stop`, `close` or `reset`, and if it is `setOutputFile`
with a descriptor that is accepted, its `dup` succeeds. -/
def Op.keepsRecording : Op → Bool
  | .stop _ => false
  | .close _ => false
  | .reset _ => false
  | .setOutputFile c fd _ _ => decide (fd < 0) || c.dup.isSome
  | _ => true

/-- The calls between the two `start`s of the example: a typed setter, a parameter
string, a new output file whose `dup` succeeds, and `pause`. -/
def betweenStarts : List Op :=
  [Op.setter (SetterCall.setVideoFrameRate 30), Op.setParameters "max-filesize=2000000".toList,
   Op.setOutputFile sampleCollaborators 9 0 0, Op.pause sampleCollaborators]

/-- The started camcorder session after the calls `betweenStarts`. -/
def camcorderBetweenStarts : StagefrightRecorder :=
  (runOps platformEnums sampleProfiles startedCamcorder betweenStarts).getD startedCamcorder

/-- The started camcorder session after `setOutputFile` was called with a valid
descriptor and its `dup` failed. -/
def camcorderLostDescriptor : StagefrightRecorder :=
  (runOps platformEnums sampleProfiles startedCamcorder
    [Op.setOutputFile failingCollaborators 7 0 0]).getD startedCamcorder

/-! ## Theorems -/

open status_t StagefrightRecorder

/-- A typed setter that does not return OK hands back the object it was given. -/
theorem setterCall_run_fail (E : MediaEnums) (r : StagefrightRecorder) (c : SetterCall)
    (hfail : (c.run E r).1 ≠ OK) : (c.run E r).2 = r := by
  revert hfail
  cases c <;>
    simp only [SetterCall.run, setAudioSource, setVideoSource, setOutputFormat, setAudioEncoder,
      setVideoEncoder, setVideoSize, setVideoFrameRate, setParamAudioSamplingRate,
      setParamAudioNumberOfChannels, setParamAudioEncodingBitRate, setParamVideoEncodingBitRate,
      setParamVideoRotation, setParamMaxFileDurationUs, setParamMaxFileSizeBytes,
      setParamInterleaveDuration, setParamVideoIFramesInterval, setParam64BitFileOffset,
      setParamVideoCameraId, setParamTrackTimeStatus, setParamVideoEncoderProfile,
      setParamVideoEncoderLevel, setParamMovieTimeScale, setParamVideoTimeScale,
      setParamAudioTimeScale, setParamTimeLapseEnable, setParamTimeBetweenTimeLapseFrameCapture,
      setParamGeoDataLongitude, setParamGeoDataLatitude] <;>
    (try split_ifs) <;> simp

/-- C1. Every typed setter, for every argument value and every object state:
a non-OK return leaves the whole object exactly as it was before the call. -/
theorem setter_failure_leaves_state (E : MediaEnums) (r : StagefrightRecorder) (c : SetterCall)
    (hfail : (c.run E r).1 ≠ OK) : (c.run E r).2 = r :=
  setterCall_run_fail E r c hfail

/-- Witness for C1: `setVideoSize(640, 0)` on a freshly constructed recorder fails and
changes neither width nor height (nor anything else). -/
theorem setter_failure_leaves_state_witness :
    ((SetterCall.setVideoSize 640 0).run platformEnums (constructed platformEnums)).1 ≠ OK ∧
    ((SetterCall.setVideoSize 640 0).run platformEnums (constructed platformEnums)).2
      = constructed platformEnums :=
  ⟨by decide, setter_failure_leaves_state platformEnums (constructed platformEnums)
    (SetterCall.setVideoSize 640 0) (by decide)⟩

/-- The truncating remainder of the source agrees with the mathematical one on the
non-negative arguments that pass the sign check. -/
theorem tmod_eq_emod_of_nonneg (d m : Int) (hd : 0 ≤ d) (hm : 0 ≤ m) : Int.tmod d m = d % m :=
  Int.tmod_eq_emod hd hm

/-- C2. `setParamVideoRotation(d)` returns OK exactly when `d >= 0` and `d` is a
multiple of 90; on OK the stored rotation is `d mod 360`, one of 0, 90, 180, 270; on
failure the status is BAD_VALUE and the object (so the stored rotation) is unchanged. -/
theorem setParamVideoRotation_spec (r : StagefrightRecorder) (d : Int) :
    ((r.setParamVideoRotation d).1 = OK ↔ (0 ≤ d ∧ d % 90 = 0)) ∧
    ((r.setParamVideoRotation d).1 = OK →
      (r.setParamVideoRotation d).2.mRotationDegrees = d % 360 ∧
      ((r.setParamVideoRotation d).2.mRotationDegrees = 0 ∨
       (r.setParamVideoRotation d).2.mRotationDegrees = 90 ∨
       (r.setParamVideoRotation d).2.mRotationDegrees = 180 ∨
       (r.setParamVideoRotation d).2.mRotationDegrees = 270)) ∧
    ((r.setParamVideoRotation d).1 ≠ OK →
      (r.setParamVideoRotation d).1 = BAD_VALUE ∧
      (r.setParamVideoRotation d).2.mRotationDegrees = r.mRotationDegrees ∧
      (r.setParamVideoRotation d).2 = r) := by
  unfold setParamVideoRotation
  split_ifs with h
  · have hn : ¬ (0 ≤ d ∧ d % 90 = 0) := by
      rintro ⟨h0, h90⟩
      rcases h with h | h
      · omega
      · exact h (by rw [tmod_eq_emod_of_nonneg d 90 h0 (by decide)]; exact h90)
    exact ⟨⟨fun hok => (by cases hok), fun hc => absurd hc hn⟩, fun hok => (by cases hok),
      fun _ => ⟨rfl, rfl, rfl⟩⟩
  · have h0 : 0 ≤ d := by
      by_contra hneg
      exact h (Or.inl (by omega))
    have h90 : d % 90 = 0 := by
      by_contra hne
      exact h (Or.inr (by rw [tmod_eq_emod_of_nonneg d 90 h0 (by decide)]; exact hne))
    rw [tmod_eq_emod_of_nonneg d 360 h0 (by decide)]
    simp only [true_and, ne_eq, not_true_eq_false, false_implies, and_true, true_implies,
      true_iff]
    refine ⟨⟨h0, h90⟩, ?_⟩
    omega

/-- C3. `setParamMaxFileDurationUs(t)`: for `t <= 0` it returns OK and the stored
limit becomes 0; for `0 < t <= 100000` it returns BAD_VALUE and the object is
unchanged; for `t > 100000` it returns OK and the stored limit is `t`. -/
theorem setParamMaxFileDurationUs_spec (r : StagefrightRecorder) (t : Int) :
    (t ≤ 0 → (r.setParamMaxFileDurationUs t).1 = OK ∧
      (r.setParamMaxFileDurationUs t).2.mMaxFileDurationUs = 0) ∧
    (0 < t ∧ t ≤ 100000 → (r.setParamMaxFileDurationUs t).1 = BAD_VALUE ∧
      (r.setParamMaxFileDurationUs t).2.mMaxFileDurationUs = r.mMaxFileDurationUs ∧
      (r.setParamMaxFileDurationUs t).2 = r) ∧
    (100000 < t → (r.setParamMaxFileDurationUs t).1 = OK ∧
      (r.setParamMaxFileDurationUs t).2.mMaxFileDurationUs = t) := by
  unfold setParamMaxFileDurationUs
  refine ⟨fun h => ?_, fun h => ?_, fun h => ?_⟩
  · simp [h]
  · have h1 : ¬ t ≤ 0 := by omega
    simp [h1, h.2]
  · have h1 : ¬ t ≤ 0 := by omega
    have h2 : ¬ t ≤ 100000 := by omega
    simp [h1, h2]

/-- C4 as stated fails: -1 is a value other than 0 that is at most 1024, yet
`setParamMaxFileSizeBytes(-1)` returns OK (not BAD_VALUE) and overwrites a
stored limit of 4096 with 0. -/
theorem setParamMaxFileSizeBytes_negative_accepted :
    (-1 : Int) ≠ 0 ∧ (-1 : Int) ≤ 1024 ∧
    (({ constructed platformEnums with mMaxFileSizeBytes := 4096 } :
        StagefrightRecorder).setParamMaxFileSizeBytes (-1)).1 = OK ∧
    (({ constructed platformEnums with mMaxFileSizeBytes := 4096 } :
        StagefrightRecorder).setParamMaxFileSizeBytes (-1)).1 ≠ BAD_VALUE ∧
    (({ constructed platformEnums with mMaxFileSizeBytes := 4096 } :
        StagefrightRecorder).setParamMaxFileSizeBytes (-1)).2.mMaxFileSizeBytes = 0 := by
  decide

/-- C4 (amended). `setParamMaxFileSizeBytes(bytes)`: for `bytes <= 0` (zero or
negative) it returns OK and stores 0, the disabled limit; for `0 < bytes <= 1024` it
returns BAD_VALUE and leaves the object unchanged; for `bytes > 1024` it returns OK
and stores `bytes` as given. -/
theorem setParamMaxFileSizeBytes_spec (r : StagefrightRecorder) (bytes : Int) :
    (bytes ≤ 0 → (r.setParamMaxFileSizeBytes bytes).1 = OK ∧
      (r.setParamMaxFileSizeBytes bytes).2.mMaxFileSizeBytes = 0) ∧
    (0 < bytes ∧ bytes ≤ 1024 → (r.setParamMaxFileSizeBytes bytes).1 = BAD_VALUE ∧
      (r.setParamMaxFileSizeBytes bytes).2.mMaxFileSizeBytes = r.mMaxFileSizeBytes ∧
      (r.setParamMaxFileSizeBytes bytes).2 = r) ∧
    (1024 < bytes → (r.setParamMaxFileSizeBytes bytes).1 = OK ∧
      (r.setParamMaxFileSizeBytes bytes).2.mMaxFileSizeBytes = bytes) := by
  unfold setParamMaxFileSizeBytes
  refine ⟨fun h => ?_, fun h => ?_, fun h => ?_⟩
  · simp [h]
  · have h1 : ¬ bytes ≤ 0 := by omega
    simp [h1, h.2]
  · have h1 : ¬ bytes ≤ 0 := by omega
    have h2 : ¬ bytes ≤ 1024 := by omega
    simp [h1, h2]

/-- C5. `setParamInterleaveDuration(durationUs)` returns OK and stores the value
exactly when `500000 < durationUs < 10000000`; otherwise it returns BAD_VALUE and
the object (so the stored interleave duration) is unchanged. -/
theorem setParamInterleaveDuration_spec (r : StagefrightRecorder) (durationUs : Int) :
    ((r.setParamInterleaveDuration durationUs).1 = OK ↔
      (500000 < durationUs ∧ durationUs < 10000000)) ∧
    ((r.setParamInterleaveDuration durationUs).1 = OK →
      (r.setParamInterleaveDuration durationUs).2.mInterleaveDurationUs = durationUs) ∧
    ((r.setParamInterleaveDuration durationUs).1 ≠ OK →
      (r.setParamInterleaveDuration durationUs).1 = BAD_VALUE ∧
      (r.setParamInterleaveDuration durationUs).2.mInterleaveDurationUs
        = r.mInterleaveDurationUs ∧
      (r.setParamInterleaveDuration durationUs).2 = r) := by
  unfold setParamInterleaveDuration
  split_ifs with h1 h2
  · simp; omega
  · simp; omega
  · simp; omega

/-- C6. Each time-scale setter returns OK and stores the value exactly when the
value lies in its closed range (movie [600, 96000], video [600, 60000], audio
[600, 96000]); otherwise it returns BAD_VALUE and leaves the object unchanged. -/
theorem setParamTimeScale_spec (r : StagefrightRecorder) (timeScale : Int) :
    (((r.setParamMovieTimeScale timeScale).1 = OK ↔ (600 ≤ timeScale ∧ timeScale ≤ 96000)) ∧
     ((r.setParamMovieTimeScale timeScale).1 = OK →
        (r.setParamMovieTimeScale timeScale).2.mMovieTimeScale = timeScale) ∧
     ((r.setParamMovieTimeScale timeScale).1 ≠ OK →
        (r.setParamMovieTimeScale timeScale).1 = BAD_VALUE ∧
        (r.setParamMovieTimeScale timeScale).2.mMovieTimeScale = r.mMovieTimeScale ∧
        (r.setParamMovieTimeScale timeScale).2 = r)) ∧
    (((r.setParamVideoTimeScale timeScale).1 = OK ↔ (600 ≤ timeScale ∧ timeScale ≤ 60000)) ∧
     ((r.setParamVideoTimeScale timeScale).1 = OK →
        (r.setParamVideoTimeScale timeScale).2.mVideoTimeScale = timeScale) ∧
     ((r.setParamVideoTimeScale timeScale).1 ≠ OK →
        (r.setParamVideoTimeScale timeScale).1 = BAD_VALUE ∧
        (r.setParamVideoTimeScale timeScale).2.mVideoTimeScale = r.mVideoTimeScale ∧
        (r.setParamVideoTimeScale timeScale).2 = r)) ∧
    (((r.setParamAudioTimeScale timeScale).1 = OK ↔ (600 ≤ timeScale ∧ timeScale ≤ 96000)) ∧
     ((r.setParamAudioTimeScale timeScale).1 = OK →
        (r.setParamAudioTimeScale timeScale).2.mAudioTimeScale = timeScale) ∧
     ((r.setParamAudioTimeScale timeScale).1 ≠ OK →
        (r.setParamAudioTimeScale timeScale).1 = BAD_VALUE ∧
        (r.setParamAudioTimeScale timeScale).2.mAudioTimeScale = r.mAudioTimeScale ∧
        (r.setParamAudioTimeScale timeScale).2 = r)) := by
  unfold setParamMovieTimeScale setParamVideoTimeScale setParamAudioTimeScale
  refine ⟨?_, ?_, ?_⟩ <;> split_ifs with h <;> simp <;> omega

/-- C7. `setParamGeoDataLongitude(x)` returns OK and stores `x` exactly when
`-1800000 <= x <= 1800000`, `setParamGeoDataLatitude(x)` exactly when
`-900000 <= x <= 900000`; otherwise each returns BAD_VALUE and leaves the object
(so the stored coordinate) unchanged. -/
theorem setParamGeoData_spec (r : StagefrightRecorder) (x : Int) :
    (((r.setParamGeoDataLongitude x).1 = OK ↔ (-1800000 ≤ x ∧ x ≤ 1800000)) ∧
     ((r.setParamGeoDataLongitude x).1 = OK →
        (r.setParamGeoDataLongitude x).2.mLongitudex10000 = x) ∧
     ((r.setParamGeoDataLongitude x).1 ≠ OK →
        (r.setParamGeoDataLongitude x).1 = BAD_VALUE ∧
        (r.setParamGeoDataLongitude x).2.mLongitudex10000 = r.mLongitudex10000 ∧
        (r.setParamGeoDataLongitude x).2 = r)) ∧
    (((r.setParamGeoDataLatitude x).1 = OK ↔ (-900000 ≤ x ∧ x ≤ 900000)) ∧
     ((r.setParamGeoDataLatitude x).1 = OK →
        (r.setParamGeoDataLatitude x).2.mLatitudex10000 = x) ∧
     ((r.setParamGeoDataLatitude x).1 ≠ OK →
        (r.setParamGeoDataLatitude x).1 = BAD_VALUE ∧
        (r.setParamGeoDataLatitude x).2.mLatitudex10000 = r.mLatitudex10000 ∧
        (r.setParamGeoDataLatitude x).2 = r)) := by
  unfold setParamGeoDataLongitude setParamGeoDataLatitude
  refine ⟨?_, ?_⟩ <;> split_ifs with h <;> simp <;> omega

/-- C8. `setParamAudioNumberOfChannels(channels)` returns OK and stores the value
exactly when `channels` is 1 or 2; for every other value it returns BAD_VALUE and
the object (so the stored channel count) is unchanged. -/
theorem setParamAudioNumberOfChannels_spec (r : StagefrightRecorder) (channels : Int) :
    ((r.setParamAudioNumberOfChannels channels).1 = OK ↔ (channels = 1 ∨ channels = 2)) ∧
    ((r.setParamAudioNumberOfChannels channels).1 = OK →
      (r.setParamAudioNumberOfChannels channels).2.mAudioChannels = channels) ∧
    ((r.setParamAudioNumberOfChannels channels).1 ≠ OK →
      (r.setParamAudioNumberOfChannels channels).1 = BAD_VALUE ∧
      (r.setParamAudioNumberOfChannels channels).2.mAudioChannels = r.mAudioChannels ∧
      (r.setParamAudioNumberOfChannels channels).2 = r) := by
  unfold setParamAudioNumberOfChannels
  split_ifs with h <;> simp <;> omega

/-! ### The generic setter on a well-formed parameter string -/

/-- The first occurrence of `c` in `k ++ c :: rest` is right after `k` when `c` does
not occur in `k`. -/
theorem strchr_append_cons (c : Char) (k rest : List Char) (hk : c ∉ k) :
    strchr (k ++ c :: rest) c = some k.length := by
  induction k with
  | nil => simp [strchr]
  | cons x xs ih =>
    have hx : x ≠ c := fun h => hk (by simp [h])
    have hxs : c ∉ xs := fun h => hk (by simp [h])
    simp [strchr, hx, ih hxs]

/-- No occurrence of `c` in `v`: `strchr` gives NULL. -/
theorem strchr_eq_none (c : Char) (v : List Char) (hv : c ∉ v) : strchr v c = none := by
  induction v with
  | nil => rfl
  | cons x xs ih =>
    have hx : x ≠ c := fun h => hv (by simp [h])
    have hxs : c ∉ xs := fun h => hv (by simp [h])
    simp [strchr, hx, ih hxs]

/-- The offset `strchr` returns lies inside the string. -/
theorem strchr_lt (c : Char) (s : List Char) (i : Nat) (h : strchr s c = some i) :
    i < s.length := by
  induction s generalizing i with
  | nil => simp [strchr] at h
  | cons x xs ih =>
    unfold strchr at h
    split_ifs at h with hx
    · simp at h; subst h; simp
    · cases hr : strchr xs c with
      | none => simp [hr] at h
      | some j =>
        simp [hr] at h
        subst h
        have := ih j hr
        simp
        omega

/-- An iteration that continues leaves a strictly shorter string to read. -/
theorem setParametersBody_inr_length (r r' : StagefrightRecorder) (s s' : List Char)
    (h : setParametersBody r s = Sum.inr (r', s')) : s'.length < s.length := by
  unfold setParametersBody at h
  cases heq : strchr s '=' with
  | none => simp [heq] at h
  | some eq =>
    have hlt := strchr_lt '=' s eq heq
    simp only [heq] at h
    by_cases hkey : (TrimString (s.take eq)).length = 0
    · simp [hkey] at h
    · simp only [hkey, if_false] at h
      cases hsc : strchr (s.drop (eq + 1)) ';' with
      | none =>
        simp only [hsc] at h
        split_ifs at h
      | some sc =>
        simp only [hsc] at h
        split_ifs at h
        simp only [Sum.inr.injEq, Prod.mk.injEq] at h
        rw [← h.2]
        simp only [List.length_drop]
        omega

/-- The loop of `setParameters` does not depend on the iteration bound once the bound
exceeds the length of the string still to be read: the bound is never exhausted. -/
theorem setParametersLoop_fuel (n m : Nat) (r : StagefrightRecorder) (s : List Char)
    (hn : s.length < n) (hm : s.length < m) :
    setParametersLoop n r s = setParametersLoop m r s := by
  induction n generalizing m r s with
  | zero => omega
  | succ n ih =>
    cases m with
    | zero => omega
    | succ m =>
      unfold setParametersLoop
      cases hb : setParametersBody r s with
      | inl res => rfl
      | inr p =>
        obtain ⟨r', s'⟩ := p
        have hlen := setParametersBody_inr_length r r' s s' hb
        exact ih m r' s' (by omega) (by omega)

/-- The loop equation of `setParameters`: one pass through the body, then either
the returned result or `setParameters` again on the rest of the string. -/
theorem setParameters_unfold (r : StagefrightRecorder) (s : List Char) :
    r.setParameters s =
      match setParametersBody r s with
      | Sum.inl res => res
      | Sum.inr (r', s') => r'.setParameters s' := by
  unfold setParameters
  rw [setParametersLoop]
  cases hb : setParametersBody r s with
  | inl res => rfl
  | inr p =>
    obtain ⟨r', s'⟩ := p
    have hlen := setParametersBody_inr_length r r' s s' hb
    exact setParametersLoop_fuel _ _ r' s' (by omega) (by omega)

/-- `FailKeeps` passes through an `if`. -/
theorem FailKeeps_ite (r : StagefrightRecorder) (c : Prop) [Decidable c]
    (a b : status_t × StagefrightRecorder)
    (ha : FailKeeps r a) (hb : FailKeeps r b) : FailKeeps r (if c then a else b) := by
  split <;> assumption

/-- Every typed setter has the property `FailKeeps`. -/
theorem FailKeeps_run (r : StagefrightRecorder) (c : SetterCall) :
    FailKeeps r (c.run platformEnums r) :=
  setterCall_run_fail platformEnums r c

/-- The plain `return BAD_VALUE` has the property `FailKeeps`. -/
theorem FailKeeps_bad (r : StagefrightRecorder) : FailKeeps r (BAD_VALUE, r) := fun _ => rfl

/-- Every branch of `setParameter` has the property `FailKeeps`. -/
theorem FailKeeps_setParameter (r : StagefrightRecorder) (key value : List Char) :
   FailKeeps r (r.setParameter key value) := by
  unfold setParameter
  iterate 21
    apply FailKeeps_ite
    · split
      · first
        | exact FailKeeps_run r (.setParamMaxFileDurationUs _)
        | exact FailKeeps_run r (.setParamMaxFileSizeBytes _)
        | exact FailKeeps_run r (.setParamInterleaveDuration _)
        | exact FailKeeps_run r (.setParamMovieTimeScale _)
        | exact FailKeeps_run r (.setParam64BitFileOffset _)
        | exact FailKeeps_run r (.setParamGeoDataLongitude _)
        | exact FailKeeps_run r (.setParamGeoDataLatitude _)
        | exact FailKeeps_run r (.setParamTrackTimeStatus _)
        | exact FailKeeps_run r (.setParamAudioSamplingRate _)
        | exact FailKeeps_run r (.setParamAudioNumberOfChannels _)
        | exact FailKeeps_run r (.setParamAudioEncodingBitRate _)
        | exact FailKeeps_run r (.setParamAudioTimeScale _)
        | exact FailKeeps_run r (.setParamVideoEncodingBitRate _)
        | exact FailKeeps_run r (.setParamVideoRotation _)
        | exact FailKeeps_run r (.setParamVideoIFramesInterval _)
        | exact FailKeeps_run r (.setParamVideoEncoderProfile _)
        | exact FailKeeps_run r (.setParamVideoEncoderLevel _)
        | exact FailKeeps_run r (.setParamVideoCameraId _)
        | exact FailKeeps_run r (.setParamVideoTimeScale _)
        | exact FailKeeps_run r (.setParamTimeLapseEnable _)
        | exact FailKeeps_run r (.setParamTimeBetweenTimeLapseFrameCapture _)
      · exact FailKeeps_bad r
  exact FailKeeps_bad r

/-- The empty key matches no parameter name: `setParameter` rejects it. -/
theorem setParameter_nil (r : StagefrightRecorder) (value : List Char) :
    r.setParameter [] value = (BAD_VALUE, r) := rfl

/-- A `setParameter` call that does not return OK hands back the object it was given. -/
theorem setParameter_fail (r : StagefrightRecorder) (key value : List Char)
    (h : (r.setParameter key value).1 ≠ OK) : (r.setParameter key value).2 = r :=
  FailKeeps_setParameter r key value h

/-- The part of `k ++ c :: rest` before offset `|k|` is `k`. -/
theorem take_append_cons (k rest : List Char) (c : Char) :
    (k ++ c :: rest).take k.length = k := by
  induction k with
  | nil => rfl
  | cons x xs ih => simp [ih]

/-- The part of `k ++ c :: rest` after offset `|k|` is `rest`. -/
theorem drop_append_cons (k rest : List Char) (c : Char) :
    (k ++ c :: rest).drop (k.length + 1) = rest := by
  induction k with
  | nil => rfl
  | cons x xs ih => simp [ih]

/-- The body on the last entry `k=v` of a parameter string. -/
theorem setParametersBody_last (r : StagefrightRecorder) (e : List Char × List Char)
    (hk : '=' ∉ e.1) (hv : ';' ∉ e.2) :
    setParametersBody r (paramString [e]) =
      Sum.inl (if (r.setParameter (TrimString e.1) e.2).1 = OK
        then (OK, (r.setParameter (TrimString e.1) e.2).2) else (BAD_VALUE, r)) := by
  unfold setParametersBody
  simp only [paramString, strchr_append_cons '=' e.1 e.2 hk, take_append_cons,
    drop_append_cons, strchr_eq_none ';' e.2 hv]
  by_cases hkey : (TrimString e.1).length = 0
  · have hnil : TrimString e.1 = [] := List.length_eq_zero.mp hkey
    simp [hkey, hnil, setParameter_nil]
  · by_cases hok : (r.setParameter (TrimString e.1) e.2).1 = OK
    · simp [hkey, hok]
    · simp [hkey, hok, setParameter_fail r _ _ hok]

/-- The body on an entry `k=v;` that is followed by further entries. -/
theorem setParametersBody_more (r : StagefrightRecorder) (e e2 : List Char × List Char)
    (es : List (List Char × List Char)) (hk : '=' ∉ e.1) (hv : ';' ∉ e.2) :
    setParametersBody r (paramString (e :: e2 :: es)) =
      if (r.setParameter (TrimString e.1) e.2).1 = OK
        then Sum.inr ((r.setParameter (TrimString e.1) e.2).2, paramString (e2 :: es))
        else Sum.inl (BAD_VALUE, r) := by
  unfold setParametersBody
  simp only [paramString, strchr_append_cons '=' e.1 _ hk, take_append_cons,
    drop_append_cons, strchr_append_cons ';' e.2 _ hv]
  by_cases hkey : (TrimString e.1).length = 0
  · have hnil : TrimString e.1 = [] := List.length_eq_zero.mp hkey
    simp [hkey, hnil, setParameter_nil]
  · by_cases hok : (r.setParameter (TrimString e.1) e.2).1 = OK
    · simp [hkey, hok]
    · simp [hkey, hok, setParameter_fail r _ _ hok]

/-- On a well-formed parameter string `setParameters` applies the leading entries
(keys trimmed) that succeed and reports whether those were all of them. -/
theorem setParameters_okEntries (es : List (List Char × List Char)) (hne : es ≠ [])
    (hkey : ∀ e ∈ es, '=' ∉ e.1) (hval : ∀ e ∈ es, ';' ∉ e.2) (r : StagefrightRecorder) :
    r.setParameters (paramString es) =
      (if okEntries r (trimKeys es) = trimKeys es then OK else BAD_VALUE,
        applyEntries r (okEntries r (trimKeys es))) := by
  induction es generalizing r with
  | nil => exact absurd rfl hne
  | cons e es ih =>
    have hk : '=' ∉ e.1 := hkey e (by simp)
    have hv : ';' ∉ e.2 := hval e (by simp)
    rw [setParameters_unfold]
    cases es with
    | nil =>
      rw [setParametersBody_last r e hk hv]
      by_cases hok : (r.setParameter (TrimString e.1) e.2).1 = OK
      · simp [trimKeys, okEntries, applyEntries, hok]
      · simp [trimKeys, okEntries, applyEntries, hok]
    | cons e2 es =>
      rw [setParametersBody_more r e e2 es hk hv]
      by_cases hok : (r.setParameter (TrimString e.1) e.2).1 = OK
      · have ih' := ih (by simp) (fun x hx => hkey x (by simp [hx]))
          (fun x hx => hval x (by simp [hx])) (r.setParameter (TrimString e.1) e.2).2
        simp only [hok, if_true]
        rw [ih']
        simp [trimKeys, okEntries, applyEntries, hok]
      · simp [trimKeys, okEntries, applyEntries, hok]

/-- The status of the first entry. -/
theorem entryStatus_zero (r : StagefrightRecorder) (e : List Char × List Char)
    (es : List (List Char × List Char)) :
    entryStatus r (e :: es) 0 = (r.setParameter e.1 e.2).1 := rfl

/-- The status of a later entry, seen from the object the first entry left. -/
theorem entryStatus_succ (r : StagefrightRecorder) (e : List Char × List Char)
    (es : List (List Char × List Char)) (j : Nat) :
    entryStatus r (e :: es) (j + 1) = entryStatus (r.setParameter e.1 e.2).2 es j := rfl

/-- The successful leading entries are at most all entries. -/
theorem okEntries_length_le (es : List (List Char × List Char)) (r : StagefrightRecorder) :
    (okEntries r es).length ≤ es.length := by
  induction es generalizing r with
  | nil => simp [okEntries]
  | cons e es ih =>
    unfold okEntries
    split_ifs with hok
    · simpa using ih _
    · simp

/-- The successful leading entries are an initial segment of the entries. -/
theorem okEntries_eq_take (es : List (List Char × List Char)) (r : StagefrightRecorder) :
    okEntries r es = es.take (okEntries r es).length := by
  induction es generalizing r with
  | nil => simp [okEntries]
  | cons e es ih =>
    unfold okEntries
    split_ifs with hok
    · simpa using ih _
    · simp

/-- Every entry among the successful leading ones returns OK. -/
theorem okEntries_status (es : List (List Char × List Char)) (r : StagefrightRecorder)
    (j : Nat) (hj : j < (okEntries r es).length) : entryStatus r es j = OK := by
  induction es generalizing r j with
  | nil => simp [okEntries] at hj
  | cons e es ih =>
    unfold okEntries at hj
    split_ifs at hj with hok
    · cases j with
      | zero => rw [entryStatus_zero]; exact hok
      | succ j =>
        rw [entryStatus_succ]
        exact ih _ j (by simpa using hj)
    · simp at hj

/-- The entry right after the successful leading ones does not return OK. -/
theorem okEntries_first_fail (es : List (List Char × List Char)) (r : StagefrightRecorder)
    (h : (okEntries r es).length < es.length) :
    entryStatus r es (okEntries r es).length ≠ OK := by
  induction es generalizing r with
  | nil => simp at h
  | cons e es ih =>
    unfold okEntries at h ⊢
    split_ifs at h ⊢ with hok
    · simp only [List.length_cons] at h ⊢
      rw [entryStatus_succ]
      exact ih _ (by omega)
    · simpa [entryStatus_zero] using hok

/-- `TrimString` returns a key that neither starts nor ends with white space as it
is. -/
theorem TrimString_plainKey (k : List Char) (h : plainKey k = true) : TrimString k = k := by
  cases k with
  | nil => rfl
  | cons c cs =>
    have hhead : isspace c = false := by
      simp [plainKey] at h
      exact h.1
    have hlast : isspace ((c :: cs).getD cs.length (Char.ofNat 0)) = false := by
      have h2 : ((c :: cs).getLast?.any isspace) = false := by
        simp only [plainKey, Bool.and_eq_true, Bool.not_eq_true'] at h
        exact h.2
      rw [List.getLast?_eq_getElem?] at h2
      rw [List.getD_eq_getElem?_getD]
      have hidx : (c :: cs).length - 1 = cs.length := by simp
      rw [hidx] at h2
      have hlt : cs.length < (c :: cs).length := by simp
      rw [List.getElem?_eq_getElem hlt] at h2 ⊢
      simpa using h2
    have hlead : TrimString.leadingLoop (c :: cs) (c :: cs).length 0 = 0 := by
      show TrimString.leadingLoop (c :: cs) (cs.length + 1) 0 = 0
      unfold TrimString.leadingLoop
      rw [if_neg]
      intro hc
      have hc2 : isspace c = true := hc.2
      rw [hhead] at hc2
      exact absurd hc2 (by decide)
    have htrail : TrimString.trailingLoop (c :: cs) 0 (c :: cs).length = (c :: cs).length := by
      show TrimString.trailingLoop (c :: cs) 0 (cs.length + 1) = cs.length + 1
      unfold TrimString.trailingLoop
      rw [if_neg]
      intro hc
      rw [hlast] at hc
      exact absurd hc.2 (by decide)
    unfold TrimString
    simp only [hlead, htrail]
    simp

/-- Trimming changes nothing when every key is plain. -/
theorem trimKeys_plain (es : List (List Char × List Char))
    (h : ∀ e ∈ es, plainKey e.1 = true) : trimKeys es = es := by
  induction es with
  | nil => rfl
  | cons e es ih =>
    have he : TrimString e.1 = e.1 := TrimString_plainKey e.1 (h e (by simp))
    have ht : trimKeys es = es := ih (fun x hx => h x (by simp [hx]))
    unfold trimKeys at ht ⊢
    simp only [List.map_cons, he, ht]

/-- C9 (amended). For a parameter string `k1=v1;...;kn=vn` with `n >= 1`, no `=` in a
key and no `;` in a value: `setParameters` returns OK exactly when `setParameter`,
applied in order to the entries with each key trimmed of surrounding white space,
returns OK for every entry, and then all of them are applied; otherwise it returns
BAD_VALUE and the object is the one obtained by applying exactly the (trimmed)
entries before the first failing one.  When no key starts or ends with white space
the trimmed entries are the entries as written. -/
theorem setParameters_entries (r : StagefrightRecorder) (es : List (List Char × List Char))
    (hne : es ≠ []) (hkey : ∀ e ∈ es, '=' ∉ e.1) (hval : ∀ e ∈ es, ';' ∉ e.2) :
    ((r.setParameters (paramString es)).1 = OK ↔
      ∀ i, i < es.length → entryStatus r (trimKeys es) i = OK) ∧
    ((r.setParameters (paramString es)).1 = OK →
      (r.setParameters (paramString es)).2 = applyEntries r (trimKeys es)) ∧
    ((r.setParameters (paramString es)).1 ≠ OK →
      (r.setParameters (paramString es)).1 = BAD_VALUE ∧
      ∃ i, i < es.length ∧ (∀ j, j < i → entryStatus r (trimKeys es) j = OK) ∧
        entryStatus r (trimKeys es) i ≠ OK ∧
        (r.setParameters (paramString es)).2 = applyEntries r ((trimKeys es).take i)) ∧
    ((∀ e ∈ es, plainKey e.1 = true) → trimKeys es = es) := by
  rw [setParameters_okEntries es hne hkey hval r]
  have hlenT : (trimKeys es).length = es.length := by simp [trimKeys]
  have hle := okEntries_length_le (trimKeys es) r
  have htake := okEntries_eq_take (trimKeys es) r
  by_cases hall : okEntries r (trimKeys es) = trimKeys es
  · have hlen : (okEntries r (trimKeys es)).length = es.length := by rw [hall, hlenT]
    rw [if_pos hall, hall]
    refine ⟨⟨fun _ i hi => okEntries_status (trimKeys es) r i (by omega), fun _ => rfl⟩,
      fun _ => rfl, fun h => absurd rfl h, trimKeys_plain es⟩
  · have hlt : (okEntries r (trimKeys es)).length < es.length := by
      rcases Nat.lt_or_ge (okEntries r (trimKeys es)).length es.length with h | h
      · exact h
      · exfalso
        apply hall
        rw [htake, List.take_of_length_le (by omega)]
    have hfail := okEntries_first_fail (trimKeys es) r (by omega)
    rw [if_neg hall]
    dsimp only
    refine ⟨⟨fun h => (by cases h), fun h => absurd (h _ hlt) hfail⟩, fun h => (by cases h),
      fun _ => ?_, trimKeys_plain es⟩
    exact ⟨rfl, (okEntries r (trimKeys es)).length, hlt,
      fun j hj => okEntries_status (trimKeys es) r j hj, hfail, by rw [← htake]⟩

/-- Witness for C9: the string ` max-duration =5000;max-filesize=500` on a freshly
constructed recorder. -/
theorem setParameters_entries_witness :
    (sampleEntries ≠ [] ∧ (∀ e ∈ sampleEntries, '=' ∉ e.1) ∧
      (∀ e ∈ sampleEntries, ';' ∉ e.2)) ∧
    ((((constructed platformEnums).setParameters (paramString sampleEntries)).1 = OK ↔
      ∀ i, i < sampleEntries.length →
        entryStatus (constructed platformEnums) (trimKeys sampleEntries) i = OK) ∧
    (((constructed platformEnums).setParameters (paramString sampleEntries)).1 = OK →
      ((constructed platformEnums).setParameters (paramString sampleEntries)).2
        = applyEntries (constructed platformEnums) (trimKeys sampleEntries)) ∧
    (((constructed platformEnums).setParameters (paramString sampleEntries)).1 ≠ OK →
      ((constructed platformEnums).setParameters (paramString sampleEntries)).1 = BAD_VALUE ∧
      ∃ i, i < sampleEntries.length ∧
        (∀ j, j < i → entryStatus (constructed platformEnums) (trimKeys sampleEntries) j = OK) ∧
        entryStatus (constructed platformEnums) (trimKeys sampleEntries) i ≠ OK ∧
        ((constructed platformEnums).setParameters (paramString sampleEntries)).2
          = applyEntries (constructed platformEnums) ((trimKeys sampleEntries).take i)) ∧
    ((∀ e ∈ sampleEntries, plainKey e.1 = true) → trimKeys sampleEntries = sampleEntries)) :=
  ⟨⟨by decide, by decide, by decide⟩,
    setParameters_entries (constructed platformEnums) sampleEntries (by decide) (by decide)
      (by decide)⟩

/-- C9 as stated fails for a key with surrounding white space: for the one-entry
string ` max-duration=20000` (no `;` or `=` in key or value) `setParameters` returns
OK, while `setParameter(k1, v1)` with the key as written returns BAD_VALUE. -/
theorem setParameters_untrimmed_key :
    paramString [(" max-duration".toList, "20000".toList)] = " max-duration=20000".toList ∧
    ('=' ∉ " max-duration".toList ∧ ';' ∉ " max-duration".toList ∧
      '=' ∉ "20000".toList ∧ ';' ∉ "20000".toList) ∧
    ((constructed platformEnums).setParameters " max-duration=20000".toList).1 = OK ∧
    ((constructed platformEnums).setParameter " max-duration".toList "20000".toList).1
      = BAD_VALUE ∧
    entryStatus (constructed platformEnums) [(" max-duration".toList, "20000".toList)] 0
      = BAD_VALUE := by
  decide

/-- C10 as stated fails: on a freshly constructed recorder
`setParameters("max-filesize=500;max-duration=5000")` does return BAD_VALUE, but the
stored maximum file duration after the call is 0, not 5000000. -/
theorem setParameters_scenario_duration_not_applied :
    ((constructed platformEnums).setParameters
      "max-filesize=500;max-duration=5000".toList).1 = BAD_VALUE ∧
    ((constructed platformEnums).setParameters
      "max-filesize=500;max-duration=5000".toList).2.mMaxFileDurationUs = 0 ∧
    ((constructed platformEnums).setParameters
      "max-filesize=500;max-duration=5000".toList).2.mMaxFileDurationUs ≠ 5000000 := by
  decide

/-- C10 (amended). From the default configuration (any enumerator table),
`setParameters("max-filesize=500;max-duration=5000")` returns BAD_VALUE because
`setParamMaxFileSizeBytes(500)` is rejected, and `max-duration`, which comes after the
failing entry, has not been applied: the object is unchanged and the stored maximum
file duration is still 0.  With the entries in the other order,
`max-duration=5000;max-filesize=500`, the call also returns BAD_VALUE and the stored
maximum file duration is 5000000 us. -/
theorem setParameters_scenario (E : MediaEnums) :
    ((constructed E).setParamMaxFileSizeBytes 500).1 = BAD_VALUE ∧
    ((constructed E).setParameters "max-filesize=500;max-duration=5000".toList).1 = BAD_VALUE ∧
    ((constructed E).setParameters "max-filesize=500;max-duration=5000".toList).2
      = constructed E ∧
    ((constructed E).setParameters
      "max-filesize=500;max-duration=5000".toList).2.mMaxFileDurationUs = 0 ∧
    ((constructed E).setParameters "max-duration=5000;max-filesize=500".toList).1 = BAD_VALUE ∧
    ((constructed E).setParameters
      "max-duration=5000;max-filesize=500".toList).2.mMaxFileDurationUs = 5000000 :=
  ⟨rfl, rfl, rfl, rfl, rfl, rfl⟩

/-! ### Capability negotiation -/

/-- The source-shaped clamp is `max lo (min v hi)` when the bounds are ordered. -/
theorem clampLoHi_eq_max_min (lo hi v : Int) (h : lo ≤ hi) :
    clampLoHi lo hi v = max lo (min v hi) := by
  unfold clampLoHi
  split_ifs <;> omega

/-- Clamping a second time changes nothing when the bounds are ordered. -/
theorem clampLoHi_idem (lo hi v : Int) (h : lo ≤ hi) :
    clampLoHi lo hi (clampLoHi lo hi v) = clampLoHi lo hi v := by
  unfold clampLoHi
  split_ifs <;> omega

/-- A value inside the bounds is left alone. -/
theorem clampLoHi_of_mem (lo hi v : Int) (h1 : lo ≤ v) (h2 : v ≤ hi) : clampLoHi lo hi v = v := by
  unfold clampLoHi
  split_ifs <;> omega

/-- The two `if` statements of the audio `clip*` functions give `max lo (min v hi)`
when the bounds are ordered. -/
theorem clampTwoSteps_eq_max_min (lo hi v : Int) (h : lo ≤ hi) :
    clampTwoSteps lo hi v = max lo (min v hi) := by
  unfold clampTwoSteps
  split_ifs <;> omega

/-- Clamping the frame rate a second time changes nothing when the bounds are ordered. -/
theorem clampFrameRate_idem (lo hi v : Int) (h : lo ≤ hi) :
    clampFrameRate lo hi (clampFrameRate lo hi v) = clampFrameRate lo hi v := by
  unfold clampFrameRate
  split_ifs <;> omega

/-- A frame rate inside the bounds is left alone. -/
theorem clampFrameRate_of_mem (lo hi v : Int) (h1 : lo ≤ v) (h2 : v ≤ hi) :
    clampFrameRate lo hi v = v := by
  unfold clampFrameRate
  split_ifs <;> omega

/-- `clipVideoBitRate` writes the clamped bit rate and nothing else. -/
theorem clipVideoBitRate_eq (P : MediaProfiles) (r : StagefrightRecorder) :
    clipVideoBitRate P r = { r with mVideoBitRate :=
      (clampLoHi (P.getVideoEncoderParamByName "enc.vid.bps.min" r.mVideoEncoder)
        (P.getVideoEncoderParamByName "enc.vid.bps.max" r.mVideoEncoder) r.mVideoBitRate) } := by
  unfold clipVideoBitRate clampLoHi
  dsimp only
  split_ifs <;> rfl

/-- `clipVideoFrameRate` writes the clamped frame rate and nothing else. -/
theorem clipVideoFrameRate_eq (P : MediaProfiles) (r : StagefrightRecorder) :
    clipVideoFrameRate P r = { r with mFrameRate :=
      (clampFrameRate (P.getVideoEncoderParamByName "enc.vid.fps.min" r.mVideoEncoder)
        (P.getVideoEncoderParamByName "enc.vid.fps.max" r.mVideoEncoder) r.mFrameRate) } := by
  unfold clipVideoFrameRate clampFrameRate
  dsimp only
  split_ifs <;> rfl

/-- `clipVideoFrameWidth` writes the clamped width and nothing else. -/
theorem clipVideoFrameWidth_eq (P : MediaProfiles) (r : StagefrightRecorder) :
    clipVideoFrameWidth P r = { r with mVideoWidth :=
      (clampLoHi (P.getVideoEncoderParamByName "enc.vid.width.min" r.mVideoEncoder)
        (P.getVideoEncoderParamByName "enc.vid.width.max" r.mVideoEncoder) r.mVideoWidth) } := by
  unfold clipVideoFrameWidth clampLoHi
  dsimp only
  split_ifs <;> rfl

/-- `clipVideoFrameHeight` writes the clamped height and nothing else. -/
theorem clipVideoFrameHeight_eq (P : MediaProfiles) (r : StagefrightRecorder) :
    clipVideoFrameHeight P r = { r with mVideoHeight :=
      (clampLoHi (P.getVideoEncoderParamByName "enc.vid.height.min" r.mVideoEncoder)
        (P.getVideoEncoderParamByName "enc.vid.height.max" r.mVideoEncoder) r.mVideoHeight) } := by
  unfold clipVideoFrameHeight clampLoHi
  dsimp only
  split_ifs <;> rfl

/-- `setDefaultProfileIfNecessary` writes at most the video encoder profile: the
baseline profile when the configuration equals the low-quality camcorder profile and
that profile's video codec is H.264, the old value otherwise. -/
theorem setDefaultProfileIfNecessary_eq (E : MediaEnums) (P : MediaProfiles)
    (r : StagefrightRecorder) :
    setDefaultProfileIfNecessary E P r = { r with mVideoEncoderProfile :=
      (if matchesLowQualityProfile E P r ∧
          P.getCamcorderProfileParamByName "vid.codec" r.mCameraId E.CAMCORDER_QUALITY_LOW
            = E.VIDEO_ENCODER_H264
        then E.OMX_VIDEO_AVCProfileBaseline else r.mVideoEncoderProfile) } := by
  unfold setDefaultProfileIfNecessary matchesLowQualityProfile setParamVideoEncoderProfile
  dsimp only
  split_ifs
  all_goals first
    | rfl
    | (exfalso; tauto)

/-- The object the four video `clip*` functions leave, in the order
`checkVideoEncoderCapabilities` calls them. -/
theorem clipVideo_chain_eq (P : MediaProfiles) (r : StagefrightRecorder) :
    clipVideoFrameHeight P (clipVideoFrameWidth P (clipVideoFrameRate P (clipVideoBitRate P r)))
      = videoClamped P r := by
  rw [clipVideoBitRate_eq, clipVideoFrameRate_eq, clipVideoFrameWidth_eq, clipVideoFrameHeight_eq]
  rfl

/-- `clipAudioBitRate` writes the clamped bit rate and nothing else. -/
theorem clipAudioBitRate_eq (P : MediaProfiles) (r : StagefrightRecorder) :
    clipAudioBitRate P r = { r with mAudioBitRate :=
      (clampTwoSteps (P.getAudioEncoderParamByName "enc.aud.bps.min" r.mAudioEncoder)
        (P.getAudioEncoderParamByName "enc.aud.bps.max" r.mAudioEncoder) r.mAudioBitRate) } := by
  unfold clipAudioBitRate clampTwoSteps
  dsimp only
  split_ifs <;> rfl

/-- `clipAudioSampleRate` writes the clamped sample rate and nothing else. -/
theorem clipAudioSampleRate_eq (P : MediaProfiles) (r : StagefrightRecorder) :
    clipAudioSampleRate P r = { r with mSampleRate :=
      (clampTwoSteps (P.getAudioEncoderParamByName "enc.aud.hz.min" r.mAudioEncoder)
        (P.getAudioEncoderParamByName "enc.aud.hz.max" r.mAudioEncoder) r.mSampleRate) } := by
  unfold clipAudioSampleRate clampTwoSteps
  dsimp only
  split_ifs <;> rfl

/-- `clipNumberOfAudioChannels` writes the clamped channel count and nothing else. -/
theorem clipNumberOfAudioChannels_eq (P : MediaProfiles) (r : StagefrightRecorder) :
    clipNumberOfAudioChannels P r = { r with mAudioChannels :=
      (clampTwoSteps (P.getAudioEncoderParamByName "enc.aud.ch.min" r.mAudioEncoder)
        (P.getAudioEncoderParamByName "enc.aud.ch.max" r.mAudioEncoder) r.mAudioChannels) } := by
  unfold clipNumberOfAudioChannels clampTwoSteps
  dsimp only
  split_ifs <;> rfl

/-- The object the three audio `clip*` functions leave, in the order
`checkAudioEncoderCapabilities` calls them. -/
theorem clipAudio_chain_eq (P : MediaProfiles) (r : StagefrightRecorder) :
    clipNumberOfAudioChannels P (clipAudioSampleRate P (clipAudioBitRate P r))
      = audioClamped P r := by
  rw [clipAudioBitRate_eq, clipAudioSampleRate_eq, clipNumberOfAudioChannels_eq]
  rfl

/-- With time-lapse off `checkVideoEncoderCapabilities` clamps and then applies the
low-quality-profile rule. -/
theorem checkVideoEncoderCapabilities_off (E : MediaEnums) (P : MediaProfiles)
    (r : StagefrightRecorder) (h : r.mCaptureTimeLapse = false) :
    checkVideoEncoderCapabilities E P r
      = (OK, setDefaultProfileIfNecessary E P (videoClamped P r)) := by
  unfold checkVideoEncoderCapabilities
  rw [h, clipVideo_chain_eq]
  rfl

/-- With time-lapse on `checkVideoEncoderCapabilities` does nothing. -/
theorem checkVideoEncoderCapabilities_on (E : MediaEnums) (P : MediaProfiles)
    (r : StagefrightRecorder) (h : r.mCaptureTimeLapse = true) :
    checkVideoEncoderCapabilities E P r = (OK, r) := by
  unfold checkVideoEncoderCapabilities
  rw [h]
  rfl

/-- The audio check always clamps, whatever the time-lapse flag. -/
theorem checkAudioEncoderCapabilities_eq (P : MediaProfiles) (r : StagefrightRecorder) :
    checkAudioEncoderCapabilities P r = (OK, audioClamped P r) := by
  unfold checkAudioEncoderCapabilities
  rw [clipAudio_chain_eq]

/-- Clamping an already clamped configuration changes nothing when the four video
bounds are ordered. -/
theorem videoClamped_idem (P : MediaProfiles) (r : StagefrightRecorder)
    (hb : P.getVideoEncoderParamByName "enc.vid.bps.min" r.mVideoEncoder
      ≤ P.getVideoEncoderParamByName "enc.vid.bps.max" r.mVideoEncoder)
    (hf : P.getVideoEncoderParamByName "enc.vid.fps.min" r.mVideoEncoder
      ≤ P.getVideoEncoderParamByName "enc.vid.fps.max" r.mVideoEncoder)
    (hw : P.getVideoEncoderParamByName "enc.vid.width.min" r.mVideoEncoder
      ≤ P.getVideoEncoderParamByName "enc.vid.width.max" r.mVideoEncoder)
    (hh : P.getVideoEncoderParamByName "enc.vid.height.min" r.mVideoEncoder
      ≤ P.getVideoEncoderParamByName "enc.vid.height.max" r.mVideoEncoder) :
    videoClamped P (videoClamped P r) = videoClamped P r := by
  unfold videoClamped
  simp only [clampLoHi_idem _ _ _ hb, clampLoHi_idem _ _ _ hw, clampLoHi_idem _ _ _ hh,
    clampFrameRate_idem _ _ _ hf]

/-- Clamping changes nothing when the four video parameters are within their bounds. -/
theorem videoClamped_of_mem (P : MediaProfiles) (r : StagefrightRecorder)
    (hb1 : P.getVideoEncoderParamByName "enc.vid.bps.min" r.mVideoEncoder ≤ r.mVideoBitRate)
    (hb2 : r.mVideoBitRate ≤ P.getVideoEncoderParamByName "enc.vid.bps.max" r.mVideoEncoder)
    (hf1 : P.getVideoEncoderParamByName "enc.vid.fps.min" r.mVideoEncoder ≤ r.mFrameRate)
    (hf2 : r.mFrameRate ≤ P.getVideoEncoderParamByName "enc.vid.fps.max" r.mVideoEncoder)
    (hw1 : P.getVideoEncoderParamByName "enc.vid.width.min" r.mVideoEncoder ≤ r.mVideoWidth)
    (hw2 : r.mVideoWidth ≤ P.getVideoEncoderParamByName "enc.vid.width.max" r.mVideoEncoder)
    (hh1 : P.getVideoEncoderParamByName "enc.vid.height.min" r.mVideoEncoder ≤ r.mVideoHeight)
    (hh2 : r.mVideoHeight ≤ P.getVideoEncoderParamByName "enc.vid.height.max" r.mVideoEncoder) :
    videoClamped P r = r := by
  unfold videoClamped
  rw [clampLoHi_of_mem _ _ _ hb1 hb2, clampLoHi_of_mem _ _ _ hw1 hw2,
    clampLoHi_of_mem _ _ _ hh1 hh2, clampFrameRate_of_mem _ _ _ hf1 hf2]

/-- The low-quality-profile comparison does not read the video encoder profile. -/
theorem matchesLowQualityProfile_profile (E : MediaEnums) (P : MediaProfiles)
    (r : StagefrightRecorder) (p : Int) :
    matchesLowQualityProfile E P { r with mVideoEncoderProfile := p }
      ↔ matchesLowQualityProfile E P r := Iff.rfl

/-- C13. With time-lapse off and ordered bounds (min <= max) for the parameter in
question, `checkVideoEncoderCapabilities` leaves the video bit rate, frame width and
frame height, and `checkAudioEncoderCapabilities` leaves the audio bit rate, sample
rate and channel count, each equal to `max(min, min(v, max))` of its previous value
`v`; both return OK. -/
theorem capability_clamp (E : MediaEnums) (P : MediaProfiles) (r : StagefrightRecorder)
    (htl : r.mCaptureTimeLapse = false)
    (hvb : P.getVideoEncoderParamByName "enc.vid.bps.min" r.mVideoEncoder
      ≤ P.getVideoEncoderParamByName "enc.vid.bps.max" r.mVideoEncoder)
    (hvw : P.getVideoEncoderParamByName "enc.vid.width.min" r.mVideoEncoder
      ≤ P.getVideoEncoderParamByName "enc.vid.width.max" r.mVideoEncoder)
    (hvh : P.getVideoEncoderParamByName "enc.vid.height.min" r.mVideoEncoder
      ≤ P.getVideoEncoderParamByName "enc.vid.height.max" r.mVideoEncoder)
    (hab : P.getAudioEncoderParamByName "enc.aud.bps.min" r.mAudioEncoder
      ≤ P.getAudioEncoderParamByName "enc.aud.bps.max" r.mAudioEncoder)
    (hah : P.getAudioEncoderParamByName "enc.aud.hz.min" r.mAudioEncoder
      ≤ P.getAudioEncoderParamByName "enc.aud.hz.max" r.mAudioEncoder)
    (hac : P.getAudioEncoderParamByName "enc.aud.ch.min" r.mAudioEncoder
      ≤ P.getAudioEncoderParamByName "enc.aud.ch.max" r.mAudioEncoder) :
    (checkVideoEncoderCapabilities E P r).1 = OK ∧
    (checkVideoEncoderCapabilities E P r).2.mVideoBitRate
      = max (P.getVideoEncoderParamByName "enc.vid.bps.min" r.mVideoEncoder)
          (min r.mVideoBitRate (P.getVideoEncoderParamByName "enc.vid.bps.max" r.mVideoEncoder)) ∧
    (checkVideoEncoderCapabilities E P r).2.mVideoWidth
      = max (P.getVideoEncoderParamByName "enc.vid.width.min" r.mVideoEncoder)
          (min r.mVideoWidth (P.getVideoEncoderParamByName "enc.vid.width.max" r.mVideoEncoder)) ∧
    (checkVideoEncoderCapabilities E P r).2.mVideoHeight
      = max (P.getVideoEncoderParamByName "enc.vid.height.min" r.mVideoEncoder)
          (min r.mVideoHeight
            (P.getVideoEncoderParamByName "enc.vid.height.max" r.mVideoEncoder)) ∧
    (checkAudioEncoderCapabilities P r).1 = OK ∧
    (checkAudioEncoderCapabilities P r).2.mAudioBitRate
      = max (P.getAudioEncoderParamByName "enc.aud.bps.min" r.mAudioEncoder)
          (min r.mAudioBitRate (P.getAudioEncoderParamByName "enc.aud.bps.max" r.mAudioEncoder)) ∧
    (checkAudioEncoderCapabilities P r).2.mSampleRate
      = max (P.getAudioEncoderParamByName "enc.aud.hz.min" r.mAudioEncoder)
          (min r.mSampleRate (P.getAudioEncoderParamByName "enc.aud.hz.max" r.mAudioEncoder)) ∧
    (checkAudioEncoderCapabilities P r).2.mAudioChannels
      = max (P.getAudioEncoderParamByName "enc.aud.ch.min" r.mAudioEncoder)
          (min r.mAudioChannels
            (P.getAudioEncoderParamByName "enc.aud.ch.max" r.mAudioEncoder)) := by
  rw [checkVideoEncoderCapabilities_off E P r htl, setDefaultProfileIfNecessary_eq,
    checkAudioEncoderCapabilities_eq]
  refine ⟨rfl, ?_, ?_, ?_, rfl, ?_, ?_, ?_⟩
  · exact clampLoHi_eq_max_min _ _ _ hvb
  · exact clampLoHi_eq_max_min _ _ _ hvw
  · exact clampLoHi_eq_max_min _ _ _ hvh
  · exact clampTwoSteps_eq_max_min _ _ _ hab
  · exact clampTwoSteps_eq_max_min _ _ _ hah
  · exact clampTwoSteps_eq_max_min _ _ _ hac

/-- Witness for C13: the out-of-range sample configuration against the sample table. -/
theorem capability_clamp_witness :
    outOfRangeConfig.mCaptureTimeLapse = false ∧
    (checkVideoEncoderCapabilities platformEnums sampleProfiles outOfRangeConfig).1 = OK ∧
    (checkVideoEncoderCapabilities platformEnums sampleProfiles outOfRangeConfig).2.mVideoBitRate
      = max 64000 (min 10 8000000) ∧
    (checkVideoEncoderCapabilities platformEnums sampleProfiles outOfRangeConfig).2.mVideoWidth
      = max 176 (min 4000 1280) ∧
    (checkVideoEncoderCapabilities platformEnums sampleProfiles outOfRangeConfig).2.mVideoHeight
      = max 144 (min 2 720) ∧
    (checkAudioEncoderCapabilities sampleProfiles outOfRangeConfig).1 = OK ∧
    (checkAudioEncoderCapabilities sampleProfiles outOfRangeConfig).2.mAudioBitRate
      = max 8000 (min 500 96000) ∧
    (checkAudioEncoderCapabilities sampleProfiles outOfRangeConfig).2.mSampleRate
      = max 8000 (min 96000 48000) ∧
    (checkAudioEncoderCapabilities sampleProfiles outOfRangeConfig).2.mAudioChannels
      = max 1 (min 6 2) :=
  ⟨by decide, capability_clamp platformEnums sampleProfiles outOfRangeConfig (by decide)
    (by decide) (by decide) (by decide) (by decide) (by decide) (by decide)⟩

/-- C14 as stated fails for a capability table whose bounds are the wrong way round:
with a video bit-rate minimum of 200000 above the maximum of 100000, the first
`checkVideoEncoderCapabilities` on the default configuration (192000 bps) raises the
bit rate to 200000 and the second lowers it to 100000. -/
theorem checkVideoEncoderCapabilities_twice_differs :
    (checkVideoEncoderCapabilities platformEnums sampleProfilesInverted
      (constructed platformEnums)).2.mVideoBitRate = 200000 ∧
    (checkVideoEncoderCapabilities platformEnums sampleProfilesInverted
      (checkVideoEncoderCapabilities platformEnums sampleProfilesInverted
        (constructed platformEnums)).2).2.mVideoBitRate = 100000 ∧
    (checkVideoEncoderCapabilities platformEnums sampleProfilesInverted
      (checkVideoEncoderCapabilities platformEnums sampleProfilesInverted
        (constructed platformEnums)).2).2
      ≠ (checkVideoEncoderCapabilities platformEnums sampleProfilesInverted
        (constructed platformEnums)).2 := by
  decide

/-- C14 (amended). For every configuration and every capability table whose four
video bounds are ordered (min <= max for bit rate, frame rate, width and height of the
configured encoder), applying `checkVideoEncoderCapabilities` twice in a row gives
the same status and the same configuration as applying it once. -/
theorem checkVideoEncoderCapabilities_idempotent (E : MediaEnums) (P : MediaProfiles)
    (r : StagefrightRecorder)
    (hb : P.getVideoEncoderParamByName "enc.vid.bps.min" r.mVideoEncoder
      ≤ P.getVideoEncoderParamByName "enc.vid.bps.max" r.mVideoEncoder)
    (hf : P.getVideoEncoderParamByName "enc.vid.fps.min" r.mVideoEncoder
      ≤ P.getVideoEncoderParamByName "enc.vid.fps.max" r.mVideoEncoder)
    (hw : P.getVideoEncoderParamByName "enc.vid.width.min" r.mVideoEncoder
      ≤ P.getVideoEncoderParamByName "enc.vid.width.max" r.mVideoEncoder)
    (hh : P.getVideoEncoderParamByName "enc.vid.height.min" r.mVideoEncoder
      ≤ P.getVideoEncoderParamByName "enc.vid.height.max" r.mVideoEncoder) :
    checkVideoEncoderCapabilities E P (checkVideoEncoderCapabilities E P r).2
      = checkVideoEncoderCapabilities E P r := by
  cases htl : r.mCaptureTimeLapse with
  | true =>
    rw [checkVideoEncoderCapabilities_on E P r htl]
    exact checkVideoEncoderCapabilities_on E P r htl
  | false =>
    rw [checkVideoEncoderCapabilities_off E P r htl, setDefaultProfileIfNecessary_eq]
    have hidem := videoClamped_idem P r hb hf hw hh
    have htl2 : ({ videoClamped P r with mVideoEncoderProfile :=
        (if matchesLowQualityProfile E P (videoClamped P r) ∧
            P.getCamcorderProfileParamByName "vid.codec" (videoClamped P r).mCameraId
              E.CAMCORDER_QUALITY_LOW = E.VIDEO_ENCODER_H264
          then E.OMX_VIDEO_AVCProfileBaseline
          else (videoClamped P r).mVideoEncoderProfile) } : StagefrightRecorder).mCaptureTimeLapse
        = false := htl
    rw [checkVideoEncoderCapabilities_off E P _ htl2, setDefaultProfileIfNecessary_eq]
    have hcl : ∀ p : Int, videoClamped P { videoClamped P r with mVideoEncoderProfile := p }
        = { videoClamped P r with mVideoEncoderProfile := p } := by
      intro p
      have h1 : videoClamped P { videoClamped P r with mVideoEncoderProfile := p }
          = { videoClamped P (videoClamped P r) with mVideoEncoderProfile := p } := rfl
      rw [h1, hidem]
    rw [hcl]
    by_cases hm : matchesLowQualityProfile E P (videoClamped P r) ∧
        P.getCamcorderProfileParamByName "vid.codec" (videoClamped P r).mCameraId
          E.CAMCORDER_QUALITY_LOW = E.VIDEO_ENCODER_H264
    · have hm2 : matchesLowQualityProfile E P
          { videoClamped P r with mVideoEncoderProfile := E.OMX_VIDEO_AVCProfileBaseline } ∧
          P.getCamcorderProfileParamByName "vid.codec" (videoClamped P r).mCameraId
            E.CAMCORDER_QUALITY_LOW = E.VIDEO_ENCODER_H264 := hm
      simp only [if_pos hm]
      try rw [if_pos hm2]
    · have hm2 : ¬ (matchesLowQualityProfile E P
          { videoClamped P r with mVideoEncoderProfile := (videoClamped P r).mVideoEncoderProfile } ∧
          P.getCamcorderProfileParamByName "vid.codec" (videoClamped P r).mCameraId
            E.CAMCORDER_QUALITY_LOW = E.VIDEO_ENCODER_H264) := hm
      simp only [if_neg hm]
      try rw [if_neg hm2]

/-- Witness for C14 (amended): the out-of-range sample configuration against the
sample table. -/
theorem checkVideoEncoderCapabilities_idempotent_witness :
    checkVideoEncoderCapabilities platformEnums sampleProfiles
        (checkVideoEncoderCapabilities platformEnums sampleProfiles outOfRangeConfig).2
      = checkVideoEncoderCapabilities platformEnums sampleProfiles outOfRangeConfig :=
  checkVideoEncoderCapabilities_idempotent platformEnums sampleProfiles outOfRangeConfig
    (by decide) (by decide) (by decide) (by decide)

/-- C15 as stated fails: `lowQualityConfig` has its video bit rate, frame rate, width
and height inside the bounds of the sample table and time-lapse off, yet
`checkVideoEncoderCapabilities` changes it: the video encoder profile goes from -1
(unset) to the baseline profile, because the configuration equals the low-quality
camcorder profile with H.264 video. -/
theorem checkVideoEncoderCapabilities_in_range_changes :
    (64000 ≤ lowQualityConfig.mVideoBitRate ∧ lowQualityConfig.mVideoBitRate ≤ 8000000 ∧
      1 ≤ lowQualityConfig.mFrameRate ∧ lowQualityConfig.mFrameRate ≤ 30 ∧
      176 ≤ lowQualityConfig.mVideoWidth ∧ lowQualityConfig.mVideoWidth ≤ 1280 ∧
      144 ≤ lowQualityConfig.mVideoHeight ∧ lowQualityConfig.mVideoHeight ≤ 720) ∧
    lowQualityConfig.mVideoEncoderProfile = -1 ∧
    (checkVideoEncoderCapabilities platformEnums sampleProfiles
      lowQualityConfig).2.mVideoEncoderProfile = platformEnums.OMX_VIDEO_AVCProfileBaseline ∧
    (checkVideoEncoderCapabilities platformEnums sampleProfiles lowQualityConfig).2
      ≠ lowQualityConfig := by
  decide

/-- C15 (amended). For every configuration whose video bit rate, frame rate, width and
height lie within the table's [min, max], `checkVideoEncoderCapabilities` returns OK
and leaves every part of the configuration other than the video encoder profile
unchanged; the whole configuration is unchanged when time-lapse is on, when the
configuration differs from the low-quality camcorder profile, or when that profile's
video codec is not H.264; otherwise the video encoder profile becomes the baseline
profile. -/
theorem checkVideoEncoderCapabilities_in_range (E : MediaEnums) (P : MediaProfiles)
    (r : StagefrightRecorder)
    (hb1 : P.getVideoEncoderParamByName "enc.vid.bps.min" r.mVideoEncoder ≤ r.mVideoBitRate)
    (hb2 : r.mVideoBitRate ≤ P.getVideoEncoderParamByName "enc.vid.bps.max" r.mVideoEncoder)
    (hf1 : P.getVideoEncoderParamByName "enc.vid.fps.min" r.mVideoEncoder ≤ r.mFrameRate)
    (hf2 : r.mFrameRate ≤ P.getVideoEncoderParamByName "enc.vid.fps.max" r.mVideoEncoder)
    (hw1 : P.getVideoEncoderParamByName "enc.vid.width.min" r.mVideoEncoder ≤ r.mVideoWidth)
    (hw2 : r.mVideoWidth ≤ P.getVideoEncoderParamByName "enc.vid.width.max" r.mVideoEncoder)
    (hh1 : P.getVideoEncoderParamByName "enc.vid.height.min" r.mVideoEncoder ≤ r.mVideoHeight)
    (hh2 : r.mVideoHeight ≤ P.getVideoEncoderParamByName "enc.vid.height.max" r.mVideoEncoder) :
    (checkVideoEncoderCapabilities E P r).1 = OK ∧
    (checkVideoEncoderCapabilities E P r).2
      = { r with mVideoEncoderProfile :=
            (checkVideoEncoderCapabilities E P r).2.mVideoEncoderProfile } ∧
    ((r.mCaptureTimeLapse = true ∨ ¬ matchesLowQualityProfile E P r ∨
        P.getCamcorderProfileParamByName "vid.codec" r.mCameraId E.CAMCORDER_QUALITY_LOW
          ≠ E.VIDEO_ENCODER_H264) →
      (checkVideoEncoderCapabilities E P r).2 = r) ∧
    ((r.mCaptureTimeLapse = false ∧ matchesLowQualityProfile E P r ∧
        P.getCamcorderProfileParamByName "vid.codec" r.mCameraId E.CAMCORDER_QUALITY_LOW
          = E.VIDEO_ENCODER_H264) →
      (checkVideoEncoderCapabilities E P r).2.mVideoEncoderProfile
        = E.OMX_VIDEO_AVCProfileBaseline) := by
  by_cases htl : r.mCaptureTimeLapse = true
  · rw [checkVideoEncoderCapabilities_on E P r htl]
    dsimp only
    exact ⟨rfl, rfl, fun _ => rfl, fun h => absurd (htl.symm.trans h.1) (by decide)⟩
  · have htl' : r.mCaptureTimeLapse = false := Bool.eq_false_iff.mpr htl
    rw [checkVideoEncoderCapabilities_off E P r htl', setDefaultProfileIfNecessary_eq,
      videoClamped_of_mem P r hb1 hb2 hf1 hf2 hw1 hw2 hh1 hh2]
    dsimp only
    refine ⟨rfl, rfl, fun h => ?_, fun h => ?_⟩
    · have hn : ¬ (matchesLowQualityProfile E P r ∧
          P.getCamcorderProfileParamByName "vid.codec" r.mCameraId E.CAMCORDER_QUALITY_LOW
            = E.VIDEO_ENCODER_H264) := by
        rintro ⟨hm, hc⟩
        rcases h with h | h | h
        · exact htl h
        · exact h hm
        · exact h hc
      simp only [if_neg hn]
    · have hp : matchesLowQualityProfile E P r ∧
          P.getCamcorderProfileParamByName "vid.codec" r.mCameraId E.CAMCORDER_QUALITY_LOW
            = E.VIDEO_ENCODER_H264 := h.2
      simp only [if_pos hp]

/-- Witness for C15 (amended): the default configuration with a frame rate of 20
against the sample table. -/
theorem checkVideoEncoderCapabilities_in_range_witness :
    (checkVideoEncoderCapabilities platformEnums sampleProfiles lowQualityConfigH263).1 = OK ∧
    (checkVideoEncoderCapabilities platformEnums sampleProfiles lowQualityConfigH263).2
      = { lowQualityConfigH263 with mVideoEncoderProfile :=
            (checkVideoEncoderCapabilities platformEnums sampleProfiles
              lowQualityConfigH263).2.mVideoEncoderProfile } ∧
    ((lowQualityConfigH263.mCaptureTimeLapse = true ∨
        ¬ matchesLowQualityProfile platformEnums sampleProfiles lowQualityConfigH263 ∨
        sampleProfiles.getCamcorderProfileParamByName "vid.codec" lowQualityConfigH263.mCameraId
          platformEnums.CAMCORDER_QUALITY_LOW ≠ platformEnums.VIDEO_ENCODER_H264) →
      (checkVideoEncoderCapabilities platformEnums sampleProfiles lowQualityConfigH263).2
        = lowQualityConfigH263) ∧
    ((lowQualityConfigH263.mCaptureTimeLapse = false ∧
        matchesLowQualityProfile platformEnums sampleProfiles lowQualityConfigH263 ∧
        sampleProfiles.getCamcorderProfileParamByName "vid.codec" lowQualityConfigH263.mCameraId
          platformEnums.CAMCORDER_QUALITY_LOW = platformEnums.VIDEO_ENCODER_H264) →
      (checkVideoEncoderCapabilities platformEnums sampleProfiles
        lowQualityConfigH263).2.mVideoEncoderProfile
        = platformEnums.OMX_VIDEO_AVCProfileBaseline) :=
  checkVideoEncoderCapabilities_in_range platformEnums sampleProfiles lowQualityConfigH263
    (by decide) (by decide) (by decide) (by decide) (by decide) (by decide) (by decide)
    (by decide)

/-- C16. With time-lapse capture enabled `checkVideoEncoderCapabilities` returns OK and
leaves the whole configuration unchanged, for every capability table and every
requested bit rate, frame rate, width and height. -/
theorem checkVideoEncoderCapabilities_timelapse (E : MediaEnums) (P : MediaProfiles)
    (r : StagefrightRecorder) (htl : r.mCaptureTimeLapse = true) :
    (checkVideoEncoderCapabilities E P r).1 = OK ∧ (checkVideoEncoderCapabilities E P r).2 = r := by
  rw [checkVideoEncoderCapabilities_on E P r htl]
  exact ⟨rfl, rfl⟩

/-- Witness for C16: every video parameter out of range, time-lapse on. -/
theorem checkVideoEncoderCapabilities_timelapse_witness :
    outOfRangeTimeLapseConfig.mCaptureTimeLapse = true ∧
    (checkVideoEncoderCapabilities platformEnums sampleProfiles outOfRangeTimeLapseConfig).1
      = OK ∧
    (checkVideoEncoderCapabilities platformEnums sampleProfiles outOfRangeTimeLapseConfig).2
      = outOfRangeTimeLapseConfig :=
  ⟨by decide, checkVideoEncoderCapabilities_timelapse platformEnums sampleProfiles
    outOfRangeTimeLapseConfig (by decide)⟩

/-- C17 as stated fails: with time-lapse capture enabled and the audio parameters out
of range (500 bps, 96000 Hz, 6 channels against 8000..96000, 8000..48000, 1..2),
`checkAudioEncoderCapabilities` changes all three (to 8000, 48000 and 2). -/
theorem checkAudioEncoderCapabilities_timelapse_clamps :
    outOfRangeTimeLapseConfig.mCaptureTimeLapse = true ∧
    (outOfRangeTimeLapseConfig.mAudioBitRate = 500 ∧
      outOfRangeTimeLapseConfig.mSampleRate = 96000 ∧
      outOfRangeTimeLapseConfig.mAudioChannels = 6) ∧
    (checkAudioEncoderCapabilities sampleProfiles outOfRangeTimeLapseConfig).2.mAudioBitRate
      = 8000 ∧
    (checkAudioEncoderCapabilities sampleProfiles outOfRangeTimeLapseConfig).2.mSampleRate
      = 48000 ∧
    (checkAudioEncoderCapabilities sampleProfiles outOfRangeTimeLapseConfig).2.mAudioChannels
      = 2 := by
  decide

/-- C17 (amended). `checkAudioEncoderCapabilities` does not read the time-lapse flag:
also with time-lapse capture enabled it returns OK and clamps, so that for ordered
bounds the audio bit rate, sample rate and channel count each become
`max(min, min(v, max))` of the previous value; the time-lapse flag itself is left as
it was. -/
theorem checkAudioEncoderCapabilities_timelapse (P : MediaProfiles) (r : StagefrightRecorder)
    (htl : r.mCaptureTimeLapse = true)
    (hab : P.getAudioEncoderParamByName "enc.aud.bps.min" r.mAudioEncoder
      ≤ P.getAudioEncoderParamByName "enc.aud.bps.max" r.mAudioEncoder)
    (hah : P.getAudioEncoderParamByName "enc.aud.hz.min" r.mAudioEncoder
      ≤ P.getAudioEncoderParamByName "enc.aud.hz.max" r.mAudioEncoder)
    (hac : P.getAudioEncoderParamByName "enc.aud.ch.min" r.mAudioEncoder
      ≤ P.getAudioEncoderParamByName "enc.aud.ch.max" r.mAudioEncoder) :
    (checkAudioEncoderCapabilities P r).1 = OK ∧
    (checkAudioEncoderCapabilities P r).2.mCaptureTimeLapse = true ∧
    (checkAudioEncoderCapabilities P r).2.mAudioBitRate
      = max (P.getAudioEncoderParamByName "enc.aud.bps.min" r.mAudioEncoder)
          (min r.mAudioBitRate (P.getAudioEncoderParamByName "enc.aud.bps.max" r.mAudioEncoder)) ∧
    (checkAudioEncoderCapabilities P r).2.mSampleRate
      = max (P.getAudioEncoderParamByName "enc.aud.hz.min" r.mAudioEncoder)
          (min r.mSampleRate (P.getAudioEncoderParamByName "enc.aud.hz.max" r.mAudioEncoder)) ∧
    (checkAudioEncoderCapabilities P r).2.mAudioChannels
      = max (P.getAudioEncoderParamByName "enc.aud.ch.min" r.mAudioEncoder)
          (min r.mAudioChannels
            (P.getAudioEncoderParamByName "enc.aud.ch.max" r.mAudioEncoder)) := by
  rw [checkAudioEncoderCapabilities_eq]
  exact ⟨rfl, htl, clampTwoSteps_eq_max_min _ _ _ hab, clampTwoSteps_eq_max_min _ _ _ hah,
    clampTwoSteps_eq_max_min _ _ _ hac⟩

/-- Witness for C17 (amended): the out-of-range configuration with time-lapse on. -/
theorem checkAudioEncoderCapabilities_timelapse_witness :
    (checkAudioEncoderCapabilities sampleProfiles outOfRangeTimeLapseConfig).1 = OK ∧
    (checkAudioEncoderCapabilities sampleProfiles outOfRangeTimeLapseConfig).2.mCaptureTimeLapse
      = true ∧
    (checkAudioEncoderCapabilities sampleProfiles outOfRangeTimeLapseConfig).2.mAudioBitRate
      = max 8000 (min 500 96000) ∧
    (checkAudioEncoderCapabilities sampleProfiles outOfRangeTimeLapseConfig).2.mSampleRate
      = max 8000 (min 96000 48000) ∧
    (checkAudioEncoderCapabilities sampleProfiles outOfRangeTimeLapseConfig).2.mAudioChannels
      = max 1 (min 6 2) :=
  checkAudioEncoderCapabilities_timelapse sampleProfiles outOfRangeTimeLapseConfig (by decide)
    (by decide) (by decide) (by decide)

/-- C18 as stated fails when the low-quality camcorder profile uses a codec other than
H.264: `lowQualityConfigH263` has time-lapse off and, after clamping, equals the
low-quality profile of `sampleProfilesH263` in all eleven components, yet the video
encoder profile stays -1 and is not the baseline profile. -/
theorem checkVideoEncoderCapabilities_h263_not_forced :
    lowQualityConfigH263.mCaptureTimeLapse = false ∧
    matchesLowQualityProfile platformEnums sampleProfilesH263
      (checkVideoEncoderCapabilities platformEnums sampleProfilesH263 lowQualityConfigH263).2 ∧
    (checkVideoEncoderCapabilities platformEnums sampleProfilesH263
      lowQualityConfigH263).2.mVideoEncoderProfile = -1 ∧
    (checkVideoEncoderCapabilities platformEnums sampleProfilesH263
      lowQualityConfigH263).2.mVideoEncoderProfile
      ≠ platformEnums.OMX_VIDEO_AVCProfileBaseline := by
  decide

/-- C18 (amended). With time-lapse off: when the configuration after clamping equals
the low-quality camcorder profile of the current camera id in all eleven components
and its video codec is H.264, `checkVideoEncoderCapabilities` sets the video encoder
profile to the baseline profile; when the tuple differs in any component, or the
video codec is not H.264, the video encoder profile is left unchanged. -/
theorem checkVideoEncoderCapabilities_baseline (E : MediaEnums) (P : MediaProfiles)
    (r : StagefrightRecorder) (htl : r.mCaptureTimeLapse = false) :
    ((matchesLowQualityProfile E P (checkVideoEncoderCapabilities E P r).2 ∧
        (checkVideoEncoderCapabilities E P r).2.mVideoEncoder = E.VIDEO_ENCODER_H264) →
      (checkVideoEncoderCapabilities E P r).2.mVideoEncoderProfile
        = E.OMX_VIDEO_AVCProfileBaseline) ∧
    (¬ (matchesLowQualityProfile E P (checkVideoEncoderCapabilities E P r).2 ∧
        (checkVideoEncoderCapabilities E P r).2.mVideoEncoder = E.VIDEO_ENCODER_H264) →
      (checkVideoEncoderCapabilities E P r).2.mVideoEncoderProfile = r.mVideoEncoderProfile) := by
  rw [checkVideoEncoderCapabilities_off E P r htl, setDefaultProfileIfNecessary_eq]
  have hiff : ∀ p : Int,
      (matchesLowQualityProfile E P { videoClamped P r with mVideoEncoderProfile := p } ∧
        ({ videoClamped P r with mVideoEncoderProfile := p } : StagefrightRecorder).mVideoEncoder
          = E.VIDEO_ENCODER_H264) ↔
      (matchesLowQualityProfile E P (videoClamped P r) ∧
        P.getCamcorderProfileParamByName "vid.codec" (videoClamped P r).mCameraId
          E.CAMCORDER_QUALITY_LOW = E.VIDEO_ENCODER_H264) := by
    intro p
    constructor
    · rintro ⟨hm, hc⟩
      have hm' : matchesLowQualityProfile E P (videoClamped P r) := hm
      have hcodec : P.getCamcorderProfileParamByName "vid.codec" (videoClamped P r).mCameraId
          E.CAMCORDER_QUALITY_LOW = (videoClamped P r).mVideoEncoder := hm'.2.2.1
      exact ⟨hm', hcodec.trans hc⟩
    · rintro ⟨hm, hc⟩
      have hcodec : P.getCamcorderProfileParamByName "vid.codec" (videoClamped P r).mCameraId
          E.CAMCORDER_QUALITY_LOW = (videoClamped P r).mVideoEncoder := hm.2.2.1
      exact ⟨hm, hcodec.symm.trans hc⟩
  dsimp only
  constructor
  · intro h
    rw [if_pos ((hiff _).mp h)]
  · intro h
    rw [if_neg (fun hp => h ((hiff _).mpr hp))]
    rfl

/-- Witness for C18 (amended): the low-quality sample configuration with H.264. -/
theorem checkVideoEncoderCapabilities_baseline_witness :
    lowQualityConfig.mCaptureTimeLapse = false ∧
    ((matchesLowQualityProfile platformEnums sampleProfiles
          (checkVideoEncoderCapabilities platformEnums sampleProfiles lowQualityConfig).2 ∧
        (checkVideoEncoderCapabilities platformEnums sampleProfiles
          lowQualityConfig).2.mVideoEncoder = platformEnums.VIDEO_ENCODER_H264) →
      (checkVideoEncoderCapabilities platformEnums sampleProfiles
        lowQualityConfig).2.mVideoEncoderProfile = platformEnums.OMX_VIDEO_AVCProfileBaseline) ∧
    (¬ (matchesLowQualityProfile platformEnums sampleProfiles
          (checkVideoEncoderCapabilities platformEnums sampleProfiles lowQualityConfig).2 ∧
        (checkVideoEncoderCapabilities platformEnums sampleProfiles
          lowQualityConfig).2.mVideoEncoder = platformEnums.VIDEO_ENCODER_H264) →
      (checkVideoEncoderCapabilities platformEnums sampleProfiles
        lowQualityConfig).2.mVideoEncoderProfile = lowQualityConfig.mVideoEncoderProfile) :=
  ⟨by decide,
    checkVideoEncoderCapabilities_baseline platformEnums sampleProfiles lowQualityConfig
      (by decide)⟩

/-! ### White space around keys and malformed parameter strings -/

/-- Reading inside the first part of an appended string. -/
theorem getD_append_left (a b : List Char) (i : Nat) (d : Char) (h : i < a.length) :
    (a ++ b).getD i d = a.getD i d := by
  rw [List.getD_eq_getElem?_getD, List.getD_eq_getElem?_getD, List.getElem?_append_left h]

/-- Reading inside the second part of an appended string. -/
theorem getD_append_right (a b : List Char) (i : Nat) (d : Char) :
    (a ++ b).getD (a.length + i) d = b.getD i d := by
  rw [List.getD_eq_getElem?_getD, List.getD_eq_getElem?_getD,
    List.getElem?_append_right (by omega)]
  simp

/-- A character of an all-white-space string read through `getD`. -/
theorem isspace_getD_of_all (w : List Char) (hw : ∀ c ∈ w, isspace c = true) (i : Nat)
    (d : Char) (h : i < w.length) : isspace (w.getD i d) = true := by
  rw [List.getD_eq_getElem?_getD, List.getElem?_eq_getElem h]
  exact hw _ (List.getElem_mem h)

/-- The first loop of `TrimString` stops right after a leading run `w` of white space
when what follows is empty or starts with another character. -/
theorem leadingLoop_spaces (w rest : List Char) (hw : ∀ c ∈ w, isspace c = true)
    (hrest : rest = [] ∨ isspace (rest.getD 0 (Char.ofNat 0)) = false)
    (fuel l : Nat) (hl : l ≤ w.length) (hfuel : w.length - l ≤ fuel) :
    TrimString.leadingLoop (w ++ rest) fuel l = w.length := by
  induction fuel generalizing l with
  | zero =>
    unfold TrimString.leadingLoop
    omega
  | succ fuel ih =>
    unfold TrimString.leadingLoop
    by_cases hlt : l < w.length
    · have hsp : isspace ((w ++ rest).getD l (Char.ofNat 0)) = true := by
        rw [getD_append_left w rest l _ hlt]
        exact isspace_getD_of_all w hw l _ hlt
      have hlen : l < (w ++ rest).length := by
        rw [List.length_append]
        omega
      rw [if_pos ⟨hlen, hsp⟩]
      exact ih (l + 1) (by omega) (by omega)
    · have hl' : l = w.length := by omega
      subst hl'
      rw [if_neg]
      rintro ⟨hlen, hsp⟩
      rcases hrest with hr | hr
      · subst hr
        simp at hlen
      · have h0 := getD_append_right w rest 0 (Char.ofNat 0)
        rw [Nat.add_zero] at h0
        rw [h0, hr] at hsp
        exact absurd hsp (by decide)

/-- The second loop of `TrimString` walks back over a trailing run `w2` of white space
and stops at the end of `a` when `a` ends at the lower bound or in another
character. -/
theorem trailingLoop_spaces (a w2 : List Char) (hw : ∀ c ∈ w2, isspace c = true)
    (lead : Nat) (hlead : lead ≤ a.length)
    (ha : a.length = lead ∨ isspace (a.getD (a.length - 1) (Char.ofNat 0)) = false)
    (j : Nat) (hj : j ≤ w2.length) :
    TrimString.trailingLoop (a ++ w2) lead (a.length + j) = a.length := by
  induction j with
  | zero =>
    rw [Nat.add_zero]
    cases hlen : a.length with
    | zero => rfl
    | succ n =>
      unfold TrimString.trailingLoop
      rw [if_neg]
      rintro ⟨hgt, hsp⟩
      rcases ha with h | h
      · omega
      · rw [getD_append_left a w2 n _ (by omega)] at hsp
        have hn : a.length - 1 = n := by omega
        rw [hn, hsp] at h
        exact absurd h (by decide)
  | succ j ih =>
    show TrimString.trailingLoop (a ++ w2) lead ((a.length + j) + 1) = a.length
    unfold TrimString.trailingLoop
    have hsp : isspace ((a ++ w2).getD (a.length + j) (Char.ofNat 0)) = true := by
      rw [getD_append_right]
      exact isspace_getD_of_all w2 hw j _ (by omega)
    rw [if_pos ⟨by omega, hsp⟩]
    exact ih (by omega)

/-- `TrimString` on white space, a plain core, white space returns the core. -/
theorem TrimString_decomp (w1 m w2 : List Char) (hw1 : ∀ c ∈ w1, isspace c = true)
    (hw2 : ∀ c ∈ w2, isspace c = true) (hm : plainKey m = true) :
    TrimString (w1 ++ m ++ w2) = m := by
  cases m with
  | nil =>
    have hall : ∀ c ∈ w1 ++ w2, isspace c = true := by
      intro c hc
      rcases List.mem_append.mp hc with h | h
      · exact hw1 c h
      · exact hw2 c h
    have hlead : TrimString.leadingLoop (w1 ++ w2) (w1 ++ w2).length 0 = (w1 ++ w2).length := by
      have := leadingLoop_spaces (w1 ++ w2) [] hall (Or.inl rfl) (w1 ++ w2).length 0
        (Nat.zero_le _) (by omega)
      rwa [List.append_nil] at this
    have htrail : TrimString.trailingLoop (w1 ++ w2) (w1 ++ w2).length (w1 ++ w2).length
        = (w1 ++ w2).length := by
      cases hlen : (w1 ++ w2).length with
      | zero => rfl
      | succ n =>
        unfold TrimString.trailingLoop
        rw [if_neg]
        rintro ⟨hgt, _⟩
        omega
    unfold TrimString
    simp only [List.append_nil, hlead, htrail]
    simp
  | cons c t =>
    have hhead : isspace c = false := by
      simp [plainKey] at hm
      exact hm.1
    have hlast : isspace ((c :: t).getD t.length (Char.ofNat 0)) = false := by
      have h2 : ((c :: t).getLast?.any isspace) = false := by
        simp only [plainKey, Bool.and_eq_true, Bool.not_eq_true'] at hm
        exact hm.2
      rw [List.getLast?_eq_getElem?] at h2
      rw [List.getD_eq_getElem?_getD]
      have hidx : (c :: t).length - 1 = t.length := by simp
      rw [hidx] at h2
      have hlt : t.length < (c :: t).length := by simp
      rw [List.getElem?_eq_getElem hlt] at h2 ⊢
      simpa using h2
    have hdata : w1 ++ (c :: t) ++ w2 = w1 ++ ((c :: t) ++ w2) := by simp
    have hlead : TrimString.leadingLoop (w1 ++ (c :: t) ++ w2) (w1 ++ (c :: t) ++ w2).length 0
        = w1.length := by
      rw [hdata]
      apply leadingLoop_spaces w1 ((c :: t) ++ w2) hw1 (Or.inr hhead) _ 0 (Nat.zero_le _)
      simp only [List.length_append]
      omega
    have hlenA : (w1 ++ (c :: t)).length = w1.length + t.length + 1 := by
      simp only [List.length_append, List.length_cons]
      omega
    have htrail : TrimString.trailingLoop (w1 ++ (c :: t) ++ w2) w1.length
        (w1 ++ (c :: t) ++ w2).length = (w1 ++ (c :: t)).length := by
      have hlen : (w1 ++ (c :: t) ++ w2).length = (w1 ++ (c :: t)).length + w2.length := by
        simp only [List.length_append]
      rw [hlen]
      apply trailingLoop_spaces (w1 ++ (c :: t)) w2 hw2 w1.length (by omega) _ w2.length
        (Nat.le_refl _)
      right
      have hidx : (w1 ++ (c :: t)).length - 1 = w1.length + t.length := by omega
      rw [hidx, getD_append_right]
      exact hlast
    unfold TrimString
    simp only [hlead, htrail, hlenA]
    rw [hdata, List.drop_left]
    have : w1.length + t.length + 1 - w1.length = (c :: t).length := by
      simp only [List.length_cons]
      omega
    rw [this, List.take_left]

/-- What `dropWhile isspace` leaves does not start with white space. -/
theorem head_dropWhile_isspace (l : List Char) :
    ((l.dropWhile isspace).head?.any isspace) = false := by
  have h := List.head?_dropWhile_not isspace l
  cases hh : (l.dropWhile isspace).head? with
  | none => rfl
  | some x =>
    rw [hh] at h
    simpa using h

/-- With its leading and trailing white space dropped a string is plain: it neither
starts nor ends with white space. -/
theorem plainKey_trimSpec (s : List Char) : plainKey (trimSpec s) = true := by
  unfold plainKey trimSpec
  have hlast : (((s.dropWhile isspace).reverse.dropWhile isspace).reverse.getLast?.any isspace)
      = false := by
    rw [List.getLast?_reverse]
    exact head_dropWhile_isspace _
  have hhead : (((s.dropWhile isspace).reverse.dropWhile isspace).reverse.head?.any isspace)
      = false := by
    cases hm : ((s.dropWhile isspace).reverse.dropWhile isspace).reverse with
    | nil => rfl
    | cons c t =>
      have hsplit : (s.dropWhile isspace)
          = ((s.dropWhile isspace).reverse.dropWhile isspace).reverse ++
            ((s.dropWhile isspace).reverse.takeWhile isspace).reverse := by
        rw [← List.reverse_append, List.takeWhile_append_dropWhile, List.reverse_reverse]
      have h1 := head_dropWhile_isspace s
      rw [hsplit, hm] at h1
      simpa using h1
  rw [hhead, hlast]
  rfl

/-- Every string is white space, then its trimmed core, then white space. -/
theorem trimSpec_decomp (s : List Char) :
    ∃ w1 w2 : List Char, s = w1 ++ trimSpec s ++ w2 ∧
      (∀ c ∈ w1, isspace c = true) ∧ (∀ c ∈ w2, isspace c = true) := by
  refine ⟨s.takeWhile isspace, ((s.dropWhile isspace).reverse.takeWhile isspace).reverse,
    ?_, ?_, ?_⟩
  · unfold trimSpec
    rw [List.append_assoc, ← List.reverse_append, List.takeWhile_append_dropWhile,
      List.reverse_reverse, List.takeWhile_append_dropWhile]
  · intro c hc
    exact List.mem_takeWhile_imp hc
  · intro c hc
    exact List.mem_takeWhile_imp (List.mem_reverse.mp hc)

/-- `TrimString` removes exactly the leading and the trailing white space. -/
theorem TrimString_eq_trimSpec (s : List Char) : TrimString s = trimSpec s := by
  obtain ⟨w1, w2, hs, hw1, hw2⟩ := trimSpec_decomp s
  have h := TrimString_decomp w1 (trimSpec s) w2 hw1 hw2 (plainKey_trimSpec s)
  rw [← hs] at h
  exact h

/-- White space added around a string does not change what `TrimString` returns. -/
theorem TrimString_pad (w1 k w2 : List Char) (hw1 : ∀ c ∈ w1, isspace c = true)
    (hw2 : ∀ c ∈ w2, isspace c = true) : TrimString (w1 ++ k ++ w2) = TrimString k := by
  obtain ⟨a, b, hk, ha, hb⟩ := trimSpec_decomp k
  have hall1 : ∀ c ∈ w1 ++ a, isspace c = true := by
    intro c hc
    rcases List.mem_append.mp hc with h | h
    · exact hw1 c h
    · exact ha c h
  have hall2 : ∀ c ∈ b ++ w2, isspace c = true := by
    intro c hc
    rcases List.mem_append.mp hc with h | h
    · exact hb c h
    · exact hw2 c h
  have h := TrimString_decomp (w1 ++ a) (trimSpec k) (b ++ w2) hall1 hall2 (plainKey_trimSpec k)
  have hshape : w1 ++ k ++ w2 = w1 ++ a ++ trimSpec k ++ (b ++ w2) := by
    conv_lhs => rw [hk]
    simp only [List.append_assoc]
  rw [hshape, h, TrimString_eq_trimSpec]

/-- `TrimString` is idempotent. -/
theorem TrimString_idem (s : List Char) : TrimString (TrimString s) = TrimString s := by
  rw [TrimString_eq_trimSpec s]
  exact TrimString_plainKey _ (plainKey_trimSpec s)

/-- `TrimString` returns the empty string for an all-white-space input. -/
theorem TrimString_all_space (s : List Char) (h : ∀ c ∈ s, isspace c = true) :
    TrimString s = [] := by
  have := TrimString_decomp s [] [] h (by simp) (by decide)
  simpa using this

/-- A character that is not white space survives `TrimString`. -/
theorem mem_TrimString (s : List Char) (c : Char) (hc : c ∈ s) (hsp : isspace c = false) :
    c ∈ TrimString s := by
  obtain ⟨w1, w2, hs, hw1, hw2⟩ := trimSpec_decomp s
  rw [TrimString_eq_trimSpec]
  rw [hs] at hc
  rcases List.mem_append.mp hc with h | h
  · rcases List.mem_append.mp h with h | h
    · rw [hw1 c h] at hsp
      exact absurd hsp (by decide)
    · exact h
  · rw [hw2 c h] at hsp
    exact absurd hsp (by decide)

/-- C12. White space around a key does not matter: for a key `k` without `=`, a value
`v` without `;` and white-space-only strings `w1`, `w2`, `setParameters` on
`w1 k w2 = v` returns the same status and the same object as on `k = v`.
`TrimString` returns its argument with exactly the leading and trailing white space
removed; it is idempotent, and empty for an all-white-space input. -/
theorem setParameters_key_whitespace (r : StagefrightRecorder) (k v w1 w2 : List Char)
    (hk : '=' ∉ k) (hv : ';' ∉ v) (hw1 : ∀ c ∈ w1, isspace c = true)
    (hw2 : ∀ c ∈ w2, isspace c = true) :
    r.setParameters (w1 ++ k ++ w2 ++ '=' :: v) = r.setParameters (k ++ '=' :: v) ∧
    TrimString (w1 ++ k ++ w2) = TrimString k ∧
    (∀ s : List Char, TrimString s = trimSpec s) ∧
    (∀ s : List Char, TrimString (TrimString s) = TrimString s) ∧
    (∀ s : List Char, (∀ c ∈ s, isspace c = true) → TrimString s = []) := by
  have hpad := TrimString_pad w1 k w2 hw1 hw2
  refine ⟨?_, hpad, TrimString_eq_trimSpec, TrimString_idem, TrimString_all_space⟩
  have hk' : '=' ∉ w1 ++ k ++ w2 := by
    intro hmem
    rcases List.mem_append.mp hmem with h | h
    · rcases List.mem_append.mp h with h | h
      · exact absurd (hw1 _ h) (by decide)
      · exact hk h
    · exact absurd (hw2 _ h) (by decide)
  have h1 := setParametersBody_last r (w1 ++ k ++ w2, v) hk' hv
  have h2 := setParametersBody_last r (k, v) hk hv
  simp only [paramString] at h1 h2
  rw [setParameters_unfold, setParameters_unfold r (k ++ '=' :: v), h1, h2, hpad]

/-- Witness for C12: ` max-duration\t=5000` against `max-duration=5000`. -/
theorem setParameters_key_whitespace_witness :
    (constructed platformEnums).setParameters
        ([' '] ++ "max-duration".toList ++ [' ', Char.ofNat 9] ++ '=' :: "5000".toList)
      = (constructed platformEnums).setParameters ("max-duration".toList ++ '=' :: "5000".toList) ∧
    TrimString ([' '] ++ "max-duration".toList ++ [' ', Char.ofNat 9])
      = TrimString "max-duration".toList ∧
    (∀ s : List Char, TrimString s = trimSpec s) ∧
    (∀ s : List Char, TrimString (TrimString s) = TrimString s) ∧
    (∀ s : List Char, (∀ c ∈ s, isspace c = true) → TrimString s = []) :=
  setParameters_key_whitespace (constructed platformEnums) "max-duration".toList "5000".toList
    [' '] [' ', Char.ofNat 9] (by decide) (by decide) (by decide) (by decide)

/-- A successful `strchr` splits the string at the first occurrence. -/
theorem strchr_some_split (c : Char) (s : List Char) (i : Nat) (h : strchr s c = some i) :
    s = s.take i ++ c :: s.drop (i + 1) ∧ c ∉ s.take i := by
  induction s generalizing i with
  | nil => simp [strchr] at h
  | cons x xs ih =>
    unfold strchr at h
    split_ifs at h with hx
    · simp only [Option.some.injEq] at h
      subst h
      subst hx
      simp
    · cases hr : strchr xs c with
      | none => simp [hr] at h
      | some j =>
        simp only [hr, Option.map_some', Option.some.injEq] at h
        subst h
        obtain ⟨h1, h2⟩ := ih j hr
        constructor
        · simp only [List.take_succ_cons, List.drop_succ_cons, List.cons_append]
          rw [← h1]
        · simp only [List.take_succ_cons, List.mem_cons, not_or]
          exact ⟨fun hcx => hx hcx.symm, h2⟩

/-- A NULL result of `strchr` means the character does not occur. -/
theorem strchr_none_not_mem (c : Char) (s : List Char) (h : strchr s c = none) : c ∉ s := by
  induction s with
  | nil => simp
  | cons x xs ih =>
    unfold strchr at h
    split_ifs at h with hx
    cases hr : strchr xs c with
    | none =>
      simp only [List.mem_cons, not_or]
      exact ⟨fun hcx => hx hcx.symm, ih hr⟩
    | some j => simp [hr] at h

/-- A string without `;` is its own single entry. -/
theorem splitEntries_of_not_mem (s : List Char) (h : ';' ∉ s) : splitEntries s = [s] := by
  induction s with
  | nil => rfl
  | cons x xs ih =>
    have hx : x ≠ ';' := fun hx => h (by simp [hx])
    have hxs : ';' ∉ xs := fun hm => h (by simp [hm])
    conv_lhs => unfold splitEntries
    rw [if_neg hx, ih hxs]

/-- The first entry of `a;b` is `a` when `a` has no `;`. -/
theorem splitEntries_append_semi (a b : List Char) (h : ';' ∉ a) :
    splitEntries (a ++ ';' :: b) = a :: splitEntries b := by
  induction a with
  | nil =>
    show splitEntries (';' :: b) = [] :: splitEntries b
    conv_lhs => unfold splitEntries
    rw [if_pos rfl]
  | cons x xs ih =>
    have hx : x ≠ ';' := fun hx => h (by simp [hx])
    have hxs : ';' ∉ xs := fun hm => h (by simp [hm])
    show splitEntries (x :: (xs ++ ';' :: b)) = (x :: xs) :: splitEntries b
    conv_lhs => unfold splitEntries
    rw [if_neg hx, ih hxs]

/-- The key of the entry `k=v` is `k` when `k` has no `=`. -/
theorem entryKey_append (k v : List Char) (h : '=' ∉ k) : entryKey (k ++ '=' :: v) = k := by
  induction k with
  | nil => simp [entryKey, List.takeWhile]
  | cons x xs ih =>
    have hx : x ≠ '=' := fun hx => h (by simp [hx])
    have hxs : '=' ∉ xs := fun hm => h (by simp [hm])
    have ih' := ih hxs
    unfold entryKey at ih' ⊢
    simp [hx, ih']

/-- An entry `k=v` whose key has no `=` and is not empty after trimming is not a bad
entry. -/
theorem not_badEntry_of_key (k v : List Char) (hk : '=' ∉ k) (ht : TrimString k ≠ []) :
    ¬ badEntry (k ++ '=' :: v) := by
  unfold badEntry
  rw [entryKey_append k v hk]
  rintro (h | h)
  · exact h (by simp)
  · exact ht h

/-- No parameter name contains a `;`: `setParameter` rejects such a key. -/
theorem setParameter_semicolon_key (r : StagefrightRecorder) (key value : List Char)
    (h : ';' ∈ key) : r.setParameter key value = (BAD_VALUE, r) := by
  unfold setParameter
  iterate 20
    rw [if_neg]
    swap
    · intro heq
      rw [heq] at h
      exact absurd h (by decide)
  rw [if_neg]
  intro heq
  rw [heq] at h
  exact absurd h (by decide)

/-- The three ways one pass through the loop body of `setParameters` can end: a
`return BAD_VALUE`; the final `return OK`, only on a last entry `k=v` with a proper
key; or the step to the next entry, only past an entry `k=v;` with a proper key. -/
theorem setParametersBody_shape (r : StagefrightRecorder) (s : List Char) :
    (∃ x, setParametersBody r s = Sum.inl (BAD_VALUE, x)) ∨
    (∃ k v x, s = k ++ '=' :: v ∧ '=' ∉ k ∧ ';' ∉ k ∧ ';' ∉ v ∧ TrimString k ≠ [] ∧
      setParametersBody r s = Sum.inl (OK, x)) ∨
    (∃ k v s' r', s = k ++ '=' :: (v ++ ';' :: s') ∧ '=' ∉ k ∧ ';' ∉ k ∧ ';' ∉ v ∧
      TrimString k ≠ [] ∧ setParametersBody r s = Sum.inr (r', s')) := by
  unfold setParametersBody
  cases heq : strchr s '=' with
  | none => exact Or.inl ⟨r, rfl⟩
  | some eq =>
    obtain ⟨hs, hk⟩ := strchr_some_split '=' s eq heq
    dsimp only
    by_cases hlen : (TrimString (s.take eq)).length = 0
    · rw [if_pos hlen]
      exact Or.inl ⟨r, rfl⟩
    · rw [if_neg hlen]
      have hne : TrimString (s.take eq) ≠ [] := fun h => hlen (by rw [h]; rfl)
      by_cases hsemi : ';' ∈ s.take eq
      · have hbad : ∀ value, r.setParameter (TrimString (s.take eq)) value = (BAD_VALUE, r) :=
          fun value => setParameter_semicolon_key r _ value
            (mem_TrimString _ ';' hsemi (by decide))
        cases hsc : strchr (s.drop (eq + 1)) ';' with
        | none =>
          dsimp only
          rw [hbad]
          exact Or.inl ⟨r, rfl⟩
        | some sc =>
          dsimp only
          rw [hbad]
          exact Or.inl ⟨r, rfl⟩
      · cases hsc : strchr (s.drop (eq + 1)) ';' with
        | none =>
          have hv := strchr_none_not_mem ';' _ hsc
          dsimp only
          by_cases hok : (r.setParameter (TrimString (s.take eq)) (s.drop (eq + 1))).1 = OK
          · rw [if_neg (not_not.mpr hok)]
            exact Or.inr (Or.inl ⟨s.take eq, s.drop (eq + 1), _, hs, hk, hsemi, hv, hne, rfl⟩)
          · rw [if_pos hok]
            exact Or.inl ⟨_, rfl⟩
        | some sc =>
          obtain ⟨hrest, hv⟩ := strchr_some_split ';' _ sc hsc
          dsimp only
          by_cases hok : (r.setParameter (TrimString (s.take eq))
              ((s.drop (eq + 1)).take sc)).1 = OK
          · rw [if_neg (not_not.mpr hok)]
            refine Or.inr (Or.inr ⟨s.take eq, (s.drop (eq + 1)).take sc,
              (s.drop (eq + 1)).drop (sc + 1), _, ?_, hk, hsemi, hv, hne, rfl⟩)
            rw [← hrest]
            exact hs
          · rw [if_pos hok]
            exact Or.inl ⟨_, rfl⟩

/-- A parameter string with a bad entry makes `setParameters` return BAD_VALUE
(induction on the length of the string still to be read). -/
theorem setParameters_bad_entry (n : Nat) (s : List Char) (r : StagefrightRecorder)
    (hn : s.length ≤ n) (h : ∃ e ∈ splitEntries s, badEntry e) :
    (r.setParameters s).1 = BAD_VALUE := by
  induction n generalizing s r with
  | zero =>
    rw [setParameters_unfold]
    have hs : s = [] := List.length_eq_zero.mp (by omega)
    subst hs
    rfl
  | succ n ih =>
    rw [setParameters_unfold]
    rcases setParametersBody_shape r s with ⟨x, hb⟩ | ⟨k, v, x, hs, hk, hks, hv, ht, hb⟩ |
      ⟨k, v, s', r', hs, hk, hks, hv, ht, hb⟩
    · rw [hb]
    · exfalso
      obtain ⟨e, he, hbad⟩ := h
      have hnosemi : ';' ∉ s := by
        rw [hs]
        intro hm
        rcases List.mem_append.mp hm with h1 | h1
        · exact hks h1
        · rcases List.mem_cons.mp h1 with h2 | h2
          · exact absurd h2 (by decide)
          · exact hv h2
      rw [splitEntries_of_not_mem s hnosemi] at he
      have he' : e = s := by simpa using he
      rw [he', hs] at hbad
      exact not_badEntry_of_key k v hk ht hbad
    · rw [hb]
      obtain ⟨e, he, hbad⟩ := h
      have hsplit : splitEntries s = (k ++ '=' :: v) :: splitEntries s' := by
        rw [hs]
        have hshape : k ++ '=' :: (v ++ ';' :: s') = (k ++ '=' :: v) ++ ';' :: s' := by simp
        rw [hshape]
        apply splitEntries_append_semi
        intro hm
        rcases List.mem_append.mp hm with h1 | h1
        · exact hks h1
        · rcases List.mem_cons.mp h1 with h2 | h2
          · exact absurd h2 (by decide)
          · exact hv h2
      rw [hsplit] at he
      rcases List.mem_cons.mp he with h1 | h1
      · rw [h1] at hbad
        exact absurd hbad (not_badEntry_of_key k v hk ht)
      · have hlen : s'.length ≤ n := by
          have : s.length = k.length + 1 + (v.length + 1 + s'.length) := by
            rw [hs]
            simp only [List.length_append, List.length_cons]
            omega
          omega
        exact ih s' r' hlen ⟨e, h1, hbad⟩

/-- C11. For every parameter string in which some semicolon-separated entry contains
no `=` or has a key that is empty after white-space trimming, `setParameters` returns
BAD_VALUE. -/
theorem setParameters_malformed (r : StagefrightRecorder) (s : List Char)
    (h : ∃ e ∈ splitEntries s, badEntry e) : (r.setParameters s).1 = BAD_VALUE :=
  setParameters_bad_entry s.length s r (Nat.le_refl _) h

/-- Witness for C11: the five strings named in the claim, on a freshly constructed
recorder. -/
theorem setParameters_malformed_witness :
    ((constructed platformEnums).setParameters "".toList).1 = BAD_VALUE ∧
    ((constructed platformEnums).setParameters "=5".toList).1 = BAD_VALUE ∧
    ((constructed platformEnums).setParameters "foo".toList).1 = BAD_VALUE ∧
    ((constructed platformEnums).setParameters "max-duration=20000;foo".toList).1 = BAD_VALUE ∧
    ((constructed platformEnums).setParameters "foo;max-duration=20000".toList).1 = BAD_VALUE :=
  ⟨setParameters_malformed _ _ (by decide), setParameters_malformed _ _ (by decide),
    setParameters_malformed _ _ (by decide), setParameters_malformed _ _ (by decide),
    setParameters_malformed _ _ (by decide)⟩

/-! ### Starting a recording -/

theorem sameSession_refl (r : StagefrightRecorder) : sameSession r r :=
  ⟨rfl, rfl, rfl, rfl⟩

theorem sameSession_trans {r r1 r2 : StagefrightRecorder} (h1 : sameSession r r1)
    (h2 : sameSession r1 r2) : sameSession r r2 :=
  ⟨h2.1.trans h1.1, h2.2.1.trans h1.2.1, h2.2.2.1.trans h1.2.2.1, h2.2.2.2.trans h1.2.2.2⟩

theorem checkAudioEncoderCapabilities_sameSession (P : MediaProfiles) (r : StagefrightRecorder) :
    (checkAudioEncoderCapabilities P r).1 = OK ∧
      sameSession r (checkAudioEncoderCapabilities P r).2 := by
  rw [checkAudioEncoderCapabilities_eq]
  exact ⟨rfl, rfl, rfl, rfl, rfl⟩

theorem checkVideoEncoderCapabilities_sameSession (E : MediaEnums) (P : MediaProfiles)
    (r : StagefrightRecorder) :
    (checkVideoEncoderCapabilities E P r).1 = OK ∧
      sameSession r (checkVideoEncoderCapabilities E P r).2 := by
  by_cases h : r.mCaptureTimeLapse = true
  · rw [checkVideoEncoderCapabilities_on E P r h]
    exact ⟨rfl, rfl, rfl, rfl, rfl⟩
  · rw [checkVideoEncoderCapabilities_off E P r (Bool.eq_false_iff.mpr h),
      setDefaultProfileIfNecessary_eq]
    exact ⟨rfl, rfl, rfl, rfl, rfl⟩

theorem createAudioSource_sameSession {E : MediaEnums} {c : Collaborators}
    {r r1 : StagefrightRecorder} {a : Option OMXCodec}
    (h : createAudioSource E c r = some (a, r1)) : sameSession r r1 := by
  unfold createAudioSource at h
  dsimp only at h
  repeat' split at h
  all_goals first
    | (cases h; exact ⟨rfl, rfl, rfl, rfl⟩)
    | cases h

theorem useSourceFrameRate_sameSession {c : Collaborators} {r r1 : StagefrightRecorder}
    (h : useSourceFrameRate c r = some r1) : sameSession r r1 := by
  unfold useSourceFrameRate at h
  dsimp only at h
  split at h
  · cases h
  · rename_i heq
    split at h
    · cases h
    · cases h
      split at heq
      · split at heq
        · cases heq
        · cases heq; exact ⟨rfl, rfl, rfl, rfl⟩
      · cases heq; exact ⟨rfl, rfl, rfl, rfl⟩

theorem setupSurfaceMediaSource_sameSession {c : Collaborators}
    {r r1 : StagefrightRecorder} {s : status_t}
    (h : setupSurfaceMediaSource c r = some (s, r1)) : sameSession r r1 := by
  unfold setupSurfaceMediaSource at h
  dsimp only at h
  split at h
  · cases h; exact ⟨rfl, rfl, rfl, rfl⟩
  · split at h
    · cases h
    · rename_i heq
      cases h
      refine sameSession_trans ?_
        (sameSession_trans (useSourceFrameRate_sameSession heq) ⟨rfl, rfl, rfl, rfl⟩)
      exact ⟨rfl, rfl, rfl, rfl⟩

theorem setupCameraSource_create_sameSession (c : Collaborators) (r : StagefrightRecorder) :
    sameSession r (setupCameraSource.create c r).2 := by
  unfold setupCameraSource.create
  dsimp only
  split_ifs <;> exact ⟨rfl, rfl, rfl, rfl⟩

theorem setupCameraSource_sameSession {E : MediaEnums} {P : MediaProfiles} {c : Collaborators}
    {r r1 : StagefrightRecorder} {s : status_t} {a : Option CaptureSource}
    (h : setupCameraSource E P c r = some (s, a, r1)) : sameSession r r1 := by
  unfold setupCameraSource at h
  have hc := (checkVideoEncoderCapabilities_sameSession E P r).2
  generalize checkVideoEncoderCapabilities E P r = res at h hc
  obtain ⟨err, r0⟩ := res
  refine sameSession_trans hc ?_
  clear hc
  dsimp only at h ⊢
  split at h
  · cases h; exact sameSession_refl _
  · have hk := setupCameraSource_create_sameSession c r0
    generalize setupCameraSource.create c r0 = res at h hk
    obtain ⟨src, r2⟩ := res
    cases src with
    | none => cases h; exact hk
    | some cameraSource =>
      dsimp only at h hk
      split at h
      · cases h; exact hk
      · split at h
        · cases h
        · rename_i heq
          cases h
          exact sameSession_trans hk
            (sameSession_trans (useSourceFrameRate_sameSession heq) ⟨rfl, rfl, rfl, rfl⟩)

theorem setupMediaSource_sameSession {E : MediaEnums} {P : MediaProfiles} {c : Collaborators}
    {r r1 : StagefrightRecorder} {s : status_t} {a : Option CaptureSource}
    (h : setupMediaSource E P c r = some (s, a, r1)) : sameSession r r1 := by
  unfold setupMediaSource at h
  split at h
  · split at h
    · cases h
    · rename_i heq
      split at h <;> (cases h; exact setupCameraSource_sameSession heq)
  · split at h
    · split at h
      · cases h
      · rename_i heq
        split at h <;> (cases h; exact setupSurfaceMediaSource_sameSession heq)
    · cases h; exact sameSession_refl _

theorem setupVideoEncoder_sameSession {E : MediaEnums} {c : Collaborators}
    {r r1 : StagefrightRecorder} {s : status_t} {src : Option CaptureSource} {b : Int}
    {a : Option OMXCodec}
    (h : setupVideoEncoder E c r src b = some (s, a, r1)) : sameSession r r1 := by
  unfold setupVideoEncoder at h
  dsimp only at h
  split at h
  · repeat' split at h
    all_goals first
      | (cases h; exact ⟨rfl, rfl, rfl, rfl⟩)
      | cases h
  · cases h

theorem setupAudioEncoder_sameSession {E : MediaEnums} {P : MediaProfiles} {c : Collaborators}
    {r r1 : StagefrightRecorder} {s : status_t} {w w1 : MediaWriter}
    (h : setupAudioEncoder E P c r w = some (s, w1, r1)) : sameSession r r1 := by
  unfold setupAudioEncoder at h
  have hc := (checkAudioEncoderCapabilities_sameSession P r).2
  generalize checkAudioEncoderCapabilities P r = res at h hc
  obtain ⟨err, r0⟩ := res
  refine sameSession_trans hc ?_
  clear hc
  dsimp only at h ⊢
  split at h
  · cases h; exact sameSession_refl _
  · split at h
    · cases h; exact sameSession_refl _
    · split at h
      · cases h
      · rename_i heq
        cases h; exact createAudioSource_sameSession heq
      · rename_i heq
        cases h; exact createAudioSource_sameSession heq

theorem startRawAudioRecording_startKeeps {E : MediaEnums} {P : MediaProfiles}
    {c : Collaborators} {r : StagefrightRecorder} {x : status_t × StagefrightRecorder}
    (h : startRawAudioRecording E P c r = some x) : startKeeps r x := by
  unfold startRawAudioRecording at h
  split at h
  · cases h; exact ⟨rfl, fun h => (by cases h)⟩
  · have hc := (checkAudioEncoderCapabilities_sameSession P r).2
    generalize checkAudioEncoderCapabilities P r = res at h hc
    obtain ⟨err, r0⟩ := res
    dsimp only at h hc
    split at h
    · rename_i hne
      cases h; exact ⟨hc.1, fun h => absurd h hne⟩
    · split at h
      · cases h
      · rename_i heq
        cases h
        exact ⟨(createAudioSource_sameSession heq).1.trans hc.1, fun h => (by cases h)⟩
      · rename_i heq
        split at h
        · cases h
        · cases h
          exact ⟨(createAudioSource_sameSession heq).1.trans hc.1, fun _ => (by simp)⟩

theorem startAACRecording_startKeeps {E : MediaEnums} {P : MediaProfiles}
    {c : Collaborators} {r : StagefrightRecorder} {x : status_t × StagefrightRecorder}
    (h : startAACRecording E P c r = some x) : startKeeps r x := by
  unfold startAACRecording at h
  dsimp only at h
  split at h
  · cases h
  · split at h
    · cases h
    · split at h
      · cases h
      · split at h
        · cases h
        · rename_i heq
          have hk := startRawAudioRecording_startKeeps heq
          split at h
          · rename_i hne
            cases h; exact ⟨hk.1, fun h => absurd h hne⟩
          · cases h; exact hk

theorem startAMRRecording_startKeeps {E : MediaEnums} {P : MediaProfiles}
    {c : Collaborators} {r : StagefrightRecorder} {x : status_t × StagefrightRecorder}
    (h : startAMRRecording E P c r = some x) : startKeeps r x := by
  unfold startAMRRecording at h
  dsimp only at h
  split at h
  · cases h
  · split at h
    · cases h; exact ⟨rfl, fun h => (by cases h)⟩
    · split at h
      · cases h; exact ⟨rfl, fun h => (by cases h)⟩
      · split at h
        · cases h
        · rename_i heq
          have hk := startRawAudioRecording_startKeeps heq
          split at h
          · rename_i hne
            cases h; exact ⟨hk.1, fun h => absurd h hne⟩
          · cases h; exact hk

theorem startRTPRecording_writer_startKeeps (c : Collaborators) (r : StagefrightRecorder)
    (source : Option OMXCodec) : startKeeps r (startRTPRecording.writer c r source) :=
  ⟨rfl, fun _ => (by simp [startRTPRecording.writer])⟩

theorem startKeeps_of_sameSession {r r1 : StagefrightRecorder}
    {x : status_t × StagefrightRecorder} (h1 : sameSession r r1) (h2 : startKeeps r1 x) :
    startKeeps r x :=
  ⟨h2.1.trans h1.1, h2.2⟩

theorem startKeeps_fail {r r1 : StagefrightRecorder} {s : status_t}
    (h1 : sameSession r r1) (h2 : s ≠ OK) : startKeeps r (s, r1) :=
  ⟨h1.1, fun h => absurd h h2⟩

theorem startRTPRecording_startKeeps {E : MediaEnums} {P : MediaProfiles}
    {c : Collaborators} {r : StagefrightRecorder} {x : status_t × StagefrightRecorder}
    (h : startRTPRecording E P c r = some x) : startKeeps r x := by
  unfold startRTPRecording at h
  split at h
  · cases h
  · split at h
    · cases h; exact ⟨rfl, fun h => (by cases h)⟩
    · split at h
      · cases h; exact ⟨rfl, fun h => (by cases h)⟩
      · split at h
        · split at h
          · cases h
          · rename_i heq
            cases h
            exact startKeeps_of_sameSession (createAudioSource_sameSession heq)
              (startRTPRecording_writer_startKeeps _ _ _)
        · split at h
          · cases h
          · rename_i heq
            have h1 := setupMediaSource_sameSession heq
            split at h
            · rename_i hne
              cases h; exact startKeeps_fail h1 hne
            · split at h
              · cases h
              · rename_i heq2
                have h2 := sameSession_trans h1 (setupVideoEncoder_sameSession heq2)
                split at h
                · rename_i hne
                  cases h; exact startKeeps_fail h2 hne
                · cases h
                  exact startKeeps_of_sameSession h2
                    (startRTPRecording_writer_startKeeps _ _ _)

theorem startMPEG2TSRecording_audio_sameSession {E : MediaEnums} {P : MediaProfiles}
    {c : Collaborators} {r r1 : StagefrightRecorder} {s : status_t} {w w1 : MediaWriter}
    (h : startMPEG2TSRecording.audio E P c r w = some (s, w1, r1)) : sameSession r r1 := by
  unfold startMPEG2TSRecording.audio at h
  split at h
  · split at h
    · cases h; exact sameSession_refl _
    · exact setupAudioEncoder_sameSession h
  · cases h; exact sameSession_refl _

theorem startMPEG2TSRecording_video_sameSession {E : MediaEnums} {P : MediaProfiles}
    {c : Collaborators} {r r1 : StagefrightRecorder} {s : status_t} {w w1 : MediaWriter}
    (h : startMPEG2TSRecording.video E P c r w = some (s, w1, r1)) : sameSession r r1 := by
  unfold startMPEG2TSRecording.video at h
  split at h
  · split at h
    · cases h; exact sameSession_refl _
    · split at h
      · cases h
      · rename_i heq
        have h1 := setupMediaSource_sameSession heq
        split at h
        · cases h; exact h1
        · split at h
          · cases h
          · rename_i heq2
            have h2 := sameSession_trans h1 (setupVideoEncoder_sameSession heq2)
            split at h <;> (cases h; exact h2)
  · cases h; exact sameSession_refl _

theorem startMPEG2TSRecording_startKeeps {E : MediaEnums} {P : MediaProfiles}
    {c : Collaborators} {r : StagefrightRecorder} {x : status_t × StagefrightRecorder}
    (h : startMPEG2TSRecording E P c r = some x) : startKeeps r x := by
  unfold startMPEG2TSRecording at h
  split at h
  · cases h
  · split at h
    · cases h
    · rename_i heq
      have h1 := sameSession_trans
        (show sameSession r (r.call (Call.newWriter WriterKind.MPEG2TSWriter r.mOutputFd))
          from ⟨rfl, rfl, rfl, rfl⟩)
        (startMPEG2TSRecording_audio_sameSession heq)
      split at h
      · rename_i hne
        cases h; exact startKeeps_fail h1 hne
      · split at h
        · cases h
        · rename_i heq2
          have h2 := sameSession_trans h1 (startMPEG2TSRecording_video_sameSession heq2)
          split at h
          · rename_i hne
            cases h; exact startKeeps_fail h2 hne
          · cases h
            exact ⟨h2.1, fun _ => (by simp)⟩

theorem setupMPEG4Recording_video_sameSession {E : MediaEnums} {P : MediaProfiles}
    {c : Collaborators} {r r1 : StagefrightRecorder} {s : status_t} {w w1 : MediaWriter}
    {b t : Int}
    (h : setupMPEG4Recording.video E P c r w b = some (s, w1, t, r1)) : sameSession r r1 := by
  unfold setupMPEG4Recording.video at h
  split at h
  · split at h
    · cases h
    · rename_i heq
      have h1 := setupMediaSource_sameSession heq
      split at h
      · cases h; exact h1
      · split at h
        · cases h
        · rename_i heq2
          have h2 := sameSession_trans h1 (setupVideoEncoder_sameSession heq2)
          split at h <;> (cases h; exact h2)
  · cases h; exact sameSession_refl _

theorem setupMPEG4Recording_audio_sameSession {E : MediaEnums} {P : MediaProfiles}
    {c : Collaborators} {r r1 : StagefrightRecorder} {s : status_t} {w w1 : MediaWriter}
    {b t : Int}
    (h : setupMPEG4Recording.audio E P c r w b = some (s, w1, t, r1)) : sameSession r r1 := by
  unfold setupMPEG4Recording.audio at h
  split at h
  · split at h
    · cases h
    · rename_i heq
      have h1 := setupAudioEncoder_sameSession heq
      split at h <;> (cases h; exact h1)
  · cases h; exact sameSession_refl _

/-- `setupMPEG4Recording` keeps the output descriptor, and on `OK` it has stored the
new writer in `mWriter`. -/
theorem setupMPEG4Recording_startKeeps {E : MediaEnums} {P : MediaProfiles}
    {c : Collaborators} {r r1 : StagefrightRecorder} {s : status_t} {fd vw vh b t : Int}
    (h : setupMPEG4Recording E P c r fd vw vh b = some (s, t, r1)) : startKeeps r (s, r1) := by
  unfold setupMPEG4Recording at h
  dsimp only at h
  split at h
  · cases h
  · rename_i heq
    have h1 := (setupMPEG4Recording_video_sameSession heq).1
    split at h
    · rename_i hne
      cases h; exact ⟨h1, fun h => absurd h hne⟩
    · split at h
      · cases h
      · rename_i heq2
        have h2 := (setupMPEG4Recording_audio_sameSession heq2).1.trans h1
        split at h
        · rename_i hne
          cases h; exact ⟨h2, fun h => absurd h hne⟩
        · cases h
          exact ⟨h2, fun _ => (by simp)⟩

theorem startMPEG4Recording_startKeeps {E : MediaEnums} {P : MediaProfiles}
    {c : Collaborators} {r : StagefrightRecorder} {x : status_t × StagefrightRecorder}
    (h : startMPEG4Recording E P c r = some x) : startKeeps r x := by
  unfold startMPEG4Recording at h
  split at h
  · cases h
  · rename_i heq
    have h1 := setupMPEG4Recording_startKeeps heq
    split at h
    · rename_i hne
      cases h; exact ⟨h1.1, fun h => absurd h hne⟩
    · split at h
      · cases h
      · cases h
        exact ⟨h1.1, fun _ => (by simp)⟩

theorem start_dispatch_startKeeps {E : MediaEnums} {P : MediaProfiles}
    {c : Collaborators} {r : StagefrightRecorder} {x : status_t × StagefrightRecorder}
    (h : start.dispatch E P c r = some x) : startKeeps r x := by
  unfold start.dispatch at h
  split at h
  · exact startMPEG4Recording_startKeeps h
  · split at h
    · exact startAMRRecording_startKeeps h
    · split at h
      · exact startAACRecording_startKeeps h
      · split at h
        · exact startRTPRecording_startKeeps h
        · split at h
          · exact startMPEG2TSRecording_startKeeps h
          · cases h; exact ⟨rfl, fun h => (by cases h)⟩

/-- Whatever `start` returns, the output descriptor is the one it was called with,
and a returned `OK` comes with a writer reference. -/
theorem start_startKeeps {E : MediaEnums} {P : MediaProfiles}
    {c : Collaborators} {r : StagefrightRecorder} {x : status_t × StagefrightRecorder}
    (h : start E P c r = some x) : startKeeps r x := by
  unfold start at h
  split at h
  · cases h
  · split at h
    · cases h; exact ⟨rfl, fun h => (by cases h)⟩
    · split at h
      · cases h
      · rename_i heq
        have h1 := start_dispatch_startKeeps heq
        split at h
        · unfold addBatteryData at h
          split at h
          · cases h
          · rename_i heq2
            split at heq2
            · cases heq2; cases h; exact h1
            · cases heq2
        · cases h; exact h1

/-- With a writer referenced and a valid descriptor, `start` refuses and touches
nothing. -/
theorem start_refused (E : MediaEnums) (P : MediaProfiles) (c : Collaborators)
    (r : StagefrightRecorder) (hfd : 0 ≤ r.mOutputFd) (hw : r.mWriter ≠ none) :
    start E P c r = some (UNKNOWN_ERROR, r) := by
  unfold start
  rw [if_neg (not_not.mpr hfd), if_pos hw]

/-- C19: with RTP output, a valid output descriptor and no writer referenced, a
configuration in which both an audio and a video source are set, or neither, makes
`start` return `BAD_VALUE` with the object as it was, whatever the collaborators would
answer: the trace of constructions has not grown (no capture source, encoder or writer
was constructed), `mWriter` is still NULL and `mStarted` has not been touched. -/
theorem start_rtp_source_count (E : MediaEnums) (P : MediaProfiles) (c : Collaborators)
    (r : StagefrightRecorder) (hE : E.outputFormatLabelsDistinct)
    (hfmt : r.mOutputFormat = E.OUTPUT_FORMAT_RTP_AVP)
    (hfd : 0 ≤ r.mOutputFd) (hw : r.mWriter = none)
    (hsrc : (r.mAudioSource ≠ E.AUDIO_SOURCE_CNT ∧ r.mVideoSource ≠ E.VIDEO_SOURCE_LIST_END) ∨
      (r.mAudioSource = E.AUDIO_SOURCE_CNT ∧ r.mVideoSource = E.VIDEO_SOURCE_LIST_END)) :
    start E P c r = some (BAD_VALUE, r) := by
  have hd : start.dispatch E P c r = some (BAD_VALUE, r) := by
    unfold MediaEnums.outputFormatLabelsDistinct at hE
    simp only [List.nodup_cons, List.mem_cons, List.mem_singleton, not_or] at hE
    rcases hE with ⟨⟨-, -, -, -, -, -, h1, -⟩, ⟨-, -, -, -, -, h2, -⟩, ⟨-, -, -, -, h3, -⟩,
      ⟨-, -, -, h4, -⟩, ⟨-, -, h5, -⟩, ⟨-, h6, -⟩, ⟨h7, -⟩, -⟩
    unfold start.dispatch
    rw [hfmt,
      if_neg (fun h => h.elim (fun e => h1 e.symm)
        (fun h => h.elim (fun e => h2 e.symm) (fun e => h3 e.symm))),
      if_neg (fun h => h.elim (fun e => h4 e.symm) (fun e => h5 e.symm)),
      if_neg (fun h => h.elim (fun e => h6 e.symm) (fun e => h7 e.symm)),
      if_pos rfl]
    unfold startRTPRecording
    rw [if_neg (not_not.mpr hfmt), if_pos hsrc]
  unfold start
  rw [if_neg (not_not.mpr hfd), if_neg (not_not.mpr hw), hd]
  rfl

/-- C19 at a concrete input: RTP output on descriptor 5 with the microphone and the
camera both selected. -/
theorem start_rtp_source_count_witness :
    start platformEnums sampleProfiles sampleCollaborators rtpBothSourcesConfig
      = some (BAD_VALUE, rtpBothSourcesConfig) :=
  start_rtp_source_count platformEnums sampleProfiles sampleCollaborators rtpBothSourcesConfig
    (by decide) rfl (by decide) rfl (by decide)

/-- The other half of C19 at a concrete input: RTP output with no source at all. -/
theorem start_rtp_no_source :
    start platformEnums sampleProfiles sampleCollaborators rtpNoSourceConfig
      = some (BAD_VALUE, rtpNoSourceConfig) := by
  decide

/-! ### Pause, stop and reset -/

theorem notifications_snoc (cs : List Call) (c : Call) :
    notifications (cs ++ [c]) = notifications cs ++ (c.notification).toList := by
  unfold notifications
  rw [List.filterMap_append]
  cases h : c.notification <;> simp [List.filterMap_cons, h]

theorem closes_snoc (cs : List Call) (c : Call) :
    closes (cs ++ [c]) = closes cs ++ (c.closed).toList := by
  unfold closes
  rw [List.filterMap_append]
  cases h : c.closed <;> simp [List.filterMap_cons, h]

theorem stop_timeLapse_spec (r : StagefrightRecorder) :
    stopKeeps r (stop.timeLapse r) ∧ (stop.timeLapse r).mWriter = r.mWriter ∧
      (stop.timeLapse r).mOutputFd = r.mOutputFd ∧
      closes (stop.timeLapse r).calls = closes r.calls := by
  unfold stop.timeLapse stopKeeps
  split
  · refine ⟨⟨rfl, rfl, rfl, rfl, ?_⟩, rfl, rfl, ?_⟩
    · exact (notifications_snoc _ _).trans (List.append_nil _)
    · exact (closes_snoc _ _).trans (List.append_nil _)
  · exact ⟨⟨rfl, rfl, rfl, rfl, rfl⟩, rfl, rfl, rfl⟩

theorem stop_writer_spec (c : Collaborators) (r : StagefrightRecorder) :
    stopKeeps r (stop.writer c r).2 ∧ (stop.writer c r).2.mWriter = none ∧
      (stop.writer c r).2.mOutputFd = r.mOutputFd ∧
      closes (stop.writer c r).2.calls = closes r.calls ∧
      (stop.writer c r).1 = (if r.mWriter = none then OK else c.writerStop) := by
  unfold stop.writer stopKeeps
  cases h : r.mWriter with
  | none => exact ⟨⟨rfl, rfl, rfl, rfl, rfl⟩, h, rfl, rfl, rfl⟩
  | some w =>
    refine ⟨⟨rfl, rfl, rfl, rfl, ?_⟩, rfl, rfl, ?_, rfl⟩
    · exact (notifications_snoc _ _).trans (List.append_nil _)
    · exact (closes_snoc _ _).trans (List.append_nil _)

theorem stop_descriptor_spec (r : StagefrightRecorder) :
    stopKeeps r (stop.descriptor r) ∧ (stop.descriptor r).mWriter = r.mWriter ∧
      (stop.descriptor r).mOutputFd = (if 0 ≤ r.mOutputFd then -1 else r.mOutputFd) ∧
      closes (stop.descriptor r).calls
        = closes r.calls ++ (if 0 ≤ r.mOutputFd then [r.mOutputFd] else []) := by
  unfold stop.descriptor stopKeeps
  by_cases h : 0 ≤ r.mOutputFd
  · rw [if_pos h, if_pos h, if_pos h]
    refine ⟨⟨rfl, rfl, rfl, rfl, ?_⟩, rfl, rfl, ?_⟩
    · exact (notifications_snoc _ _).trans (List.append_nil _)
    · exact closes_snoc _ _
  · rw [if_neg h, if_neg h, if_neg h]
    exact ⟨⟨rfl, rfl, rfl, rfl, rfl⟩, rfl, rfl, (List.append_nil _).symm⟩

/-- The block shared by `pause` and `stop`: when it returns, the started flag is false
and exactly the sessions that were marked started have been reported, without the
codec-started bit. -/
theorem notifyNotStarted_spec {E : MediaEnums} {c : Collaborators}
    {r r1 : StagefrightRecorder} (h : notifyNotStarted E c r = some r1) :
    r1.mStarted = false ∧ r1.mWriter = r.mWriter ∧ r1.mOutputFd = r.mOutputFd ∧
      r1.mAudioSource = r.mAudioSource ∧ r1.mVideoSource = r.mVideoSource ∧
      r1.mVideoEncoder = r.mVideoEncoder ∧
      closes r1.calls = closes r.calls ∧
      notifications r1.calls = notifications r.calls ++
        (if r.mStarted then
          [(false, decide (r.mAudioSource ≠ E.AUDIO_SOURCE_CNT),
            decide (r.mVideoSource ≠ E.VIDEO_SOURCE_LIST_END))]
        else []) := by
  unfold notifyNotStarted at h
  by_cases hs : r.mStarted = true
  · rw [if_pos hs] at h
    unfold addBatteryData at h
    split at h
    · cases h
      refine ⟨rfl, rfl, rfl, rfl, rfl, rfl, ?_, ?_⟩
      · exact (closes_snoc _ _).trans (List.append_nil _)
      · rw [if_pos hs]
        exact notifications_snoc _ _
    · cases h
  · rw [if_neg hs] at h
    cases h
    rw [if_neg hs]
    exact ⟨Bool.eq_false_iff.mpr hs, rfl, rfl, rfl, rfl, rfl, rfl, (List.append_nil _).symm⟩

/-- The block shared by `pause` and `stop` returns when the battery service is there
or there is nothing to report. -/
theorem notifyNotStarted_returns (E : MediaEnums) (c : Collaborators)
    (r : StagefrightRecorder) (hsvc : r.mStarted = true → c.playerServiceFound = true) :
    ∃ r1, notifyNotStarted E c r = some r1 := by
  unfold notifyNotStarted
  by_cases hs : r.mStarted = true
  · rw [if_pos hs]
    unfold addBatteryData
    rw [if_pos (hsvc hs)]
    exact ⟨_, rfl⟩
  · rw [if_neg hs]
    exact ⟨_, rfl⟩

/-- Without the battery service `stop` on a session marked started ends in the failed
`CHECK` of `addBatteryData`. -/
theorem stop_aborts (E : MediaEnums) (c : Collaborators) (r : StagefrightRecorder)
    (hs : r.mStarted = true) (hsvc : c.playerServiceFound = false) : stop E c r = none := by
  have h1 := (stop_descriptor_spec (stop.writer c (stop.timeLapse r)).2).1.2.2.2.1
  have h2 := (stop_writer_spec c (stop.timeLapse r)).1.2.2.2.1
  have h3 := (stop_timeLapse_spec r).1.2.2.2.1
  have hs' : (stop.descriptor (stop.writer c (stop.timeLapse r)).2).mStarted = true := by
    rw [h1, h2, h3, hs]
  unfold stop
  dsimp only
  unfold notifyNotStarted addBatteryData
  rw [if_pos hs', hsvc]
  rfl

/-- C21 -/
theorem stop_releases (E : MediaEnums) (c : Collaborators) (r : StagefrightRecorder)
    (hfd : -1 ≤ r.mOutputFd) (hsvc : r.mStarted = true → c.playerServiceFound = true) :
    ∃ r1, stop E c r = some (if r.mWriter = none then OK else c.writerStop, r1) ∧
      r1.mOutputFd = -1 ∧ r1.mWriter = none ∧ r1.mStarted = false ∧
      closes r1.calls = closes r.calls ++ (if 0 ≤ r.mOutputFd then [r.mOutputFd] else []) := by
  have ht := stop_timeLapse_spec r
  have hw := stop_writer_spec c (stop.timeLapse r)
  have hd := stop_descriptor_spec (stop.writer c (stop.timeLapse r)).2
  have hsvc' : (stop.descriptor (stop.writer c (stop.timeLapse r)).2).mStarted = true →
      c.playerServiceFound = true := by
    rw [hd.1.2.2.2.1, hw.1.2.2.2.1, ht.1.2.2.2.1]
    exact hsvc
  obtain ⟨r1, hn⟩ := notifyNotStarted_returns E c _ hsvc'
  have hn' := notifyNotStarted_spec hn
  refine ⟨r1, ?_, ?_, ?_, hn'.1, ?_⟩
  · unfold stop
    dsimp only
    rw [hn, hw.2.2.2.2, ht.2.1]
  · rw [hn'.2.2.1, hd.2.2.1, hw.2.2.1, ht.2.2.1]
    split_ifs with h0
    · rfl
    · omega
  · rw [hn'.2.1, hd.2.1, hw.2.1]
  · rw [hn'.2.2.2.2.2.2.1, hd.2.2.2, hw.2.2.2.1, ht.2.2.2, hw.2.2.1, ht.2.2.1]

/-- C21 at a concrete input: the started camcorder session is stopped while the
writer reports a failure. -/
theorem stop_releases_witness :
    ∃ r1, stop platformEnums failingStop startedCamcorder = some (UNKNOWN_ERROR, r1) ∧
      r1.mOutputFd = -1 ∧ r1.mWriter = none ∧ r1.mStarted = false ∧
      closes r1.calls = [5] :=
  stop_releases platformEnums failingStop startedCamcorder (by decide) (fun _ => rfl)

/-- `start` does not get past its first `CHECK` without a valid descriptor. -/
theorem start_some_descriptor {E : MediaEnums} {P : MediaProfiles} {c : Collaborators}
    {r : StagefrightRecorder} {x : status_t × StagefrightRecorder}
    (h : start E P c r = some x) : 0 ≤ r.mOutputFd := by
  unfold start at h
  split at h
  · cases h
  · rename_i hfd
    exact not_not.mp hfd

/-- `pause` without a writer is refused and touches nothing; with a writer it
returns `OK`, keeps the writer and the descriptor and leaves the started flag false. -/
theorem pause_spec {E : MediaEnums} {c : Collaborators} {r r1 : StagefrightRecorder}
    {s : status_t} (h : pause E c r = some (s, r1)) :
    (r.mWriter = none ∧ s = UNKNOWN_ERROR ∧ r1 = r) ∨
    (r.mWriter ≠ none ∧ s = OK ∧ r1.mWriter = r.mWriter ∧ r1.mOutputFd = r.mOutputFd ∧
      r1.mStarted = false ∧ r1.mAudioSource = r.mAudioSource ∧
      r1.mVideoSource = r.mVideoSource ∧ r1.mVideoEncoder = r.mVideoEncoder ∧
      closes r1.calls = closes r.calls ∧
      notifications r1.calls = notifications r.calls ++
        (if r.mStarted then
          [(false, decide (r.mAudioSource ≠ E.AUDIO_SOURCE_CNT),
            decide (r.mVideoSource ≠ E.VIDEO_SOURCE_LIST_END))]
        else [])) := by
  unfold pause at h
  cases hw : r.mWriter with
  | none =>
    rw [hw] at h
    cases h
    exact Or.inl ⟨rfl, rfl, rfl⟩
  | some w =>
    rw [hw] at h
    dsimp only at h
    split at h
    · cases h
    · rename_i heq
      cases h
      have hn := notifyNotStarted_spec heq
      refine Or.inr ⟨fun h => (by cases h), rfl, hn.2.1.trans hw, hn.2.2.1, hn.1, hn.2.2.2.1,
        hn.2.2.2.2.1, hn.2.2.2.2.2.1, ?_, ?_⟩
      · exact hn.2.2.2.2.2.2.1.trans ((closes_snoc _ _).trans (List.append_nil _))
      · rw [hn.2.2.2.2.2.2.2]
        exact congrArg (· ++ _) ((notifications_snoc _ _).trans (List.append_nil _))

/-- C24 as stated fails: the camcorder session is started, then paused, and the next
`start` returns `UNKNOWN_ERROR` instead of `OK`, with collaborators that all succeed. -/
theorem start_after_pause_refused :
    start platformEnums sampleProfiles sampleCollaborators camcorderConfig
      = some (OK, startedCamcorder) ∧
    pause platformEnums sampleCollaborators startedCamcorder = some (OK, pausedCamcorder) ∧
    start platformEnums sampleProfiles sampleCollaborators pausedCamcorder
      = some (UNKNOWN_ERROR, pausedCamcorder) ∧
    pausedCamcorder.mStarted = false := by
  decide

/-- C24, amended: after `start` returned `OK` and `pause` returned `OK`, the next
`start` does not resume.  It returns `UNKNOWN_ERROR` and leaves the object as it was,
so the session stays paused: the started flag is false and the writer of the first
`start` is still referenced. -/
theorem start_after_pause (E : MediaEnums) (P : MediaProfiles) (c1 c2 c3 : Collaborators)
    (r r1 r2 : StagefrightRecorder) (h1 : start E P c1 r = some (OK, r1))
    (h2 : pause E c2 r1 = some (OK, r2)) :
    start E P c3 r2 = some (UNKNOWN_ERROR, r2) ∧ r2.mStarted = false ∧
      r2.mWriter = r1.mWriter ∧ r2.mWriter ≠ none := by
  have hk := start_startKeeps h1
  have hfd := start_some_descriptor h1
  have hw : r1.mWriter ≠ none := hk.2 rfl
  rcases pause_spec h2 with ⟨hn, -, -⟩ | ⟨-, -, hw2, hfd2, hs2, -⟩
  · exact absurd hn hw
  · have hw3 : r2.mWriter ≠ none := hw2 ▸ hw
    refine ⟨start_refused E P c3 r2 ?_ hw3, hs2, hw2, hw3⟩
    rw [hfd2, hk.1]
    exact hfd

/-- C24 amended, at a concrete input: the camcorder session started, paused and
started again. -/
theorem start_after_pause_witness :
    start platformEnums sampleProfiles failingCollaborators pausedCamcorder
      = some (UNKNOWN_ERROR, pausedCamcorder) ∧ pausedCamcorder.mStarted = false ∧
      pausedCamcorder.mWriter = startedCamcorder.mWriter ∧ pausedCamcorder.mWriter ≠ none :=
  start_after_pause platformEnums sampleProfiles sampleCollaborators sampleCollaborators
    failingCollaborators camcorderConfig startedCamcorder pausedCamcorder (by decide)
    (by decide)

/-- On an idle object (no time lapse, no writer, no descriptor, not started) `stop`
returns `OK` and touches nothing. -/
theorem stop_idle (E : MediaEnums) (c : Collaborators) (r : StagefrightRecorder)
    (htl : r.mCaptureTimeLapse = false) (hw : r.mWriter = none) (hfd : r.mOutputFd < 0)
    (hs : r.mStarted = false) : stop E c r = some (OK, r) := by
  have h1 : stop.timeLapse r = r := by
    unfold stop.timeLapse
    rw [if_neg]
    rw [htl]
    exact fun h => Bool.false_ne_true h.1
  have h2 : stop.writer c r = (OK, r) := by
    unfold stop.writer
    rw [hw]
  have h3 : stop.descriptor r = r := by
    unfold stop.descriptor
    rw [if_neg (not_le.mpr hfd)]
  have h4 : notifyNotStarted E c r = some r := by
    unfold notifyNotStarted
    rw [hs]
    rfl
  unfold stop
  dsimp only
  rw [h1, h2, h3, h4]

/-- C25: from every state `reset` returns `OK`, provided the battery service is there
when a started session has to be reported.  It first does what `stop` does (the
object `r1` that `stop` yields has no writer and the started flag false, and the
descriptor was closed if it was open), adds no call of its own to the trace, and
leaves the defaults listed in the claim, the descriptor being -1.  A second `reset`
then returns `OK` and changes nothing. -/
theorem reset_defaults (E : MediaEnums) (c : Collaborators) (r : StagefrightRecorder)
    (hsvc : r.mStarted = true → c.playerServiceFound = true) :
    ∃ s r1 r2, stop E c r = some (s, r1) ∧ reset E c r = some (OK, r2) ∧
      (r2.mWriter = none ∧ r2.mStarted = false ∧ r2.calls = r1.calls ∧
        closes r2.calls = closes r.calls ++ (if 0 ≤ r.mOutputFd then [r.mOutputFd] else [])) ∧
      (r2.mAudioSource = E.AUDIO_SOURCE_CNT ∧ r2.mVideoSource = E.VIDEO_SOURCE_LIST_END ∧
        r2.mOutputFormat = E.OUTPUT_FORMAT_THREE_GPP ∧
        r2.mAudioEncoder = E.AUDIO_ENCODER_AMR_NB ∧ r2.mVideoEncoder = E.VIDEO_ENCODER_H263 ∧
        r2.mVideoWidth = 176 ∧ r2.mVideoHeight = 144 ∧ r2.mFrameRate = -1 ∧
        r2.mVideoBitRate = 192000 ∧ r2.mSampleRate = 8000 ∧ r2.mAudioChannels = 1 ∧
        r2.mAudioBitRate = 12200 ∧ r2.mInterleaveDurationUs = 0 ∧
        r2.mIFramesIntervalSec = 1 ∧ r2.mMovieTimeScale = -1 ∧ r2.mAudioTimeScale = -1 ∧
        r2.mVideoTimeScale = -1 ∧ r2.mCameraId = 0 ∧ r2.mVideoEncoderProfile = -1 ∧
        r2.mVideoEncoderLevel = -1 ∧ r2.mMaxFileDurationUs = 0 ∧ r2.mMaxFileSizeBytes = 0 ∧
        r2.mCaptureTimeLapse = false ∧ r2.mRotationDegrees = 0 ∧
        r2.mLatitudex10000 = -3600000 ∧ r2.mLongitudex10000 = -3600000 ∧
        r2.mOutputFd = -1) ∧
      ∀ c2 : Collaborators, reset E c2 r2 = some (OK, r2) := by
  have ht := stop_timeLapse_spec r
  have hw := stop_writer_spec c (stop.timeLapse r)
  have hd := stop_descriptor_spec (stop.writer c (stop.timeLapse r)).2
  have hsvc1 : (stop.descriptor (stop.writer c (stop.timeLapse r)).2).mStarted = true →
      c.playerServiceFound = true := by
    rw [hd.1.2.2.2.1, hw.1.2.2.2.1, ht.1.2.2.2.1]
    exact hsvc
  obtain ⟨r1, hn⟩ := notifyNotStarted_returns E c _ hsvc1
  have hn1 := notifyNotStarted_spec hn
  have hstop : stop E c r = some ((stop.writer c (stop.timeLapse r)).1, r1) := by
    unfold stop
    dsimp only
    rw [hn]
  have hw1 : r1.mWriter = none := by rw [hn1.2.1, hd.2.1, hw.2.1]
  have hreset : reset E c r = some (OK, reset.defaults E r1) := by
    unfold reset
    rw [hstop]
  refine ⟨_, r1, reset.defaults E r1, hstop, hreset, ⟨hw1, hn1.1, rfl, ?_⟩, ?_, ?_⟩
  · show closes r1.calls = _
    rw [hn1.2.2.2.2.2.2.1, hd.2.2.2, hw.2.2.2.1, ht.2.2.2, hw.2.2.1, ht.2.2.1]
  · exact ⟨rfl, rfl, rfl, rfl, rfl, rfl, rfl, rfl, rfl, rfl, rfl, rfl, rfl, rfl, rfl, rfl, rfl,
      rfl, rfl, rfl, rfl, rfl, rfl, rfl, rfl, rfl, rfl⟩
  · intro c2
    unfold reset
    rw [stop_idle E c2 (reset.defaults E r1) rfl hw1 (show (-1 : Int) < 0 by decide) hn1.1]
    rfl

/-- C25 at a concrete input: the started camcorder session is reset while the
writer's `stop` reports a failure. -/
theorem reset_defaults_witness :
    ∃ r2, reset platformEnums failingStop startedCamcorder = some (OK, r2) ∧
      r2.mWriter = none ∧ r2.mStarted = false ∧ r2.mOutputFd = -1 ∧ closes r2.calls = [5] ∧
      r2.mVideoEncoder = 1 ∧ r2.mVideoBitRate = 192000 ∧
      reset platformEnums failingCollaborators r2 = some (OK, r2) := by
  obtain ⟨s, r1, r2, -, h2, ⟨h3, h4, -, h5⟩, h6, h7⟩ :=
    reset_defaults platformEnums failingStop startedCamcorder (fun _ => rfl)
  exact ⟨r2, h2, h3, h4, h6.2.2.2.2.2.2.2.2.2.2.2.2.2.2.2.2.2.2.2.2.2.2.2.2.2.2, h5,
    h6.2.2.2.2.1, h6.2.2.2.2.2.2.2.2.1, h7 failingCollaborators⟩

/-! ### Failures of the writer and unsupported combinations -/

/-- C22 fails on the code: on the container, RTP and transport-stream paths a `start`
that fails because the writer's own `start` fails returns the failure and is not
marked started, yet leaves the writer referenced. -/
theorem start_failure_leaves_writer :
    (camcorderConfig.mWriter = none ∧
      (start platformEnums sampleProfiles failingWriterStart camcorderConfig).map
        (fun x => (x.1, x.2.mWriter.isSome, x.2.mStarted))
        = some (UNKNOWN_ERROR, true, false)) ∧
    (rtpCameraConfig.mWriter = none ∧
      (start platformEnums sampleProfiles failingWriterStart rtpCameraConfig).map
        (fun x => (x.1, x.2.mWriter.isSome, x.2.mStarted))
        = some (UNKNOWN_ERROR, true, false)) ∧
    (transportStreamConfig.mWriter = none ∧
      (start platformEnums sampleProfiles failingWriterStart transportStreamConfig).map
        (fun x => (x.1, x.2.mWriter.isSome, x.2.mStarted))
        = some (UNKNOWN_ERROR, true, false)) := by
  decide

/-- The sibling paths do clear the writer: on the raw AMR path a `start` that fails
after the writer was made (here: the audio source does not initialise) leaves no
writer referenced. -/
theorem start_failure_clears_writer_amr :
    (start platformEnums sampleProfiles failingCollaborators amrConfig).map
      (fun x => (x.1, x.2.mWriter.isSome, x.2.mStarted))
      = some (UNKNOWN_ERROR, false, false) := by
  decide

/-- C23 fails on the code: on the raw AMR and raw AAC paths the writer's `start`
reports a failure, and `start` returns `OK` all the same and marks the session
started. -/
theorem start_raw_audio_swallows_failure :
    (start platformEnums sampleProfiles failingWriterStart amrConfig).map
      (fun x => (x.1, x.2.mStarted, notifications x.2.calls))
      = some (OK, true, [(true, true, false)]) ∧
    (start platformEnums sampleProfiles failingWriterStart aacConfig).map
      (fun x => (x.1, x.2.mStarted, notifications x.2.calls))
      = some (OK, true, [(true, true, false)]) :=
  ⟨rfl, rfl⟩

/-- C29 fails on the code: raw AAC output with ADIF framing, and ADTS framing with the
AMR-NB encoder, both selected through the setters (which all return `OK`), send
`start` into a failed `CHECK` of `startAACRecording`: no status is returned. -/
theorem start_aac_unsupported_aborts :
    (runOps platformEnums sampleProfiles (constructed platformEnums) adifCalls).map
      (fun r => (r.mOutputFormat, r.mAudioEncoder, r.mAudioSource, r.mOutputFd,
        start platformEnums sampleProfiles sampleCollaborators r))
      = some (5, 3, 1, 5, none) ∧
    (runOps platformEnums sampleProfiles (constructed platformEnums) adtsAmrCalls).map
      (fun r => (r.mOutputFormat, r.mAudioEncoder, r.mAudioSource, r.mOutputFd,
        start platformEnums sampleProfiles sampleCollaborators r))
      = some (6, 1, 1, 5, none) :=
  ⟨rfl, rfl⟩

/-- C28 as stated fails twice: AMR-NB output with the AAC encoder is refused with
`BAD_VALUE`, not with `ERROR_UNSUPPORTED`; and AMR-NB output with the AMR-NB encoder
and two channels is not refused at all: `start` returns `OK` with a writer, the
channel count still 2. -/
theorem start_amr_bad_value_and_channels :
    start platformEnums sampleProfiles sampleCollaborators { amrConfig with mAudioEncoder := 3 }
      = some (BAD_VALUE, { amrConfig with mAudioEncoder := 3 }) ∧
    (start platformEnums sampleProfiles sampleCollaborators
        { amrConfig with mAudioChannels := 2 }).map
      (fun x => (x.1, x.2.mWriter.isSome, x.2.mAudioChannels)) = some (OK, true, 2) := by
  decide

/-- C28, amended: for raw AMR output, with a valid descriptor and no writer, `start`
returns `BAD_VALUE` and leaves the object as it was (no writer is made) whenever the
stored encoder does not match the format: AMR-NB output with an encoder that is
neither AMR-NB nor the default placeholder, AMR-WB output with an encoder other than
AMR-WB.  The channel count plays no part. -/
theorem start_amr_encoder_mismatch (E : MediaEnums) (P : MediaProfiles) (c : Collaborators)
    (r : StagefrightRecorder) (hE : E.outputFormatLabelsDistinct)
    (hfd : 0 ≤ r.mOutputFd) (hw : r.mWriter = none)
    (h : (r.mOutputFormat = E.OUTPUT_FORMAT_AMR_NB ∧
          r.mAudioEncoder ≠ E.AUDIO_ENCODER_AMR_NB ∧
          r.mAudioEncoder ≠ E.AUDIO_ENCODER_DEFAULT) ∨
        (r.mOutputFormat = E.OUTPUT_FORMAT_AMR_WB ∧
          r.mAudioEncoder ≠ E.AUDIO_ENCODER_AMR_WB)) :
    start E P c r = some (BAD_VALUE, r) := by
  unfold MediaEnums.outputFormatLabelsDistinct at hE
  simp only [List.nodup_cons, List.mem_cons, List.mem_singleton, not_or] at hE
  rcases hE with ⟨⟨-, -, h1, h1w, -⟩, ⟨-, h2, h2w, -⟩, ⟨h3, h3w, -⟩, ⟨h4, -⟩, -⟩
  have hd : start.dispatch E P c r = some (BAD_VALUE, r) := by
    unfold start.dispatch
    rcases h with ⟨hf, ha, hb⟩ | ⟨hf, ha⟩
    · rw [if_neg (by
          rw [hf]
          exact fun h => h.elim (fun e => h1 e.symm)
            (fun h => h.elim (fun e => h2 e.symm) (fun e => h3 e.symm))),
        if_pos (Or.inl hf)]
      unfold startAMRRecording
      rw [if_neg (not_not.mpr (Or.inl hf)), if_pos ⟨hf, hb, ha⟩]
    · rw [if_neg (by
          rw [hf]
          exact fun h => h.elim (fun e => h1w e.symm)
            (fun h => h.elim (fun e => h2w e.symm) (fun e => h3w e.symm))),
        if_pos (Or.inr hf)]
      unfold startAMRRecording
      have hne : r.mOutputFormat ≠ E.OUTPUT_FORMAT_AMR_NB := by
        rw [hf]
        exact fun e => h4 e.symm
      rw [if_neg (not_not.mpr (Or.inr hf)), if_neg (fun h => hne h.1), if_pos ⟨hne, ha⟩]
  unfold start
  rw [if_neg (not_not.mpr hfd), if_neg (not_not.mpr hw), hd]
  rfl

/-- C28 amended, at a concrete input: AMR-NB output with the AAC encoder. -/
theorem start_amr_encoder_mismatch_witness :
    start platformEnums sampleProfiles sampleCollaborators { amrConfig with mAudioEncoder := 3 }
      = some (BAD_VALUE, { amrConfig with mAudioEncoder := 3 }) :=
  start_amr_encoder_mismatch platformEnums sampleProfiles sampleCollaborators
    { amrConfig with mAudioEncoder := 3 } (by decide) (by decide) rfl (by decide)

/-! ### What the start paths keep of the selection -/

/-- A call that is no battery notification adds nothing to the notifications. -/
theorem notifications_quiet (cs : List Call) (c : Call) (h : c.notification = none) :
    notifications (cs ++ [c]) = notifications cs := by
  rw [notifications_snoc, h]
  exact List.append_nil _

/-- Two calls that are no battery notifications add nothing to the notifications. -/
theorem notifications_quiet2 (cs : List Call) (c1 c2 : Call) (h1 : c1.notification = none)
    (h2 : c2.notification = none) :
    notifications ((cs ++ [c1]) ++ [c2]) = notifications cs := by
  rw [notifications_quiet _ _ h2, notifications_quiet _ _ h1]

theorem sameSelection_refl (r : StagefrightRecorder) : sameSelection r r :=
  ⟨rfl, rfl, rfl, rfl, rfl, rfl, rfl⟩

theorem sameSelection_trans {r r1 r2 : StagefrightRecorder} (h1 : sameSelection r r1)
    (h2 : sameSelection r1 r2) : sameSelection r r2 :=
  ⟨h2.1.trans h1.1, h2.2.1.trans h1.2.1, h2.2.2.1.trans h1.2.2.1,
    h2.2.2.2.1.trans h1.2.2.2.1, h2.2.2.2.2.1.trans h1.2.2.2.2.1,
    h2.2.2.2.2.2.1.trans h1.2.2.2.2.2.1, h2.2.2.2.2.2.2.trans h1.2.2.2.2.2.2⟩

theorem checkAudioEncoderCapabilities_sameSelection (P : MediaProfiles) (r : StagefrightRecorder) :
    (checkAudioEncoderCapabilities P r).1 = OK ∧
      sameSelection r (checkAudioEncoderCapabilities P r).2 := by
  rw [checkAudioEncoderCapabilities_eq]
  exact ⟨rfl, rfl, rfl, rfl, rfl, rfl, rfl, rfl⟩

theorem checkVideoEncoderCapabilities_sameSelection (E : MediaEnums) (P : MediaProfiles)
    (r : StagefrightRecorder) :
    (checkVideoEncoderCapabilities E P r).1 = OK ∧
      sameSelection r (checkVideoEncoderCapabilities E P r).2 := by
  by_cases h : r.mCaptureTimeLapse = true
  · rw [checkVideoEncoderCapabilities_on E P r h]
    exact ⟨rfl, rfl, rfl, rfl, rfl, rfl, rfl, rfl⟩
  · rw [checkVideoEncoderCapabilities_off E P r (Bool.eq_false_iff.mpr h),
      setDefaultProfileIfNecessary_eq]
    exact ⟨rfl, rfl, rfl, rfl, rfl, rfl, rfl, rfl⟩

theorem createAudioSource_sameSelection {E : MediaEnums} {c : Collaborators}
    {r r1 : StagefrightRecorder} {a : Option OMXCodec}
    (h : createAudioSource E c r = some (a, r1)) : sameSelection r r1 := by
  unfold createAudioSource at h
  dsimp only at h
  repeat' split at h
  all_goals first
    | (cases h; exact (by simp [sameSelection, call, notifications, List.filterMap_append, List.filterMap_cons, Call.notification]))
    | cases h

theorem useSourceFrameRate_sameSelection {c : Collaborators} {r r1 : StagefrightRecorder}
    (h : useSourceFrameRate c r = some r1) : sameSelection r r1 := by
  unfold useSourceFrameRate at h
  dsimp only at h
  split at h
  · cases h
  · rename_i heq
    split at h
    · cases h
    · cases h
      split at heq
      · split at heq
        · cases heq
        · cases heq; exact (by simp [sameSelection, call, notifications, List.filterMap_append, List.filterMap_cons, Call.notification])
      · cases heq; exact (by simp [sameSelection, call, notifications, List.filterMap_append, List.filterMap_cons, Call.notification])

theorem setupSurfaceMediaSource_sameSelection {c : Collaborators}
    {r r1 : StagefrightRecorder} {s : status_t}
    (h : setupSurfaceMediaSource c r = some (s, r1)) : sameSelection r r1 := by
  unfold setupSurfaceMediaSource at h
  dsimp only at h
  split at h
  · cases h; exact (by simp [sameSelection, call, notifications, List.filterMap_append, List.filterMap_cons, Call.notification])
  · split at h
    · cases h
    · rename_i heq
      cases h
      refine sameSelection_trans ?_
        (sameSelection_trans (useSourceFrameRate_sameSelection heq) (by simp [sameSelection, call, notifications, List.filterMap_append, List.filterMap_cons, Call.notification]))
      exact (by simp [sameSelection, call, notifications, List.filterMap_append, List.filterMap_cons, Call.notification])

theorem setupCameraSource_create_sameSelection (c : Collaborators) (r : StagefrightRecorder) :
    sameSelection r (setupCameraSource.create c r).2 := by
  unfold setupCameraSource.create
  dsimp only
  split_ifs <;> exact (by simp [sameSelection, call, notifications, List.filterMap_append, List.filterMap_cons, Call.notification])

theorem setupCameraSource_sameSelection {E : MediaEnums} {P : MediaProfiles} {c : Collaborators}
    {r r1 : StagefrightRecorder} {s : status_t} {a : Option CaptureSource}
    (h : setupCameraSource E P c r = some (s, a, r1)) : sameSelection r r1 := by
  unfold setupCameraSource at h
  have hc := (checkVideoEncoderCapabilities_sameSelection E P r).2
  generalize checkVideoEncoderCapabilities E P r = res at h hc
  obtain ⟨err, r0⟩ := res
  refine sameSelection_trans hc ?_
  clear hc
  dsimp only at h ⊢
  split at h
  · cases h; exact sameSelection_refl _
  · have hk := setupCameraSource_create_sameSelection c r0
    generalize setupCameraSource.create c r0 = res at h hk
    obtain ⟨src, r2⟩ := res
    cases src with
    | none => cases h; exact hk
    | some cameraSource =>
      dsimp only at h hk
      split at h
      · cases h; exact hk
      · split at h
        · cases h
        · rename_i heq
          cases h
          exact sameSelection_trans hk
            (sameSelection_trans (useSourceFrameRate_sameSelection heq) (by simp [sameSelection, call, notifications, List.filterMap_append, List.filterMap_cons, Call.notification]))

theorem setupMediaSource_sameSelection {E : MediaEnums} {P : MediaProfiles} {c : Collaborators}
    {r r1 : StagefrightRecorder} {s : status_t} {a : Option CaptureSource}
    (h : setupMediaSource E P c r = some (s, a, r1)) : sameSelection r r1 := by
  unfold setupMediaSource at h
  split at h
  · split at h
    · cases h
    · rename_i heq
      split at h <;> (cases h; exact setupCameraSource_sameSelection heq)
  · split at h
    · split at h
      · cases h
      · rename_i heq
        split at h <;> (cases h; exact setupSurfaceMediaSource_sameSelection heq)
    · cases h; exact sameSelection_refl _

theorem setupVideoEncoder_sameSelection {E : MediaEnums} {c : Collaborators}
    {r r1 : StagefrightRecorder} {s : status_t} {src : Option CaptureSource} {b : Int}
    {a : Option OMXCodec}
    (h : setupVideoEncoder E c r src b = some (s, a, r1)) : sameSelection r r1 := by
  unfold setupVideoEncoder at h
  dsimp only at h
  split at h
  · repeat' split at h
    all_goals first
      | (cases h; exact (by simp [sameSelection, call, notifications, List.filterMap_append, List.filterMap_cons, Call.notification]))
      | cases h
  · cases h

theorem setupAudioEncoder_sameSelection {E : MediaEnums} {P : MediaProfiles} {c : Collaborators}
    {r r1 : StagefrightRecorder} {s : status_t} {w w1 : MediaWriter}
    (h : setupAudioEncoder E P c r w = some (s, w1, r1)) : sameSelection r r1 := by
  unfold setupAudioEncoder at h
  have hc := (checkAudioEncoderCapabilities_sameSelection P r).2
  generalize checkAudioEncoderCapabilities P r = res at h hc
  obtain ⟨err, r0⟩ := res
  refine sameSelection_trans hc ?_
  clear hc
  dsimp only at h ⊢
  split at h
  · cases h; exact sameSelection_refl _
  · split at h
    · cases h; exact sameSelection_refl _
    · split at h
      · cases h
      · rename_i heq
        cases h; exact createAudioSource_sameSelection heq
      · rename_i heq
        cases h; exact createAudioSource_sameSelection heq

theorem startMPEG2TSRecording_audio_sameSelection {E : MediaEnums} {P : MediaProfiles}
    {c : Collaborators} {r r1 : StagefrightRecorder} {s : status_t} {w w1 : MediaWriter}
    (h : startMPEG2TSRecording.audio E P c r w = some (s, w1, r1)) : sameSelection r r1 := by
  unfold startMPEG2TSRecording.audio at h
  split at h
  · split at h
    · cases h; exact sameSelection_refl _
    · exact setupAudioEncoder_sameSelection h
  · cases h; exact sameSelection_refl _

theorem startMPEG2TSRecording_video_sameSelection {E : MediaEnums} {P : MediaProfiles}
    {c : Collaborators} {r r1 : StagefrightRecorder} {s : status_t} {w w1 : MediaWriter}
    (h : startMPEG2TSRecording.video E P c r w = some (s, w1, r1)) : sameSelection r r1 := by
  unfold startMPEG2TSRecording.video at h
  split at h
  · split at h
    · cases h; exact sameSelection_refl _
    · split at h
      · cases h
      · rename_i heq
        have h1 := setupMediaSource_sameSelection heq
        split at h
        · cases h; exact h1
        · split at h
          · cases h
          · rename_i heq2
            have h2 := sameSelection_trans h1 (setupVideoEncoder_sameSelection heq2)
            split at h <;> (cases h; exact h2)
  · cases h; exact sameSelection_refl _

theorem setupMPEG4Recording_video_sameSelection {E : MediaEnums} {P : MediaProfiles}
    {c : Collaborators} {r r1 : StagefrightRecorder} {s : status_t} {w w1 : MediaWriter}
    {b t : Int}
    (h : setupMPEG4Recording.video E P c r w b = some (s, w1, t, r1)) : sameSelection r r1 := by
  unfold setupMPEG4Recording.video at h
  split at h
  · split at h
    · cases h
    · rename_i heq
      have h1 := setupMediaSource_sameSelection heq
      split at h
      · cases h; exact h1
      · split at h
        · cases h
        · rename_i heq2
          have h2 := sameSelection_trans h1 (setupVideoEncoder_sameSelection heq2)
          split at h <;> (cases h; exact h2)
  · cases h; exact sameSelection_refl _

theorem setupMPEG4Recording_audio_sameSelection {E : MediaEnums} {P : MediaProfiles}
    {c : Collaborators} {r r1 : StagefrightRecorder} {s : status_t} {w w1 : MediaWriter}
    {b t : Int}
    (h : setupMPEG4Recording.audio E P c r w b = some (s, w1, t, r1)) : sameSelection r r1 := by
  unfold setupMPEG4Recording.audio at h
  split at h
  · split at h
    · cases h
    · rename_i heq
      have h1 := setupAudioEncoder_sameSelection heq
      split at h <;> (cases h; exact h1)
  · cases h; exact sameSelection_refl _

theorem startRawAudioRecording_sameSelection {E : MediaEnums} {P : MediaProfiles}
    {c : Collaborators} {r : StagefrightRecorder} {x : status_t × StagefrightRecorder}
    (h : startRawAudioRecording E P c r = some x) : sameSelection r x.2 := by
  unfold startRawAudioRecording at h
  split at h
  · cases h; exact sameSelection_refl _
  · have hc := (checkAudioEncoderCapabilities_sameSelection P r).2
    generalize checkAudioEncoderCapabilities P r = res at h hc
    obtain ⟨err, r0⟩ := res
    dsimp only at h hc
    split at h
    · cases h; exact hc
    · split at h
      · cases h
      · rename_i heq
        cases h
        exact sameSelection_trans hc (createAudioSource_sameSelection heq)
      · rename_i heq
        split at h
        · cases h
        · cases h
          exact sameSelection_trans hc
            (sameSelection_trans (createAudioSource_sameSelection heq)
              (by simp [sameSelection, call, notifications, List.filterMap_append,
                List.filterMap_cons, Call.notification]))

theorem startAACRecording_sameSelection {E : MediaEnums} {P : MediaProfiles}
    {c : Collaborators} {r : StagefrightRecorder} {x : status_t × StagefrightRecorder}
    (h : startAACRecording E P c r = some x) : sameSelection r x.2 := by
  unfold startAACRecording at h
  dsimp only at h
  split at h
  · cases h
  · split at h
    · cases h
    · split at h
      · cases h
      · split at h
        · cases h
        · rename_i heq
          have hk := sameSelection_trans
            (show sameSelection r _ from
              (by simp [sameSelection, call, notifications, List.filterMap_append,
                List.filterMap_cons, Call.notification]))
            (startRawAudioRecording_sameSelection heq)
          split at h
          · cases h; exact sameSelection_trans hk ⟨rfl, rfl, rfl, rfl, rfl, rfl, rfl⟩
          · cases h; exact hk

theorem startAMRRecording_sameSelection {E : MediaEnums} {P : MediaProfiles}
    {c : Collaborators} {r : StagefrightRecorder} {x : status_t × StagefrightRecorder}
    (h : startAMRRecording E P c r = some x) : sameSelection r x.2 := by
  unfold startAMRRecording at h
  dsimp only at h
  split at h
  · cases h
  · split at h
    · cases h; exact sameSelection_refl _
    · split at h
      · cases h; exact sameSelection_refl _
      · split at h
        · cases h
        · rename_i heq
          have hk := sameSelection_trans
            (show sameSelection r _ from
              (by simp [sameSelection, call, notifications, List.filterMap_append,
                List.filterMap_cons, Call.notification]))
            (startRawAudioRecording_sameSelection heq)
          split at h
          · cases h; exact sameSelection_trans hk ⟨rfl, rfl, rfl, rfl, rfl, rfl, rfl⟩
          · cases h; exact hk

theorem startRTPRecording_writer_sameSelection (c : Collaborators) (r : StagefrightRecorder)
    (source : Option OMXCodec) : sameSelection r (startRTPRecording.writer c r source).2 := by
  simp [sameSelection, startRTPRecording.writer, call, notifications, List.filterMap_append,
    List.filterMap_cons, Call.notification]

theorem startRTPRecording_sameSelection {E : MediaEnums} {P : MediaProfiles}
    {c : Collaborators} {r : StagefrightRecorder} {x : status_t × StagefrightRecorder}
    (h : startRTPRecording E P c r = some x) : sameSelection r x.2 := by
  unfold startRTPRecording at h
  split at h
  · cases h
  · split at h
    · cases h; exact sameSelection_refl _
    · split at h
      · cases h; exact sameSelection_refl _
      · split at h
        · split at h
          · cases h
          · rename_i heq
            cases h
            exact sameSelection_trans (createAudioSource_sameSelection heq)
              (startRTPRecording_writer_sameSelection _ _ _)
        · split at h
          · cases h
          · rename_i heq
            have h1 := setupMediaSource_sameSelection heq
            split at h
            · cases h; exact h1
            · split at h
              · cases h
              · rename_i heq2
                have h2 := sameSelection_trans h1 (setupVideoEncoder_sameSelection heq2)
                split at h
                · cases h; exact h2
                · cases h
                  exact sameSelection_trans h2 (startRTPRecording_writer_sameSelection _ _ _)

theorem startMPEG2TSRecording_sameSelection {E : MediaEnums} {P : MediaProfiles}
    {c : Collaborators} {r : StagefrightRecorder} {x : status_t × StagefrightRecorder}
    (h : startMPEG2TSRecording E P c r = some x) : sameSelection r x.2 := by
  unfold startMPEG2TSRecording at h
  split at h
  · cases h
  · split at h
    · cases h
    · rename_i heq
      have h1 := sameSelection_trans
        (show sameSelection r (r.call (Call.newWriter WriterKind.MPEG2TSWriter r.mOutputFd))
          from (by simp [sameSelection, call, notifications, List.filterMap_append,
            List.filterMap_cons, Call.notification]))
        (startMPEG2TSRecording_audio_sameSelection heq)
      split at h
      · cases h; exact h1
      · split at h
        · cases h
        · rename_i heq2
          have h2 := sameSelection_trans h1 (startMPEG2TSRecording_video_sameSelection heq2)
          split at h
          · cases h; exact h2
          · cases h
            exact sameSelection_trans h2
              (by simp [sameSelection, call, notifications, List.filterMap_append,
                List.filterMap_cons, Call.notification])

theorem setupMPEG4Recording_sameSelection {E : MediaEnums} {P : MediaProfiles}
    {c : Collaborators} {r r1 : StagefrightRecorder} {s : status_t} {fd vw vh b t : Int}
    (h : setupMPEG4Recording E P c r fd vw vh b = some (s, t, r1)) : sameSelection r r1 := by
  unfold setupMPEG4Recording at h
  dsimp only at h
  split at h
  · cases h
  · rename_i heq
    have h1 := sameSelection_trans
      (show sameSelection r
          ({ r with mWriter := none }.call (Call.newWriter WriterKind.MPEG4Writer fd))
        from (by simp [sameSelection, call, notifications, List.filterMap_append,
          List.filterMap_cons, Call.notification]))
      (setupMPEG4Recording_video_sameSelection heq)
    split at h
    · cases h; exact h1
    · split at h
      · cases h
      · rename_i heq2
        have h2 := sameSelection_trans h1 (setupMPEG4Recording_audio_sameSelection heq2)
        split at h
        · cases h; exact h2
        · cases h
          exact sameSelection_trans h2 ⟨rfl, rfl, rfl, rfl, rfl, rfl, rfl⟩

theorem startMPEG4Recording_sameSelection {E : MediaEnums} {P : MediaProfiles}
    {c : Collaborators} {r : StagefrightRecorder} {x : status_t × StagefrightRecorder}
    (h : startMPEG4Recording E P c r = some x) : sameSelection r x.2 := by
  unfold startMPEG4Recording at h
  split at h
  · cases h
  · rename_i heq
    have h1 := setupMPEG4Recording_sameSelection heq
    split at h
    · cases h; exact h1
    · split at h
      · cases h
      · cases h
        exact sameSelection_trans h1
          (by simp [sameSelection, call, notifications, List.filterMap_append,
            List.filterMap_cons, Call.notification])

/-- The start paths change nothing of the selection and tell the battery service
nothing. -/
theorem start_dispatch_sameSelection {E : MediaEnums} {P : MediaProfiles}
    {c : Collaborators} {r : StagefrightRecorder} {x : status_t × StagefrightRecorder}
    (h : start.dispatch E P c r = some x) : sameSelection r x.2 := by
  unfold start.dispatch at h
  split at h
  · exact startMPEG4Recording_sameSelection h
  · split at h
    · exact startAMRRecording_sameSelection h
    · split at h
      · exact startAACRecording_sameSelection h
      · split at h
        · exact startRTPRecording_sameSelection h
        · split at h
          · exact startMPEG2TSRecording_sameSelection h
          · cases h; exact sameSelection_refl _

/-- What `start` does, path by path: with a writer referenced it is refused; otherwise
the start path runs, and exactly when that returns `OK` on a session not marked
started the flag is set and the battery service is told. -/
theorem start_spec {E : MediaEnums} {P : MediaProfiles} {c : Collaborators}
    {r : StagefrightRecorder} {x : status_t × StagefrightRecorder}
    (h : start E P c r = some x) :
    (r.mWriter ≠ none ∧ x = (UNKNOWN_ERROR, r)) ∨
    (r.mWriter = none ∧ ∃ r1, start.dispatch E P c r = some (x.1, r1) ∧
      ((x.1 = OK ∧ r1.mStarted = false ∧
          x.2 = ({ r1 with mStarted := true }).call (Call.addBatteryData true
            (decide (r1.mAudioSource ≠ E.AUDIO_SOURCE_CNT))
            (decide (r1.mVideoSource ≠ E.VIDEO_SOURCE_LIST_END)))) ∨
        (¬ (x.1 = OK ∧ r1.mStarted = false) ∧ x.2 = r1))) := by
  unfold start at h
  split at h
  · cases h
  · split at h
    · rename_i hw
      cases h
      exact Or.inl ⟨hw, rfl⟩
    · rename_i hw
      refine Or.inr ⟨not_not.mp hw, ?_⟩
      split at h
      · cases h
      · rename_i status r1 heq
        split at h
        · rename_i hok
          unfold addBatteryData at h
          split at h
          · cases h
          · rename_i r2 heq2
            cases h
            split at heq2
            · cases heq2
              exact ⟨r1, heq, Or.inl ⟨hok.1, Bool.eq_false_iff.mpr hok.2, rfl⟩⟩
            · cases heq2
        · rename_i hok
          cases h
          refine ⟨r1, heq, Or.inr ⟨fun h => hok ⟨h.1, ?_⟩, rfl⟩⟩
          rw [h.2]
          exact Bool.false_ne_true

/-- What `stop` leaves, whenever it returns. -/
theorem stop_spec {E : MediaEnums} {c : Collaborators} {r r1 : StagefrightRecorder}
    {s : status_t} (h : stop E c r = some (s, r1)) :
    r1.mStarted = false ∧ r1.mWriter = none ∧
      r1.mOutputFd = (if 0 ≤ r.mOutputFd then -1 else r.mOutputFd) ∧
      r1.mAudioSource = r.mAudioSource ∧ r1.mVideoSource = r.mVideoSource ∧
      r1.mVideoEncoder = r.mVideoEncoder ∧
      notifications r1.calls = notifications r.calls ++
        (if r.mStarted then
          [(false, decide (r.mAudioSource ≠ E.AUDIO_SOURCE_CNT),
            decide (r.mVideoSource ≠ E.VIDEO_SOURCE_LIST_END))]
        else []) := by
  have ht := stop_timeLapse_spec r
  have hw := stop_writer_spec c (stop.timeLapse r)
  have hd := stop_descriptor_spec (stop.writer c (stop.timeLapse r)).2
  unfold stop at h
  dsimp only at h
  split at h
  · cases h
  · rename_i heq
    cases h
    have hn := notifyNotStarted_spec heq
    refine ⟨hn.1, ?_, ?_, ?_, ?_, ?_, ?_⟩
    · rw [hn.2.1, hd.2.1, hw.2.1]
    · rw [hn.2.2.1, hd.2.2.1, hw.2.2.1, ht.2.2.1]
    · rw [hn.2.2.2.1, hd.1.1, hw.1.1, ht.1.1]
    · rw [hn.2.2.2.2.1, hd.1.2.1, hw.1.2.1, ht.1.2.1]
    · rw [hn.2.2.2.2.2.1, hd.1.2.2.1, hw.1.2.2.1, ht.1.2.2.1]
    · rw [hn.2.2.2.2.2.2.2, hd.1.2.2.2.2, hw.1.2.2.2.2, ht.1.2.2.2.2, hd.1.2.2.2.1,
        hw.1.2.2.2.1, ht.1.2.2.2.1, hd.1.1, hw.1.1, ht.1.1, hd.1.2.1, hw.1.2.1, ht.1.2.1]

/-- `stop` returns when the battery service is there or the session is not marked
started. -/
theorem stop_returns (E : MediaEnums) (c : Collaborators) (r : StagefrightRecorder)
    (hsvc : r.mStarted = true → c.playerServiceFound = true) :
    ∃ x, stop E c r = some x := by
  have ht := stop_timeLapse_spec r
  have hw := stop_writer_spec c (stop.timeLapse r)
  have hd := stop_descriptor_spec (stop.writer c (stop.timeLapse r)).2
  have hsvc1 : (stop.descriptor (stop.writer c (stop.timeLapse r)).2).mStarted = true →
      c.playerServiceFound = true := by
    rw [hd.1.2.2.2.1, hw.1.2.2.2.1, ht.1.2.2.2.1]
    exact hsvc
  obtain ⟨r1, hn⟩ := notifyNotStarted_returns E c _ hsvc1
  unfold stop
  dsimp only
  rw [hn]
  exact ⟨_, rfl⟩

/-- `pause` returns when the battery service is there or the session is not marked
started. -/
theorem pause_returns (E : MediaEnums) (c : Collaborators) (r : StagefrightRecorder)
    (hsvc : r.mStarted = true → c.playerServiceFound = true) :
    ∃ x, pause E c r = some x := by
  unfold pause
  cases hw : r.mWriter with
  | none => exact ⟨_, rfl⟩
  | some w =>
    dsimp only
    obtain ⟨r1, hn⟩ := notifyNotStarted_returns E c (r.call (Call.writerPause w.kind)) hsvc
    rw [hn]
    exact ⟨_, rfl⟩

/-- C26: on an object where the started flag implies a writer (as in every reachable
state), a `start` that returns `OK` adds exactly one battery notification, with the
codec-started bit, the audio bit iff an audio source is set and the video bit iff a
video source is set, and a `start` that returns a failure adds none; `pause` and
`stop` add exactly one notification with the same track bits and without the
codec-started bit when the session was marked started, and none when it was not; and
both return whenever the battery service is there. -/
theorem battery_notifications (E : MediaEnums) (P : MediaProfiles) (c : Collaborators)
    (r : StagefrightRecorder) (hinv : r.mStarted = true → r.mWriter ≠ none) :
    (∀ s r1, start E P c r = some (s, r1) →
      notifications r1.calls = notifications r.calls ++
        (if s = OK then
          [(true, decide (r.mAudioSource ≠ E.AUDIO_SOURCE_CNT),
            decide (r.mVideoSource ≠ E.VIDEO_SOURCE_LIST_END))]
        else [])) ∧
    (∀ s r1, pause E c r = some (s, r1) →
      notifications r1.calls = notifications r.calls ++
        (if r.mStarted then
          [(false, decide (r.mAudioSource ≠ E.AUDIO_SOURCE_CNT),
            decide (r.mVideoSource ≠ E.VIDEO_SOURCE_LIST_END))]
        else [])) ∧
    (∀ s r1, stop E c r = some (s, r1) →
      notifications r1.calls = notifications r.calls ++
        (if r.mStarted then
          [(false, decide (r.mAudioSource ≠ E.AUDIO_SOURCE_CNT),
            decide (r.mVideoSource ≠ E.VIDEO_SOURCE_LIST_END))]
        else [])) ∧
    (c.playerServiceFound = true →
      (∃ x, pause E c r = some x) ∧ ∃ x, stop E c r = some x) := by
  refine ⟨?_, ?_, ?_, ?_⟩
  · intro s r1 h
    rcases start_spec h with ⟨-, hx⟩ | ⟨hw, r2, hd, hcase⟩
    · cases hx
      rw [if_neg (by decide)]
      exact (List.append_nil _).symm
    · have hsel := start_dispatch_sameSelection hd
      dsimp only at hsel hcase
      rcases hcase with ⟨hok, -, hx⟩ | ⟨hnot, hx⟩
      · rw [hx, if_pos hok]
        show notifications (r2.calls ++ [_]) = _
        rw [notifications_snoc, hsel.2.2.2.2.2.2, hsel.1, hsel.2.1]
        rfl
      · have hs2 : r2.mStarted = false := by
          rw [hsel.2.2.2.2.2.1]
          exact Bool.eq_false_iff.mpr (fun hs => hinv hs hw)
        rw [hx, if_neg (fun hok => hnot ⟨hok, hs2⟩), hsel.2.2.2.2.2.2]
        exact (List.append_nil _).symm
  · intro s r1 h
    rcases pause_spec h with ⟨hw, -, hx⟩ | ⟨-, -, -, -, -, -, -, -, -, hn⟩
    · rw [hx, if_neg (fun hs => hinv hs hw)]
      exact (List.append_nil _).symm
    · exact hn
  · intro s r1 h
    exact (stop_spec h).2.2.2.2.2.2
  · intro hsvc
    exact ⟨pause_returns E c r (fun _ => hsvc), stop_returns E c r (fun _ => hsvc)⟩

/-- C26 at a concrete input: the camcorder session is started, paused and stopped;
the trace then holds the three notifications of `start`, of `pause`, and none of
`stop`, which finds the session no longer marked started. -/
theorem battery_notifications_witness :
    notifications startedCamcorder.calls = [(true, true, true)] ∧
    notifications pausedCamcorder.calls = [(true, true, true), (false, true, true)] ∧
    (∀ s r1, stop platformEnums sampleCollaborators pausedCamcorder = some (s, r1) →
      notifications r1.calls = [(true, true, true), (false, true, true)]) ∧
    ∃ x, stop platformEnums sampleCollaborators pausedCamcorder = some x :=
  ⟨rfl, rfl,
    (battery_notifications platformEnums sampleProfiles sampleCollaborators pausedCamcorder
      (fun h => absurd h (by decide))).2.2.1,
    ((battery_notifications platformEnums sampleProfiles sampleCollaborators pausedCamcorder
      (fun h => absurd h (by decide))).2.2.2 rfl).2⟩

/-! ### Transport-stream output -/

/-- With collaborators that create the audio source and its codec, and an encoder the
`switch` knows, `createAudioSource` returns an encoder. -/
theorem createAudioSource_ok (E : MediaEnums) (c : Collaborators) (r : StagefrightRecorder)
    (hc : c.audioCreated)
    (hae : r.mAudioEncoder = E.AUDIO_ENCODER_AMR_NB ∨ r.mAudioEncoder = E.AUDIO_ENCODER_DEFAULT ∨
      r.mAudioEncoder = E.AUDIO_ENCODER_AMR_WB ∨ r.mAudioEncoder = E.AUDIO_ENCODER_AAC) :
    ∃ enc r1, createAudioSource E c r = some (some enc, r1) := by
  obtain ⟨h1, h2, h3, h4⟩ := hc
  obtain ⟨m, hm⟩ : ∃ m, c.audioSourceMaxInputSize = some m := by
    cases h : c.audioSourceMaxInputSize with
    | none => exact absurd h h2
    | some m => exact ⟨m, rfl⟩
  unfold createAudioSource
  dsimp only
  rw [if_neg (not_not.mpr h1)]
  split
  · rename_i heq
    split_ifs at heq
    rcases hae with h | h | h | h
    all_goals first
      | (exfalso; tauto)
  · rw [hm]
    dsimp only
    rw [if_neg (not_not.mpr h3), if_pos h4]
    exact ⟨_, _, rfl⟩

/-- With such collaborators the audio part of the transport-stream path returns `OK`
unless an audio source is set and the encoder is not AAC. -/
theorem startMPEG2TSRecording_audio_ok (E : MediaEnums) (P : MediaProfiles)
    (c : Collaborators) (r : StagefrightRecorder) (w : MediaWriter) (hc : c.audioCreated)
    (h : ¬ (r.mAudioSource ≠ E.AUDIO_SOURCE_CNT ∧ r.mAudioEncoder ≠ E.AUDIO_ENCODER_AAC)) :
    ∃ w1 r1, startMPEG2TSRecording.audio E P c r w = some (OK, w1, r1) := by
  unfold startMPEG2TSRecording.audio
  by_cases has : r.mAudioSource ≠ E.AUDIO_SOURCE_CNT
  · have hae : r.mAudioEncoder = E.AUDIO_ENCODER_AAC := by
      by_contra hne
      exact h ⟨has, hne⟩
    rw [if_pos has, if_neg (not_not.mpr hae)]
    unfold setupAudioEncoder
    rw [checkAudioEncoderCapabilities_eq]
    dsimp only
    have hae1 : (audioClamped P r).mAudioEncoder = E.AUDIO_ENCODER_AAC := hae
    obtain ⟨enc, r1, hcr⟩ := createAudioSource_ok E c (audioClamped P r) hc
      (Or.inr (Or.inr (Or.inr hae1)))
    rw [if_neg (by decide), if_neg (not_not.mpr (Or.inr (Or.inr hae1))), hcr]
    exact ⟨_, _, rfl⟩
  · rw [if_neg has]
    exact ⟨_, _, rfl⟩

/-- The transport-stream path refuses an audio source with an encoder other than AAC,
and a video source with an encoder other than H.264, before a writer is referenced. -/
theorem startMPEG2TSRecording_unsupported (E : MediaEnums) (P : MediaProfiles)
    (c : Collaborators) (r : StagefrightRecorder)
    (hfmt : r.mOutputFormat = E.OUTPUT_FORMAT_MPEG2TS) (hc : c.audioCreated)
    (hvs : r.mVideoSource ≤ E.VIDEO_SOURCE_LIST_END)
    (h : (r.mAudioSource ≠ E.AUDIO_SOURCE_CNT ∧ r.mAudioEncoder ≠ E.AUDIO_ENCODER_AAC) ∨
      (r.mVideoSource ≠ E.VIDEO_SOURCE_LIST_END ∧ r.mVideoEncoder ≠ E.VIDEO_ENCODER_H264)) :
    ∃ r1, startMPEG2TSRecording E P c r = some (ERROR_UNSUPPORTED, r1) ∧
      sameSession r r1 ∧ sameSelection r r1 := by
  have h0 : sameSession r (r.call (Call.newWriter WriterKind.MPEG2TSWriter r.mOutputFd)) :=
    ⟨rfl, rfl, rfl, rfl⟩
  have h0s : sameSelection r
      (r.call (Call.newWriter WriterKind.MPEG2TSWriter r.mOutputFd)) := by
    simp [sameSelection, call, notifications, List.filterMap_append, List.filterMap_cons,
      Call.notification]
  unfold startMPEG2TSRecording
  rw [if_neg (not_not.mpr hfmt)]
  by_cases ha : r.mAudioSource ≠ E.AUDIO_SOURCE_CNT ∧ r.mAudioEncoder ≠ E.AUDIO_ENCODER_AAC
  · have haud : startMPEG2TSRecording.audio E P c
        (r.call (Call.newWriter WriterKind.MPEG2TSWriter r.mOutputFd))
        (MediaWriter.create WriterKind.MPEG2TSWriter r.mOutputFd)
        = some (ERROR_UNSUPPORTED, MediaWriter.create WriterKind.MPEG2TSWriter r.mOutputFd,
            r.call (Call.newWriter WriterKind.MPEG2TSWriter r.mOutputFd)) := by
      unfold startMPEG2TSRecording.audio
      rw [if_pos (show (r.call _).mAudioSource ≠ E.AUDIO_SOURCE_CNT from ha.1),
        if_pos (show (r.call _).mAudioEncoder ≠ E.AUDIO_ENCODER_AAC from ha.2)]
    rw [haud]
    exact ⟨_, rfl, h0, h0s⟩
  · have hv : r.mVideoSource ≠ E.VIDEO_SOURCE_LIST_END ∧
        r.mVideoEncoder ≠ E.VIDEO_ENCODER_H264 := h.resolve_left ha
    obtain ⟨w1, r1, haud⟩ := startMPEG2TSRecording_audio_ok E P c
      (r.call (Call.newWriter WriterKind.MPEG2TSWriter r.mOutputFd))
      (MediaWriter.create WriterKind.MPEG2TSWriter r.mOutputFd) hc ha
    have h1 := sameSession_trans h0 (startMPEG2TSRecording_audio_sameSession haud)
    have h1s := sameSelection_trans h0s (startMPEG2TSRecording_audio_sameSelection haud)
    have hvid : startMPEG2TSRecording.video E P c r1 w1 = some (ERROR_UNSUPPORTED, w1, r1) := by
      unfold startMPEG2TSRecording.video
      rw [if_pos (by
          rw [h1s.2.1]
          exact lt_of_le_of_ne hvs hv.1),
        if_pos (by
          rw [h1s.2.2.2.2.1]
          exact hv.2)]
    rw [haud]
    dsimp only
    rw [if_neg (by decide), hvid]
    exact ⟨_, rfl, h1, h1s⟩

/-- C27: for transport-stream output, with a valid descriptor, no writer referenced and
collaborators that create the audio source and its codec, `start` returns
`ERROR_UNSUPPORTED` when an audio source is set and the audio encoder is not AAC, or
a video source is set and the video encoder is not H.264; no writer is referenced
afterwards, the started flag is as before and the battery service was told nothing. -/
theorem start_transport_stream_unsupported (E : MediaEnums) (P : MediaProfiles)
    (c : Collaborators) (r : StagefrightRecorder) (hE : E.outputFormatLabelsDistinct)
    (hfmt : r.mOutputFormat = E.OUTPUT_FORMAT_MPEG2TS)
    (hfd : 0 ≤ r.mOutputFd) (hw : r.mWriter = none) (hc : c.audioCreated)
    (hvs : r.mVideoSource ≤ E.VIDEO_SOURCE_LIST_END)
    (h : (r.mAudioSource ≠ E.AUDIO_SOURCE_CNT ∧ r.mAudioEncoder ≠ E.AUDIO_ENCODER_AAC) ∨
      (r.mVideoSource ≠ E.VIDEO_SOURCE_LIST_END ∧ r.mVideoEncoder ≠ E.VIDEO_ENCODER_H264)) :
    ∃ r1, start E P c r = some (ERROR_UNSUPPORTED, r1) ∧ r1.mWriter = none ∧
      r1.mStarted = r.mStarted ∧ notifications r1.calls = notifications r.calls := by
  obtain ⟨r1, hts, hs, hsel⟩ := startMPEG2TSRecording_unsupported E P c r hfmt hc hvs h
  have hd : start.dispatch E P c r = some (ERROR_UNSUPPORTED, r1) := by
    unfold MediaEnums.outputFormatLabelsDistinct at hE
    simp only [List.nodup_cons, List.mem_cons, List.mem_singleton, not_or] at hE
    rcases hE with ⟨⟨-, -, -, -, -, -, -, h1, -⟩, ⟨-, -, -, -, -, -, h2, -⟩,
      ⟨-, -, -, -, -, h3, -⟩, ⟨-, -, -, -, h4, -⟩, ⟨-, -, -, h5, -⟩, ⟨-, -, h6, -⟩,
      ⟨-, h7, -⟩, ⟨h8, -⟩, -⟩
    unfold start.dispatch
    rw [hfmt,
      if_neg (fun h => h.elim (fun e => h1 e.symm)
        (fun h => h.elim (fun e => h2 e.symm) (fun e => h3 e.symm))),
      if_neg (fun h => h.elim (fun e => h4 e.symm) (fun e => h5 e.symm)),
      if_neg (fun h => h.elim (fun e => h6 e.symm) (fun e => h7 e.symm)),
      if_neg (fun e => h8 e.symm), if_pos rfl, hts]
  refine ⟨r1, ?_, hs.2.2.1.trans hw, hs.2.1, hsel.2.2.2.2.2.2⟩
  unfold start
  rw [if_neg (not_not.mpr hfd), if_neg (not_not.mpr hw), hd]
  rfl

/-- C27 at a concrete input: transport-stream output from the camera and the
microphone with the AAC audio encoder and the H.263 video encoder; the audio source
and codec are made, then the video encoder is refused. -/
theorem start_transport_stream_unsupported_witness :
    ∃ r1, start platformEnums sampleProfiles sampleCollaborators transportStreamH263Config
        = some (ERROR_UNSUPPORTED, r1) ∧ r1.mWriter = none ∧
      r1.mStarted = false ∧ notifications r1.calls = [] :=
  start_transport_stream_unsupported platformEnums sampleProfiles sampleCollaborators
    transportStreamH263Config (by decide) rfl (by decide) rfl (by decide) (by decide)
    (by decide)

/-! ### Reachable states -/

/-- No typed setter touches the descriptor, the started flag, the writer or the
listener. -/
theorem setterCall_run_sameSession (E : MediaEnums) (r : StagefrightRecorder)
    (call : SetterCall) : sameSession r (call.run E r).2 := by
  cases call <;>
    simp only [SetterCall.run, setAudioSource, setVideoSource, setOutputFormat, setAudioEncoder,
      setVideoEncoder, setVideoSize, setVideoFrameRate, setParamAudioSamplingRate,
      setParamAudioNumberOfChannels, setParamAudioEncodingBitRate, setParamVideoEncodingBitRate,
      setParamVideoRotation, setParamMaxFileDurationUs, setParamMaxFileSizeBytes,
      setParamInterleaveDuration, setParamVideoIFramesInterval, setParam64BitFileOffset,
      setParamVideoCameraId, setParamTrackTimeStatus, setParamVideoEncoderProfile,
      setParamVideoEncoderLevel, setParamMovieTimeScale, setParamVideoTimeScale,
      setParamAudioTimeScale, setParamTimeLapseEnable, setParamTimeBetweenTimeLapseFrameCapture,
      setParamGeoDataLongitude, setParamGeoDataLatitude] <;>
    (repeat' split) <;>
    exact ⟨rfl, rfl, rfl, rfl⟩

/-- Every typed setter leaves the video encoder as it is, except `setVideoEncoder`,
which stores H.263 or its argument, the argument lying strictly between
`VIDEO_ENCODER_DEFAULT` and `VIDEO_ENCODER_LIST_END`. -/
theorem setterCall_run_videoEncoder (E : MediaEnums) (r : StagefrightRecorder)
    (call : SetterCall) :
    (call.run E r).2.mVideoEncoder = r.mVideoEncoder ∨
      (call.run E r).2.mVideoEncoder = E.VIDEO_ENCODER_H263 ∨
      (E.VIDEO_ENCODER_DEFAULT < (call.run E r).2.mVideoEncoder ∧
        (call.run E r).2.mVideoEncoder < E.VIDEO_ENCODER_LIST_END) := by
  cases call with
  | setVideoEncoder ve =>
    simp only [SetterCall.run, setVideoEncoder]
    split_ifs with h1 h2
    · exact Or.inl rfl
    · exact Or.inr (Or.inl rfl)
    · refine Or.inr (Or.inr ?_)
      dsimp only
      push_neg at h1
      exact ⟨lt_of_le_of_ne h1.1 (Ne.symm h2), h1.2⟩
  | _ =>
    simp only [SetterCall.run, setAudioSource, setVideoSource, setOutputFormat, setAudioEncoder,
      setVideoSize, setVideoFrameRate, setParamAudioSamplingRate,
      setParamAudioNumberOfChannels, setParamAudioEncodingBitRate, setParamVideoEncodingBitRate,
      setParamVideoRotation, setParamMaxFileDurationUs, setParamMaxFileSizeBytes,
      setParamInterleaveDuration, setParamVideoIFramesInterval, setParam64BitFileOffset,
      setParamVideoCameraId, setParamTrackTimeStatus, setParamVideoEncoderProfile,
      setParamVideoEncoderLevel, setParamMovieTimeScale, setParamVideoTimeScale,
      setParamAudioTimeScale, setParamTimeLapseEnable, setParamTimeBetweenTimeLapseFrameCapture,
      setParamGeoDataLongitude, setParamGeoDataLatitude]
    repeat' split
    all_goals first
      | exact Or.inl rfl
      | exact Or.inl trivial

/-- `IsSetterRun` passes through an `if`. -/
theorem IsSetterRun_ite (E : MediaEnums) (r : StagefrightRecorder) (c : Prop) [Decidable c]
    (a b : status_t × StagefrightRecorder)
    (ha : IsSetterRun E r a) (hb : IsSetterRun E r b) : IsSetterRun E r (if c then a else b) := by
  split <;> assumption

/-- Every branch of `setParameter` is a plain `BAD_VALUE` or one call of a
`setParam*` setter. -/
theorem setParameter_isSetterRun (E : MediaEnums) (r : StagefrightRecorder)
    (key value : List Char) : IsSetterRun E r (r.setParameter key value) := by
  unfold setParameter
  iterate 21
    apply IsSetterRun_ite
    · split
      · first
        | exact Or.inr ⟨.setParamMaxFileDurationUs _, rfl⟩
        | exact Or.inr ⟨.setParamMaxFileSizeBytes _, rfl⟩
        | exact Or.inr ⟨.setParamInterleaveDuration _, rfl⟩
        | exact Or.inr ⟨.setParamMovieTimeScale _, rfl⟩
        | exact Or.inr ⟨.setParam64BitFileOffset _, rfl⟩
        | exact Or.inr ⟨.setParamGeoDataLongitude _, rfl⟩
        | exact Or.inr ⟨.setParamGeoDataLatitude _, rfl⟩
        | exact Or.inr ⟨.setParamTrackTimeStatus _, rfl⟩
        | exact Or.inr ⟨.setParamAudioSamplingRate _, rfl⟩
        | exact Or.inr ⟨.setParamAudioNumberOfChannels _, rfl⟩
        | exact Or.inr ⟨.setParamAudioEncodingBitRate _, rfl⟩
        | exact Or.inr ⟨.setParamAudioTimeScale _, rfl⟩
        | exact Or.inr ⟨.setParamVideoEncodingBitRate _, rfl⟩
        | exact Or.inr ⟨.setParamVideoRotation _, rfl⟩
        | exact Or.inr ⟨.setParamVideoIFramesInterval _, rfl⟩
        | exact Or.inr ⟨.setParamVideoEncoderProfile _, rfl⟩
        | exact Or.inr ⟨.setParamVideoEncoderLevel _, rfl⟩
        | exact Or.inr ⟨.setParamVideoCameraId _, rfl⟩
        | exact Or.inr ⟨.setParamVideoTimeScale _, rfl⟩
        | exact Or.inr ⟨.setParamTimeLapseEnable _, rfl⟩
        | exact Or.inr ⟨.setParamTimeBetweenTimeLapseFrameCapture _, rfl⟩
      · exact Or.inl rfl
  exact Or.inl rfl

/-- A property of the object that every setter call keeps is kept by `setParameter`. -/
theorem setParameter_preserves (E : MediaEnums) (I : StagefrightRecorder → Prop)
    (hI : ∀ (r : StagefrightRecorder) (call : SetterCall), I r → I (call.run E r).2)
    (r : StagefrightRecorder) (key value : List Char) (h : I r) :
    I (r.setParameter key value).2 := by
  rcases setParameter_isSetterRun E r key value with hx | ⟨call, hx⟩
  · rw [hx]
    exact h
  · rw [hx]
    exact hI r call h

/-- A property of the object that every setter call keeps is kept by the loop of
`setParameters`. -/
theorem setParametersLoop_preserves (E : MediaEnums) (I : StagefrightRecorder → Prop)
    (hI : ∀ (r : StagefrightRecorder) (call : SetterCall), I r → I (call.run E r).2)
    (n : Nat) (r : StagefrightRecorder) (s : List Char) (h : I r) :
    I (setParametersLoop n r s).2 := by
  induction n generalizing r s with
  | zero => exact h
  | succ n ih =>
    unfold setParametersLoop
    cases hb : setParametersBody r s with
    | inl res =>
      dsimp only
      unfold setParametersBody at hb
      split at hb
      · cases hb
        exact h
      · dsimp only at hb
        split at hb
        · cases hb
          exact h
        · split at hb
          · split at hb <;>
              (cases hb; exact setParameter_preserves E I hI r _ _ h)
          · split at hb
            · cases hb
              exact setParameter_preserves E I hI r _ _ h
            · cases hb
    | inr p =>
      obtain ⟨r1, s1⟩ := p
      dsimp only
      apply ih
      unfold setParametersBody at hb
      split at hb
      · cases hb
      · dsimp only at hb
        split at hb
        · cases hb
        · split at hb
          · split at hb <;> cases hb
          · split at hb
            · cases hb
            · cases hb
              exact setParameter_preserves E I hI r _ _ h

/-- A property of the object that every setter call keeps is kept by `setParameters`. -/
theorem setParameters_preserves (E : MediaEnums) (I : StagefrightRecorder → Prop)
    (hI : ∀ (r : StagefrightRecorder) (call : SetterCall), I r → I (call.run E r).2)
    (r : StagefrightRecorder) (s : List Char) (h : I r) : I (r.setParameters s).2 :=
  setParametersLoop_preserves E I hI _ r s h

/-- A property that holds after construction and is kept by every public call holds
after every sequence of calls. -/
theorem runOps_preserves (E : MediaEnums) (P : MediaProfiles)
    (I : StagefrightRecorder → Prop)
    (hstep : ∀ (r : StagefrightRecorder) (op : Op) (x : status_t × StagefrightRecorder),
      I r → op.run E P r = some x → I x.2)
    (ops : List Op) (r r1 : StagefrightRecorder) (h : I r)
    (hrun : runOps E P r ops = some r1) : I r1 := by
  induction ops generalizing r with
  | nil =>
    cases hrun
    exact h
  | cons op ops ih =>
    unfold runOps at hrun
    split at hrun
    · cases hrun
    · rename_i heq
      exact ih _ (hstep r op _ h heq) hrun

/-- Every public call keeps the session invariant. -/
theorem op_run_sessionInvariant (E : MediaEnums) (P : MediaProfiles)
    (r : StagefrightRecorder) (op : Op) (x : status_t × StagefrightRecorder)
    (hinv : sessionInvariant r) (h : op.run E P r = some x) : sessionInvariant x.2 := by
  have keep : ∀ r1 : StagefrightRecorder, sameSession r r1 → sessionInvariant r1 :=
    fun r1 hs => ⟨hs.1 ▸ hinv.1, fun h1 => hs.2.2.1 ▸ hinv.2 (hs.2.1 ▸ h1)⟩
  cases op with
  | init => cases h; exact hinv
  | prepare => cases h; exact hinv
  | setOutputFilePath path => cases h; exact hinv
  | setter call => cases h; exact keep _ (setterCall_run_sameSession E r call)
  | setCamera camera proxy =>
    cases h
    unfold setCamera
    split_ifs
    · exact hinv
    · exact hinv
    · exact keep _ ⟨rfl, rfl, rfl, rfl⟩
  | setPreviewSurface surface => cases h; exact keep _ ⟨rfl, rfl, rfl, rfl⟩
  | setListener listener => cases h; exact ⟨hinv.1, hinv.2⟩
  | setParameters params =>
    cases h
    exact keep _ (setParameters_preserves E (sameSession r)
      (fun r1 call h1 => sameSession_trans h1 (setterCall_run_sameSession E r1 call))
      r params (sameSession_refl r))
  | setOutputFile c fd offset length =>
    simp only [Op.run, setOutputFile] at h
    split_ifs at h
    · cases h; exact hinv
    all_goals
      cases h
      refine ⟨?_, hinv.2⟩
      dsimp only
      split
      · exact le_trans (by decide) (Int.ofNat_nonneg _)
      · exact le_refl _
  | start c =>
    have hk := start_startKeeps h
    rcases start_spec h with ⟨-, hx⟩ | ⟨hw, r1, hd, hcase⟩
    · rw [hx]; exact hinv
    · have hsel := start_dispatch_sameSelection hd
      have hkd := start_dispatch_startKeeps hd
      dsimp only at hsel hkd
      refine ⟨hk.1 ▸ hinv.1, ?_⟩
      rcases hcase with ⟨hok, -, hx⟩ | ⟨-, hx⟩
      · intro _
        rw [hx]
        exact hkd.2 hok
      · intro hs
        rw [hx, hsel.2.2.2.2.2.1] at hs
        exact absurd hw (hinv.2 hs)
  | pause c =>
    rcases @pause_spec E c r x.2 x.1 h with ⟨-, -, hx⟩ | ⟨-, -, -, hfd, hs, -⟩
    · rw [hx]; exact hinv
    · exact ⟨hfd ▸ hinv.1, fun h1 => absurd (hs ▸ h1) (by decide)⟩
  | stop c =>
    have hs := @stop_spec E c r x.2 x.1 h
    refine ⟨?_, fun h1 => absurd (hs.1 ▸ h1) (by decide)⟩
    rw [hs.2.2.1]
    split
    · exact le_refl _
    · exact hinv.1
  | close c =>
    simp only [Op.run, close] at h
    split at h
    · cases h
    · rename_i heq
      cases h
      have hs := stop_spec heq
      refine ⟨?_, fun h1 => absurd (hs.1 ▸ h1) (by decide)⟩
      show -1 ≤ StagefrightRecorder.mOutputFd _
      rw [hs.2.2.1]
      split
      · exact le_refl _
      · exact hinv.1
  | reset c =>
    simp only [Op.run, reset] at h
    split at h
    · cases h
    · rename_i heq
      cases h
      have hs := stop_spec heq
      exact ⟨le_refl _, fun h1 => absurd (hs.1 ▸ h1) (by decide)⟩

/-- After construction the session invariant holds. -/
theorem constructed_sessionInvariant (E : MediaEnums) : sessionInvariant (constructed E) :=
  ⟨le_refl _, fun h => (by cases h)⟩

/-- In every reachable state the descriptor is -1 or a descriptor, and a session
marked started has a writer. -/
theorem reachable_sessionInvariant (E : MediaEnums) (P : MediaProfiles)
    (r : StagefrightRecorder) (h : Reachable E P r) : sessionInvariant r := by
  obtain ⟨ops, hrun⟩ := h
  exact runOps_preserves E P sessionInvariant (op_run_sessionInvariant E P) ops _ r
    (constructed_sessionInvariant E) hrun

/-- Every public call keeps the stored video encoder among the three known ones, for a
table whose enumerators between `VIDEO_ENCODER_DEFAULT` and `VIDEO_ENCODER_LIST_END`
are exactly these. -/
theorem op_run_validVideoEncoder (E : MediaEnums) (P : MediaProfiles)
    (hE : E.videoEncodersListed)
    (r : StagefrightRecorder) (op : Op) (x : status_t × StagefrightRecorder)
    (hinv : validVideoEncoder E r) (h : op.run E P r = some x) : validVideoEncoder E x.2 := by
  have keep : ∀ r1 : StagefrightRecorder, r1.mVideoEncoder = r.mVideoEncoder →
      validVideoEncoder E r1 := by
    intro r1 h1
    unfold validVideoEncoder
    rw [h1]
    exact hinv
  have setter : ∀ (r0 : StagefrightRecorder) (call : SetterCall), validVideoEncoder E r0 →
      validVideoEncoder E (call.run E r0).2 := by
    intro r0 call h0
    rcases setterCall_run_videoEncoder E r0 call with h1 | h1 | ⟨h1, h2⟩
    · unfold validVideoEncoder
      rw [h1]
      exact h0
    · exact Or.inl h1
    · exact hE _ h1 h2
  cases op with
  | init => cases h; exact hinv
  | prepare => cases h; exact hinv
  | setOutputFilePath path => cases h; exact hinv
  | setter call => cases h; exact setter r call hinv
  | setCamera camera proxy =>
    cases h
    unfold setCamera
    split_ifs
    · exact hinv
    · exact hinv
    · exact keep _ rfl
  | setPreviewSurface surface => cases h; exact keep _ rfl
  | setListener listener => cases h; exact keep _ rfl
  | setParameters params =>
    cases h
    exact setParameters_preserves E (validVideoEncoder E) setter r params hinv
  | setOutputFile c fd offset length =>
    simp only [Op.run, setOutputFile] at h
    split_ifs at h
    · cases h; exact hinv
    all_goals
      cases h
      exact keep _ rfl
  | start c =>
    rcases start_spec h with ⟨-, hx⟩ | ⟨-, r1, hd, hcase⟩
    · rw [hx]; exact hinv
    · have hsel := start_dispatch_sameSelection hd
      dsimp only at hsel
      rcases hcase with ⟨-, -, hx⟩ | ⟨-, hx⟩
      · rw [hx]
        exact keep _ hsel.2.2.2.2.1
      · rw [hx]
        exact keep _ hsel.2.2.2.2.1
  | pause c =>
    rcases @pause_spec E c r x.2 x.1 h with ⟨-, -, hx⟩ | ⟨-, -, -, -, -, -, -, hve, -⟩
    · rw [hx]; exact hinv
    · exact keep _ hve
  | stop c =>
    exact keep _ (@stop_spec E c r x.2 x.1 h).2.2.2.2.2.1
  | close c =>
    simp only [Op.run, close] at h
    split at h
    · cases h
    · rename_i heq
      cases h
      exact keep _ (stop_spec heq).2.2.2.2.2.1
  | reset c =>
    simp only [Op.run, reset] at h
    split at h
    · cases h
    · cases h
      exact Or.inl rfl

/-- When the stored video encoder is one of the three known ones, `setupVideoEncoder`
gets past its `switch`: with a source whose format has the five keys and a codec
service that connects, it returns. -/
theorem setupVideoEncoder_returns (E : MediaEnums) (c : Collaborators)
    (r : StagefrightRecorder) (source : CaptureSource) (videoBitRate : Int)
    (hve : validVideoEncoder E r)
    (hw : c.sourceWidth ≠ none) (hh : c.sourceHeight ≠ none) (hs : c.sourceStride ≠ none)
    (hsl : c.sourceSliceHeight ≠ none) (hcf : c.sourceColorFormat ≠ none)
    (hconn : c.videoClientConnect = OK) :
    setupVideoEncoder E c r (some source) videoBitRate ≠ none := by
  obtain ⟨w, hw⟩ := Option.ne_none_iff_exists'.mp hw
  obtain ⟨h, hh⟩ := Option.ne_none_iff_exists'.mp hh
  obtain ⟨s, hs⟩ := Option.ne_none_iff_exists'.mp hs
  obtain ⟨sl, hsl⟩ := Option.ne_none_iff_exists'.mp hsl
  obtain ⟨cf, hcf⟩ := Option.ne_none_iff_exists'.mp hcf
  obtain ⟨m, hm⟩ : ∃ m, (if r.mVideoEncoder = E.VIDEO_ENCODER_H263 then some Mime.VIDEO_H263
      else if r.mVideoEncoder = E.VIDEO_ENCODER_MPEG_4_SP then some Mime.VIDEO_MPEG4
      else if r.mVideoEncoder = E.VIDEO_ENCODER_H264 then some Mime.VIDEO_AVC
      else none) = some m := by
    split_ifs with h1 h2 h3
    · exact ⟨_, rfl⟩
    · exact ⟨_, rfl⟩
    · exact ⟨_, rfl⟩
    · rcases hve with h | h | h
      · exact absurd h h1
      · exact absurd h h2
      · exact absurd h h3
  unfold setupVideoEncoder
  dsimp only
  rw [hm, hw, hh, hs, hsl, hcf]
  dsimp only
  rw [if_neg (not_not.mpr hconn)]
  split <;> exact fun h => (by cases h)

/-- The enumerators of the sample table between `VIDEO_ENCODER_DEFAULT` (0) and
`VIDEO_ENCODER_LIST_END` (4) are H.263, H.264 and MPEG-4 SP (1, 2, 3). -/
theorem platformEnums_videoEncodersListed : platformEnums.videoEncodersListed := by
  intro ve h1 h2
  simp only [platformEnums] at h1 h2 ⊢
  omega

/-- C30: for a table whose video-encoder enumerators between `VIDEO_ENCODER_DEFAULT`
and `VIDEO_ENCODER_LIST_END` are H.263, MPEG-4 SP and H.264, the stored video encoder
is one of these three in every state reachable from construction by public calls,
whatever the collaborators answer.  Hence `setupVideoEncoder`, run on any object with
that encoder, gets past the `switch` with the fatal default: given a source whose
format has the five keys and a codec service that connects, it returns. -/
theorem reachable_videoEncoder (E : MediaEnums) (P : MediaProfiles)
    (hE : E.videoEncodersListed) (r : StagefrightRecorder) (h : Reachable E P r) :
    validVideoEncoder E r ∧
    ∀ (c : Collaborators) (r1 : StagefrightRecorder) (source : CaptureSource)
      (videoBitRate : Int), r1.mVideoEncoder = r.mVideoEncoder →
      c.sourceWidth ≠ none → c.sourceHeight ≠ none → c.sourceStride ≠ none →
      c.sourceSliceHeight ≠ none → c.sourceColorFormat ≠ none →
      c.videoClientConnect = OK →
      setupVideoEncoder E c r1 (some source) videoBitRate ≠ none := by
  obtain ⟨ops, hrun⟩ := h
  have hv : validVideoEncoder E r :=
    runOps_preserves E P (validVideoEncoder E) (op_run_validVideoEncoder E P hE) ops _ r
      (Or.inl rfl) hrun
  refine ⟨hv, ?_⟩
  intro c r1 source videoBitRate h1 hw hh hs hsl hcf hconn
  refine setupVideoEncoder_returns E c r1 source videoBitRate ?_ hw hh hs hsl hcf hconn
  unfold validVideoEncoder
  rw [h1]
  exact hv

/-- C30 at a concrete input: the started camcorder session is reachable (microphone,
camera, output descriptor, `start`) and its video encoder is H.263. -/
theorem reachable_videoEncoder_witness :
    Reachable platformEnums sampleProfiles startedCamcorder ∧
    validVideoEncoder platformEnums startedCamcorder ∧ startedCamcorder.mVideoEncoder = 1 :=
  ⟨⟨camcorderCalls, rfl⟩,
    (reachable_videoEncoder platformEnums sampleProfiles platformEnums_videoEncodersListed
      startedCamcorder ⟨camcorderCalls, rfl⟩).1, rfl⟩

/-- Every typed setter leaves the video source as it is, except `setVideoSource`, which
stores the camera or its argument, the argument lying below `VIDEO_SOURCE_LIST_END`. -/
theorem setterCall_run_videoSource (E : MediaEnums) (r : StagefrightRecorder)
    (call : SetterCall) :
    (call.run E r).2.mVideoSource = r.mVideoSource ∨
      (call.run E r).2.mVideoSource = E.VIDEO_SOURCE_CAMERA ∨
      (call.run E r).2.mVideoSource < E.VIDEO_SOURCE_LIST_END := by
  cases call with
  | setVideoSource vs =>
    simp only [SetterCall.run, setVideoSource]
    split_ifs with h1 h2
    · exact Or.inl rfl
    · exact Or.inr (Or.inl rfl)
    · refine Or.inr (Or.inr ?_)
      dsimp only
      push_neg at h1
      exact h1.2
  | _ =>
    simp only [SetterCall.run, setAudioSource, setOutputFormat, setAudioEncoder,
      setVideoEncoder, setVideoSize, setVideoFrameRate, setParamAudioSamplingRate,
      setParamAudioNumberOfChannels, setParamAudioEncodingBitRate, setParamVideoEncodingBitRate,
      setParamVideoRotation, setParamMaxFileDurationUs, setParamMaxFileSizeBytes,
      setParamInterleaveDuration, setParamVideoIFramesInterval, setParam64BitFileOffset,
      setParamVideoCameraId, setParamTrackTimeStatus, setParamVideoEncoderProfile,
      setParamVideoEncoderLevel, setParamMovieTimeScale, setParamVideoTimeScale,
      setParamAudioTimeScale, setParamTimeLapseEnable, setParamTimeBetweenTimeLapseFrameCapture,
      setParamGeoDataLongitude, setParamGeoDataLatitude]
    repeat' split
    all_goals first
      | exact Or.inl rfl
      | exact Or.inl trivial

/-- Every public call keeps the stored video source at or below
`VIDEO_SOURCE_LIST_END`, for a table that has the camera below the end marker. -/
theorem op_run_videoSource (E : MediaEnums) (P : MediaProfiles)
    (hE : E.VIDEO_SOURCE_CAMERA ≤ E.VIDEO_SOURCE_LIST_END)
    (r : StagefrightRecorder) (op : Op) (x : status_t × StagefrightRecorder)
    (hinv : r.mVideoSource ≤ E.VIDEO_SOURCE_LIST_END) (h : op.run E P r = some x) :
    x.2.mVideoSource ≤ E.VIDEO_SOURCE_LIST_END := by
  have keep : ∀ r1 : StagefrightRecorder, r1.mVideoSource = r.mVideoSource →
      r1.mVideoSource ≤ E.VIDEO_SOURCE_LIST_END := by
    intro r1 h1
    rw [h1]
    exact hinv
  have setter : ∀ (r0 : StagefrightRecorder) (call : SetterCall),
      r0.mVideoSource ≤ E.VIDEO_SOURCE_LIST_END →
      (call.run E r0).2.mVideoSource ≤ E.VIDEO_SOURCE_LIST_END := by
    intro r0 call h0
    rcases setterCall_run_videoSource E r0 call with h1 | h1 | h1
    · rw [h1]
      exact h0
    · rw [h1]
      exact hE
    · exact le_of_lt h1
  cases op with
  | init => cases h; exact hinv
  | prepare => cases h; exact hinv
  | setOutputFilePath path => cases h; exact hinv
  | setter call => cases h; exact setter r call hinv
  | setCamera camera proxy =>
    cases h
    unfold setCamera
    split_ifs
    · exact hinv
    · exact hinv
    · exact keep _ rfl
  | setPreviewSurface surface => cases h; exact keep _ rfl
  | setListener listener => cases h; exact keep _ rfl
  | setParameters params =>
    cases h
    exact setParameters_preserves E (fun r0 => r0.mVideoSource ≤ E.VIDEO_SOURCE_LIST_END)
      setter r params hinv
  | setOutputFile c fd offset length =>
    simp only [Op.run, setOutputFile] at h
    split_ifs at h
    · cases h; exact hinv
    all_goals
      cases h
      exact keep _ rfl
  | start c =>
    rcases start_spec h with ⟨-, hx⟩ | ⟨-, r1, hd, hcase⟩
    · rw [hx]; exact hinv
    · have hsel := start_dispatch_sameSelection hd
      dsimp only at hsel
      rcases hcase with ⟨-, -, hx⟩ | ⟨-, hx⟩
      · rw [hx]
        exact keep _ hsel.2.1
      · rw [hx]
        exact keep _ hsel.2.1
  | pause c =>
    rcases @pause_spec E c r x.2 x.1 h with ⟨-, -, hx⟩ | ⟨-, -, -, -, -, -, hvs, -⟩
    · rw [hx]; exact hinv
    · exact keep _ hvs
  | stop c =>
    exact keep _ (@stop_spec E c r x.2 x.1 h).2.2.2.2.1
  | close c =>
    simp only [Op.run, close] at h
    split at h
    · cases h
    · rename_i heq
      cases h
      exact keep _ (stop_spec heq).2.2.2.2.1
  | reset c =>
    simp only [Op.run, reset] at h
    split at h
    · cases h
    · cases h
      exact le_refl _

/-- In every reachable state the stored video source is at most
`VIDEO_SOURCE_LIST_END`, so "a video source is set" can be tested with `<` as well as
with `!=`. -/
theorem reachable_videoSource (E : MediaEnums) (P : MediaProfiles)
    (hE : E.VIDEO_SOURCE_CAMERA ≤ E.VIDEO_SOURCE_LIST_END)
    (r : StagefrightRecorder) (h : Reachable E P r) :
    r.mVideoSource ≤ E.VIDEO_SOURCE_LIST_END := by
  obtain ⟨ops, hrun⟩ := h
  exact runOps_preserves E P (fun r0 => r0.mVideoSource ≤ E.VIDEO_SOURCE_LIST_END)
    (op_run_videoSource E P hE) ops _ r (le_refl _) hrun

/-! ### The typed setters once more: frame property and frame rate -/

/-- C38: whatever a typed setter returns, the object after the call differs from the
object before it at most in the setter's own member or members: it equals the old
object with just those members taken from the new one.  So the rest of the
configuration, the writer, the descriptor, the started flag and the trace are
untouched; for instance `setParamVideoRotation` writes only the rotation,
`setVideoSize` only width and height, `setParamMaxFileDurationUs` only the duration
limit and `setVideoEncoder` only the video encoder. -/
theorem setter_frame (E : MediaEnums) (r : StagefrightRecorder) :
    (∀ call : SetterCall, (call.run E r).2 = call.withOwnFields r (call.run E r).2) ∧
    (∀ d : Int, (r.setParamVideoRotation d).2
      = { r with mRotationDegrees := (r.setParamVideoRotation d).2.mRotationDegrees }) ∧
    (∀ w h : Int, (r.setVideoSize w h).2
      = { r with mVideoWidth := (r.setVideoSize w h).2.mVideoWidth,
                 mVideoHeight := (r.setVideoSize w h).2.mVideoHeight }) ∧
    (∀ t : Int, (r.setParamMaxFileDurationUs t).2
      = { r with mMaxFileDurationUs := (r.setParamMaxFileDurationUs t).2.mMaxFileDurationUs }) ∧
    (∀ ve : Int, (r.setVideoEncoder E ve).2
      = { r with mVideoEncoder := (r.setVideoEncoder E ve).2.mVideoEncoder }) := by
  have hall : ∀ call : SetterCall,
      (call.run E r).2 = call.withOwnFields r (call.run E r).2 := by
    intro call
    cases call <;>
      simp only [SetterCall.run, SetterCall.withOwnFields, setAudioSource, setVideoSource,
        setOutputFormat, setAudioEncoder,
        setVideoEncoder, setVideoSize, setVideoFrameRate, setParamAudioSamplingRate,
        setParamAudioNumberOfChannels, setParamAudioEncodingBitRate,
        setParamVideoEncodingBitRate,
        setParamVideoRotation, setParamMaxFileDurationUs, setParamMaxFileSizeBytes,
        setParamInterleaveDuration, setParamVideoIFramesInterval, setParam64BitFileOffset,
        setParamVideoCameraId, setParamTrackTimeStatus, setParamVideoEncoderProfile,
        setParamVideoEncoderLevel, setParamMovieTimeScale, setParamVideoTimeScale,
        setParamAudioTimeScale, setParamTimeLapseEnable,
        setParamTimeBetweenTimeLapseFrameCapture,
        setParamGeoDataLongitude, setParamGeoDataLatitude] <;>
      (repeat' split) <;>
      rfl
  exact ⟨hall, fun d => hall (.setParamVideoRotation d), fun w h => hall (.setVideoSize w h),
    fun t => hall (.setParamMaxFileDurationUs t), fun ve => hall (.setVideoEncoder ve)⟩

/-- C39: `setVideoFrameRate(f)` returns `OK` exactly when `f` is -1 or lies in
1..120; it then stores `f` and nothing else; for every other `f` it returns
`BAD_VALUE` and hands back the object unchanged. -/
theorem setVideoFrameRate_spec (r : StagefrightRecorder) (f : Int) :
    ((r.setVideoFrameRate f).1 = OK ↔ (f = -1 ∨ (1 ≤ f ∧ f ≤ 120))) ∧
    ((f = -1 ∨ (1 ≤ f ∧ f ≤ 120)) →
      r.setVideoFrameRate f = (OK, { r with mFrameRate := f })) ∧
    (¬ (f = -1 ∨ (1 ≤ f ∧ f ≤ 120)) → r.setVideoFrameRate f = (BAD_VALUE, r)) := by
  unfold setVideoFrameRate
  by_cases h : (f ≤ 0 ∧ f ≠ -1) ∨ f > 120
  · have hn : ¬ (f = -1 ∨ (1 ≤ f ∧ f ≤ 120)) := by omega
    rw [if_pos h]
    exact ⟨⟨fun h1 => (by cases h1), fun h1 => absurd h1 hn⟩, fun h1 => absurd h1 hn,
      fun _ => rfl⟩
  · have hc : f = -1 ∨ (1 ≤ f ∧ f ≤ 120) := by omega
    rw [if_neg h]
    exact ⟨⟨fun _ => hc, fun _ => rfl⟩, fun _ => rfl, fun h1 => absurd hc h1⟩

/-- C37: when the profile's maximum frame rate is at least -1, `clipVideoFrameRate`
leaves an unset frame rate (-1) as it is, it is not raised to the minimum; and an
explicitly set frame rate `f` becomes `max(min, min(f, max))` when the profile has
min <= max.  Nothing else is written. -/
theorem clipVideoFrameRate_sentinel (P : MediaProfiles) (r : StagefrightRecorder) :
    (r.mFrameRate = -1 →
      -1 ≤ P.getVideoEncoderParamByName "enc.vid.fps.max" r.mVideoEncoder →
      clipVideoFrameRate P r = r) ∧
    (r.mFrameRate ≠ -1 →
      P.getVideoEncoderParamByName "enc.vid.fps.min" r.mVideoEncoder
        ≤ P.getVideoEncoderParamByName "enc.vid.fps.max" r.mVideoEncoder →
      clipVideoFrameRate P r = { r with mFrameRate :=
        (max (P.getVideoEncoderParamByName "enc.vid.fps.min" r.mVideoEncoder)
          (min r.mFrameRate
            (P.getVideoEncoderParamByName "enc.vid.fps.max" r.mVideoEncoder))) }) := by
  constructor
  · intro h1 h2
    rw [clipVideoFrameRate_eq]
    have : clampFrameRate (P.getVideoEncoderParamByName "enc.vid.fps.min" r.mVideoEncoder)
        (P.getVideoEncoderParamByName "enc.vid.fps.max" r.mVideoEncoder) r.mFrameRate
        = r.mFrameRate := by
      unfold clampFrameRate
      split_ifs <;> omega
    rw [this]
  · intro h1 h2
    rw [clipVideoFrameRate_eq]
    have : clampFrameRate (P.getVideoEncoderParamByName "enc.vid.fps.min" r.mVideoEncoder)
        (P.getVideoEncoderParamByName "enc.vid.fps.max" r.mVideoEncoder) r.mFrameRate
        = max (P.getVideoEncoderParamByName "enc.vid.fps.min" r.mVideoEncoder)
          (min r.mFrameRate
            (P.getVideoEncoderParamByName "enc.vid.fps.max" r.mVideoEncoder)) := by
      unfold clampFrameRate
      split_ifs <;> omega
    rw [this]

/-- The sentinel is not safe below -1: with a maximum frame rate of -2 the unset frame
rate -1 is clipped to -2. -/
theorem clipVideoFrameRate_sentinel_clipped :
    (clipVideoFrameRate
      { sampleProfiles with getVideoEncoderParamByName := fun name encoder =>
          if name = "enc.vid.fps.max" then -2
          else sampleProfiles.getVideoEncoderParamByName name encoder }
      (constructed platformEnums)).mFrameRate = -2 := by
  decide

/-! ### A trailing semicolon -/

/-- The first occurrence of `c` in `s ++ t` is the one in `s` when there is one. -/
theorem strchr_append_of_some (c : Char) (s t : List Char) (i : Nat)
    (h : strchr s c = some i) : strchr (s ++ t) c = some i := by
  obtain ⟨hs, hk⟩ := strchr_some_split c s i h
  have hi : (s.take i).length = i := by
    have := strchr_lt c s i h
    simp only [List.length_take]
    omega
  have := strchr_append_cons c (s.take i) (s.drop (i + 1) ++ t) hk
  rw [hi] at this
  rw [← this]
  congr 1
  conv_lhs => rw [hs]
  simp

/-- The loop body on a last entry `k=v`. -/
theorem setParametersBody_entry_last (r : StagefrightRecorder) (k v : List Char)
    (hk : '=' ∉ k) (hv : ';' ∉ v) :
    setParametersBody r (k ++ '=' :: v) =
      if (TrimString k).length = 0 then Sum.inl (BAD_VALUE, r)
      else if (r.setParameter (TrimString k) v).1 ≠ OK then
        Sum.inl (BAD_VALUE, (r.setParameter (TrimString k) v).2)
      else Sum.inl (OK, (r.setParameter (TrimString k) v).2) := by
  unfold setParametersBody
  simp only [strchr_append_cons '=' k v hk, take_append_cons, drop_append_cons,
    strchr_eq_none ';' v hv]

/-- The loop body on an entry `k=v;` followed by the rest `s`. -/
theorem setParametersBody_entry_more (r : StagefrightRecorder) (k v s : List Char)
    (hk : '=' ∉ k) (hv : ';' ∉ v) :
    setParametersBody r (k ++ '=' :: (v ++ ';' :: s)) =
      if (TrimString k).length = 0 then Sum.inl (BAD_VALUE, r)
      else if (r.setParameter (TrimString k) v).1 ≠ OK then
        Sum.inl (BAD_VALUE, (r.setParameter (TrimString k) v).2)
      else Sum.inr ((r.setParameter (TrimString k) v).2, s) := by
  unfold setParametersBody
  simp only [strchr_append_cons '=' k _ hk, take_append_cons, drop_append_cons,
    strchr_append_cons ';' v s hv]

/-- On the empty string `setParameters` finds no `=` and returns `BAD_VALUE`. -/
theorem setParameters_nil (r : StagefrightRecorder) : r.setParameters [] = (BAD_VALUE, r) :=
  rfl

/-- A string on which `setParameters` returns `OK` fails once `;` is appended, with
the same object (induction on the length of the string still to be read). -/
theorem setParameters_append_semicolon (n : Nat) (s : List Char)
    (r r1 : StagefrightRecorder) (hn : s.length ≤ n) (h : r.setParameters s = (OK, r1)) :
    r.setParameters (s ++ [';']) = (BAD_VALUE, r1) := by
  induction n generalizing s r with
  | zero =>
    have hs : s = [] := List.length_eq_zero.mp (by omega)
    subst hs
    rw [setParameters_nil] at h
    cases h
  | succ n ih =>
    rw [setParameters_unfold] at h
    rw [setParameters_unfold]
    cases heq : strchr s '=' with
    | none =>
      unfold setParametersBody at h
      rw [heq] at h
      cases h
    | some eq =>
      obtain ⟨hs, hk⟩ := strchr_some_split '=' s eq heq
      cases hsc : strchr (s.drop (eq + 1)) ';' with
      | none =>
        have hv := strchr_none_not_mem ';' _ hsc
        have hs2 : s ++ [';'] = s.take eq ++ '=' :: (s.drop (eq + 1) ++ ';' :: []) := by
          conv_lhs => rw [hs]
          simp
        rw [hs, setParametersBody_entry_last r _ _ hk hv] at h
        rw [hs2, setParametersBody_entry_more r _ _ _ hk hv]
        split_ifs at h with h1 h2
        · cases h
        · cases h
        · rw [if_neg h1, if_neg h2]
          cases h
          exact setParameters_nil _
      | some sc =>
        obtain ⟨hv, hvk⟩ := strchr_some_split ';' _ sc hsc
        have hs1 : s = s.take eq ++ '=' ::
            ((s.drop (eq + 1)).take sc ++ ';' :: (s.drop (eq + 1)).drop (sc + 1)) := by
          rw [← hv]
          exact hs
        have hs2 : s ++ [';'] = s.take eq ++ '=' ::
            ((s.drop (eq + 1)).take sc ++ ';' :: ((s.drop (eq + 1)).drop (sc + 1) ++ [';'])) := by
          conv_lhs => rw [hs1]
          simp
        have hlen : ((s.drop (eq + 1)).drop (sc + 1)).length ≤ n := by
          simp only [List.length_drop]
          omega
        rw [hs1, setParametersBody_entry_more r _ _ _ hk hvk] at h
        rw [hs2, setParametersBody_entry_more r _ _ _ hk hvk]
        split_ifs at h with h1 h2
        · cases h
        · cases h
        · rw [if_neg h1, if_neg h2]
          exact ih _ _ hlen h

/-- C36: a parameter string on which `setParameters` returns `OK` makes it return
`BAD_VALUE` once a semicolon is appended, and the object is then exactly the one the
string without the semicolon leaves: every entry has been applied. -/
theorem setParameters_trailing_semicolon (r r1 : StagefrightRecorder) (s : List Char)
    (h : r.setParameters s = (OK, r1)) : r.setParameters (s ++ [';']) = (BAD_VALUE, r1) :=
  setParameters_append_semicolon s.length s r r1 (le_refl _) h

/-- C36 at a concrete input: `max-filesize=2000000;video-param-rotation-angle-degrees=90`
with and without a trailing semicolon. -/
theorem setParameters_trailing_semicolon_witness :
    (constructed platformEnums).setParameters
        ("max-filesize=2000000;video-param-rotation-angle-degrees=90".toList ++ [';'])
      = (BAD_VALUE, { constructed platformEnums with
          mMaxFileSizeBytes := 2000000, mRotationDegrees := 90 }) :=
  setParameters_trailing_semicolon (constructed platformEnums) _
    "max-filesize=2000000;video-param-rotation-angle-degrees=90".toList (by decide)

/-! ### Integer literals -/

/-- A white-space character is not a digit. -/
theorem isdigit_of_isspace (c : Char) (h : isspace c = true) : isdigit c = false := by
  simp only [isspace, Bool.or_eq_true, Bool.and_eq_true, decide_eq_true_eq] at h
  simp only [isdigit, Bool.and_eq_false_imp, decide_eq_true_eq, decide_eq_false_iff_not]
  omega

/-- A digit is not white space. -/
theorem isspace_of_isdigit (c : Char) (h : isdigit c = true) : isspace c = false := by
  cases hs : isspace c with
  | false => rfl
  | true => rw [isdigit_of_isspace c hs] at h; cases h

/-- No white space is read as a digit: the run of digits at the start of white space is empty. -/
theorem takeWhile_isdigit_spaces (t : List Char) (h : ∀ c ∈ t, isspace c = true) :
    t.takeWhile isdigit = [] := by
  cases t with
  | nil => rfl
  | cons c cs =>
    rw [List.takeWhile_cons, isdigit_of_isspace c (h c (List.mem_cons_self _ _))]
    rfl

/-- The white space at the start of `lead ++ rest` is `lead` when `rest` does not start
with white space. -/
theorem takeWhile_isspace_lead (lead rest : List Char) (hl : ∀ c ∈ lead, isspace c = true)
    (hr : rest.head?.any isspace = false) : (lead ++ rest).takeWhile isspace = lead := by
  rw [List.takeWhile_append_of_pos hl]
  cases rest with
  | nil => simp
  | cons c cs =>
    simp only [List.head?_cons, Option.any_some] at hr
    rw [List.takeWhile_cons, hr]
    simp

/-- The digits at the start of `digits ++ trail` when `trail` does not start with a
digit. -/
theorem takeWhile_isdigit_digits (digits trail : List Char)
    (hd : ∀ c ∈ digits, isdigit c = true) (ht : trail.head?.any isdigit = false) :
    (digits ++ trail).takeWhile isdigit = digits := by
  rw [List.takeWhile_append_of_pos hd]
  cases trail with
  | nil => simp
  | cons c cs =>
    simp only [List.head?_cons, Option.any_some] at ht
    rw [List.takeWhile_cons, ht]
    simp

/-- White space does not start with a digit. -/
theorem head_isdigit_spaces (t : List Char) (h : ∀ c ∈ t, isspace c = true) :
    t.head?.any isdigit = false := by
  cases t with
  | nil => rfl
  | cons c cs => exact isdigit_of_isspace c (h c (List.mem_cons_self _ _))

/-- What `strtoll` returns on white space, a sign, digits and a rest that does not start
with a digit. -/
theorem strtoll_literal (lead sign digits trail : List Char)
    (hl : ∀ c ∈ lead, isspace c = true)
    (hs : sign = [] ∨ sign = ['+'] ∨ sign = ['-'])
    (hne : digits ≠ []) (hd : ∀ c ∈ digits, isdigit c = true)
    (ht : trail.head?.any isdigit = false) :
    strtoll (lead ++ sign ++ digits ++ trail) =
      if (if sign = ['-'] then -(digitsValue digits : Int) else (digitsValue digits : Int))
          > LLONG_MAX then
        { val := LLONG_MAX, endOff := lead.length + sign.length + digits.length, erange := true }
      else if (if sign = ['-'] then -(digitsValue digits : Int)
          else (digitsValue digits : Int)) < LLONG_MIN then
        { val := LLONG_MIN, endOff := lead.length + sign.length + digits.length, erange := true }
      else
        { val := (if sign = ['-'] then -(digitsValue digits : Int)
            else (digitsValue digits : Int)),
          endOff := lead.length + sign.length + digits.length, erange := false } := by
  obtain ⟨d, ds, rfl⟩ := List.exists_cons_of_ne_nil hne
  have hdd : isdigit d = true := hd d (List.mem_cons_self _ _)
  have hdsp : isspace d = false := isspace_of_isdigit d hdd
  have hdm : d ≠ '-' := by
    intro h
    rw [h] at hdd
    exact absurd hdd (by decide)
  have hdp : d ≠ '+' := by
    intro h
    rw [h] at hdd
    exact absurd hdd (by decide)
  have hlen : (d :: ds).length ≠ 0 := by simp
  rcases hs with rfl | rfl | rfl
  · have hw : (lead ++ [] ++ d :: ds ++ trail).takeWhile isspace = lead := by
      have := takeWhile_isspace_lead lead (d :: ds ++ trail) hl (by simpa using hdsp)
      simpa using this
    have hdrop : (lead ++ [] ++ d :: ds ++ trail).drop lead.length = d :: (ds ++ trail) := by
      simp
    have htd : (d :: (ds ++ trail)).takeWhile isdigit = d :: ds :=
      takeWhile_isdigit_digits (d :: ds) trail hd ht
    unfold strtoll
    simp only [hw, hdrop, List.head?_cons, Option.some.injEq, hdm, hdp, or_self, if_false,
      List.drop_zero, htd, hlen, decide_False, List.length_nil, Nat.add_zero,
      Bool.false_eq_true, List.cons_ne_nil, (by decide : ([] : List Char) ≠ ['-']),
      (by simp : ¬ ([] : List Char) = ['-'])]
  · have hw : (lead ++ ['+'] ++ d :: ds ++ trail).takeWhile isspace = lead := by
      have := takeWhile_isspace_lead lead ('+' :: d :: ds ++ trail) hl rfl
      simpa using this
    have hdrop : (lead ++ ['+'] ++ d :: ds ++ trail).drop lead.length
        = '+' :: d :: (ds ++ trail) := by
      simp
    have htd : (d :: (ds ++ trail)).takeWhile isdigit = d :: ds :=
      takeWhile_isdigit_digits (d :: ds) trail hd ht
    unfold strtoll
    simp only [hw, hdrop, List.head?_cons, Option.some.injEq, or_true, if_true,
      List.drop_succ_cons, List.drop_zero, htd, hlen, if_false, List.length_cons,
      List.length_nil, (by decide : ¬ ('+' = '-')), decide_False, Bool.false_eq_true,
      (by decide : ¬ (['+'] = ['-'])), Nat.add_one_ne_zero, Nat.zero_add]
  · have hw : (lead ++ ['-'] ++ d :: ds ++ trail).takeWhile isspace = lead := by
      have := takeWhile_isspace_lead lead ('-' :: d :: ds ++ trail) hl rfl
      simpa using this
    have hdrop : (lead ++ ['-'] ++ d :: ds ++ trail).drop lead.length
        = '-' :: d :: (ds ++ trail) := by
      simp
    have htd : (d :: (ds ++ trail)).takeWhile isdigit = d :: ds :=
      takeWhile_isdigit_digits (d :: ds) trail hd ht
    unfold strtoll
    simp only [hw, hdrop, List.head?_cons, true_or, if_true,
      List.drop_succ_cons, List.drop_zero, htd, hlen, if_false, List.length_cons,
      List.length_nil, decide_True, Nat.add_one_ne_zero, Nat.zero_add]

/-- What `safe_strtoi64` returns on white space, a sign, digits and white space: the
value when it fits in 64 bits, and a refusal otherwise. -/
theorem safe_strtoi64_literal (s : List Char) (n : Int) (h : IsIntegerLiteral s n) :
    safe_strtoi64 s = if LLONG_MIN ≤ n ∧ n ≤ LLONG_MAX then some n else none := by
  obtain ⟨lead, sign, digits, trail, rfl, hl, hs, hne, hd, ht, rfl⟩ := h
  have hdrop : (lead ++ sign ++ digits ++ trail).drop
      (lead.length + sign.length + digits.length) = trail := by
    have : lead.length + sign.length + digits.length = (lead ++ sign ++ digits).length := by
      simp only [List.length_append]
    rw [this, List.drop_left]
  have htrail : trail.dropWhile isspace = [] := by
    rw [List.dropWhile_eq_nil_iff]
    exact ht
  have hpos : lead.length + sign.length + digits.length ≠ 0 := by
    have := List.length_pos.mpr hne
    omega
  unfold safe_strtoi64
  rw [strtoll_literal lead sign digits trail hl hs hne hd (head_isdigit_spaces trail ht)]
  dsimp only
  split_ifs <;> simp_all <;> omega

/-- The string left by `dropWhile p` does not start with a character satisfying `p`. -/
theorem head_dropWhile_any (p : Char → Bool) (l : List Char) :
    ((l.dropWhile p).head?.any p) = false := by
  have h := List.head?_dropWhile_not p l
  cases hh : (l.dropWhile p).head? with
  | none => rfl
  | some x =>
    rw [hh] at h
    simpa using h

/-- Every string splits into the white space, the sign and the digits that `strtoll`
reads and a rest that does not start with a digit. -/
theorem strtoll_parts (s : List Char) :
    ∃ lead sign digits rest : List Char,
      s = lead ++ sign ++ digits ++ rest ∧
      (∀ c ∈ lead, isspace c = true) ∧
      (sign = [] ∨ sign = ['+'] ∨ sign = ['-']) ∧
      (∀ c ∈ digits, isdigit c = true) ∧
      rest.head?.any isdigit = false ∧
      (digits = [] → strtoll s = { val := 0, endOff := 0, erange := false }) := by
  have hdrop : s.drop (s.takeWhile isspace).length = s.dropWhile isspace := by
    have h := List.drop_left (s.takeWhile isspace) (s.dropWhile isspace)
    rw [List.takeWhile_append_dropWhile] at h
    exact h
  refine ⟨s.takeWhile isspace,
    (s.dropWhile isspace).take
      (if (s.dropWhile isspace).head? = some '-' ∨ (s.dropWhile isspace).head? = some '+'
        then 1 else 0),
    ((s.dropWhile isspace).drop
      (if (s.dropWhile isspace).head? = some '-' ∨ (s.dropWhile isspace).head? = some '+'
        then 1 else 0)).takeWhile isdigit,
    ((s.dropWhile isspace).drop
      (if (s.dropWhile isspace).head? = some '-' ∨ (s.dropWhile isspace).head? = some '+'
        then 1 else 0)).dropWhile isdigit, ?_, ?_, ?_, ?_, ?_, ?_⟩
  · rw [List.append_assoc, List.append_assoc, List.takeWhile_append_dropWhile,
      List.take_append_drop, List.takeWhile_append_dropWhile]
  · intro c hc
    exact List.mem_takeWhile_imp hc
  · cases hs1 : s.dropWhile isspace with
    | nil => left; simp
    | cons x xs =>
      simp only [List.head?_cons, Option.some.injEq]
      by_cases hm : x = '-'
      · right; right
        simp [hm]
      · by_cases hp : x = '+'
        · right; left
          simp [hp]
        · left
          simp [hm, hp]
  · intro c hc
    exact List.mem_takeWhile_imp hc
  · exact head_dropWhile_any isdigit _
  · intro hz
    unfold strtoll
    simp only [hdrop, hz, List.length_nil, if_true]

/-- When `safe_strtoi64` returns a value the string is a literal denoting it. -/
theorem safe_strtoi64_some (s : List Char) (n : Int) (h : safe_strtoi64 s = some n) :
    IsIntegerLiteral s n := by
  obtain ⟨lead, sign, digits, rest, hs, hl, hsg, hd, hr, hz⟩ := strtoll_parts s
  by_cases hne : digits = []
  · unfold safe_strtoi64 at h
    rw [hz hne] at h
    simp at h
  · have hdrop : (lead ++ sign ++ digits ++ rest).drop
        (lead.length + sign.length + digits.length) = rest := by
      have : lead.length + sign.length + digits.length = (lead ++ sign ++ digits).length := by
        simp only [List.length_append]
      rw [this, List.drop_left]
    have hst := strtoll_literal lead sign digits rest hl hsg hne hd hr
    rw [← hs] at hst hdrop
    unfold safe_strtoi64 at h
    rw [hst] at h
    dsimp only at h
    refine ⟨lead, sign, digits, rest, hs, hl, hsg, hne, hd, ?_, ?_⟩
    · split_ifs at h <;> simp_all
    · split_ifs at h <;> simp_all

/-- C40: `safe_strtoi64` returns true with value `n` exactly when the string is optional
white space, an optional sign, one or more decimal digits denoting `n` and optional white
space, with `n` in the 64-bit range; for every other string it returns false, among them
the empty string, white space alone, a sign alone, digits followed by another character
and a value one above `LLONG_MAX`. -/
theorem safe_strtoi64_spec (s : List Char) :
    (∀ n : Int, safe_strtoi64 s = some n
      ↔ IsIntegerLiteral s n ∧ LLONG_MIN ≤ n ∧ n ≤ LLONG_MAX) ∧
    (safe_strtoi64 s = none
      ↔ ¬ ∃ n : Int, IsIntegerLiteral s n ∧ LLONG_MIN ≤ n ∧ n ≤ LLONG_MAX) ∧
    safe_strtoi64 [] = none ∧ safe_strtoi64 " \t ".toList = none ∧
    safe_strtoi64 "-".toList = none ∧ safe_strtoi64 "12x".toList = none ∧
    safe_strtoi64 "9223372036854775808".toList = none ∧
    safe_strtoi64 " -9223372036854775808 ".toList = some LLONG_MIN := by
  have hiff : ∀ n : Int, safe_strtoi64 s = some n
      ↔ IsIntegerLiteral s n ∧ LLONG_MIN ≤ n ∧ n ≤ LLONG_MAX := by
    intro n
    constructor
    · intro h
      have hlit := safe_strtoi64_some s n h
      refine ⟨hlit, ?_⟩
      have h2 := safe_strtoi64_literal s n hlit
      rw [h] at h2
      by_contra hc
      rw [if_neg hc] at h2
      cases h2
    · rintro ⟨hlit, hr⟩
      rw [safe_strtoi64_literal s n hlit, if_pos hr]
  refine ⟨hiff, ?_, by decide, by decide, by decide, by decide, by decide, by decide⟩
  constructor
  · intro h hex
    obtain ⟨n, hn⟩ := hex
    rw [(hiff n).mpr hn] at h
    cases h
  · intro h
    cases hs : safe_strtoi64 s with
    | none => rfl
    | some n => exact absurd ⟨n, (hiff n).mp hs⟩ h

/-! ### Keys read as 32-bit integers -/

/-- `safe_strtoi32` accepts exactly the literals with a value in `[0, 0x7FFFFFFF]`. -/
theorem safe_strtoi32_iff (s : List Char) (v : Int) :
    safe_strtoi32 s = some v ↔ IsIntegerLiteral s v ∧ 0 ≤ v ∧ v ≤ 0x7FFFFFFF := by
  unfold safe_strtoi32
  constructor
  · intro h
    split at h
    · rename_i temp heq
      split_ifs at h with hr
      have hv : temp = v := Option.some.inj h
      rw [hv] at heq hr
      exact ⟨safe_strtoi64_some s v heq, hr.1, hr.2⟩
    · cases h
  · rintro ⟨hlit, h0, h1⟩
    have hr : LLONG_MIN ≤ v ∧ v ≤ LLONG_MAX := by
      unfold LLONG_MIN LLONG_MAX
      omega
    rw [safe_strtoi64_literal s v hlit, if_pos hr]
    have h2 : v ≥ 0 ∧ v ≤ 0x007FFFFFFF := ⟨h0, h1⟩
    simp only [if_pos h2]

/-- A literal that denotes a negative integer or one above 2147483647 is refused by
`safe_strtoi32`. -/
theorem safe_strtoi32_out_of_range (s : List Char) (n : Int) (h : IsIntegerLiteral s n)
    (hn : n < 0 ∨ 2147483647 < n) : safe_strtoi32 s = none := by
  unfold safe_strtoi32
  rw [safe_strtoi64_literal s n h]
  split_ifs with hr
  · have h2 : ¬ (n ≥ 0 ∧ n ≤ 0x007FFFFFFF) := by omega
    simp only [if_neg h2]
  · rfl

/-- A key read with `safe_strtoi32` and a value that `safe_strtoi32` refuses:
`setParameter` returns `BAD_VALUE` and changes nothing. -/
theorem setParameter_int32_refused (r : StagefrightRecorder) (key value : List Char)
    (hk : key ∈ int32Keys) (hv : safe_strtoi32 value = none) :
    r.setParameter key value = (BAD_VALUE, r) := by
  simp only [int32Keys, List.mem_cons, List.mem_singleton, List.not_mem_nil, or_false] at hk
  rcases hk with rfl | rfl | rfl | rfl | rfl | rfl | rfl | rfl | rfl | rfl | rfl | rfl | rfl |
    rfl | rfl
  all_goals
    unfold setParameter
    simp only [hv]
    rfl

/-- C35: for every key of `setParameter` that is read as a 32-bit integer, a value that
denotes a negative integer or an integer above 2147483647 gives `BAD_VALUE` and leaves
the object unchanged, although the typed setters `setParamVideoIFramesInterval` and
`setParamVideoEncoderProfile` accept -1; `safe_strtoi32` returns a value exactly for the
literals that denote an integer in `[0, 0x7FFFFFFF]`. -/
theorem setParameter_int32_range (r : StagefrightRecorder) :
    (∀ key ∈ int32Keys, ∀ (value : List Char) (n : Int), IsIntegerLiteral value n →
      (n < 0 ∨ 2147483647 < n) → r.setParameter key value = (BAD_VALUE, r)) ∧
    r.setParamVideoIFramesInterval (-1) = (OK, { r with mIFramesIntervalSec := -1 }) ∧
    r.setParamVideoEncoderProfile (-1) = (OK, { r with mVideoEncoderProfile := -1 }) ∧
    r.setParameter "video-param-i-frames-interval".toList "-1".toList = (BAD_VALUE, r) ∧
    r.setParameter "video-param-encoder-profile".toList "2147483648".toList = (BAD_VALUE, r) ∧
    (∀ (s : List Char) (v : Int),
      safe_strtoi32 s = some v ↔ IsIntegerLiteral s v ∧ 0 ≤ v ∧ v ≤ 0x7FFFFFFF) :=
  ⟨fun key hk value n hlit hn =>
      setParameter_int32_refused r key value hk (safe_strtoi32_out_of_range value n hlit hn),
    rfl, rfl, rfl, rfl, safe_strtoi32_iff⟩

/-! ### The started flag over the life cycle -/

/-- A public call that leaves the started flag set either found it set or is a `start`
that returned `OK`. -/
theorem op_run_started (E : MediaEnums) (P : MediaProfiles)
    (r : StagefrightRecorder) (op : Op) (x : status_t × StagefrightRecorder)
    (h : op.run E P r = some x) :
    ((∃ c, op = Op.start c) ∧ x.1 = OK) ∨ (x.2.mStarted = true → r.mStarted = true) := by
  have keep : ∀ r1 : StagefrightRecorder, sameSession r r1 →
      (r1.mStarted = true → r.mStarted = true) := fun r1 hs h1 => hs.2.1 ▸ h1
  cases op with
  | init => cases h; exact Or.inr (fun h1 => h1)
  | prepare => cases h; exact Or.inr (fun h1 => h1)
  | setOutputFilePath path => cases h; exact Or.inr (fun h1 => h1)
  | setter call => cases h; exact Or.inr (keep _ (setterCall_run_sameSession E r call))
  | setCamera camera proxy =>
    cases h
    right
    unfold setCamera
    split_ifs
    · exact fun h1 => h1
    · exact fun h1 => h1
    · exact fun h1 => h1
  | setPreviewSurface surface => cases h; exact Or.inr (fun h1 => h1)
  | setListener listener => cases h; exact Or.inr (fun h1 => h1)
  | setParameters params =>
    cases h
    exact Or.inr (keep _ (setParameters_preserves E (sameSession r)
      (fun r1 call h1 => sameSession_trans h1 (setterCall_run_sameSession E r1 call))
      r params (sameSession_refl r)))
  | setOutputFile c fd offset length =>
    simp only [Op.run, setOutputFile] at h
    split_ifs at h
    all_goals
      cases h
      exact Or.inr (fun h1 => h1)
  | start c =>
    rcases start_spec h with ⟨-, hx⟩ | ⟨-, r1, hd, hcase⟩
    · rw [hx]; exact Or.inr (fun h1 => h1)
    · have hsel := start_dispatch_sameSelection hd
      dsimp only at hsel
      rcases hcase with ⟨hok, -, -⟩ | ⟨-, hx⟩
      · exact Or.inl ⟨⟨c, rfl⟩, hok⟩
      · right
        intro hs
        rw [hx, hsel.2.2.2.2.2.1] at hs
        exact hs
  | pause c =>
    rcases @pause_spec E c r x.2 x.1 h with ⟨-, -, hx⟩ | ⟨-, -, -, -, hs, -⟩
    · rw [hx]; exact Or.inr (fun h1 => h1)
    · exact Or.inr (fun h1 => absurd (hs ▸ h1) (by decide))
  | stop c =>
    have hs := @stop_spec E c r x.2 x.1 h
    exact Or.inr (fun h1 => absurd (hs.1 ▸ h1) (by decide))
  | close c =>
    simp only [Op.run, close] at h
    split at h
    · cases h
    · rename_i heq
      cases h
      have hs := stop_spec heq
      exact Or.inr (fun h1 => absurd (hs.1 ▸ h1) (by decide))
  | reset c =>
    simp only [Op.run, reset] at h
    split at h
    · cases h
    · rename_i heq
      cases h
      have hs := stop_spec heq
      exact Or.inr (fun h1 => absurd (hs.1 ▸ h1) (by decide))

/-- After `pause`, `stop`, `close` and `reset` on an object that satisfies the session
invariant the started flag is false. -/
theorem op_run_not_started (E : MediaEnums)
    (r : StagefrightRecorder) (hinv : sessionInvariant r) (c : Collaborators)
    (x : status_t × StagefrightRecorder) :
    (r.pause E c = some x → x.2.mStarted = false) ∧
    (r.stop E c = some x → x.2.mStarted = false) ∧
    (r.close E c = some x → x.2.mStarted = false) ∧
    (r.reset E c = some x → x.2.mStarted = false) := by
  refine ⟨?_, ?_, ?_, ?_⟩
  · intro h
    rcases @pause_spec E c r x.2 x.1 h with ⟨hw, -, hx⟩ | ⟨-, -, -, -, hs, -⟩
    · rw [hx]
      cases hst : r.mStarted with
      | false => rfl
      | true => exact absurd hw (hinv.2 hst)
    · exact hs
  · intro h
    exact (@stop_spec E c r x.2 x.1 h).1
  · intro h
    simp only [close] at h
    split at h
    · cases h
    · rename_i heq
      cases h
      exact (stop_spec heq).1
  · intro h
    simp only [reset] at h
    split at h
    · cases h
    · rename_i heq
      cases h
      exact (stop_spec heq).1

/-- C34: in every state reachable from construction by public calls, whatever the
collaborators answer, a set started flag comes with a writer reference; a call that
finds the flag clear and leaves it set is a `start` that returned `OK`; and after every
`pause`, `stop`, `close` and `reset` that returns the flag is clear. -/
theorem lifecycle_invariant (E : MediaEnums) (P : MediaProfiles) (r : StagefrightRecorder)
    (h : Reachable E P r) :
    (r.mStarted = true → r.mWriter ≠ none) ∧
    (∀ (op : Op) (s : status_t) (r1 : StagefrightRecorder), op.run E P r = some (s, r1) →
      r.mStarted = false → r1.mStarted = true → (∃ c, op = Op.start c) ∧ s = OK) ∧
    (∀ (c : Collaborators) (s : status_t) (r1 : StagefrightRecorder),
      (r.pause E c = some (s, r1) ∨ r.stop E c = some (s, r1) ∨
        r.close E c = some (s, r1) ∨ r.reset E c = some (s, r1)) → r1.mStarted = false) := by
  have hinv := reachable_sessionInvariant E P r h
  refine ⟨hinv.2, ?_, ?_⟩
  · intro op s r1 hrun h0 h1
    rcases op_run_started E P r op (s, r1) hrun with hst | hkeep
    · exact hst
    · have := hkeep h1
      rw [h0] at this
      cases this
  · intro c s r1 hcase
    have hall := op_run_not_started E r hinv c (s, r1)
    rcases hcase with h1 | h1 | h1 | h1
    · exact hall.1 h1
    · exact hall.2.1 h1
    · exact hall.2.2.1 h1
    · exact hall.2.2.2 h1

/-- C34 at a concrete reachable state: the started camcorder session. -/
theorem lifecycle_invariant_witness :
    (startedCamcorder.mStarted = true → startedCamcorder.mWriter ≠ none) ∧
    (∀ (op : Op) (s : status_t) (r1 : StagefrightRecorder),
      op.run platformEnums sampleProfiles startedCamcorder = some (s, r1) →
      startedCamcorder.mStarted = false → r1.mStarted = true →
      (∃ c, op = Op.start c) ∧ s = OK) ∧
    (∀ (c : Collaborators) (s : status_t) (r1 : StagefrightRecorder),
      (startedCamcorder.pause platformEnums c = some (s, r1) ∨
        startedCamcorder.stop platformEnums c = some (s, r1) ∨
        startedCamcorder.close platformEnums c = some (s, r1) ∨
        startedCamcorder.reset platformEnums c = some (s, r1)) → r1.mStarted = false) :=
  lifecycle_invariant platformEnums sampleProfiles startedCamcorder ⟨camcorderCalls, rfl⟩

/-! ### The sources of the container writer -/

theorem sameTimeLapse_refl (r : StagefrightRecorder) : sameTimeLapse r r :=
  rfl

theorem sameTimeLapse_trans {r r1 r2 : StagefrightRecorder} (h1 : sameTimeLapse r r1)
    (h2 : sameTimeLapse r1 r2) : sameTimeLapse r r2 :=
  Eq.trans h2 h1

/-- `checkVideoEncoderCapabilities` returns `OK` and keeps the time-lapse flag. -/
theorem checkVideoEncoderCapabilities_sameTimeLapse (E : MediaEnums) (P : MediaProfiles)
    (r : StagefrightRecorder) :
    (checkVideoEncoderCapabilities E P r).1 = OK ∧
      sameTimeLapse r (checkVideoEncoderCapabilities E P r).2 := by
  by_cases h : r.mCaptureTimeLapse = true
  · rw [checkVideoEncoderCapabilities_on E P r h]
    exact ⟨rfl, rfl⟩
  · rw [checkVideoEncoderCapabilities_off E P r (Bool.eq_false_iff.mpr h),
      setDefaultProfileIfNecessary_eq]
    exact ⟨rfl, rfl⟩

/-- Taking the frame rate from the source keeps the time-lapse flag. -/
theorem useSourceFrameRate_sameTimeLapse {c : Collaborators} {r r1 : StagefrightRecorder}
    (h : useSourceFrameRate c r = some r1) : sameTimeLapse r r1 := by
  unfold useSourceFrameRate at h
  dsimp only at h
  split at h
  · cases h
  · rename_i heq
    split at h
    · cases h
    · cases h
      split at heq
      · split at heq
        · cases heq
        · cases heq; exact rfl
      · cases heq; exact rfl

/-- `setupSurfaceMediaSource` keeps the time-lapse flag. -/
theorem setupSurfaceMediaSource_sameTimeLapse {c : Collaborators}
    {r r1 : StagefrightRecorder} {s : status_t}
    (h : setupSurfaceMediaSource c r = some (s, r1)) : sameTimeLapse r r1 := by
  unfold setupSurfaceMediaSource at h
  dsimp only at h
  split at h
  · cases h; exact rfl
  · split at h
    · cases h
    · rename_i heq
      cases h
      refine sameTimeLapse_trans ?_
        (sameTimeLapse_trans (useSourceFrameRate_sameTimeLapse heq) rfl)
      exact rfl

/-- Creating the camera source keeps the time-lapse flag. -/
theorem setupCameraSource_create_sameTimeLapse (c : Collaborators) (r : StagefrightRecorder) :
    sameTimeLapse r (setupCameraSource.create c r).2 := by
  unfold setupCameraSource.create
  dsimp only
  split_ifs <;> exact rfl

/-- `setupCameraSource` keeps the time-lapse flag. -/
theorem setupCameraSource_sameTimeLapse {E : MediaEnums} {P : MediaProfiles} {c : Collaborators}
    {r r1 : StagefrightRecorder} {s : status_t} {a : Option CaptureSource}
    (h : setupCameraSource E P c r = some (s, a, r1)) : sameTimeLapse r r1 := by
  unfold setupCameraSource at h
  have hc := (checkVideoEncoderCapabilities_sameTimeLapse E P r).2
  generalize checkVideoEncoderCapabilities E P r = res at h hc
  obtain ⟨err, r0⟩ := res
  refine sameTimeLapse_trans hc ?_
  clear hc
  dsimp only at h ⊢
  split at h
  · cases h; exact sameTimeLapse_refl _
  · have hk := setupCameraSource_create_sameTimeLapse c r0
    generalize setupCameraSource.create c r0 = res at h hk
    obtain ⟨src, r2⟩ := res
    cases src with
    | none => cases h; exact hk
    | some cameraSource =>
      dsimp only at h hk
      split at h
      · cases h; exact hk
      · split at h
        · cases h
        · rename_i heq
          cases h
          exact sameTimeLapse_trans hk
            (sameTimeLapse_trans (useSourceFrameRate_sameTimeLapse heq) rfl)

/-- `setupMediaSource` keeps the time-lapse flag. -/
theorem setupMediaSource_sameTimeLapse {E : MediaEnums} {P : MediaProfiles} {c : Collaborators}
    {r r1 : StagefrightRecorder} {s : status_t} {a : Option CaptureSource}
    (h : setupMediaSource E P c r = some (s, a, r1)) : sameTimeLapse r r1 := by
  unfold setupMediaSource at h
  split at h
  · split at h
    · cases h
    · rename_i heq
      split at h <;> (cases h; exact setupCameraSource_sameTimeLapse heq)
  · split at h
    · split at h
      · cases h
      · rename_i heq
        split at h <;> (cases h; exact setupSurfaceMediaSource_sameTimeLapse heq)
    · cases h; exact sameTimeLapse_refl _

/-- `setupVideoEncoder` keeps the time-lapse flag. -/
theorem setupVideoEncoder_sameTimeLapse {E : MediaEnums} {c : Collaborators}
    {r r1 : StagefrightRecorder} {s : status_t} {src : Option CaptureSource} {b : Int}
    {a : Option OMXCodec}
    (h : setupVideoEncoder E c r src b = some (s, a, r1)) : sameTimeLapse r r1 := by
  unfold setupVideoEncoder at h
  dsimp only at h
  split at h
  · repeat' split at h
    all_goals first
      | (cases h; exact rfl)
      | cases h
  · cases h

/-- The video part of `setupMPEG4Recording` keeps the time-lapse flag. -/
theorem setupMPEG4Recording_video_sameTimeLapse {E : MediaEnums} {P : MediaProfiles}
    {c : Collaborators} {r r1 : StagefrightRecorder} {s : status_t} {w w1 : MediaWriter}
    {b t : Int}
    (h : setupMPEG4Recording.video E P c r w b = some (s, w1, t, r1)) : sameTimeLapse r r1 := by
  unfold setupMPEG4Recording.video at h
  split at h
  · split at h
    · cases h
    · rename_i heq
      have h1 := setupMediaSource_sameTimeLapse heq
      split at h
      · cases h; exact h1
      · split at h
        · cases h
        · rename_i heq2
          have h2 := sameTimeLapse_trans h1 (setupVideoEncoder_sameTimeLapse heq2)
          split at h <;> (cases h; exact h2)
  · cases h; exact sameTimeLapse_refl _

/-- A source added to the writer is its last track. -/
theorem MediaWriter_tracks_addSource (w : MediaWriter) (source : Option OMXCodec) :
    (w.addSource source).tracks = w.tracks ++ [source.bind OMXCodec.track] := by
  simp [MediaWriter.tracks, MediaWriter.addSource]

/-- An encoder returned by `setupVideoEncoder` with `OK` feeds a video track. -/
theorem setupVideoEncoder_track {E : MediaEnums} {c : Collaborators}
    {r r1 : StagefrightRecorder} {src : Option CaptureSource} {b : Int}
    {a : Option OMXCodec}
    (h : setupVideoEncoder E c r src b = some (OK, a, r1)) :
    a.bind OMXCodec.track = some Track.video := by
  unfold setupVideoEncoder at h
  dsimp only at h
  split at h
  · rename_i mime cameraSource width height stride sliceHeight colorFormat hm _ _ _ _ _
    have hmime : mime.track = Track.video := by
      split_ifs at hm <;> cases hm <;> rfl
    split at h
    · cases h
    · split at h
      · cases h
      · cases h
        simp only [Option.bind, OMXCodec.track, Option.map, hmime]
  · cases h

/-- An encoder returned by `createAudioSource` feeds an audio track. -/
theorem createAudioSource_track {E : MediaEnums} {c : Collaborators}
    {r r1 : StagefrightRecorder} {enc : OMXCodec}
    (h : createAudioSource E c r = some (some enc, r1)) :
    enc.track = some Track.audio := by
  unfold createAudioSource at h
  dsimp only at h
  split at h
  · cases h
  · split at h
    · cases h
    · rename_i mime hm
      have hmime : mime.track = Track.audio := by
        split_ifs at hm <;> cases hm <;> rfl
      split at h
      · cases h
      · split at h
        · cases h
        · split at h
          · cases h
            simp only [OMXCodec.track, Option.map, hmime]
          · cases h

/-- With `OK`, `setupAudioEncoder` has added one audio track to the writer. -/
theorem setupAudioEncoder_tracks {E : MediaEnums} {P : MediaProfiles} {c : Collaborators}
    {r r1 : StagefrightRecorder} {w w1 : MediaWriter}
    (h : setupAudioEncoder E P c r w = some (OK, w1, r1)) :
    w1.tracks = w.tracks ++ [some Track.audio] := by
  unfold setupAudioEncoder at h
  generalize checkAudioEncoderCapabilities P r = res at h
  obtain ⟨status, r0⟩ := res
  dsimp only at h
  split_ifs at h with hs
  · cases h
    exact absurd rfl hs
  · split at h
    · cases h
    · cases h
    · rename_i enc r2 heq
      cases h
      rw [MediaWriter_tracks_addSource]
      simp only [Option.bind, createAudioSource_track heq]
  · cases h

/-- With `OK`, the video part of `setupMPEG4Recording` has added one video track when a
video source is selected and nothing otherwise. -/
theorem setupMPEG4Recording_video_tracks {E : MediaEnums} {P : MediaProfiles}
    {c : Collaborators} {r r1 : StagefrightRecorder} {w w1 : MediaWriter} {b t : Int}
    (h : setupMPEG4Recording.video E P c r w b = some (OK, w1, t, r1)) :
    w1.tracks = w.tracks ++
      (if r.mVideoSource < E.VIDEO_SOURCE_LIST_END then [some Track.video] else []) := by
  unfold setupMPEG4Recording.video at h
  split at h
  · rename_i hv
    rw [if_pos hv]
    split at h
    · cases h
    · split at h
      · rename_i hs
        cases h
        exact absurd rfl hs
      · split at h
        · cases h
        · rename_i heq2
          split at h
          · rename_i hs
            cases h
            exact absurd rfl hs
          · rename_i hs
            cases h
            rw [MediaWriter_tracks_addSource, setupVideoEncoder_track (not_not.mp hs ▸ heq2)]
  · rename_i hv
    rw [if_neg hv]
    cases h
    simp

/-- With `OK`, the audio part of `setupMPEG4Recording` has added one audio track when an
audio source is selected and time lapse is off, and nothing otherwise. -/
theorem setupMPEG4Recording_audio_tracks {E : MediaEnums} {P : MediaProfiles}
    {c : Collaborators} {r r1 : StagefrightRecorder} {w w1 : MediaWriter} {b t : Int}
    (h : setupMPEG4Recording.audio E P c r w b = some (OK, w1, t, r1)) :
    w1.tracks = w.tracks ++
      (if ¬ r.mCaptureTimeLapse ∧ r.mAudioSource ≠ E.AUDIO_SOURCE_CNT
        then [some Track.audio] else []) := by
  unfold setupMPEG4Recording.audio at h
  split at h
  · rename_i ha
    rw [if_pos ha]
    split at h
    · cases h
    · rename_i heq
      split at h
      · rename_i hs
        cases h
        exact absurd rfl hs
      · rename_i hs
        cases h
        exact setupAudioEncoder_tracks (not_not.mp hs ▸ heq)
  · rename_i ha
    rw [if_neg ha]
    cases h
    simp

/-- With `OK`, `setupMPEG4Recording` leaves a writer whose tracks are the video track
when a video source is selected, then the audio track when time lapse is off and an
audio source is selected. -/
theorem setupMPEG4Recording_writer_tracks {E : MediaEnums} {P : MediaProfiles}
    {c : Collaborators} {r r1 : StagefrightRecorder} {fd vw vh b t : Int}
    (h : setupMPEG4Recording E P c r fd vw vh b = some (OK, t, r1)) :
    ∃ w, r1.mWriter = some w ∧ w.tracks =
      (if r.mVideoSource < E.VIDEO_SOURCE_LIST_END then [some Track.video] else []) ++
      (if ¬ r.mCaptureTimeLapse ∧ r.mAudioSource ≠ E.AUDIO_SOURCE_CNT
        then [some Track.audio] else []) := by
  unfold setupMPEG4Recording at h
  dsimp only at h
  split at h
  · cases h
  · rename_i err writer1 totalBitRate1 r2 heq
    split at h
    · rename_i hs
      cases h
      exact absurd rfl hs
    · rename_i hs
      have hs1 : err = OK := not_not.mp hs
      subst hs1
      have hv0 := setupMPEG4Recording_video_tracks heq
      have hv : writer1.tracks = [] ++
          (if r.mVideoSource < E.VIDEO_SOURCE_LIST_END then [some Track.video] else []) := hv0
      have htl0 := setupMPEG4Recording_video_sameTimeLapse heq
      have htl : r2.mCaptureTimeLapse = r.mCaptureTimeLapse := htl0
      have hau0 := (setupMPEG4Recording_video_sameSelection heq).1
      have hau : r2.mAudioSource = r.mAudioSource := hau0
      split at h
      · cases h
      · rename_i err2 writer2 totalBitRate2 r3 heq2
        split at h
        · rename_i hs2
          cases h
          exact absurd rfl hs2
        · rename_i hs2
          have hs3 : err2 = OK := not_not.mp hs2
          subst hs3
          have ha := setupMPEG4Recording_audio_tracks heq2
          rw [htl, hau, hv] at ha
          cases h
          refine ⟨_, rfl, Eq.trans ?_ (ha.trans (by rw [List.nil_append]))⟩
          split_ifs <;> rfl

/-- C31: when `setupMPEG4Recording` returns `OK` for an object whose video source is at
most `VIDEO_SOURCE_LIST_END` (as in every reachable state), the writer it leaves holds, in
the order they were added, the video encoder if a video source is set, then the audio
encoder if an audio source is set and time lapse is off.  With both set the audio track
is last, video alone gives exactly one track, and with time lapse on no audio track is
added. -/
theorem setupMPEG4Recording_sources (E : MediaEnums) (P : MediaProfiles)
    (c : Collaborators) (r r1 : StagefrightRecorder) (fd vw vh b t : Int)
    (hvs : r.mVideoSource ≤ E.VIDEO_SOURCE_LIST_END)
    (h : setupMPEG4Recording E P c r fd vw vh b = some (OK, t, r1)) :
    ∃ w, r1.mWriter = some w ∧
      w.tracks =
        (if r.mVideoSource ≠ E.VIDEO_SOURCE_LIST_END then [some Track.video] else []) ++
        (if r.mAudioSource ≠ E.AUDIO_SOURCE_CNT ∧ r.mCaptureTimeLapse = false
          then [some Track.audio] else []) ∧
      (r.mVideoSource ≠ E.VIDEO_SOURCE_LIST_END → r.mAudioSource ≠ E.AUDIO_SOURCE_CNT →
        r.mCaptureTimeLapse = false → w.tracks = [some Track.video, some Track.audio]) ∧
      (r.mVideoSource ≠ E.VIDEO_SOURCE_LIST_END → r.mAudioSource = E.AUDIO_SOURCE_CNT →
        w.tracks = [some Track.video]) ∧
      (r.mCaptureTimeLapse = true → some Track.audio ∉ w.tracks) := by
  obtain ⟨w, hw, ht⟩ := setupMPEG4Recording_writer_tracks h
  have hv : r.mVideoSource < E.VIDEO_SOURCE_LIST_END ↔
      r.mVideoSource ≠ E.VIDEO_SOURCE_LIST_END := by
    constructor
    · intro h1
      omega
    · intro h1
      omega
  have ha : (¬ r.mCaptureTimeLapse ∧ r.mAudioSource ≠ E.AUDIO_SOURCE_CNT) ↔
      (r.mAudioSource ≠ E.AUDIO_SOURCE_CNT ∧ r.mCaptureTimeLapse = false) := by
    rw [Bool.not_eq_true]
    exact And.comm
  have ht2 : w.tracks =
      (if r.mVideoSource ≠ E.VIDEO_SOURCE_LIST_END then [some Track.video] else []) ++
      (if r.mAudioSource ≠ E.AUDIO_SOURCE_CNT ∧ r.mCaptureTimeLapse = false
        then [some Track.audio] else []) := by
    rw [ht]
    congr 1
    · exact if_congr hv rfl rfl
    · exact if_congr ha rfl rfl
  refine ⟨w, hw, ht2, ?_, ?_, ?_⟩
  · intro h1 h2 h3
    rw [ht2, if_pos h1, if_pos ⟨h2, h3⟩]
    rfl
  · intro h1 h2
    rw [ht2, if_pos h1, if_neg (fun hx => hx.1 h2)]
    rfl
  · intro h1
    have hno : ¬ (r.mAudioSource ≠ E.AUDIO_SOURCE_CNT ∧ r.mCaptureTimeLapse = false) := by
      rw [h1]
      exact fun hx => Bool.noConfusion hx.2
    rw [ht2, if_neg hno]
    split_ifs <;> simp

/-- C31 at a concrete input: the camcorder configuration (camera and microphone, time
lapse off) gets the video track first and the audio track last. -/
theorem setupMPEG4Recording_sources_witness :
    ∃ w, camcorderSetup.2.2.mWriter = some w ∧
      w.tracks = [some Track.video, some Track.audio] := by
  obtain ⟨w, hw, -, h2, -⟩ := setupMPEG4Recording_sources platformEnums sampleProfiles
    sampleCollaborators camcorderConfig camcorderSetup.2.2 5 176 144 192000 camcorderSetup.2.1
    (by decide) rfl
  exact ⟨w, hw, h2 (by decide) (by decide) rfl⟩

/-! ### The bit rate handed to the video encoder -/

/-- C33, refuted on the container path: with a requested video bit rate of 50000000 and
a profile that allows 64000..8000000, `start` for the 3GPP container returns `OK` with
50000000 in the configuration record of the video encoder although the stored bit rate
was clamped to 8000000; the RTP and transport-stream paths hand the clamped 8000000 to
the encoder for the same request. -/
theorem start_container_bit_rate_unclamped :
    sampleProfiles.getVideoEncoderParamByName "enc.vid.bps.min" 1 = 64000 ∧
    sampleProfiles.getVideoEncoderParamByName "enc.vid.bps.max" 1 = 8000000 ∧
    highBitRateConfig.mCaptureTimeLapse = false ∧
    highBitRateConfig.mVideoSource = platformEnums.VIDEO_SOURCE_CAMERA ∧
    startedBitRates highBitRateConfig = some (some 50000000, 8000000) ∧
    startedBitRates { highBitRateConfig with
      mOutputFormat := platformEnums.OUTPUT_FORMAT_RTP_AVP } = some (some 8000000, 8000000) ∧
    startedBitRates { highBitRateConfig with
      mOutputFormat := platformEnums.OUTPUT_FORMAT_MPEG2TS,
      mVideoEncoder := platformEnums.VIDEO_ENCODER_H264 } = some (some 8000000, 8000000) := by
  refine ⟨rfl, rfl, rfl, rfl, rfl, rfl, rfl⟩

/-! ### A video-only recording from start to stop -/

/-- C32: after reset, an output descriptor, the 3GPP container, the camera, H.263 and
176x144, with no frame rate and no audio source set, and with collaborators that all
succeed, `start` returns `OK`, the writer holds exactly one source, a video encoder, and
the frame rate is the one the camera source reports; the following `stop` returns `OK`,
leaves no writer, and the descriptor is closed and forgotten. -/
theorem start_stop_video_only (c : Collaborators) (hc : c.cameraRecordingSucceeds) :
    (runOps platformEnums sampleProfiles (constructed platformEnums) videoOnlyCalls
        = some videoOnlyConfig ∧
      videoOnlyConfig.mOutputFd = 5 ∧
      videoOnlyConfig.mOutputFormat = platformEnums.OUTPUT_FORMAT_THREE_GPP ∧
      videoOnlyConfig.mVideoSource = platformEnums.VIDEO_SOURCE_CAMERA ∧
      videoOnlyConfig.mVideoEncoder = platformEnums.VIDEO_ENCODER_H263 ∧
      videoOnlyConfig.mVideoWidth = 176 ∧ videoOnlyConfig.mVideoHeight = 144 ∧
      videoOnlyConfig.mFrameRate = -1 ∧
      videoOnlyConfig.mAudioSource = platformEnums.AUDIO_SOURCE_CNT) ∧
    ∃ (r1 r2 : StagefrightRecorder) (w : MediaWriter) (encoder : OMXCodec),
      start platformEnums sampleProfiles c videoOnlyConfig = some (OK, r1) ∧
      r1.mWriter = some w ∧ w.sources = [some encoder] ∧
      encoder.track = some Track.video ∧
      c.sourceFrameRate = some r1.mFrameRate ∧ r1.mStarted = true ∧
      stop platformEnums c r1 = some (OK, r2) ∧ r2.mWriter = none ∧ r2.mOutputFd = -1 ∧
      closes r2.calls = [5] ∧ r2.mStarted = false := by
  refine ⟨⟨rfl, rfl, rfl, rfl, rfl, rfl, rfl, rfl, rfl⟩, ?_⟩
  obtain ⟨psf, a1, a2, a3, a4, csc, csi, s1, s2, fr, md, sw, sh, ss, ssl, scf, vcc, vec, t,
    wstart, wstop, dp⟩ := c
  obtain ⟨h1, h2, h3, h4, h5, h6, h7, h8, h9, h10, h11, h12, h13, h14⟩ := hc
  dsimp only at h1 h2 h3 h4 h5 h6 h7 h8 h9 h10 h11 h12 h13 h14
  subst h1 h2 h3 h11 h12 h13 h14
  obtain ⟨f, rfl⟩ := Option.ne_none_iff_exists'.mp h4
  obtain ⟨sw, rfl⟩ := Option.ne_none_iff_exists'.mp h6
  obtain ⟨sh, rfl⟩ := Option.ne_none_iff_exists'.mp h7
  obtain ⟨ss, rfl⟩ := Option.ne_none_iff_exists'.mp h8
  obtain ⟨ssl, rfl⟩ := Option.ne_none_iff_exists'.mp h9
  obtain ⟨scf, rfl⟩ := Option.ne_none_iff_exists'.mp h10
  have hf : f ≠ -1 := fun h => h5 (congrArg some h)
  rcases f with n | n
  · exact ⟨_, _, _, _, rfl, rfl, rfl, rfl, rfl, rfl, rfl, rfl, rfl, rfl, rfl⟩
  · cases n with
    | zero => exact absurd rfl hf
    | succ n => exact ⟨_, _, _, _, rfl, rfl, rfl, rfl, rfl, rfl, rfl, rfl, rfl, rfl, rfl⟩

/-- C32 with the sample collaborators, whose camera source reports 20 frames per
second. -/
theorem start_stop_video_only_witness :
    ∃ (r1 r2 : StagefrightRecorder) (w : MediaWriter) (encoder : OMXCodec),
      start platformEnums sampleProfiles sampleCollaborators videoOnlyConfig = some (OK, r1) ∧
      r1.mWriter = some w ∧ w.sources = [some encoder] ∧
      encoder.track = some Track.video ∧
      sampleCollaborators.sourceFrameRate = some r1.mFrameRate ∧ r1.mStarted = true ∧
      stop platformEnums sampleCollaborators r1 = some (OK, r2) ∧ r2.mWriter = none ∧
      r2.mOutputFd = -1 ∧ closes r2.calls = [5] ∧ r2.mStarted = false :=
  (start_stop_video_only sampleCollaborators (by decide)).2

/-! ### A second start -/

/-- A call other than `stop`, `close` and `reset`, with a succeeding `dup` if it is
`setOutputFile`, keeps a valid descriptor valid and a referenced writer referenced. -/
theorem op_run_keepsRecording (E : MediaEnums) (P : MediaProfiles)
    (r : StagefrightRecorder) (op : Op) (x : status_t × StagefrightRecorder)
    (hop : op.keepsRecording = true)
    (hinv : 0 ≤ r.mOutputFd ∧ r.mWriter ≠ none) (h : op.run E P r = some x) :
    0 ≤ x.2.mOutputFd ∧ x.2.mWriter ≠ none := by
  have keep : ∀ r1 : StagefrightRecorder, sameSession r r1 →
      0 ≤ r1.mOutputFd ∧ r1.mWriter ≠ none :=
    fun r1 hs => ⟨hs.1 ▸ hinv.1, hs.2.2.1 ▸ hinv.2⟩
  cases op with
  | init => cases h; exact hinv
  | prepare => cases h; exact hinv
  | setOutputFilePath path => cases h; exact hinv
  | setter call => cases h; exact keep _ (setterCall_run_sameSession E r call)
  | setCamera camera proxy =>
    cases h
    unfold setCamera
    split_ifs
    · exact hinv
    · exact hinv
    · exact keep _ ⟨rfl, rfl, rfl, rfl⟩
  | setPreviewSurface surface => cases h; exact keep _ ⟨rfl, rfl, rfl, rfl⟩
  | setListener listener => cases h; exact ⟨hinv.1, hinv.2⟩
  | setParameters params =>
    cases h
    exact keep _ (setParameters_preserves E (sameSession r)
      (fun r1 call h1 => sameSession_trans h1 (setterCall_run_sameSession E r1 call))
      r params (sameSession_refl r))
  | setOutputFile c fd offset length =>
    simp only [Op.keepsRecording, Bool.or_eq_true, decide_eq_true_eq] at hop
    simp only [Op.run, setOutputFile] at h
    split_ifs at h with h1 h2 h3 h4
    · cases h; exact hinv
    · rcases hop with hneg | hdup
      · exact absurd hneg h3
      · obtain ⟨newFd, hnew⟩ := Option.isSome_iff_exists.mp hdup
        cases h
        refine ⟨?_, hinv.2⟩
        dsimp only
        rw [hnew]
        exact Int.ofNat_nonneg _
    · exact absurd hinv.1 h4
  | start c =>
    have hs : start E P c r = some x := h
    rw [start_refused E P c r hinv.1 hinv.2] at hs
    cases hs
    exact hinv
  | pause c =>
    rcases @pause_spec E c r x.2 x.1 h with ⟨-, -, hx⟩ | ⟨hw, -, hw1, hfd, -⟩
    · rw [hx]; exact hinv
    · exact ⟨hfd ▸ hinv.1, hw1 ▸ hw⟩
  | stop c => cases hop
  | close c => cases hop
  | reset c => cases hop

/-- C20 as stated fails: after `start` has returned `OK`, a `setOutputFile` whose
`dup` fails returns `OK` and stores -1 as the descriptor; the writer is still referenced
and the session still marked started, and the second `start` ends in the failed
`CHECK(mOutputFd >= 0)` instead of returning `UNKNOWN_ERROR`.  No `stop` or `reset` was
called in between.  The same happens after `close`, which releases like `stop`. -/
theorem start_twice_after_failed_dup :
    start platformEnums sampleProfiles sampleCollaborators camcorderConfig
      = some (OK, startedCamcorder) ∧
    setOutputFile failingCollaborators startedCamcorder 7 0 0
      = some (OK, camcorderLostDescriptor) ∧
    camcorderLostDescriptor.mWriter = startedCamcorder.mWriter ∧
    camcorderLostDescriptor.mWriter ≠ none ∧
    camcorderLostDescriptor.mStarted = true ∧
    camcorderLostDescriptor.mOutputFd = -1 ∧
    start platformEnums sampleProfiles sampleCollaborators camcorderLostDescriptor = none ∧
    start platformEnums sampleProfiles sampleCollaborators camcorderLostDescriptor
      ≠ some (UNKNOWN_ERROR, camcorderLostDescriptor) ∧
    (∃ r1, close platformEnums sampleCollaborators startedCamcorder = some (OK, r1) ∧
      start platformEnums sampleProfiles sampleCollaborators r1 = none) := by
  refine ⟨rfl, rfl, rfl, ?_, rfl, rfl, rfl, ?_, ⟨_, rfl, rfl⟩⟩
  · intro h
    cases h
  · intro h
    cases h

/-- C20, amended: once `start` has returned `OK`, after any calls that are not `stop`,
`close` or `reset` and in which every accepted `setOutputFile` had a succeeding `dup`,
whatever these calls returned, a further `start` returns `UNKNOWN_ERROR` and leaves the
object as it was, whatever the collaborators would answer this time: same writer, same
configuration, same started flag, and the trace of outside calls has not grown, so no
battery notification was issued. -/
theorem start_twice (E : MediaEnums) (P : MediaProfiles) (c1 c2 : Collaborators)
    (r r1 r2 : StagefrightRecorder) (ops : List Op)
    (h : start E P c1 r = some (OK, r1))
    (hops : ∀ op ∈ ops, op.keepsRecording = true)
    (hrun : runOps E P r1 ops = some r2) :
    start E P c2 r2 = some (UNKNOWN_ERROR, r2) := by
  have hk := start_startKeeps h
  have hfd : 0 ≤ r.mOutputFd := by
    unfold start at h
    split at h
    · cases h
    · rename_i hfd
      exact not_not.mp hfd
  have hinv1 : 0 ≤ r1.mOutputFd ∧ r1.mWriter ≠ none := ⟨hk.1 ▸ hfd, hk.2 rfl⟩
  have hinv2 : 0 ≤ r2.mOutputFd ∧ r2.mWriter ≠ none := by
    clear h hk
    induction ops generalizing r1 with
    | nil =>
      cases hrun
      exact hinv1
    | cons op ops ih =>
      unfold runOps at hrun
      split at hrun
      · cases hrun
      · rename_i heq
        exact ih _ (fun o ho => hops o (List.mem_cons_of_mem _ ho)) hrun
          (op_run_keepsRecording E P r1 op _ (hops op (List.mem_cons_self _ _)) hinv1 heq)
  exact start_refused E P c2 r2 hinv2.1 hinv2.2

/-- C20 at a concrete input: the camcorder configuration is started with collaborators
that all succeed; a setter, a parameter string, a new output file and `pause` follow;
then it is started again with collaborators that fail. -/
theorem start_twice_witness :
    start platformEnums sampleProfiles sampleCollaborators camcorderConfig
      = some (OK, startedCamcorder) ∧
    runOps platformEnums sampleProfiles startedCamcorder betweenStarts
      = some camcorderBetweenStarts ∧
    start platformEnums sampleProfiles failingCollaborators camcorderBetweenStarts
      = some (UNKNOWN_ERROR, camcorderBetweenStarts) :=
  ⟨rfl, rfl,
    start_twice platformEnums sampleProfiles sampleCollaborators failingCollaborators
      camcorderConfig startedCamcorder camcorderBetweenStarts betweenStarts rfl
      (by decide) rfl⟩
